import Mathlib

/-!
# Verification development for the Snake3d simulation core

Shallow embedding of the simulation core (toroidal arithmetic, snake
locomotion, spawn placement, collision resolution, scoring, session
orchestration) over exact rational arithmetic.

Modelling conventions, used consistently below:

* JavaScript `number` values are modelled as `ℚ`.  All arithmetic in the
  source is `+ - * /`, comparisons, `Math.floor`, `Math.round`,
  `Math.min/max`, plus the transcendental functions `Math.sin`, `Math.cos`,
  `Math.exp` and `Math.hypot`.  The transcendental functions are threaded
  through the embedding as an explicit function bundle (`TransFns`), so every
  definition stays computable; theorems either hold for every bundle or
  relate the rational encoding to `Real` operations through bridge lemmas.
* Comparisons of the form `Math.hypot dx dz <= c` (wrapped planar distance
  against a threshold) are encoded exactly on the squared distance:
  for `s = dx^2 + dz^2 ≥ 0` one has `sqrt s ≤ c ↔ 0 ≤ c ∧ s ≤ c^2`,
  `sqrt s < c ↔ 0 < c ∧ s < c^2` and `c ≤ sqrt s ↔ c ≤ 0 ∨ c^2 ≤ s`.
  The Boolean encodings `distLE`, `distLT`, `distGE` below implement these
  right-hand sides and bridge lemmas connect them to `Real.sqrt`.
* `Math.random` is modelled as a deterministic stream `ℕ → ℚ` read through a
  monotone index that lives in the spawn-system state.
* Mutable class fields become record fields; every method is a state
  transformer.
-/

/-- 3D vector, mirroring the source `Vec3` record `{x, y, z}`. -/
structure Vec3 where
  x : ℚ
  y : ℚ
  z : ℚ
deriving DecidableEq, Repr

/-- `clamp(value, min, max) = Math.min(max, Math.max(min, value))`
(src/util/math). -/
def clamp (value lo hi : ℚ) : ℚ := min hi (max lo value)

/-- `wrapScalar(value, size)` (torus-space.ts).  The source repeatedly adds or
subtracts `size` until the value lies in `[-size/2, size/2)`; for `0 < size`
that loop computes exactly `value - size * ⌊(value + size/2) / size⌋`, which is
the closed form used here (the loop does not terminate for `size ≤ 0`; the
program only ever calls it with the positive world dimensions). -/
def wrapScalar (value size : ℚ) : ℚ :=
  if 0 < size then value - size * ⌊(value + size / 2) / size⌋ else value

/-- `wrapPosition(position, width, depth)` (torus-space.ts): wrap x and z,
keep y. -/
def wrapPosition (p : Vec3) (width depth : ℚ) : Vec3 :=
  { x := wrapScalar p.x width, y := p.y, z := wrapScalar p.z depth }

/-- `torusDelta(from, to, size)` (torus-space.ts): raw difference followed by
at most one correction in each direction.  Note the source applies each `if`
once, not in a loop. -/
def torusDelta (from_ to_ size : ℚ) : ℚ :=
  let d0 := to_ - from_
  let d1 := if d0 > size / 2 then d0 - size else d0
  if d1 < -(size / 2) then d1 + size else d1

/-- Squared wrapped planar distance: the square of
`torusDistanceXZ(a, b, width, depth) = Math.hypot(dx, dz)` (torus-space.ts).
The source only ever compares the distance against thresholds or feeds it to
the magnet/locomotion code; comparisons are encoded on this square via
`distLE`/`distLT`/`distGE`. -/
def torusDistSqXZ (a b : Vec3) (width depth : ℚ) : ℚ :=
  (torusDelta a.x b.x width) ^ 2 + (torusDelta a.z b.z depth) ^ 2

/-- Encoding of `Real.sqrt s ≤ c` for `0 ≤ s` (used for source comparisons
`torusDistanceXZ ... <= c`). -/
def distLE (s c : ℚ) : Bool := decide (0 ≤ c ∧ s ≤ c ^ 2)

/-- Encoding of `Real.sqrt s < c` for `0 ≤ s` (used for source comparisons
`torusDistanceXZ ... < c`). -/
def distLT (s c : ℚ) : Bool := decide (0 < c ∧ s < c ^ 2)

/-- Encoding of `c ≤ Real.sqrt s` for `0 ≤ s` (used for source comparisons
`torusDistanceXZ ... >= c`). -/
def distGE (s c : ℚ) : Bool := decide (c ≤ 0 ∨ c ^ 2 ≤ s)

/-- `torusLerp(a, b, t, width, depth)` (torus-space.ts). -/
def torusLerp (a b : Vec3) (t width depth : ℚ) : Vec3 :=
  let dx := torusDelta a.x b.x width
  let dz := torusDelta a.z b.z depth
  { x := wrapScalar (a.x + dx * t) width
    y := a.y + (b.y - a.y) * t
    z := wrapScalar (a.z + dz * t) depth }

section Bridges

/-- Bridge: the Boolean `distLE` encoding agrees with the real comparison
`Real.sqrt s ≤ c` on squared distances. -/
theorem distLE_iff_sqrt {s c : ℚ} (hs : (0:ℚ) ≤ s) :
    distLE s c = true ↔ Real.sqrt (s : ℝ) ≤ (c : ℝ) := by
  unfold distLE
  rw [decide_eq_true_eq]
  constructor
  · rintro ⟨hc, hsc⟩
    have h1 : Real.sqrt (s : ℝ) ≤ Real.sqrt ((c : ℝ) ^ 2) := by
      apply Real.sqrt_le_sqrt
      exact_mod_cast hsc
    have h2 : Real.sqrt ((c : ℝ) ^ 2) = (c : ℝ) := by
      rw [Real.sqrt_sq (by exact_mod_cast hc)]
    linarith
  · intro h
    have hc : (0:ℝ) ≤ (c : ℝ) := le_trans (Real.sqrt_nonneg _) h
    constructor
    · exact_mod_cast hc
    · have := Real.sq_sqrt (show (0:ℝ) ≤ (s:ℝ) by exact_mod_cast hs)
      have h2 : Real.sqrt (s:ℝ) ^ 2 ≤ (c:ℝ) ^ 2 := by
        apply pow_le_pow_left (Real.sqrt_nonneg _) h
      rw [this] at h2
      exact_mod_cast h2

/-- Bridge: the Boolean `distLT` encoding agrees with `Real.sqrt s < c`. -/
theorem distLT_iff_sqrt {s c : ℚ} (hs : (0:ℚ) ≤ s) :
    distLT s c = true ↔ Real.sqrt (s : ℝ) < (c : ℝ) := by
  unfold distLT
  rw [decide_eq_true_eq]
  constructor
  · rintro ⟨hc, hsc⟩
    have hcR : (0:ℝ) < (c:ℝ) := by exact_mod_cast hc
    have h1 : Real.sqrt (s : ℝ) < Real.sqrt ((c : ℝ) ^ 2) := by
      apply (Real.sqrt_lt_sqrt (by exact_mod_cast hs))
      exact_mod_cast hsc
    rwa [Real.sqrt_sq hcR.le] at h1
  · intro h
    have hc : (0:ℝ) < (c : ℝ) := lt_of_le_of_lt (Real.sqrt_nonneg _) h
    refine ⟨by exact_mod_cast hc, ?_⟩
    have hsq := Real.sq_sqrt (show (0:ℝ) ≤ (s:ℝ) by exact_mod_cast hs)
    have h2 : Real.sqrt (s:ℝ) ^ 2 < (c:ℝ) ^ 2 := by
      apply pow_lt_pow_left h (Real.sqrt_nonneg _)
      norm_num
    rw [hsq] at h2
    exact_mod_cast h2

/-- Bridge: a true `distGE` gives the real lower bound `c ≤ Real.sqrt s`. -/
theorem distGE_sqrt {s c : ℚ} (hs : (0:ℚ) ≤ s) (h : distGE s c = true) :
    (c : ℝ) ≤ Real.sqrt (s : ℝ) := by
  unfold distGE at h
  rw [decide_eq_true_eq] at h
  rcases h with h | h
  · calc (c:ℝ) ≤ 0 := by exact_mod_cast h
    _ ≤ Real.sqrt (s : ℝ) := Real.sqrt_nonneg _
  · rcases le_or_lt c 0 with hc | hc
    · calc (c:ℝ) ≤ 0 := by exact_mod_cast hc
      _ ≤ Real.sqrt (s : ℝ) := Real.sqrt_nonneg _
    · have h1 : Real.sqrt ((c : ℝ) ^ 2) ≤ Real.sqrt (s : ℝ) := by
        apply Real.sqrt_le_sqrt
        exact_mod_cast h
      rwa [Real.sqrt_sq (by positivity)] at h1

/-- Bridge: a false `distLT` gives the real lower bound `c ≤ Real.sqrt s`. -/
theorem not_distLT_sqrt {s c : ℚ} (hs : (0:ℚ) ≤ s) (h : distLT s c = false) :
    (c : ℝ) ≤ Real.sqrt (s : ℝ) := by
  unfold distLT at h
  rw [decide_eq_false_iff_not] at h
  push_neg at h
  rcases le_or_lt c 0 with hc | hc
  · calc (c:ℝ) ≤ 0 := by exact_mod_cast hc
    _ ≤ Real.sqrt (s : ℝ) := Real.sqrt_nonneg _
  · have h2 : c ^ 2 ≤ s := h hc
    have h1 : Real.sqrt ((c : ℝ) ^ 2) ≤ Real.sqrt (s : ℝ) := by
      apply Real.sqrt_le_sqrt
      exact_mod_cast h2
    rwa [Real.sqrt_sq (by positivity)] at h1

/-- Squared wrapped distance is non-negative. -/
theorem torusDistSqXZ_nonneg (a b : Vec3) (w d : ℚ) :
    (0:ℚ) ≤ torusDistSqXZ a b w d := by
  unfold torusDistSqXZ
  positivity

end Bridges

/-- `torusDelta` with its `let` bindings expanded, for case analysis. -/
theorem torusDelta_eq (a b s : ℚ) :
    torusDelta a b s =
      if b - a > s / 2 then
        (if b - a - s < -(s / 2) then b - a - s + s else b - a - s)
      else (if b - a < -(s / 2) then b - a + s else b - a) := by
  show (if (if b - a > s / 2 then b - a - s else b - a) < -(s / 2) then
      (if b - a > s / 2 then b - a - s else b - a) + s
    else (if b - a > s / 2 then b - a - s else b - a)) = _
  by_cases h1 : b - a > s / 2
  · simp only [if_pos h1]
  · simp only [if_neg h1]

/-- C2, counterexample part.  `torusDelta` applies at most one `± size`
correction, so inputs more than `3·size/2` apart are not wrapped into
`[-size/2, size/2]`: with `a = 0`, `b = 2`, `size = 1` the result is `1`,
whose magnitude exceeds `size/2 = 1/2`. -/
theorem c2_counterexample :
    torusDelta 0 2 1 = 1 ∧ ¬ (|torusDelta 0 2 1| ≤ (1:ℚ)/2) := by
  with_unfolding_all decide

/-- C2 (amended): for every positive `size`, `torusDelta` is antisymmetric
(`torusDelta a b size = -torusDelta b a size`), and its magnitude is at most
`size/2` provided the raw difference satisfies `|b - a| ≤ 3·size/2` — in
particular whenever both inputs already lie in the fundamental domain, which
is how the program calls it.  The unconditional magnitude bound claimed by the
spec fails (see the counterexample). -/
theorem c2_torusDelta_shortest (a b size : ℚ) (hsize : 0 < size) :
    torusDelta a b size = -torusDelta b a size ∧
      (|b - a| ≤ 3 * size / 2 → |torusDelta a b size| ≤ size / 2) := by
  constructor
  · rw [torusDelta_eq, torusDelta_eq]
    split_ifs <;> first | ring1 | (exfalso; linarith)
  · intro hraw
    rw [abs_le] at hraw
    rw [torusDelta_eq, abs_le]
    split_ifs <;> constructor <;> linarith [hraw.1, hraw.2]

/-- Witness for the amended C2 at concrete inputs `a = 41`, `b = -41`,
`size = 84`. -/
theorem c2_torusDelta_shortest_witness :
    torusDelta 41 (-41) 84 = -torusDelta (-41) 41 84 ∧
      |torusDelta 41 (-41) 84| ≤ 84 / 2 := by
  have h := c2_torusDelta_shortest 41 (-41) 84 (by norm_num)
  exact ⟨h.1, h.2 (by norm_num)⟩

/-! ## Configuration (src/config/game-config.ts) -/

/-- `GAME_CONFIG` (game-config.ts). -/
structure GameConfigT where
  torusWidth : ℚ
  torusDepth : ℚ
  baseSpeed : ℚ
  maxSpeed : ℚ
  turnRate : ℚ

/-- `GAME_CONFIG = {torusWidth: 84, torusDepth: 84, baseSpeed: 5.5,
maxSpeed: 14.5, turnRate: 2.4}`. -/
def GAME_CONFIG : GameConfigT :=
  { torusWidth := 84, torusDepth := 84, baseSpeed := 5.5
    maxSpeed := 14.5, turnRate := 2.4 }

/-- `START_GRACE_SEC = 2.4` (game-config.ts). -/
def START_GRACE_SEC : ℚ := 2.4

/-- `SCORE_RULES` (game-config.ts). -/
structure ScoreRulesT where
  foodBaseScore : ℚ
  powerupBonus : ℚ
  comboWindowSec : ℚ
  comboStepSize : ℚ
  comboStepMultiplier : ℚ
  comboMaxBonus : ℚ

/-- `SCORE_RULES = {foodBaseScore: 10, powerupBonus: 45, comboWindowSec: 3.8,
comboStepSize: 3, comboStepMultiplier: 0.5, comboMaxBonus: 3}`. -/
def SCORE_RULES : ScoreRulesT :=
  { foodBaseScore := 10, powerupBonus := 45, comboWindowSec := 3.8
    comboStepSize := 3, comboStepMultiplier := 0.5, comboMaxBonus := 3 }

/-- `SPAWN_RULES` (game-config.ts). -/
structure SpawnRulesT where
  minHeadDistance : ℚ
  minSegmentDistance : ℚ
  minObstacleDistance : ℚ
  minPickupDistance : ℚ
  minFoodDistance : ℚ
  baseObstacleCount : ℕ
  maxObstacleCount : ℚ
  startSafeAheadDistance : ℚ
  startSafeHalfWidth : ℚ
  foodCount : ℕ

/-- `SPAWN_RULES = {minHeadDistance: 14.5, minSegmentDistance: 2.4,
minObstacleDistance: 3.2, minPickupDistance: 2.2, minFoodDistance: 2.0,
baseObstacleCount: 8, maxObstacleCount: 24, startSafeAheadDistance: 16,
startSafeHalfWidth: 5.4, foodCount: 1}`.  The two counts are integer
constants used as loop bounds in spawn-system.ts, so they are carried as
naturals (`maxObstacleCount` only occurs in arithmetic and stays `ℚ`). -/
def SPAWN_RULES : SpawnRulesT :=
  { minHeadDistance := 14.5, minSegmentDistance := 2.4
    minObstacleDistance := 3.2, minPickupDistance := 2.2
    minFoodDistance := 2.0, baseObstacleCount := 8, maxObstacleCount := 24
    startSafeAheadDistance := 16, startSafeHalfWidth := 5.4, foodCount := 1 }

/-! ## Entity state types (src/types) -/

/-- Power-up kinds. -/
inductive PowerupKind where
  | overdrive
  | phase
  | magnet
deriving DecidableEq, Repr

/-- Obstacle kinds: `"static"` or `"pulse"`. -/
inductive ObstacleKind where
  | static
  | pulse
deriving DecidableEq, Repr

/-- `SnakeHeadState`. -/
structure SnakeHeadState where
  position : Vec3
  headingRad : ℚ
  speed : ℚ
  angularVelocity : ℚ
deriving DecidableEq, Repr

/-- `SnakeSegmentState`. -/
structure SnakeSegmentState where
  id : ℕ
  position : Vec3
deriving DecidableEq, Repr

/-- `FoodState`. -/
structure FoodState where
  id : ℕ
  position : Vec3
deriving DecidableEq, Repr

/-- `PickupState`. -/
structure PickupState where
  id : ℕ
  position : Vec3
  kind : PowerupKind
deriving DecidableEq, Repr

/-- `ObstacleState`.  Static obstacles carry zero pulse parameters, as in
`createObstacle`. -/
structure ObstacleState where
  id : ℕ
  position : Vec3
  radius : ℚ
  kind : ObstacleKind
  pulseAmplitude : ℚ
  pulseFrequency : ℚ
  pulsePhase : ℚ
deriving DecidableEq, Repr

/-- `PowerupState` (active power-up of the session). -/
structure PowerupState where
  kind : PowerupKind
  ttlSec : ℚ
deriving DecidableEq, Repr

/-- Bundle of the transcendental `Math` functions used by the source
(`Math.sin`, `Math.cos`, `Math.exp`, `Math.hypot`).  The embedding is
parametric in this bundle: every claim proved for all bundles holds in
particular for the real functions, and concrete runs instantiate the bundle
with functions that agree with the real ones at every argument the run
evaluates. -/
structure TransFns where
  sinQ : ℚ → ℚ
  cosQ : ℚ → ℚ
  expQ : ℚ → ℚ
  hypotQ : ℚ → ℚ → ℚ
  piQ : ℚ

/-! ## Collision system (src/game/collision-system.ts) -/

/-- Default `skipSegments = 4` of `checkSelfCollision`. -/
def SELF_SKIP_SEGMENTS : ℕ := 4

/-- Default `radius = 0.64` of `checkSelfCollision`. -/
def SELF_COLLISION_RADIUS : ℚ := 0.64

/-- Default `headRadius = 0.7` of `checkObstacleCollision`. -/
def HEAD_RADIUS : ℚ := 0.7

/-- Default `pickupRadius = 1.08` of `checkFoodCollision`. -/
def FOOD_PICKUP_RADIUS : ℚ := 1.08

/-- Default `pickupRadius = 1.1` of `checkPickupCollision`. -/
def PICKUP_RADIUS : ℚ := 1.1

/-- `checkSelfCollision(head, segments, width, depth)` with the default skip
count and radius: the loop from `i = skipSegments` returning on the first hit
is `List.any` over `segments.drop skipSegments`. -/
def checkSelfCollision (head : SnakeHeadState) (segments : List SnakeSegmentState)
    (width depth : ℚ) : Bool :=
  (segments.drop SELF_SKIP_SEGMENTS).any fun s =>
    distLE (torusDistSqXZ head.position s.position width depth) SELF_COLLISION_RADIUS

/-- `pulseScale(obstacle, elapsedSec)` (collision-system.ts):
`1` unless pulsing, else `1 + amplitude * (sin(t·freq + phase)·0.5 + 0.5)`. -/
def pulseScale (fns : TransFns) (o : ObstacleState) (elapsedSec : ℚ) : ℚ :=
  if o.kind ≠ ObstacleKind.pulse then 1
  else 1 + o.pulseAmplitude *
    (fns.sinQ (elapsedSec * o.pulseFrequency + o.pulsePhase) * 0.5 + 0.5)

/-- The collision predicate of `checkObstacleCollision`:
`torusDistanceXZ(head, o) <= o.radius * pulseScale(o, t) + headRadius`,
encoded on the squared distance. -/
def obstacleCollides (fns : TransFns) (head : SnakeHeadState) (elapsedSec width depth : ℚ)
    (o : ObstacleState) : Bool :=
  distLE (torusDistSqXZ head.position o.position width depth)
    (o.radius * pulseScale fns o elapsedSec + HEAD_RADIUS)

/-- `checkObstacleCollision(head, obstacles, elapsedSec, width, depth)`:
first obstacle (in array order) whose wrapped distance from the head is
within its pulsing hit radius; `null` if none. -/
def checkObstacleCollision (fns : TransFns) (head : SnakeHeadState)
    (obstacles : List ObstacleState) (elapsedSec width depth : ℚ) : Option ObstacleState :=
  match obstacles with
  | [] => none
  | o :: rest =>
    if obstacleCollides fns head elapsedSec width depth o then some o
    else checkObstacleCollision fns head rest elapsedSec width depth

/-- `checkFoodCollision(head, foods, width, depth)`. -/
def checkFoodCollision (head : SnakeHeadState) (foods : List FoodState)
    (width depth : ℚ) : Option FoodState :=
  match foods with
  | [] => none
  | f :: rest =>
    if distLE (torusDistSqXZ head.position f.position width depth) FOOD_PICKUP_RADIUS
    then some f
    else checkFoodCollision head rest width depth

/-- `checkPickupCollision(head, pickups, width, depth)`. -/
def checkPickupCollision (head : SnakeHeadState) (pickups : List PickupState)
    (width depth : ℚ) : Option PickupState :=
  match pickups with
  | [] => none
  | p :: rest =>
    if distLE (torusDistSqXZ head.position p.position width depth) PICKUP_RADIUS
    then some p
    else checkPickupCollision head rest width depth

/-- The spec's pulse-scale formula, written from the spec's words:
"`1` for static obstacles and `1 + amplitude*(0.5+0.5·sin(frequency·t+phase))`
for pulsing ones". -/
def pulseScaleSpec (fns : TransFns) (o : ObstacleState) (t : ℚ) : ℚ :=
  if o.kind = ObstacleKind.pulse then
    1 + o.pulseAmplitude * (0.5 + 0.5 * fns.sinQ (o.pulseFrequency * t + o.pulsePhase))
  else 1

/-- The source's pulse scale equals the spec's formula. -/
theorem pulseScale_eq_spec (fns : TransFns) (o : ObstacleState) (t : ℚ) :
    pulseScale fns o t = pulseScaleSpec fns o t := by
  unfold pulseScale pulseScaleSpec
  cases h : o.kind
  · rw [if_pos (by decide : ObstacleKind.static ≠ ObstacleKind.pulse),
      if_neg (by decide : ¬ ObstacleKind.static = ObstacleKind.pulse)]
  · rw [if_neg (by decide : ¬ ObstacleKind.pulse ≠ ObstacleKind.pulse),
      if_pos (rfl : ObstacleKind.pulse = ObstacleKind.pulse),
      mul_comm t o.pulseFrequency]
    ring

/-- C5: `checkObstacleCollision` returns the first obstacle in list order
satisfying the spec's collision predicate (wrapped XZ distance at most
`radius * pulseScale + headRadius`, with `pulseScale = 1` for static
obstacles and `1 + amplitude*(0.5 + 0.5*sin(frequency*t + phase))` for
pulsing ones), and `none` when no obstacle satisfies it (`List.find?`
semantics).  The second conjunct shows the static pulse scale is exactly 1;
the third connects the Boolean squared-distance encoding of the predicate to
the real wrapped distance.  The embedding is a pure function of its
arguments, which models "reads state only and has no side effects". -/
theorem c5_checkObstacleCollision_spec (fns : TransFns) (head : SnakeHeadState)
    (obstacles : List ObstacleState) (t width depth : ℚ) :
    checkObstacleCollision fns head obstacles t width depth
        = obstacles.find? (fun o =>
            distLE (torusDistSqXZ head.position o.position width depth)
              (o.radius * pulseScaleSpec fns o t + HEAD_RADIUS))
      ∧ (∀ o : ObstacleState, o.kind = ObstacleKind.static → pulseScale fns o t = 1)
      ∧ (∀ o : ObstacleState,
          obstacleCollides fns head t width depth o = true ↔
            Real.sqrt ((torusDistSqXZ head.position o.position width depth : ℚ) : ℝ) ≤
              ((o.radius * pulseScale fns o t + HEAD_RADIUS : ℚ) : ℝ)) := by
  refine ⟨?_, ?_, ?_⟩
  · induction obstacles with
    | nil => rfl
    | cons o rest ih =>
      have hp : obstacleCollides fns head t width depth o
          = distLE (torusDistSqXZ head.position o.position width depth)
              (o.radius * pulseScaleSpec fns o t + HEAD_RADIUS) := by
        unfold obstacleCollides
        rw [pulseScale_eq_spec]
      unfold checkObstacleCollision
      rw [hp]
      cases hc : distLE (torusDistSqXZ head.position o.position width depth)
          (o.radius * pulseScaleSpec fns o t + HEAD_RADIUS)
      · simp [List.find?, hc, ih]
      · simp [List.find?, hc]
  · intro o ho
    unfold pulseScale
    rw [if_pos]
    rw [ho]
    decide
  · intro o
    exact distLE_iff_sqrt (torusDistSqXZ_nonneg _ _ _ _)

/-- Fixed transcendental-function bundle mapping everything to zero; used to
instantiate claims at concrete inputs where the run never consults the
bundle's values. -/
def fnsZero : TransFns :=
  { sinQ := fun _ => 0, cosQ := fun _ => 0, expQ := fun _ => 0, hypotQ := fun _ _ => 0
    piQ := 0 }

/-- A head resting at the origin of the ground plane. -/
def headAtOrigin : SnakeHeadState :=
  { position := { x := 0, y := 0.7, z := 0 }, headingRad := 0, speed := 0, angularVelocity := 0 }

/-- A static obstacle of radius 2 one unit in front of the origin. -/
def obsNear : ObstacleState :=
  { id := 1, position := { x := 1, y := 0.7, z := 0 }, radius := 2
    kind := ObstacleKind.static, pulseAmplitude := 0, pulseFrequency := 0, pulsePhase := 0 }

/-- Witness for C5 at a concrete static obstacle. -/
theorem c5_checkObstacleCollision_spec_witness :
    pulseScale fnsZero obsNear 0 = 1 ∧
      checkObstacleCollision fnsZero headAtOrigin [obsNear] 0 84 84
        = [obsNear].find? (fun o =>
            distLE (torusDistSqXZ headAtOrigin.position o.position 84 84)
              (o.radius * pulseScaleSpec fnsZero o 0 + HEAD_RADIUS)) := by
  refine ⟨(c5_checkObstacleCollision_spec fnsZero headAtOrigin [obsNear] 0 84 84).2.1 obsNear
      (by decide), ?_⟩
  exact (c5_checkObstacleCollision_spec fnsZero headAtOrigin [obsNear] 0 84 84).1

/-! ## Scoring system (src/game/scoring-system.ts) -/

/-- `Math.round(q)` in JavaScript: round half toward positive infinity,
i.e. `⌊q + 1/2⌋`. -/
def jsRound (q : ℚ) : ℤ := ⌊q + 1/2⌋

/-- `ScoreState` `{score, combo, multiplier}`. -/
structure ScoreState where
  score : ℚ
  combo : ℚ
  multiplier : ℚ
deriving DecidableEq, Repr

/-- Full `ScoringSystem` state: the public `scoreState` plus the private
`comboTtlSec` and `multiplierBonus` fields. -/
structure ScoringState where
  scoreState : ScoreState
  comboTtlSec : ℚ
  multiplierBonus : ℚ
deriving DecidableEq, Repr

namespace ScoringSystem

/-- Constructor / `reset()` state: score 0, combo 0, multiplier 1, ttl 0,
bonus 0. -/
def initial : ScoringState :=
  { scoreState := { score := 0, combo := 0, multiplier := 1 }
    comboTtlSec := 0, multiplierBonus := 0 }

/-- `update(dt)`: while a combo is running, decrement its ttl; at ttl ≤ 0
reset combo to 0 and multiplier to 1. -/
def update (dt : ℚ) (s : ScoringState) : ScoringState :=
  if s.scoreState.combo ≤ 0 then s
  else
    let ttl := s.comboTtlSec - dt
    if ttl ≤ 0 then
      { scoreState := { score := s.scoreState.score, combo := 0, multiplier := 1 }
        comboTtlSec := 0, multiplierBonus := s.multiplierBonus }
    else { s with comboTtlSec := ttl }

/-- `setMultiplierBonus(bonus)`. -/
def setMultiplierBonus (bonus : ℚ) (s : ScoringState) : ScoringState :=
  { s with multiplierBonus := bonus }

/-- `onFoodCollected()`: increment combo, reset ttl, recompute multiplier
from the combo tier, add the rounded gain; returns the new state and the
gain. -/
def onFoodCollected (s : ScoringState) : ScoringState × ℤ :=
  let combo := s.scoreState.combo + 1
  let comboTier : ℤ := ⌊combo / SCORE_RULES.comboStepSize⌋
  let comboBonus := clamp ((comboTier : ℚ) * SCORE_RULES.comboStepMultiplier) 0
    SCORE_RULES.comboMaxBonus
  let multiplier := 1 + comboBonus
  let gain := jsRound (SCORE_RULES.foodBaseScore * (multiplier + s.multiplierBonus))
  ({ scoreState :=
      { score := s.scoreState.score + (gain : ℚ), combo := combo, multiplier := multiplier }
     comboTtlSec := SCORE_RULES.comboWindowSec, multiplierBonus := s.multiplierBonus },
   gain)

/-- `onPowerupCollected()`. -/
def onPowerupCollected (s : ScoringState) : ScoringState × ℤ :=
  let gain := jsRound (SCORE_RULES.powerupBonus * (s.scoreState.multiplier + s.multiplierBonus))
  ({ s with scoreState := { s.scoreState with score := s.scoreState.score + (gain : ℚ) } },
   gain)

end ScoringSystem

/-- The spec's multiplier formula, written from the spec's words:
`1 + clamp(floor(combo/comboStepSize)*comboStepMultiplier, 0, comboMaxBonus)`
with `comboStepSize = 3`, `comboStepMultiplier = 0.5`, `comboMaxBonus = 3`. -/
def specFoodMultiplier (combo : ℚ) : ℚ :=
  1 + clamp (((⌊combo / 3⌋ : ℤ) : ℚ) * 0.5) 0 3

/-- C6: each `onFoodCollected` call increments the combo by 1, resets the
combo ttl to `comboWindowSec = 3.8`, sets the multiplier to the spec formula
`1 + clamp(floor(combo/3)*0.5, 0, 3)` evaluated at the incremented combo,
and adds exactly `round(10 * (multiplier + externalBonus))` to the score
(also returned as the gain). -/
theorem c6_onFoodCollected_spec (s : ScoringState) :
    (ScoringSystem.onFoodCollected s).1.scoreState.combo = s.scoreState.combo + 1
      ∧ (ScoringSystem.onFoodCollected s).1.comboTtlSec = 3.8
      ∧ (ScoringSystem.onFoodCollected s).1.scoreState.multiplier
          = specFoodMultiplier (s.scoreState.combo + 1)
      ∧ (ScoringSystem.onFoodCollected s).1.scoreState.score
          = s.scoreState.score +
            ((jsRound (10 * (specFoodMultiplier (s.scoreState.combo + 1) + s.multiplierBonus))
              : ℤ) : ℚ)
      ∧ (ScoringSystem.onFoodCollected s).2
          = jsRound (10 * (specFoodMultiplier (s.scoreState.combo + 1) + s.multiplierBonus)) := by
  refine ⟨rfl, rfl, ?_, ?_, ?_⟩ <;>
    simp [ScoringSystem.onFoodCollected, specFoodMultiplier, SCORE_RULES]

/-- One external call into the `ScoringSystem`, as performed by the session
orchestrator: a tick decay, a bonus assignment, a food pickup, or a power-up
pickup. -/
inductive ScoringOp where
  | update (dt : ℚ)
  | setBonus (b : ℚ)
  | food
  | powerup
deriving DecidableEq, Repr

/-- Apply one scoring call. -/
def applyScoringOp (s : ScoringState) (op : ScoringOp) : ScoringState :=
  match op with
  | ScoringOp.update dt => ScoringSystem.update dt s
  | ScoringOp.setBonus b => ScoringSystem.setMultiplierBonus b s
  | ScoringOp.food => (ScoringSystem.onFoodCollected s).1
  | ScoringOp.powerup => (ScoringSystem.onPowerupCollected s).1

/-- Run a call sequence from the freshly reset scoring system. -/
def runScoring (ops : List ScoringOp) : ScoringState :=
  ops.foldl applyScoringOp ScoringSystem.initial

/-- The session only ever calls `update` with non-negative `dt` and
`setMultiplierBonus` with non-negative bonus (`0` or `0.75`). -/
def ValidScoringOp : ScoringOp → Prop
  | ScoringOp.update dt => 0 ≤ dt
  | ScoringOp.setBonus b => 0 ≤ b
  | _ => True

/-- Total `update` time in a call sequence. -/
def sumUpdateDt : List ScoringOp → ℚ
  | [] => 0
  | ScoringOp.update dt :: rest => dt + sumUpdateDt rest
  | _ :: rest => sumUpdateDt rest

/-- States reachable by valid call sequences. -/
def ScoringInv (s : ScoringState) : Prop :=
  0 ≤ s.scoreState.score ∧ 0 ≤ s.scoreState.combo ∧ 1 ≤ s.scoreState.multiplier
    ∧ 0 ≤ s.multiplierBonus ∧ 0 ≤ s.comboTtlSec
    ∧ s.comboTtlSec ≤ SCORE_RULES.comboWindowSec
    ∧ (s.scoreState.combo = 0 → s.scoreState.multiplier = 1)
    ∧ (0 < s.scoreState.combo → 0 < s.comboTtlSec)

theorem scoringInv_initial : ScoringInv ScoringSystem.initial := by
  unfold ScoringInv ScoringSystem.initial SCORE_RULES
  norm_num

theorem clamp_nonneg_of (x hi : ℚ) (hhi : 0 ≤ hi) : 0 ≤ clamp x 0 hi := by
  unfold clamp
  exact le_min hhi (le_max_left 0 x)

theorem jsRound_nonneg {q : ℚ} (hq : 0 ≤ q) : (0:ℚ) ≤ (jsRound q : ℚ) := by
  unfold jsRound
  have : (0:ℤ) ≤ ⌊q + 1/2⌋ := Int.le_floor.mpr (by push_cast; linarith)
  exact_mod_cast this

/-- One valid call preserves the invariant and never decreases the score. -/
theorem scoringInv_step {s : ScoringState} {op : ScoringOp}
    (hs : ScoringInv s) (hop : ValidScoringOp op) :
    ScoringInv (applyScoringOp s op)
      ∧ s.scoreState.score ≤ (applyScoringOp s op).scoreState.score := by
  obtain ⟨h1, h2, h3, h4, h5, h6, h7, h8⟩ := hs
  cases op with
  | update dt =>
    simp only [applyScoringOp, ScoringSystem.update]
    split_ifs with hc httl
    · exact ⟨⟨h1, h2, h3, h4, h5, h6, h7, h8⟩, le_refl _⟩
    · refine ⟨⟨h1, le_refl _, le_refl _, h4, le_refl _, ?_, fun _ => rfl, ?_⟩, le_refl _⟩
      · unfold SCORE_RULES
        norm_num
      · intro h
        exact absurd h (lt_irrefl 0)
    · push_neg at hc httl
      exact ⟨⟨h1, h2, h3, h4, le_of_lt httl, by have hdt : (0:ℚ) ≤ dt := hop; (try simp only); linarith [hdt], h7, fun _ => httl⟩,
        le_refl _⟩
  | setBonus b =>
    simp only [applyScoringOp, ScoringSystem.setMultiplierBonus]
    exact ⟨⟨h1, h2, h3, hop, h5, h6, h7, h8⟩, le_refl _⟩
  | food =>
    simp only [applyScoringOp, ScoringSystem.onFoodCollected]
    have hb : (0:ℚ) ≤ clamp
        (((⌊(s.scoreState.combo + 1) / SCORE_RULES.comboStepSize⌋ : ℤ) : ℚ) *
          SCORE_RULES.comboStepMultiplier) 0 SCORE_RULES.comboMaxBonus := by
      apply clamp_nonneg_of
      unfold SCORE_RULES
      norm_num
    have hgain : (0:ℚ) ≤ (jsRound (SCORE_RULES.foodBaseScore *
        (1 + clamp (((⌊(s.scoreState.combo + 1) / SCORE_RULES.comboStepSize⌋ : ℤ) : ℚ) *
          SCORE_RULES.comboStepMultiplier) 0 SCORE_RULES.comboMaxBonus
          + s.multiplierBonus)) : ℚ) := by
      apply jsRound_nonneg
      unfold SCORE_RULES at hb ⊢
      norm_num at hb ⊢
      nlinarith [h4, hb]
    refine ⟨⟨by (try simp only); linarith, by (try simp only); linarith,
      by (try simp only); linarith, h4, ?_, le_refl _, ?_, ?_⟩, by (try simp only); linarith⟩
    · unfold SCORE_RULES
      norm_num
    · intro hcz
      simp only at hcz
      linarith
    · intro _
      unfold SCORE_RULES
      norm_num
  | powerup =>
    simp only [applyScoringOp, ScoringSystem.onPowerupCollected]
    have hgain : (0:ℚ) ≤ (jsRound (SCORE_RULES.powerupBonus *
        (s.scoreState.multiplier + s.multiplierBonus)) : ℚ) := by
      apply jsRound_nonneg
      unfold SCORE_RULES
      norm_num
      nlinarith [h3, h4]
    exact ⟨⟨by (try simp only); linarith, h2, h3, h4, h5, h6, h7, h8⟩, by (try simp only); linarith⟩

/-- Valid call sequences preserve the invariant and never decrease the
score. -/
theorem scoringInv_foldl (l : List ScoringOp) :
    ∀ s : ScoringState, ScoringInv s → (∀ op ∈ l, ValidScoringOp op) →
      ScoringInv (l.foldl applyScoringOp s)
        ∧ s.scoreState.score ≤ (l.foldl applyScoringOp s).scoreState.score := by
  induction l with
  | nil => exact fun s hs _ => ⟨hs, le_refl _⟩
  | cons op rest ih =>
    intro s hs hvalid
    have hstep := scoringInv_step hs (hvalid op (List.mem_cons_self op rest))
    have hrest := ih (applyScoringOp s op) hstep.1
      (fun o ho => hvalid o (List.mem_cons_of_mem op ho))
    exact ⟨hrest.1, le_trans hstep.2 hrest.2⟩

/-- Once the combo is 0 with multiplier 1, any food-free call sequence keeps
it that way. -/
theorem scoring_combo_zero_steps (l : List ScoringOp) :
    ∀ s : ScoringState, s.scoreState.combo = 0 → s.scoreState.multiplier = 1 →
      (∀ op ∈ l, op ≠ ScoringOp.food) →
      (l.foldl applyScoringOp s).scoreState.combo = 0
        ∧ (l.foldl applyScoringOp s).scoreState.multiplier = 1 := by
  induction l with
  | nil => exact fun s hc hm _ => ⟨hc, hm⟩
  | cons op rest ih =>
    intro s hc hm hnf
    have hrest := fun o ho => hnf o (List.mem_cons_of_mem op ho)
    cases op with
    | update dt =>
      have : applyScoringOp s (ScoringOp.update dt) = s := by
        simp only [applyScoringOp, ScoringSystem.update]
        rw [if_pos (le_of_eq hc)]
      simpa [this] using ih s hc hm hrest
    | setBonus b =>
      exact ih _ hc hm hrest
    | food =>
      exact absurd rfl (hnf ScoringOp.food (List.mem_cons_self _ _))
    | powerup =>
      exact ih _ hc hm hrest

/-- After a food-free valid call sequence whose total `update` time is at
least the current combo ttl, the combo is 0 and the multiplier is 1. -/
theorem scoring_combo_reset_aux (l : List ScoringOp) :
    ∀ s : ScoringState, ScoringInv s → (∀ op ∈ l, ValidScoringOp op) →
      (∀ op ∈ l, op ≠ ScoringOp.food) → s.comboTtlSec ≤ sumUpdateDt l →
      (l.foldl applyScoringOp s).scoreState.combo = 0
        ∧ (l.foldl applyScoringOp s).scoreState.multiplier = 1 := by
  induction l with
  | nil =>
    intro s hs _ _ hsum
    obtain ⟨_, h2, _, _, h5, _, h7, h8⟩ := hs
    have httl : s.comboTtlSec = 0 := le_antisymm (by simpa [sumUpdateDt] using hsum) h5
    have hc : s.scoreState.combo = 0 := by
      by_contra hne
      have hpos : 0 < s.scoreState.combo := lt_of_le_of_ne h2 (Ne.symm hne)
      have := h8 hpos
      rw [httl] at this
      exact lt_irrefl 0 this
    exact ⟨hc, h7 hc⟩
  | cons op rest ih =>
    intro s hs hvalid hnf hsum
    have hvrest := fun o ho => hvalid o (List.mem_cons_of_mem op ho)
    have hnfrest := fun o ho => hnf o (List.mem_cons_of_mem op ho)
    have hstep := (scoringInv_step hs (hvalid op (List.mem_cons_self op rest))).1
    cases op with
    | update dt =>
      by_cases hc : s.scoreState.combo ≤ 0
      · have hc0 : s.scoreState.combo = 0 := le_antisymm hc hs.2.1
        have heq : applyScoringOp s (ScoringOp.update dt) = s := by
          simp only [applyScoringOp, ScoringSystem.update]
          rw [if_pos hc]
        rw [List.foldl_cons, heq]
        exact scoring_combo_zero_steps rest s hc0 (hs.2.2.2.2.2.2.1 hc0) hnfrest
      · push_neg at hc
        by_cases httl : s.comboTtlSec - dt ≤ 0
        · have heq : applyScoringOp s (ScoringOp.update dt)
              = { scoreState :=
                    { score := s.scoreState.score, combo := 0, multiplier := 1 }
                  comboTtlSec := 0, multiplierBonus := s.multiplierBonus } := by
            simp only [applyScoringOp, ScoringSystem.update]
            rw [if_neg (not_le.mpr hc), if_pos httl]
          rw [List.foldl_cons, heq]
          exact scoring_combo_zero_steps rest _ rfl rfl hnfrest
        · push_neg at httl
          have heq : applyScoringOp s (ScoringOp.update dt)
              = { s with comboTtlSec := s.comboTtlSec - dt } := by
            simp only [applyScoringOp, ScoringSystem.update]
            rw [if_neg (not_le.mpr hc), if_neg (not_le.mpr httl)]
          rw [List.foldl_cons, heq]
          apply ih _ (by rw [← heq]; exact hstep) hvrest hnfrest
          have hsum2 : sumUpdateDt (ScoringOp.update dt :: rest) = dt + sumUpdateDt rest := rfl
          rw [hsum2] at hsum
          simp only
          linarith
    | setBonus b =>
      rw [List.foldl_cons]
      apply ih _ hstep hvrest hnfrest
      simpa [applyScoringOp, ScoringSystem.setMultiplierBonus, sumUpdateDt] using hsum
    | food =>
      exact absurd rfl (hnf ScoringOp.food (List.mem_cons_self _ _))
    | powerup =>
      rw [List.foldl_cons]
      apply ih _ hstep hvrest hnfrest
      simpa [applyScoringOp, ScoringSystem.onPowerupCollected, sumUpdateDt] using hsum

/-- C7: across any valid sequence of scoring calls (non-negative `dt`,
non-negative multiplier bonus), the score is non-decreasing (every prefix's
score bounds the full run's score), and whenever a food-free suffix of the
sequence accumulates at least `comboWindowSec = 3.8` of `update` time, the
run ends with combo 0 and multiplier 1. -/
theorem c7_score_monotone_and_combo_reset (ops : List ScoringOp)
    (hvalid : ∀ op ∈ ops, ValidScoringOp op) :
    (∀ n : ℕ, (runScoring (ops.take n)).scoreState.score
        ≤ (runScoring ops).scoreState.score)
      ∧ (∀ pre tail : List ScoringOp, ops = pre ++ tail →
          (∀ op ∈ tail, op ≠ ScoringOp.food) →
          SCORE_RULES.comboWindowSec ≤ sumUpdateDt tail →
          (runScoring ops).scoreState.combo = 0
            ∧ (runScoring ops).scoreState.multiplier = 1) := by
  constructor
  · intro n
    have hsplit : ops = ops.take n ++ ops.drop n := (List.take_append_drop n ops).symm
    have hrw : runScoring ops
        = List.foldl applyScoringOp (runScoring (ops.take n)) (ops.drop n) := by
      unfold runScoring
      conv_lhs => rw [hsplit]
      rw [List.foldl_append]
    rw [hrw]
    unfold runScoring
    have hpre : ∀ op ∈ ops.take n, ValidScoringOp op := by
      intro op hop
      exact hvalid op (by rw [hsplit]; exact List.mem_append_left _ hop)
    have hdrop : ∀ op ∈ ops.drop n, ValidScoringOp op := by
      intro op hop
      exact hvalid op (by rw [hsplit]; exact List.mem_append_right _ hop)
    have hinv := (scoringInv_foldl (ops.take n) ScoringSystem.initial scoringInv_initial hpre).1
    exact (scoringInv_foldl (ops.drop n) _ hinv hdrop).2
  · intro pre tail hsplit hnf hwin
    unfold runScoring
    rw [hsplit, List.foldl_append]
    have hpre : ∀ op ∈ pre, ValidScoringOp op := by
      intro op hop
      exact hvalid op (by rw [hsplit]; exact List.mem_append_left _ hop)
    have htail : ∀ op ∈ tail, ValidScoringOp op := by
      intro op hop
      exact hvalid op (by rw [hsplit]; exact List.mem_append_right _ hop)
    have hinv := (scoringInv_foldl pre ScoringSystem.initial scoringInv_initial hpre).1
    apply scoring_combo_reset_aux tail _ hinv htail hnf
    exact le_trans hinv.2.2.2.2.2.1 hwin

/-- Witness for C7: collect one food, then decay for 5 seconds. -/
theorem c7_score_monotone_and_combo_reset_witness :
    ((runScoring ([ScoringOp.food, ScoringOp.update 5].take 1)).scoreState.score
        ≤ (runScoring [ScoringOp.food, ScoringOp.update 5]).scoreState.score)
      ∧ (runScoring [ScoringOp.food, ScoringOp.update 5]).scoreState.combo = 0
      ∧ (runScoring [ScoringOp.food, ScoringOp.update 5]).scoreState.multiplier = 1 := by
  have hvalid : ∀ op ∈ [ScoringOp.food, ScoringOp.update 5], ValidScoringOp op := by
    intro op hop
    rcases List.mem_cons.mp hop with rfl | hop2
    · trivial
    · rcases List.mem_cons.mp hop2 with rfl | h3
      · norm_num [ValidScoringOp]
      · cases h3
  have h := c7_score_monotone_and_combo_reset [ScoringOp.food, ScoringOp.update 5] hvalid
  have hreset := h.2 [ScoringOp.food] [ScoringOp.update 5] rfl
    (by
      intro op hop
      rcases List.mem_singleton.mp hop with rfl
      simp)
    (by norm_num [sumUpdateDt, SCORE_RULES])
  exact ⟨h.1 1, hreset⟩

/-! ## Snake controller (src/game/snake-controller.ts) -/

/-- `SnakeConfig` of the controller constructor. -/
structure SnakeConfig where
  width : ℚ
  depth : ℚ
  turnSmoothing : ℚ
  segmentSpacing : ℚ
  maxSegments : ℚ
deriving DecidableEq, Repr

/-- `TrailSample` `{position, distance}`. -/
structure TrailSample where
  position : Vec3
  distance : ℚ
deriving DecidableEq, Repr

/-- Full `SnakeController` state. -/
structure SnakeState where
  head : SnakeHeadState
  segments : List SnakeSegmentState
  trail : List TrailSample
  totalDistance : ℚ
  config : SnakeConfig
deriving DecidableEq, Repr

/-- Index-aware map, the `for (let i = 0; i < segments.length; i++)` pattern. -/
def mapWithIndex (f : ℕ → α → β) : ℕ → List α → List β
  | _, [] => []
  | i, a :: rest => f i a :: mapWithIndex f (i + 1) rest

theorem length_mapWithIndex (f : ℕ → α → β) :
    ∀ (i : ℕ) (l : List α), (mapWithIndex f i l).length = l.length := by
  intro i l
  induction l generalizing i with
  | nil => rfl
  | cons a rest ih => simp [mapWithIndex, ih]

/-- Number of iterations of `for (let d = -L; d <= 0; d += step)`:
`⌊L/step⌋ + 1` for positive step and `L ≥ 0` (the source loop does not
terminate for `step ≤ 0` together with `L ≥ 0`; the program always calls it
with `step = segmentSpacing/2 > 0`). -/
def seedTrailCount (L step : ℚ) : ℕ :=
  if 0 < step then (if 0 ≤ L then (⌊L / step⌋).toNat + 1 else 0) else 0

/-- Ceiling iteration count of `for (let i = 0; i < target; i++)`. -/
def natCeil (q : ℚ) : ℕ := (⌈q⌉).toNat

namespace SnakeController

/-- Constructor state: head at `(0, 0.7, 0)`, no segments, no trail. -/
def init (config : SnakeConfig) : SnakeState :=
  { head := { position := { x := 0, y := 0.7, z := 0 }
              headingRad := 0, speed := 0, angularVelocity := 0 }
    segments := [], trail := [], totalDistance := 0, config := config }

/-- `seedInitialTrail(segmentCount)`: straight samples behind the head every
`segmentSpacing * 0.5` of arclength, with a final sample at distance 0 when
the loop did not land exactly on 0. -/
def seedInitialTrail (fns : TransFns) (segmentCount : ℚ) (st : SnakeState) : SnakeState :=
  let sampleStep := st.config.segmentSpacing * 0.5
  let tailLength := (segmentCount + 3) * st.config.segmentSpacing
  let dirX := fns.cosQ st.head.headingRad
  let dirZ := fns.sinQ st.head.headingRad
  let samples := (List.range (seedTrailCount tailLength sampleStep)).map fun k =>
    let d := -tailLength + (k : ℚ) * sampleStep
    ({ position := { x := st.head.position.x + dirX * d
                     y := st.head.position.y
                     z := st.head.position.z + dirZ * d }
       distance := d } : TrailSample)
  let trail1 := st.trail ++ samples
  let trail2 :=
    match trail1.getLast? with
    | some s => if s.distance ≠ 0
        then trail1 ++ [{ position := st.head.position, distance := 0 }]
        else trail1
    | none => trail1 ++ [{ position := st.head.position, distance := 0 }]
  { st with trail := trail2 }

/-- `reset(startLength = 8, startPosition?, startHeadingRad = 0)`. -/
def reset (fns : TransFns) (startLength : ℚ) (startPosition : Option Vec3)
    (startHeadingRad : ℚ) (st : SnakeState) : SnakeState :=
  let pos : Vec3 :=
    match startPosition with
    | some p => { x := p.x, y := p.y, z := p.z }
    | none => { x := 0, y := 0.7, z := 0 }
  let head : SnakeHeadState :=
    { position := pos, headingRad := startHeadingRad, speed := 0, angularVelocity := 0 }
  let st1 : SnakeState :=
    { st with head := head, segments := [], totalDistance := 0, trail := [] }
  let target := clamp startLength 2 st.config.maxSegments
  let st2 := seedInitialTrail fns target st1
  let dirX := fns.cosQ startHeadingRad
  let dirZ := fns.sinQ startHeadingRad
  let segments := (List.range (natCeil target)).map fun (i : ℕ) =>
    let distance := ((i : ℚ) + 1) * st.config.segmentSpacing
    ({ id := i + 1
       position := wrapPosition
         { x := pos.x - dirX * distance, y := pos.y, z := pos.z - dirZ * distance }
         st.config.width st.config.depth } : SnakeSegmentState)
  { st2 with segments := segments }

/-- The `while (this.segments.length < nextLength)` push loop of `grow`,
fueled with exactly the number of pushes the loop performs. -/
def growLoop (headPos : Vec3) (nextLength : ℚ) :
    ℕ → List SnakeSegmentState → List SnakeSegmentState
  | 0, segs => segs
  | fuel + 1, segs =>
    if (segs.length : ℚ) < nextLength then
      let pos :=
        match segs.getLast? with
        | some s => s.position
        | none => headPos
      growLoop headPos nextLength fuel (segs ++ [{ id := segs.length + 1, position := pos }])
    else segs

/-- `grow(amount = 1)`. -/
def grow (amount : ℚ) (st : SnakeState) : SnakeState :=
  let nextLength := clamp ((st.segments.length : ℚ) + amount) 0 st.config.maxSegments
  let fuel := (⌈nextLength⌉ - (st.segments.length : ℤ)).toNat
  let segs := growLoop st.head.position nextLength fuel st.segments
  { st with segments := segs }

/-- `sampleTrail`'s backward bracketing scan
(`for (let i = trail.length - 2; i >= 0; i--) ...`): first adjacent pair,
scanning from the end, that brackets the target distance. -/
def findBracket (pairs : List (TrailSample × TrailSample)) (targetDistance : ℚ) :
    Option (TrailSample × TrailSample) :=
  pairs.find? fun ab =>
    decide (ab.1.distance ≤ targetDistance ∧ targetDistance ≤ ab.2.distance)

/-- `sampleTrail(targetDistance)`.  Only called with at least 2 samples; the
empty-trail branch (a crash in the source) returns the origin. -/
def sampleTrail (trail : List TrailSample) (width depth targetDistance : ℚ) : Vec3 :=
  match trail with
  | [] => { x := 0, y := 0, z := 0 }
  | first :: _ =>
    if targetDistance ≤ first.distance then first.position
    else
      match trail.getLast? with
      | none => first.position
      | some last =>
        if targetDistance ≥ last.distance then last.position
        else
          match findBracket ((trail.zip trail.tail).reverse) targetDistance with
          | some ab =>
            let span0 := ab.2.distance - ab.1.distance
            let span := if span0 = 0 then 0.0001 else span0
            let t := clamp ((targetDistance - ab.1.distance) / span) 0 1
            torusLerp ab.1.position ab.2.position t width depth
          | none => last.position

/-- `addTrailSampleIfNeeded()`. -/
def addTrailSampleIfNeeded (st : SnakeState) : SnakeState :=
  match st.trail.getLast? with
  | none =>
    { st with trail := st.trail ++ [{ position := st.head.position, distance := st.totalDistance }] }
  | some lastSample =>
    let spacing := st.config.segmentSpacing * 0.55
    if distLT (torusDistSqXZ st.head.position lastSample.position st.config.width st.config.depth)
        spacing then st
    else
      { st with trail := st.trail ++ [{ position := st.head.position, distance := st.totalDistance }] }

/-- `updateSegmentsFromTrail()`. -/
def updateSegmentsFromTrail (st : SnakeState) : SnakeState :=
  if st.trail.length < 2 then st
  else
    let segs := mapWithIndex (fun (i : ℕ) seg =>
      let p := sampleTrail st.trail st.config.width st.config.depth
        (st.totalDistance - ((i : ℚ) + 1) * st.config.segmentSpacing)
      { seg with position := p }) 0 st.segments
    { st with segments := segs }

/-- The `while` loop of `pruneTrail()`: drop from the front while more than 2
samples remain and the second sample is older than `minDistance`. -/
def pruneLoop (minDistance : ℚ) : List TrailSample → List TrailSample
  | a :: b :: c :: rest =>
    if b.distance < minDistance then pruneLoop minDistance (b :: c :: rest)
    else a :: b :: c :: rest
  | l => l

/-- `pruneTrail()`. -/
def pruneTrail (st : SnakeState) : SnakeState :=
  let neededLength := ((st.segments.length : ℚ) + 4) * st.config.segmentSpacing
  let minDistance := st.totalDistance - neededLength
  { st with trail := pruneLoop minDistance st.trail }

/-- `update(dt, inputTurn, targetSpeed, turnRate)`. -/
def update (fns : TransFns) (dt inputTurn targetSpeed turnRate : ℚ) (st : SnakeState) :
    SnakeState :=
  let desiredAngular := clamp inputTurn (-1) 1 * turnRate
  let angularVelocity := st.head.angularVelocity +
    (desiredAngular - st.head.angularVelocity) * (1 - fns.expQ (-st.config.turnSmoothing * dt))
  let headingRad := st.head.headingRad + angularVelocity * dt
  let dx := fns.cosQ headingRad * targetSpeed * dt
  let dz := fns.sinQ headingRad * targetSpeed * dt
  let movedDistance := fns.hypotQ dx dz
  let position := wrapPosition
    { x := st.head.position.x + dx, y := st.head.position.y, z := st.head.position.z + dz }
    st.config.width st.config.depth
  let head : SnakeHeadState :=
    { position := position, headingRad := headingRad
      speed := targetSpeed, angularVelocity := angularVelocity }
  let st1 := { st with head := head, totalDistance := st.totalDistance + movedDistance }
  pruneTrail (updateSegmentsFromTrail (addTrailSampleIfNeeded st1))

end SnakeController

theorem clamp_le_hi (v lo hi : ℚ) : clamp v lo hi ≤ hi := min_le_left hi _

theorem clamp_lo_le (v lo hi : ℚ) (h : lo ≤ hi) : lo ≤ clamp v lo hi :=
  le_min h (le_max_left lo v)

theorem natCeil_le_of_le {q : ℚ} {m : ℕ} (h : q ≤ (m : ℚ)) : natCeil q ≤ m := by
  unfold natCeil
  rw [Int.toNat_le]
  calc ⌈q⌉ ≤ ⌈((m : ℚ))⌉ := Int.ceil_le_ceil h
  _ = (m : ℤ) := by exact_mod_cast Int.ceil_intCast (m : ℤ)

theorem growLoop_length_le (hp : Vec3) (nl : ℚ) (M : ℕ) (hnl : natCeil nl ≤ M) :
    ∀ (fuel : ℕ) (segs : List SnakeSegmentState), segs.length ≤ M →
      (SnakeController.growLoop hp nl fuel segs).length ≤ M := by
  intro fuel
  induction fuel with
  | zero => exact fun segs h => h
  | succ n ih =>
    intro segs hlen
    unfold SnakeController.growLoop
    split_ifs with hc
    · apply ih
      have h1 : (segs.length : ℤ) < ⌈nl⌉ := Int.lt_ceil.mpr hc
      have h2 : segs.length + 1 ≤ natCeil nl := by
        unfold natCeil
        omega
      simpa using le_trans h2 hnl
    · exact hlen

theorem segments_addTrailSampleIfNeeded (st : SnakeState) :
    (SnakeController.addTrailSampleIfNeeded st).segments = st.segments := by
  unfold SnakeController.addTrailSampleIfNeeded
  rcases st.trail.getLast? with _ | s
  · rfl
  · dsimp only
    split_ifs <;> rfl

theorem length_segments_updateSegmentsFromTrail (st : SnakeState) :
    (SnakeController.updateSegmentsFromTrail st).segments.length = st.segments.length := by
  unfold SnakeController.updateSegmentsFromTrail
  split_ifs
  · rfl
  · exact length_mapWithIndex _ _ _

theorem segments_pruneTrail (st : SnakeState) :
    (SnakeController.pruneTrail st).segments = st.segments := rfl

theorem length_segments_update (fns : TransFns) (dt turn speed turnRate : ℚ) (st : SnakeState) :
    (SnakeController.update fns dt turn speed turnRate st).segments.length
      = st.segments.length := by
  unfold SnakeController.update
  rw [segments_pruneTrail, length_segments_updateSegmentsFromTrail,
    segments_addTrailSampleIfNeeded]

theorem config_addTrailSampleIfNeeded (st : SnakeState) :
    (SnakeController.addTrailSampleIfNeeded st).config = st.config := by
  unfold SnakeController.addTrailSampleIfNeeded
  rcases st.trail.getLast? with _ | s
  · rfl
  · dsimp only
    split_ifs <;> rfl

theorem config_updateSegmentsFromTrail (st : SnakeState) :
    (SnakeController.updateSegmentsFromTrail st).config = st.config := by
  unfold SnakeController.updateSegmentsFromTrail
  split_ifs <;> rfl

theorem config_update (fns : TransFns) (dt turn speed turnRate : ℚ) (st : SnakeState) :
    (SnakeController.update fns dt turn speed turnRate st).config = st.config := by
  unfold SnakeController.update
  show (SnakeController.pruneTrail _).config = _
  unfold SnakeController.pruneTrail
  dsimp only
  rw [config_updateSegmentsFromTrail, config_addTrailSampleIfNeeded]

theorem config_reset (fns : TransFns) (startLength : ℚ) (startPosition : Option Vec3)
    (startHeadingRad : ℚ) (st : SnakeState) :
    (SnakeController.reset fns startLength startPosition startHeadingRad st).config
      = st.config := by
  unfold SnakeController.reset SnakeController.seedInitialTrail
  dsimp only

theorem config_grow (amount : ℚ) (st : SnakeState) :
    (SnakeController.grow amount st).config = st.config := rfl

theorem length_segments_reset (fns : TransFns) (startLength : ℚ)
    (startPosition : Option Vec3) (startHeadingRad : ℚ) (st : SnakeState) :
    (SnakeController.reset fns startLength startPosition startHeadingRad st).segments.length
      = natCeil (clamp startLength 2 st.config.maxSegments) := by
  unfold SnakeController.reset
  dsimp only
  rw [List.length_map, List.length_range]

/-- One external call into the `SnakeController`. -/
inductive SnakeOp where
  | reset (startLength : ℚ) (startPosition : Option Vec3) (headingRad : ℚ)
  | grow (amount : ℚ)
  | update (dt : ℚ) (turn : ℚ) (speed : ℚ) (turnRate : ℚ)

/-- Apply one controller call. -/
def applySnakeOp (fns : TransFns) (st : SnakeState) : SnakeOp → SnakeState
  | SnakeOp.reset startLength startPosition headingRad =>
    SnakeController.reset fns startLength startPosition headingRad st
  | SnakeOp.grow amount => SnakeController.grow amount st
  | SnakeOp.update dt turn speed turnRate =>
    SnakeController.update fns dt turn speed turnRate st

/-- Run a call sequence from the freshly constructed controller. -/
def runSnake (fns : TransFns) (config : SnakeConfig) (ops : List SnakeOp) : SnakeState :=
  ops.foldl (applySnakeOp fns) (SnakeController.init config)

/-- C8: for every sequence of `reset`, `grow` (any amounts, including
oversized and negative ones) and `update` calls, the segment list length
never exceeds the configured `maxSegments` cap (an integer in every
configuration the program builds; 340 in the game session). -/
theorem c8_segment_cap (config : SnakeConfig) (m : ℕ)
    (hm : config.maxSegments = (m : ℚ)) (fns : TransFns) (ops : List SnakeOp) :
    (runSnake fns config ops).segments.length ≤ m := by
  suffices h : ∀ (l : List SnakeOp) (st : SnakeState),
      st.config = config → st.segments.length ≤ m →
      (l.foldl (applySnakeOp fns) st).config = config
        ∧ (l.foldl (applySnakeOp fns) st).segments.length ≤ m by
    exact (h ops (SnakeController.init config) rfl (by simp [SnakeController.init])).2
  intro l
  induction l with
  | nil => exact fun st hc hl => ⟨hc, hl⟩
  | cons op rest ih =>
    intro st hc hl
    apply ih
    · cases op with
      | reset startLength startPosition headingRad => rw [applySnakeOp, config_reset, hc]
      | grow amount => rw [applySnakeOp, config_grow, hc]
      | update dt turn speed turnRate => rw [applySnakeOp, config_update, hc]
    · cases op with
      | reset startLength startPosition headingRad =>
        rw [applySnakeOp, length_segments_reset]
        apply natCeil_le_of_le
        rw [hc, hm]
        exact clamp_le_hi _ _ _
      | grow amount =>
        show (SnakeController.grow amount st).segments.length ≤ m
        unfold SnakeController.grow
        dsimp only
        refine growLoop_length_le _ _ m ?_ _ _ hl
        apply natCeil_le_of_le
        rw [hc, hm]
        exact clamp_le_hi _ _ _
      | update dt turn speed turnRate =>
        rw [applySnakeOp, length_segments_update]
        exact hl

/-- Witness for C8: the session's configuration (cap 340), a reset and an
oversized grow. -/
theorem c8_segment_cap_witness :
    (runSnake fnsZero
        { width := 84, depth := 84, turnSmoothing := 10.5
          segmentSpacing := 0.9, maxSegments := 340 }
        [SnakeOp.reset 8 none 0, SnakeOp.grow 400]).segments.length ≤ 340 :=
  c8_segment_cap _ 340 (by norm_num) fnsZero _

/-! ## Spawn system (src/game/spawn-system.ts) -/

/-- The per-tick context handed to `SpawnSystem.update`. -/
structure SpawnContext where
  head : SnakeHeadState
  segments : List SnakeSegmentState
  elapsedSec : ℚ
  difficulty01 : ℚ

/-- Full `SpawnSystem` state.  `Math.random` is the deterministic stream
`rng` read at the monotone index `rngIdx`. -/
structure SpawnState where
  rng : ℕ → ℚ
  rngIdx : ℕ
  nextId : ℕ
  powerupTimerSec : ℚ
  foods : List FoodState
  pickups : List PickupState
  obstacles : List ObstacleState

/-- `list.findIndex(...) >= 0 && list.splice(idx, 1)`: remove the first
element with the given id, if any (shared shape of `consumeFood` and
`consumePickup`). -/
def spliceOutBy (key : α → ℕ) (k : ℕ) (l : List α) : List α :=
  match l.findIdx? (fun a => key a == k) with
  | some i => l.eraseIdx i
  | none => l

namespace SpawnSystem

/-- One `this.random()` call. -/
def draw (rng : ℕ → ℚ) (i : ℕ) : ℚ × ℕ := (rng i, i + 1)

/-- `randInRange(this.random, lo, hi)` (src/util/random). -/
def drawInRange (rng : ℕ → ℚ) (lo hi : ℚ) (i : ℕ) : ℚ × ℕ :=
  (lo + rng i * (hi - lo), i + 1)

/-- The conjunction of all candidate checks in `findSafePosition` (the
source's sequential `continue` checks with no side effects). -/
def spawnCandidateOk (candidate : Vec3) (head : SnakeHeadState)
    (segments : List SnakeSegmentState) (obstacles : List ObstacleState)
    (foods : List FoodState) (pickups : List PickupState) : Bool :=
  distGE (torusDistSqXZ candidate head.position GAME_CONFIG.torusWidth GAME_CONFIG.torusDepth)
      SPAWN_RULES.minHeadDistance
    && segments.all (fun s =>
        !(distLT (torusDistSqXZ candidate s.position GAME_CONFIG.torusWidth
            GAME_CONFIG.torusDepth) SPAWN_RULES.minSegmentDistance))
    && obstacles.all (fun o =>
        !(distLT (torusDistSqXZ candidate o.position GAME_CONFIG.torusWidth
            GAME_CONFIG.torusDepth) (o.radius + SPAWN_RULES.minObstacleDistance)))
    && foods.all (fun f =>
        !(distLT (torusDistSqXZ candidate f.position GAME_CONFIG.torusWidth
            GAME_CONFIG.torusDepth) SPAWN_RULES.minFoodDistance))
    && pickups.all (fun p =>
        !(distLT (torusDistSqXZ candidate p.position GAME_CONFIG.torusWidth
            GAME_CONFIG.torusDepth) SPAWN_RULES.minPickupDistance))

/-- The 60-attempt rejection-sampling loop of `findSafePosition`: each
attempt draws x then z and accepts the first safe candidate.  Returns the
accepted candidate (or `none` at budget exhaustion) and the next stream
index. -/
def findSafeAux (rng : ℕ → ℚ) (head : SnakeHeadState) (segments : List SnakeSegmentState)
    (obstacles : List ObstacleState) (foods : List FoodState) (pickups : List PickupState) :
    ℕ → ℕ → Option Vec3 × ℕ
  | 0, i => (none, i)
  | fuel + 1, i =>
    let x := drawInRange rng (-(GAME_CONFIG.torusWidth / 2)) (GAME_CONFIG.torusWidth / 2) i
    let z := drawInRange rng (-(GAME_CONFIG.torusDepth / 2)) (GAME_CONFIG.torusDepth / 2) x.2
    let candidate : Vec3 := { x := x.1, y := 0.7, z := z.1 }
    if spawnCandidateOk candidate head segments obstacles foods pickups then
      (some candidate, z.2)
    else findSafeAux rng head segments obstacles foods pickups fuel z.2

/-- `findSafePosition(head, segments, obstacles, foods, pickups)`: the
60-attempt loop, then the documented clamped-random fallback without
constraint guarantees. -/
def findSafePosition (rng : ℕ → ℚ) (head : SnakeHeadState)
    (segments : List SnakeSegmentState) (obstacles : List ObstacleState)
    (foods : List FoodState) (pickups : List PickupState) (i : ℕ) : Vec3 × ℕ :=
  match findSafeAux rng head segments obstacles foods pickups 60 i with
  | (some p, i') => (p, i')
  | (none, i') =>
    let x := drawInRange rng (-(GAME_CONFIG.torusWidth / 2)) (GAME_CONFIG.torusWidth / 2) i'
    let z := drawInRange rng (-(GAME_CONFIG.torusDepth / 2)) (GAME_CONFIG.torusDepth / 2) x.2
    ({ x := clamp x.1 (-40) 40, y := 0.7, z := clamp z.1 (-40) 40 }, z.2)

/-- `isInStartSafeCorridor(head, candidate)`. -/
def isInStartSafeCorridor (fns : TransFns) (head : SnakeHeadState) (candidate : Vec3) : Bool :=
  let dx := torusDelta head.position.x candidate.x GAME_CONFIG.torusWidth
  let dz := torusDelta head.position.z candidate.z GAME_CONFIG.torusDepth
  let forwardX := fns.cosQ head.headingRad
  let forwardZ := fns.sinQ head.headingRad
  let ahead := dx * forwardX + dz * forwardZ
  if ahead ≤ 0 ∨ ahead > SPAWN_RULES.startSafeAheadDistance then false
  else decide (|dx * (-forwardZ) + dz * forwardX| < SPAWN_RULES.startSafeHalfWidth)

/-- The 80-iteration corridor-retry loop of `createObstacle`: at each
iteration, stop as soon as the position is outside the start safe corridor,
else redraw. -/
def corridorLoop (fns : TransFns) (rng : ℕ → ℚ) (head : SnakeHeadState)
    (segments : List SnakeSegmentState) (obstacles : List ObstacleState)
    (foods : List FoodState) (pickups : List PickupState) :
    ℕ → Vec3 → ℕ → Vec3 × ℕ
  | 0, pos, i => (pos, i)
  | fuel + 1, pos, i =>
    if !(isInStartSafeCorridor fns head pos) then (pos, i)
    else
      let p := findSafePosition rng head segments obstacles foods pickups i
      corridorLoop fns rng head segments obstacles foods pickups fuel p.1 p.2

/-- `createObstacle(head, segments, obstacles, foods, pickups)`.  The source
return type admits `null` but every path returns an obstacle.  Draw order:
position (with corridor retries), pulse flag, radius, then the three pulse
parameters only for pulsing obstacles; `id: this.nextId++` reads then
increments the id counter. -/
def createObstacle (fns : TransFns) (rng : ℕ → ℚ) (head : SnakeHeadState)
    (segments : List SnakeSegmentState) (obstacles : List ObstacleState)
    (foods : List FoodState) (pickups : List PickupState) (nextId : ℕ) (i : ℕ) :
    ObstacleState × ℕ × ℕ :=
  let p0 := findSafePosition rng head segments obstacles foods pickups i
  let pc := corridorLoop fns rng head segments obstacles foods pickups 80 p0.1 p0.2
  let rp := draw rng pc.2
  let pulse := decide (rp.1 > 0.75)
  let rr := drawInRange rng 1.2 2.5 rp.2
  if pulse then
    let ra := drawInRange rng 0.12 0.28 rr.2
    let rf := drawInRange rng 1.4 2.8 ra.2
    let rph := drawInRange rng 0 (fns.piQ * 2) rf.2
    ({ id := nextId, position := pc.1, radius := rr.1, kind := ObstacleKind.pulse
       pulseAmplitude := ra.1, pulseFrequency := rf.1, pulsePhase := rph.1 },
     nextId + 1, rph.2)
  else
    ({ id := nextId, position := pc.1, radius := rr.1, kind := ObstacleKind.static
       pulseAmplitude := 0, pulseFrequency := 0, pulsePhase := 0 },
     nextId + 1, rr.2)

/-- The `for (i = 0; i < baseObstacleCount; i++)` seeding loop of
`seedObstacles`, pushing each created obstacle. -/
def seedObstaclesLoop (fns : TransFns) (head : SnakeHeadState)
    (segments : List SnakeSegmentState) : ℕ → SpawnState → SpawnState
  | 0, st => st
  | n + 1, st =>
    let c := createObstacle fns st.rng head segments st.obstacles st.foods st.pickups
      st.nextId st.rngIdx
    seedObstaclesLoop fns head segments n
      { st with obstacles := st.obstacles ++ [c.1], nextId := c.2.1, rngIdx := c.2.2 }

/-- The `while (this.foods.length < foodCount)` loop of `ensureFoodCount`,
fueled with `foodCount` (an upper bound on the pushes the loop performs). -/
def ensureFoodLoop (head : SnakeHeadState) (segments : List SnakeSegmentState) :
    ℕ → SpawnState → SpawnState
  | 0, st => st
  | n + 1, st =>
    if st.foods.length < SPAWN_RULES.foodCount then
      let p := findSafePosition st.rng head segments st.obstacles st.foods st.pickups st.rngIdx
      ensureFoodLoop head segments n
        { st with
            foods := st.foods ++ [{ id := st.nextId, position := p.1 }]
            nextId := st.nextId + 1
            rngIdx := p.2 }
    else st

/-- `ensureFoodCount(head, segments)`. -/
def ensureFoodCount (head : SnakeHeadState) (segments : List SnakeSegmentState)
    (st : SpawnState) : SpawnState :=
  ensureFoodLoop head segments SPAWN_RULES.foodCount st

/-- `growObstaclePopulation(context)`. -/
def growObstaclePopulation (fns : TransFns) (context : SpawnContext) (st : SpawnState) :
    SpawnState :=
  let target : ℤ := ⌊(SPAWN_RULES.baseObstacleCount : ℚ) +
    context.difficulty01 * (SPAWN_RULES.maxObstacleCount - (SPAWN_RULES.baseObstacleCount : ℚ))⌋
  if (st.obstacles.length : ℤ) ≥ target then st
  else
    let c := createObstacle fns st.rng context.head context.segments st.obstacles st.foods
      st.pickups st.nextId st.rngIdx
    { st with obstacles := st.obstacles ++ [c.1], nextId := c.2.1, rngIdx := c.2.2 }

/-- `trySpawnPowerup(head, segments)`.  `pickRandom` indexes the 3-element
kind list at `Math.floor(random() * 3)`; the stream values are in `[0, 1)`
so the index is in range (out-of-range indexing, a crash in the source, is
modelled by a default). -/
def trySpawnPowerup (head : SnakeHeadState) (segments : List SnakeSegmentState)
    (st : SpawnState) : SpawnState :=
  if st.pickups.length ≥ 2 then st
  else
    let p := findSafePosition st.rng head segments st.obstacles st.foods st.pickups st.rngIdx
    let r := draw st.rng p.2
    let idx := (⌊r.1 * 3⌋).toNat
    let kind := [PowerupKind.overdrive, PowerupKind.phase, PowerupKind.magnet].getD idx
      PowerupKind.overdrive
    { st with
        pickups := st.pickups ++ [{ id := st.nextId, position := p.1, kind := kind }]
        nextId := st.nextId + 1
        rngIdx := r.2 }

/-- Constructor state.  The field initializer draws `randInRange(Math.random,
8, 14)` and the constructor body immediately overwrites it with
`randInRange(this.random, 8, 14)`; with the default `Math.random` source both
draws come from the same stream, so the constructor consumes two draws and
keeps the second. -/
def init (rng : ℕ → ℚ) : SpawnState :=
  let t0 := drawInRange rng 8 14 0
  let t1 := drawInRange rng 8 14 t0.2
  { rng := rng, rngIdx := t1.2, nextId := 1, powerupTimerSec := t1.1
    foods := [], pickups := [], obstacles := [] }

/-- `reset(head, segments)`. -/
def reset (fns : TransFns) (head : SnakeHeadState) (segments : List SnakeSegmentState)
    (st : SpawnState) : SpawnState :=
  let st1 := { st with
    nextId := 1
    foods := ([] : List FoodState)
    pickups := ([] : List PickupState)
    obstacles := ([] : List ObstacleState) }
  let t := drawInRange st.rng 8 14 st1.rngIdx
  let st2 := { st1 with powerupTimerSec := t.1, rngIdx := t.2 }
  let st3 := seedObstaclesLoop fns head segments SPAWN_RULES.baseObstacleCount st2
  ensureFoodCount head segments st3

/-- `update(dt, context)`. -/
def update (fns : TransFns) (dt : ℚ) (context : SpawnContext) (st : SpawnState) : SpawnState :=
  let st1 := ensureFoodCount context.head context.segments st
  let st2 := growObstaclePopulation fns context st1
  let timer := st2.powerupTimerSec - dt
  if timer ≤ 0 then
    let st3 := trySpawnPowerup context.head context.segments { st2 with powerupTimerSec := timer }
    let t := drawInRange st3.rng 10 18 st3.rngIdx
    { st3 with powerupTimerSec := t.1, rngIdx := t.2 }
  else { st2 with powerupTimerSec := timer }

/-- `consumeFood(foodId)`. -/
def consumeFood (foodId : ℕ) (st : SpawnState) : SpawnState :=
  { st with foods := spliceOutBy FoodState.id foodId st.foods }

/-- `consumePickup(pickupId)`. -/
def consumePickup (pickupId : ℕ) (st : SpawnState) : SpawnState :=
  { st with pickups := spliceOutBy PickupState.id pickupId st.pickups }

/-- `attractFoodsTo(head, strength, dt)` (magnet effect): move every food a
`strength*dt` step toward the head along the shortest wrapped direction,
re-wrapping.  `Math.hypot(dx, dz) || 0.0001` maps a zero length to
`0.0001`. -/
def attractFoodsTo (fns : TransFns) (head : SnakeHeadState) (strength dt : ℚ)
    (st : SpawnState) : SpawnState :=
  { st with foods := st.foods.map fun food =>
      let dx := torusDelta food.position.x head.position.x GAME_CONFIG.torusWidth
      let dz := torusDelta food.position.z head.position.z GAME_CONFIG.torusDepth
      let h := fns.hypotQ dx dz
      let len := if h = 0 then 0.0001 else h
      let moved : Vec3 :=
        { x := food.position.x + dx / len * strength * dt
          y := food.position.y
          z := food.position.z + dz / len * strength * dt }
      { food with position :=
          wrapPosition moved GAME_CONFIG.torusWidth GAME_CONFIG.torusDepth } }

end SpawnSystem

/-- Acceptance in the rejection-sampling loop means every Boolean check
passed. -/
theorem findSafeAux_some_ok (rng : ℕ → ℚ) (head : SnakeHeadState)
    (segments : List SnakeSegmentState) (obstacles : List ObstacleState)
    (foods : List FoodState) (pickups : List PickupState) :
    ∀ (fuel i i' : ℕ) (p : Vec3),
      SpawnSystem.findSafeAux rng head segments obstacles foods pickups fuel i = (some p, i') →
      SpawnSystem.spawnCandidateOk p head segments obstacles foods pickups = true := by
  intro fuel
  induction fuel with
  | zero => intro i i' p h; exact absurd (congrArg Prod.fst h) (by simp [SpawnSystem.findSafeAux])
  | succ n ih =>
    intro i i' p h
    simp only [SpawnSystem.findSafeAux] at h
    split_ifs at h with hok
    · simp only [Prod.mk.injEq] at h
      obtain ⟨h1, _⟩ := h
      injection h1 with h2
      exact h2 ▸ hok
    · exact ih _ _ _ h

/-- C3: every candidate accepted inside the 60-attempt budget of
`findSafePosition` (i.e. not the documented fallback) is at wrapped XZ
distance at least `minHeadDistance = 14.5` from the head, at least
`minSegmentDistance = 2.4` from every body segment, at least
`radius + minObstacleDistance = radius + 3.2` from every existing obstacle,
at least `minFoodDistance = 2.0` from every existing food, and at least
`minPickupDistance = 2.2` from every existing pickup. -/
theorem c3_spawn_safety (rng : ℕ → ℚ) (head : SnakeHeadState)
    (segments : List SnakeSegmentState) (obstacles : List ObstacleState)
    (foods : List FoodState) (pickups : List PickupState)
    (fuel i i' : ℕ) (p : Vec3)
    (haccept : SpawnSystem.findSafeAux rng head segments obstacles foods pickups fuel i
      = (some p, i')) :
    ((SPAWN_RULES.minHeadDistance : ℝ) ≤ Real.sqrt
        ((torusDistSqXZ p head.position GAME_CONFIG.torusWidth GAME_CONFIG.torusDepth : ℚ) : ℝ))
      ∧ (∀ s ∈ segments, (SPAWN_RULES.minSegmentDistance : ℝ) ≤ Real.sqrt
          ((torusDistSqXZ p s.position GAME_CONFIG.torusWidth GAME_CONFIG.torusDepth : ℚ) : ℝ))
      ∧ (∀ o ∈ obstacles, ((o.radius + SPAWN_RULES.minObstacleDistance : ℚ) : ℝ) ≤ Real.sqrt
          ((torusDistSqXZ p o.position GAME_CONFIG.torusWidth GAME_CONFIG.torusDepth : ℚ) : ℝ))
      ∧ (∀ f ∈ foods, (SPAWN_RULES.minFoodDistance : ℝ) ≤ Real.sqrt
          ((torusDistSqXZ p f.position GAME_CONFIG.torusWidth GAME_CONFIG.torusDepth : ℚ) : ℝ))
      ∧ (∀ pk ∈ pickups, (SPAWN_RULES.minPickupDistance : ℝ) ≤ Real.sqrt
          ((torusDistSqXZ p pk.position GAME_CONFIG.torusWidth GAME_CONFIG.torusDepth : ℚ) : ℝ)) := by
  have hok := findSafeAux_some_ok rng head segments obstacles foods pickups fuel i i' p haccept
  unfold SpawnSystem.spawnCandidateOk at hok
  rw [Bool.and_eq_true, Bool.and_eq_true, Bool.and_eq_true, Bool.and_eq_true] at hok
  obtain ⟨⟨⟨⟨hhead, hsegs⟩, hobs⟩, hfoods⟩, hpicks⟩ := hok
  refine ⟨?_, ?_, ?_, ?_, ?_⟩
  · exact distGE_sqrt (torusDistSqXZ_nonneg _ _ _ _) hhead
  · intro s hs
    have := List.all_eq_true.mp hsegs s hs
    rw [Bool.not_eq_true'] at this
    exact not_distLT_sqrt (torusDistSqXZ_nonneg _ _ _ _) this
  · intro o ho
    have := List.all_eq_true.mp hobs o ho
    rw [Bool.not_eq_true'] at this
    exact not_distLT_sqrt (torusDistSqXZ_nonneg _ _ _ _) this
  · intro f hf
    have := List.all_eq_true.mp hfoods f hf
    rw [Bool.not_eq_true'] at this
    exact not_distLT_sqrt (torusDistSqXZ_nonneg _ _ _ _) this
  · intro pk hpk
    have := List.all_eq_true.mp hpicks pk hpk
    rw [Bool.not_eq_true'] at this
    exact not_distLT_sqrt (torusDistSqXZ_nonneg _ _ _ _) this

/-- The all-zeros random stream. -/
def rngZero : ℕ → ℚ := fun _ => 0

/-- Witness for C3: the all-zeros stream accepts the corner candidate
`(-42, 0.7, -42)` on the first attempt against an empty world. -/
theorem c3_spawn_safety_witness :
    (SPAWN_RULES.minHeadDistance : ℝ) ≤ Real.sqrt
      ((torusDistSqXZ { x := -42, y := 0.7, z := -42 } headAtOrigin.position
        GAME_CONFIG.torusWidth GAME_CONFIG.torusDepth : ℚ) : ℝ) :=
  (c3_spawn_safety rngZero headAtOrigin [] [] [] [] 60 0 2 { x := -42, y := 0.7, z := -42 }
    (by with_unfolding_all decide)).1

theorem foods_seedObstaclesLoop (fns : TransFns) (head : SnakeHeadState)
    (segments : List SnakeSegmentState) :
    ∀ (n : ℕ) (st : SpawnState),
      (SpawnSystem.seedObstaclesLoop fns head segments n st).foods = st.foods := by
  intro n
  induction n with
  | zero => exact fun st => rfl
  | succ k ih =>
    intro st
    rw [SpawnSystem.seedObstaclesLoop, ih]

theorem foods_growObstaclePopulation (fns : TransFns) (ctx : SpawnContext) (st : SpawnState) :
    (SpawnSystem.growObstaclePopulation fns ctx st).foods = st.foods := by
  simp only [SpawnSystem.growObstaclePopulation]
  split_ifs <;> rfl

theorem foods_trySpawnPowerup (head : SnakeHeadState) (segments : List SnakeSegmentState)
    (st : SpawnState) :
    (SpawnSystem.trySpawnPowerup head segments st).foods = st.foods := by
  unfold SpawnSystem.trySpawnPowerup
  split_ifs <;> rfl

/-- `ensureFoodCount` brings the food count to exactly
`max current foodCount` (with the configured `foodCount = 1`). -/
theorem ensureFoodCount_length (head : SnakeHeadState) (segments : List SnakeSegmentState)
    (st : SpawnState) :
    (SpawnSystem.ensureFoodCount head segments st).foods.length
      = max st.foods.length SPAWN_RULES.foodCount := by
  unfold SpawnSystem.ensureFoodCount
  show (SpawnSystem.ensureFoodLoop head segments SPAWN_RULES.foodCount st).foods.length = _
  rw [show SPAWN_RULES.foodCount = 1 from rfl]
  unfold SpawnSystem.ensureFoodLoop
  split_ifs with h
  · have h1 : st.foods.length < 1 := h
    unfold SpawnSystem.ensureFoodLoop
    simp only [List.length_append, List.length_cons, List.length_nil]
    omega
  · have h1 : ¬ st.foods.length < 1 := h
    omega

/-- `SpawnSystem.update` changes the food list exactly as `ensureFoodCount`
does (obstacle growth and power-up spawning leave it alone). -/
theorem foods_update (fns : TransFns) (dt : ℚ) (ctx : SpawnContext) (st : SpawnState) :
    (SpawnSystem.update fns dt ctx st).foods
      = (SpawnSystem.ensureFoodCount ctx.head ctx.segments st).foods := by
  simp only [SpawnSystem.update]
  split_ifs with h
  · show (SpawnSystem.trySpawnPowerup _ _ _).foods = _
    rw [foods_trySpawnPowerup]
    show (SpawnSystem.growObstaclePopulation _ _ _).foods = _
    rw [foods_growObstaclePopulation]
  · show (SpawnSystem.growObstaclePopulation _ _ _).foods = _
    rw [foods_growObstaclePopulation]

theorem spliceOutBy_length_le (key : α → ℕ) (k : ℕ) (l : List α) :
    (spliceOutBy key k l).length ≤ l.length := by
  unfold spliceOutBy
  cases h : l.findIdx? (fun a => key a == k) with
  | none => exact le_refl _
  | some i =>
    rw [List.length_eraseIdx]
    split_ifs <;> omega

/-- C9: after `SpawnSystem.reset` the food list has exactly the configured
`foodCount` target (1); and after consuming any one food (or none, for an
absent id), the next `SpawnSystem.update` call restores the food list length
to the target. -/
theorem c9_food_replenishment (fns : TransFns) :
    (∀ (head : SnakeHeadState) (segments : List SnakeSegmentState) (st : SpawnState),
      (SpawnSystem.reset fns head segments st).foods.length = SPAWN_RULES.foodCount)
      ∧ (∀ (st : SpawnState) (fid : ℕ) (dt : ℚ) (ctx : SpawnContext),
          st.foods.length = SPAWN_RULES.foodCount →
          (SpawnSystem.update fns dt ctx (SpawnSystem.consumeFood fid st)).foods.length
            = SPAWN_RULES.foodCount) := by
  constructor
  · intro head segments st
    unfold SpawnSystem.reset
    dsimp only
    rw [ensureFoodCount_length, foods_seedObstaclesLoop]
    rfl
  · intro st fid dt ctx hlen
    rw [foods_update, ensureFoodCount_length]
    have hle : (SpawnSystem.consumeFood fid st).foods.length ≤ SPAWN_RULES.foodCount := by
      rw [← hlen]
      exact spliceOutBy_length_le _ _ _
    omega

/-- Witness for C9: reset against an empty world with the all-zeros stream,
then consume the only food and update. -/
theorem c9_food_replenishment_witness :
    (SpawnSystem.reset fnsZero headAtOrigin [] (SpawnSystem.init rngZero)).foods.length
        = SPAWN_RULES.foodCount
      ∧ (SpawnSystem.update fnsZero (1/60)
          { head := headAtOrigin, segments := [], elapsedSec := 0, difficulty01 := 0 }
          (SpawnSystem.consumeFood 1
            (SpawnSystem.reset fnsZero headAtOrigin [] (SpawnSystem.init rngZero)))).foods.length
        = SPAWN_RULES.foodCount := by
  have h := c9_food_replenishment fnsZero
  exact ⟨h.1 headAtOrigin [] (SpawnSystem.init rngZero),
    h.2 _ 1 (1/60) { head := headAtOrigin, segments := [], elapsedSec := 0, difficulty01 := 0 }
      (h.1 headAtOrigin [] (SpawnSystem.init rngZero))⟩

/-- `findIndex` + `splice(idx, 1)` computes the usual remove-first-match
recursion. -/
theorem spliceOutBy_cons (key : α → ℕ) (k : ℕ) (a : α) (l : List α) :
    spliceOutBy key k (a :: l)
      = if key a = k then l else a :: spliceOutBy key k l := by
  unfold spliceOutBy
  rw [List.findIdx?_cons]
  by_cases h : key a = k
  · rw [if_pos (by simpa using h), if_pos h]
    exact List.eraseIdx_cons_zero
  · rw [if_neg (by simpa using h), if_neg h, List.findIdx?_succ]
    cases hidx : l.findIdx? (fun b => key b == k) with
    | none => simp
    | some j =>
      simp only [Option.map_some]
      exact List.eraseIdx_cons_succ

/-- Removing an absent key leaves the list unchanged. -/
theorem spliceOutBy_not_mem (key : α → ℕ) (k : ℕ) :
    ∀ l : List α, k ∉ l.map key → spliceOutBy key k l = l := by
  intro l
  induction l with
  | nil => intro _; rfl
  | cons a rest ih =>
    intro hk
    rw [List.map_cons, List.mem_cons] at hk
    push_neg at hk
    rw [spliceOutBy_cons, if_neg (fun h => hk.1 h.symm), ih hk.2]

/-- Removing a present key from a list with pairwise-distinct keys removes
exactly the one matching element, keeping all others in order (the `filter`
of the non-matching elements). -/
theorem spliceOutBy_mem_nodup (key : α → ℕ) (k : ℕ) :
    ∀ l : List α, (l.map key).Nodup → k ∈ l.map key →
      spliceOutBy key k l = l.filter (fun a => key a != k) := by
  intro l
  induction l with
  | nil => intro _ hk; exact absurd hk (List.not_mem_nil k)
  | cons a rest ih =>
    intro hnd hk
    rw [List.map_cons, List.nodup_cons] at hnd
    rw [spliceOutBy_cons]
    by_cases h : key a = k
    · rw [if_pos h, List.filter_cons_of_neg (by simp [h]), List.filter_eq_self.mpr]
      intro b hb
      simp only [bne_iff_ne, ne_eq]
      intro hbk
      exact hnd.1 (h ▸ hbk ▸ List.mem_map_of_mem key hb)
    · rw [if_neg h, List.filter_cons_of_pos (by simp [h]), ih hnd.2]
      rw [List.map_cons, List.mem_cons] at hk
      rcases hk with hk | hk
      · exact absurd hk.symm h
      · exact hk

/-- C10: `consumeFood` with an absent id leaves the food list unchanged;
with a present id (ids are pairwise distinct in the spawn system — it
allocates them with a monotone counter) it removes exactly the one food
carrying that id and keeps every other food in its original relative order;
and it never touches the pickup or obstacle lists.  The same holds for
`consumePickup` on the pickup list. -/
theorem c10_consume_semantics (st : SpawnState) (fid pid : ℕ) :
    ((fid ∉ st.foods.map FoodState.id →
        (SpawnSystem.consumeFood fid st).foods = st.foods)
      ∧ ((st.foods.map FoodState.id).Nodup → fid ∈ st.foods.map FoodState.id →
          (SpawnSystem.consumeFood fid st).foods
            = st.foods.filter (fun f => f.id != fid))
      ∧ (SpawnSystem.consumeFood fid st).pickups = st.pickups
      ∧ (SpawnSystem.consumeFood fid st).obstacles = st.obstacles)
    ∧ ((pid ∉ st.pickups.map PickupState.id →
        (SpawnSystem.consumePickup pid st).pickups = st.pickups)
      ∧ ((st.pickups.map PickupState.id).Nodup → pid ∈ st.pickups.map PickupState.id →
          (SpawnSystem.consumePickup pid st).pickups
            = st.pickups.filter (fun p => p.id != pid))
      ∧ (SpawnSystem.consumePickup pid st).foods = st.foods
      ∧ (SpawnSystem.consumePickup pid st).obstacles = st.obstacles) := by
  refine ⟨⟨?_, ?_, rfl, rfl⟩, ⟨?_, ?_, rfl, rfl⟩⟩
  · exact fun h => spliceOutBy_not_mem FoodState.id fid st.foods h
  · exact fun hnd hm => spliceOutBy_mem_nodup FoodState.id fid st.foods hnd hm
  · exact fun h => spliceOutBy_not_mem PickupState.id pid st.pickups h
  · exact fun hnd hm => spliceOutBy_mem_nodup PickupState.id pid st.pickups hnd hm

/-- A concrete spawn state with two foods and one pickup. -/
def stTwoFoods : SpawnState :=
  { rng := rngZero, rngIdx := 0, nextId := 6, powerupTimerSec := 10
    foods := [{ id := 1, position := { x := 3, y := 0.7, z := 0 } },
              { id := 2, position := { x := -3, y := 0.7, z := 5 } }]
    pickups := [{ id := 5, position := { x := 9, y := 0.7, z := 9 }, kind := PowerupKind.phase }]
    obstacles := [] }

/-- Witness for C10 at the concrete state: id 3 is absent (no change), id 1
is present (only food 2 remains). -/
theorem c10_consume_semantics_witness :
    (SpawnSystem.consumeFood 3 stTwoFoods).foods = stTwoFoods.foods
      ∧ (SpawnSystem.consumeFood 1 stTwoFoods).foods
          = stTwoFoods.foods.filter (fun f => f.id != 1) := by
  constructor
  · exact (c10_consume_semantics stTwoFoods 3 5).1.1 (by with_unfolding_all decide)
  · exact (c10_consume_semantics stTwoFoods 1 5).1.2.1 (by with_unfolding_all decide)
      (by with_unfolding_all decide)

/-! ## Game session (src/game/game-session.ts) -/

/-- `POWERUP_DURATIONS` (game-config.ts). -/
def POWERUP_DURATIONS : PowerupKind → ℚ
  | PowerupKind.overdrive => 8.5
  | PowerupKind.phase => 5.5
  | PowerupKind.magnet => 9.0

/-- Per-tick input `{turn, assist}`. -/
structure FrameInput where
  turn : ℚ
  assist : ℚ

/-- Full `GameSession` state.  The optional event callbacks are pure
side-channels with no return value consumed by the core (the spec requires
the core to function with all of them absent), so the embedding omits
them. -/
structure GameState where
  snake : SnakeState
  spawn : SpawnState
  scoring : ScoringState
  activePowerup : Option PowerupState
  elapsedSec : ℚ
  difficulty01 : ℚ
  spawnGraceSec : ℚ

/-- `this.activePowerup?.kind === k`. -/
def powerupIs (ap : Option PowerupState) (k : PowerupKind) : Bool :=
  match ap with
  | some p => p.kind = k
  | none => false

namespace GameSession

/-- The snake configuration built in the `GameSession` constructor. -/
def snakeConfig : SnakeConfig :=
  { width := GAME_CONFIG.torusWidth, depth := GAME_CONFIG.torusDepth
    turnSmoothing := 10.5, segmentSpacing := 0.9, maxSegments := 340 }

/-- Constructor state. -/
def init (rng : ℕ → ℚ) : GameState :=
  { snake := SnakeController.init snakeConfig
    spawn := SpawnSystem.init rng
    scoring := ScoringSystem.initial
    activePowerup := none
    elapsedSec := 0, difficulty01 := 0, spawnGraceSec := START_GRACE_SEC }

/-- `reset(options?)`. -/
def reset (fns : TransFns) (startPosition : Option Vec3) (headingRad : Option ℚ)
    (st : GameState) : GameState :=
  let snake := SnakeController.reset fns 8 startPosition (headingRad.getD 0) st.snake
  let spawn := SpawnSystem.reset fns snake.head snake.segments st.spawn
  { snake := snake, spawn := spawn, scoring := ScoringSystem.initial
    activePowerup := none, elapsedSec := 0, difficulty01 := 0
    spawnGraceSec := START_GRACE_SEC }

/-- `updatePowerupTimers(dt)`. -/
def updatePowerupTimers (dt : ℚ) (ap : Option PowerupState) : Option PowerupState :=
  match ap with
  | none => none
  | some p =>
    let ttl := p.ttlSec - dt
    if ttl ≤ 0 then none else some { p with ttlSec := ttl }

/-- `update(dt, frameInput)`: the strict tick protocol.  Returns the
`SessionTickResult.gameOver` flag and the post-tick state. -/
def update (fns : TransFns) (dt : ℚ) (frameInput : FrameInput) (st : GameState) :
    Bool × GameState :=
  let elapsedSec := st.elapsedSec + dt
  let difficulty01 := clamp (elapsedSec / 180) 0 1
  let spawnGraceSec := max 0 (st.spawnGraceSec - dt)
  let activePowerup1 := updatePowerupTimers dt st.activePowerup
  let powerupSpeedBonus : ℚ := if powerupIs activePowerup1 PowerupKind.overdrive then 1.28 else 1
  let speedTarget :=
    (GAME_CONFIG.baseSpeed + difficulty01 * (GAME_CONFIG.maxSpeed - GAME_CONFIG.baseSpeed)) *
      powerupSpeedBonus
  let turnRateBonus := 1 + frameInput.assist * 0.18
  let turnRate := GAME_CONFIG.turnRate * turnRateBonus
  let snake1 := SnakeController.update fns dt frameInput.turn speedTarget turnRate st.snake
  let spawn1 :=
    if powerupIs activePowerup1 PowerupKind.magnet then
      SpawnSystem.attractFoodsTo fns snake1.head 4.6 dt st.spawn
    else st.spawn
  let spawn2 := SpawnSystem.update fns dt
    { head := snake1.head, segments := snake1.segments
      elapsedSec := elapsedSec, difficulty01 := difficulty01 } spawn1
  let scoring1 := ScoringSystem.setMultiplierBonus
    (if powerupIs activePowerup1 PowerupKind.overdrive then 0.75 else 0) st.scoring
  let scoring2 := ScoringSystem.update dt scoring1
  let food := checkFoodCollision snake1.head spawn2.foods
    GAME_CONFIG.torusWidth GAME_CONFIG.torusDepth
  let spawn3 :=
    match food with
    | some f => SpawnSystem.consumeFood f.id spawn2
    | none => spawn2
  let snake2 :=
    match food with
    | some _ => SnakeController.grow 1 snake1
    | none => snake1
  let scoring3 :=
    match food with
    | some _ => (ScoringSystem.onFoodCollected scoring2).1
    | none => scoring2
  let pickup := checkPickupCollision snake2.head spawn3.pickups
    GAME_CONFIG.torusWidth GAME_CONFIG.torusDepth
  let spawn4 :=
    match pickup with
    | some pk => SpawnSystem.consumePickup pk.id spawn3
    | none => spawn3
  let activePowerup2 :=
    match pickup with
    | some pk => some { kind := pk.kind, ttlSec := POWERUP_DURATIONS pk.kind }
    | none => activePowerup1
  let scoring4 :=
    match pickup with
    | some _ => (ScoringSystem.onPowerupCollected scoring3).1
    | none => scoring3
  let phase := powerupIs activePowerup2 PowerupKind.phase
  let collisionsBlocked := decide (spawnGraceSec > 0)
  let selfHit := checkSelfCollision snake2.head snake2.segments
    GAME_CONFIG.torusWidth GAME_CONFIG.torusDepth
  let st' : GameState :=
    { snake := snake2, spawn := spawn4, scoring := scoring4, activePowerup := activePowerup2
      elapsedSec := elapsedSec, difficulty01 := difficulty01, spawnGraceSec := spawnGraceSec }
  if selfHit && !phase && !collisionsBlocked then (true, st')
  else
    let obstacleHit := checkObstacleCollision fns snake2.head spawn4.obstacles elapsedSec
      GAME_CONFIG.torusWidth GAME_CONFIG.torusDepth
    if obstacleHit.isSome && !phase && !collisionsBlocked then (true, st')
    else (false, st')

end GameSession

/-- State after `reset` followed by `k` zero-input ticks at `dt = 1/60`. -/
def simStates (fns : TransFns) (rng : ℕ → ℚ) (startPosition : Option Vec3)
    (headingRad : Option ℚ) : ℕ → GameState
  | 0 => GameSession.reset fns startPosition headingRad (GameSession.init rng)
  | k + 1 =>
    (GameSession.update fns (1/60) { turn := 0, assist := 0 }
      (simStates fns rng startPosition headingRad k)).2

/-- `gameOver` flag of the `(k+1)`-th zero-input tick at `dt = 1/60`. -/
def tickGameOver (fns : TransFns) (rng : ℕ → ℚ) (startPosition : Option Vec3)
    (headingRad : Option ℚ) (k : ℕ) : Bool :=
  (GameSession.update fns (1/60) { turn := 0, assist := 0 }
    (simStates fns rng startPosition headingRad k)).1

/-- The grace timer after one `update` is `max 0 (previous - dt)`, whatever
else happens in the tick. -/
theorem grace_update (fns : TransFns) (dt : ℚ) (input : FrameInput) (st : GameState) :
    ((GameSession.update fns dt input st).2).spawnGraceSec
      = max 0 (st.spawnGraceSec - dt) := by
  simp only [GameSession.update]
  split_ifs <;> rfl

/-- While the decremented grace timer is still positive, `update` cannot
report game over. -/
theorem update_blocked (fns : TransFns) (dt : ℚ) (input : FrameInput) (st : GameState)
    (h : 0 < st.spawnGraceSec - dt) :
    (GameSession.update fns dt input st).1 = false := by
  simp only [GameSession.update]
  have hb : decide (max 0 (st.spawnGraceSec - dt) > 0) = true :=
    decide_eq_true (lt_max_of_lt_right h)
  rw [hb]
  simp

theorem max0_sub_max0 (a d : ℚ) (hd : 0 ≤ d) : max 0 (max 0 a - d) = max 0 (a - d) := by
  rcases le_or_lt 0 a with h | h
  · rw [max_eq_right h]
  · rw [max_eq_left h.le, max_eq_left (by linarith), max_eq_left (by linarith)]

/-- Closed form of the grace timer along the zero-input run. -/
theorem grace_simStates (fns : TransFns) (rng : ℕ → ℚ) (startPosition : Option Vec3)
    (headingRad : Option ℚ) (k : ℕ) :
    (simStates fns rng startPosition headingRad k).spawnGraceSec
      = max 0 (START_GRACE_SEC - k * (1/60)) := by
  induction k with
  | zero =>
    show START_GRACE_SEC = _
    rw [show START_GRACE_SEC = 2.4 from rfl]
    norm_num
  | succ n ih =>
    rw [simStates, grace_update, ih, max0_sub_max0 _ _ (by norm_num)]
    congr 1
    push_cast
    ring

/-- C1 (amended): for every random stream driving spawn placement, every
transcendental-function bundle, and every reset position and heading, the
first 143 zero-input ticks at `dt = 1/60` all return `gameOver = false`: the
grace timer `2.4 - k/60` is still positive when they run their collision
gate.  On the 144th tick the timer has reached exactly 0, the gate is open
(`spawnGraceSec > 0` is strict), and a stream that exhausts the
rejection-sampling budget can have placed an obstacle directly on the head's
straight path, so `gameOver = true` is reachable (see the counterexample);
the spec's claim that all 144 ticks are safe for every stream fails only at
that final tick. -/
theorem c1_grace_blocks_first_143_ticks (fns : TransFns) (rng : ℕ → ℚ)
    (startPosition : Option Vec3) (headingRad : Option ℚ) (k : ℕ) (hk : k < 143) :
    tickGameOver fns rng startPosition headingRad k = false := by
  unfold tickGameOver
  apply update_blocked
  rw [grace_simStates]
  have hk' : (k : ℚ) ≤ 142 := by exact_mod_cast Nat.le_of_lt_succ hk
  have h1 : (0:ℚ) < START_GRACE_SEC - k * (1/60) - 1/60 := by
    rw [show START_GRACE_SEC = 2.4 from rfl]
    norm_num
    linarith
  have h2 := le_max_right (0:ℚ) (START_GRACE_SEC - k * (1/60))
  linarith

/-- Witness for the amended C1 at the first tick of the claim's concrete
scenario. -/
theorem c1_grace_blocks_first_143_ticks_witness :
    tickGameOver fnsZero rngZero (some { x := 0, y := 0.7, z := 0 }) (some 0) 0 = false :=
  c1_grace_blocks_first_143_ticks fnsZero rngZero (some { x := 0, y := 0.7, z := 0 }) (some 0) 0
    (by norm_num)

/-- Transcendental-function bundle for the straight-line counterexample run:
the heading stays 0 throughout (zero turn input keeps the angular velocity at
exactly 0), so `Math.cos`/`Math.sin` are only ever evaluated at 0 — where
this bundle returns their true values 1 and 0 — and `Math.hypot` is only
evaluated on axis-aligned arguments `(a, 0)`, where this bundle returns its
true value `|a|`.  The `Math.exp` value is multiplied by the zero factor
`desiredAngular - angularVelocity` in every tick of the run, and `Math.PI`
is only drawn for pulsing obstacles, of which this run creates none. -/
def fnsAxis : TransFns :=
  { sinQ := fun _ => 0
    cosQ := fun _ => 1
    expQ := fun _ => 0
    hypotQ := fun a b => if b = 0 then |a| else (if a = 0 then |b| else 0)
    piQ := 0 }

/-- Adversarial but legal (`[0,1)`-valued) random stream for the C1
counterexample.  Ledger of the 37 draws the run consumes: 0/1 the
constructor's power-up timer (field initializer then constructor body), 2 the
reset timer, 3..6 the blocking obstacle (accepted at `(16.1, 0.7, 0)` — at
distance 16.1 ≥ 14.5 from the head and just outside the 16-unit start safe
corridor — static, radius 2.4), 7..34 seven far-away static obstacles along
`z = -30`, 35/36 the food at `(30, 0.7, 30)`.  No draw happens during the
144 ticks: the food is never eaten, the obstacle target stays at 8, and the
power-up timer (11 s) outlives the grace window. -/
def advRng : ℕ → ℚ := fun n =>
  if n < 3 then 1/2
  else if n = 3 then 83/120
  else if n = 4 then 1/2
  else if n = 5 then 1/2
  else if n = 6 then 12/13
  else if n < 35 then
    (let m := n - 7
     let j := m / 4
     match m % 4 with
     | 0 => [1/7, 11/42, 8/21, 1/2, 13/21, 31/42, 6/7].getD j (1/2)
     | 1 => 1/7
     | 2 => 1/2
     | _ => 0)
  else 6/7

/-- The claim's first concrete reset position `(0, 0.7, 0)`. -/
def cxStart : Option Vec3 := some { x := 0, y := 0.7, z := 0 }

/-- The eight obstacles `advRng` seeds (ids 1..8, in creation order). -/
def advObstacles : List ObstacleState :=
  [{ id := 1, position := { x := 161/10, y := 0.7, z := 0 }, radius := 12/5
     kind := ObstacleKind.static, pulseAmplitude := 0, pulseFrequency := 0, pulsePhase := 0 },
   { id := 2, position := { x := -30, y := 0.7, z := -30 }, radius := 6/5
     kind := ObstacleKind.static, pulseAmplitude := 0, pulseFrequency := 0, pulsePhase := 0 },
   { id := 3, position := { x := -20, y := 0.7, z := -30 }, radius := 6/5
     kind := ObstacleKind.static, pulseAmplitude := 0, pulseFrequency := 0, pulsePhase := 0 },
   { id := 4, position := { x := -10, y := 0.7, z := -30 }, radius := 6/5
     kind := ObstacleKind.static, pulseAmplitude := 0, pulseFrequency := 0, pulsePhase := 0 },
   { id := 5, position := { x := 0, y := 0.7, z := -30 }, radius := 6/5
     kind := ObstacleKind.static, pulseAmplitude := 0, pulseFrequency := 0, pulsePhase := 0 },
   { id := 6, position := { x := 10, y := 0.7, z := -30 }, radius := 6/5
     kind := ObstacleKind.static, pulseAmplitude := 0, pulseFrequency := 0, pulsePhase := 0 },
   { id := 7, position := { x := 20, y := 0.7, z := -30 }, radius := 6/5
     kind := ObstacleKind.static, pulseAmplitude := 0, pulseFrequency := 0, pulsePhase := 0 },
   { id := 8, position := { x := 30, y := 0.7, z := -30 }, radius := 6/5
     kind := ObstacleKind.static, pulseAmplitude := 0, pulseFrequency := 0, pulsePhase := 0 }]

/-- Segments of the counterexample run: ids 1..8 on the line `z = 0` at
height 0.7, given by their x coordinates. -/
def cxSegs (xs : List ℚ) : List SnakeSegmentState :=
  mapWithIndex (fun i x => { id := i + 1, position := { x := x, y := 0.7, z := 0 } }) 0 xs

/-- Trail of the counterexample run: samples on the line `z = 0` at height
0.7, given as (x, cumulative distance) pairs. -/
def cxTrail (ps : List (ℚ × ℚ)) : List TrailSample :=
  ps.map fun p => { position := { x := p.1, y := 0.7, z := 0 }, distance := p.2 }

/-- Spawn state of the counterexample run: after the reset seeding, only the
power-up timer changes from tick to tick. -/
def cxSpawn (timer : ℚ) : SpawnState :=
  { rng := advRng, rngIdx := 37, nextId := 10, powerupTimerSec := timer
    foods := [{ id := 9, position := { x := 30, y := 0.7, z := 30 } }]
    pickups := []
    obstacles := advObstacles }

/-- Session state of the counterexample run, parametrized by the quantities
that change from tick to tick (head x and speed, total distance, power-up
timer, elapsed time, difficulty, grace, segment xs, trail).  The heading,
angular velocity, scoring state, obstacle/food/pickup lists and stream index
are constant along the run. -/
def cxState (hx hspeed total timer elapsed diff grace : ℚ)
    (segxs : List ℚ) (trail : List (ℚ × ℚ)) : GameState :=
  { snake :=
      { head := { position := { x := hx, y := 0.7, z := 0 }, headingRad := 0
                  speed := hspeed, angularVelocity := 0 }
        segments := cxSegs segxs, trail := cxTrail trail, totalDistance := total
        config := GameSession.snakeConfig }
    spawn := cxSpawn timer
    scoring := ScoringSystem.initial
    activePowerup := none
    elapsedSec := elapsed, difficulty01 := diff, spawnGraceSec := grace }

set_option maxRecDepth 40000

/-! The definitions `cxSt0 .. cxSt143` below are the machine-computed states
of the counterexample run after 0 .. 143 ticks; each `cxStep` theorem checks
one tick of `GameSession.update` by kernel computation, and
`c1_counterexample` chains them. -/
def cxSt0 : GameState := cxState (0/1 : ℚ) (0/1 : ℚ) (0/1 : ℚ) (11/1 : ℚ) (0/1 : ℚ) (0/1 : ℚ) (12/5 : ℚ) [(-9/10 : ℚ), (-9/5 : ℚ), (-27/10 : ℚ), (-18/5 : ℚ), (-9/2 : ℚ), (-27/5 : ℚ), (-63/10 : ℚ), (-36/5 : ℚ)] [((-99/10 : ℚ), (-99/10 : ℚ)), ((-189/20 : ℚ), (-189/20 : ℚ)), ((-9/1 : ℚ), (-9/1 : ℚ)), ((-171/20 : ℚ), (-171/20 : ℚ)), ((-81/10 : ℚ), (-81/10 : ℚ)), ((-153/20 : ℚ), (-153/20 : ℚ)), ((-36/5 : ℚ), (-36/5 : ℚ)), ((-27/4 : ℚ), (-27/4 : ℚ)), ((-63/10 : ℚ), (-63/10 : ℚ)), ((-117/20 : ℚ), (-117/20 : ℚ)), ((-27/5 : ℚ), (-27/5 : ℚ)), ((-99/20 : ℚ), (-99/20 : ℚ)), ((-9/2 : ℚ), (-9/2 : ℚ)), ((-81/20 : ℚ), (-81/20 : ℚ)), ((-18/5 : ℚ), (-18/5 : ℚ)), ((-63/20 : ℚ), (-63/20 : ℚ)), ((-27/10 : ℚ), (-27/10 : ℚ)), ((-9/4 : ℚ), (-9/4 : ℚ)), ((-9/5 : ℚ), (-9/5 : ℚ)), ((-27/20 : ℚ), (-27/20 : ℚ)), ((-9/10 : ℚ), (-9/10 : ℚ)), ((-9/20 : ℚ), (-9/20 : ℚ)), ((0/1 : ℚ), (0/1 : ℚ))]

def cxSt1 : GameState := cxState (6601/72000 : ℚ) (6601/1200 : ℚ) (6601/72000 : ℚ) (659/60 : ℚ) (1/60 : ℚ) (1/10800 : ℚ) (143/60 : ℚ) [(-58199/72000 : ℚ), (-122999/72000 : ℚ), (-187799/72000 : ℚ), (-252599/72000 : ℚ), (-317399/72000 : ℚ), (-382199/72000 : ℚ), (-446999/72000 : ℚ), (-511799/72000 : ℚ)] [((-99/10 : ℚ), (-99/10 : ℚ)), ((-189/20 : ℚ), (-189/20 : ℚ)), ((-9/1 : ℚ), (-9/1 : ℚ)), ((-171/20 : ℚ), (-171/20 : ℚ)), ((-81/10 : ℚ), (-81/10 : ℚ)), ((-153/20 : ℚ), (-153/20 : ℚ)), ((-36/5 : ℚ), (-36/5 : ℚ)), ((-27/4 : ℚ), (-27/4 : ℚ)), ((-63/10 : ℚ), (-63/10 : ℚ)), ((-117/20 : ℚ), (-117/20 : ℚ)), ((-27/5 : ℚ), (-27/5 : ℚ)), ((-99/20 : ℚ), (-99/20 : ℚ)), ((-9/2 : ℚ), (-9/2 : ℚ)), ((-81/20 : ℚ), (-81/20 : ℚ)), ((-18/5 : ℚ), (-18/5 : ℚ)), ((-63/20 : ℚ), (-63/20 : ℚ)), ((-27/10 : ℚ), (-27/10 : ℚ)), ((-9/4 : ℚ), (-9/4 : ℚ)), ((-9/5 : ℚ), (-9/5 : ℚ)), ((-27/20 : ℚ), (-27/20 : ℚ)), ((-9/10 : ℚ), (-9/10 : ℚ)), ((-9/20 : ℚ), (-9/20 : ℚ)), ((0/1 : ℚ), (0/1 : ℚ))]

def cxSt2 : GameState := cxState (1467/8000 : ℚ) (3301/600 : ℚ) (1467/8000 : ℚ) (329/30 : ℚ) (1/30 : ℚ) (1/5400 : ℚ) (71/30 : ℚ) [(-5733/8000 : ℚ), (-12933/8000 : ℚ), (-20133/8000 : ℚ), (-27333/8000 : ℚ), (-34533/8000 : ℚ), (-41733/8000 : ℚ), (-48933/8000 : ℚ), (-56133/8000 : ℚ)] [((-99/10 : ℚ), (-99/10 : ℚ)), ((-189/20 : ℚ), (-189/20 : ℚ)), ((-9/1 : ℚ), (-9/1 : ℚ)), ((-171/20 : ℚ), (-171/20 : ℚ)), ((-81/10 : ℚ), (-81/10 : ℚ)), ((-153/20 : ℚ), (-153/20 : ℚ)), ((-36/5 : ℚ), (-36/5 : ℚ)), ((-27/4 : ℚ), (-27/4 : ℚ)), ((-63/10 : ℚ), (-63/10 : ℚ)), ((-117/20 : ℚ), (-117/20 : ℚ)), ((-27/5 : ℚ), (-27/5 : ℚ)), ((-99/20 : ℚ), (-99/20 : ℚ)), ((-9/2 : ℚ), (-9/2 : ℚ)), ((-81/20 : ℚ), (-81/20 : ℚ)), ((-18/5 : ℚ), (-18/5 : ℚ)), ((-63/20 : ℚ), (-63/20 : ℚ)), ((-27/10 : ℚ), (-27/10 : ℚ)), ((-9/4 : ℚ), (-9/4 : ℚ)), ((-9/5 : ℚ), (-9/5 : ℚ)), ((-27/20 : ℚ), (-27/20 : ℚ)), ((-9/10 : ℚ), (-9/10 : ℚ)), ((-9/20 : ℚ), (-9/20 : ℚ)), ((0/1 : ℚ), (0/1 : ℚ))]

def cxSt3 : GameState := cxState (3301/12000 : ℚ) (2201/400 : ℚ) (3301/12000 : ℚ) (219/20 : ℚ) (1/20 : ℚ) (1/3600 : ℚ) (47/20 : ℚ) [(-7499/12000 : ℚ), (-18299/12000 : ℚ), (-29099/12000 : ℚ), (-39899/12000 : ℚ), (-50699/12000 : ℚ), (-61499/12000 : ℚ), (-72299/12000 : ℚ), (-83099/12000 : ℚ)] [((-99/10 : ℚ), (-99/10 : ℚ)), ((-189/20 : ℚ), (-189/20 : ℚ)), ((-9/1 : ℚ), (-9/1 : ℚ)), ((-171/20 : ℚ), (-171/20 : ℚ)), ((-81/10 : ℚ), (-81/10 : ℚ)), ((-153/20 : ℚ), (-153/20 : ℚ)), ((-36/5 : ℚ), (-36/5 : ℚ)), ((-27/4 : ℚ), (-27/4 : ℚ)), ((-63/10 : ℚ), (-63/10 : ℚ)), ((-117/20 : ℚ), (-117/20 : ℚ)), ((-27/5 : ℚ), (-27/5 : ℚ)), ((-99/20 : ℚ), (-99/20 : ℚ)), ((-9/2 : ℚ), (-9/2 : ℚ)), ((-81/20 : ℚ), (-81/20 : ℚ)), ((-18/5 : ℚ), (-18/5 : ℚ)), ((-63/20 : ℚ), (-63/20 : ℚ)), ((-27/10 : ℚ), (-27/10 : ℚ)), ((-9/4 : ℚ), (-9/4 : ℚ)), ((-9/5 : ℚ), (-9/5 : ℚ)), ((-27/20 : ℚ), (-27/20 : ℚ)), ((-9/10 : ℚ), (-9/10 : ℚ)), ((-9/20 : ℚ), (-9/20 : ℚ)), ((0/1 : ℚ), (0/1 : ℚ))]

def cxSt4 : GameState := cxState (2641/7200 : ℚ) (1651/300 : ℚ) (2641/7200 : ℚ) (164/15 : ℚ) (1/15 : ℚ) (1/2700 : ℚ) (7/3 : ℚ) [(-3839/7200 : ℚ), (-10319/7200 : ℚ), (-16799/7200 : ℚ), (-23279/7200 : ℚ), (-29759/7200 : ℚ), (-36239/7200 : ℚ), (-42719/7200 : ℚ), (-49199/7200 : ℚ)] [((-99/10 : ℚ), (-99/10 : ℚ)), ((-189/20 : ℚ), (-189/20 : ℚ)), ((-9/1 : ℚ), (-9/1 : ℚ)), ((-171/20 : ℚ), (-171/20 : ℚ)), ((-81/10 : ℚ), (-81/10 : ℚ)), ((-153/20 : ℚ), (-153/20 : ℚ)), ((-36/5 : ℚ), (-36/5 : ℚ)), ((-27/4 : ℚ), (-27/4 : ℚ)), ((-63/10 : ℚ), (-63/10 : ℚ)), ((-117/20 : ℚ), (-117/20 : ℚ)), ((-27/5 : ℚ), (-27/5 : ℚ)), ((-99/20 : ℚ), (-99/20 : ℚ)), ((-9/2 : ℚ), (-9/2 : ℚ)), ((-81/20 : ℚ), (-81/20 : ℚ)), ((-18/5 : ℚ), (-18/5 : ℚ)), ((-63/20 : ℚ), (-63/20 : ℚ)), ((-27/10 : ℚ), (-27/10 : ℚ)), ((-9/4 : ℚ), (-9/4 : ℚ)), ((-9/5 : ℚ), (-9/5 : ℚ)), ((-27/20 : ℚ), (-27/20 : ℚ)), ((-9/10 : ℚ), (-9/10 : ℚ)), ((-9/20 : ℚ), (-9/20 : ℚ)), ((0/1 : ℚ), (0/1 : ℚ))]

def cxSt5 : GameState := cxState (2201/4800 : ℚ) (1321/240 : ℚ) (2201/4800 : ℚ) (131/12 : ℚ) (1/12 : ℚ) (1/2160 : ℚ) (139/60 : ℚ) [(-2119/4800 : ℚ), (-6439/4800 : ℚ), (-10759/4800 : ℚ), (-15079/4800 : ℚ), (-19399/4800 : ℚ), (-23719/4800 : ℚ), (-28039/4800 : ℚ), (-32359/4800 : ℚ)] [((-99/10 : ℚ), (-99/10 : ℚ)), ((-189/20 : ℚ), (-189/20 : ℚ)), ((-9/1 : ℚ), (-9/1 : ℚ)), ((-171/20 : ℚ), (-171/20 : ℚ)), ((-81/10 : ℚ), (-81/10 : ℚ)), ((-153/20 : ℚ), (-153/20 : ℚ)), ((-36/5 : ℚ), (-36/5 : ℚ)), ((-27/4 : ℚ), (-27/4 : ℚ)), ((-63/10 : ℚ), (-63/10 : ℚ)), ((-117/20 : ℚ), (-117/20 : ℚ)), ((-27/5 : ℚ), (-27/5 : ℚ)), ((-99/20 : ℚ), (-99/20 : ℚ)), ((-9/2 : ℚ), (-9/2 : ℚ)), ((-81/20 : ℚ), (-81/20 : ℚ)), ((-18/5 : ℚ), (-18/5 : ℚ)), ((-63/20 : ℚ), (-63/20 : ℚ)), ((-27/10 : ℚ), (-27/10 : ℚ)), ((-9/4 : ℚ), (-9/4 : ℚ)), ((-9/5 : ℚ), (-9/5 : ℚ)), ((-27/20 : ℚ), (-27/20 : ℚ)), ((-9/10 : ℚ), (-9/10 : ℚ)), ((-9/20 : ℚ), (-9/20 : ℚ)), ((0/1 : ℚ), (0/1 : ℚ))]

def cxSt6 : GameState := cxState (13207/24000 : ℚ) (1101/200 : ℚ) (13207/24000 : ℚ) (109/10 : ℚ) (1/10 : ℚ) (1/1800 : ℚ) (23/10 : ℚ) [(-8393/24000 : ℚ), (-29993/24000 : ℚ), (-51593/24000 : ℚ), (-73193/24000 : ℚ), (-94793/24000 : ℚ), (-116393/24000 : ℚ), (-137993/24000 : ℚ), (-159593/24000 : ℚ)] [((-99/10 : ℚ), (-99/10 : ℚ)), ((-189/20 : ℚ), (-189/20 : ℚ)), ((-9/1 : ℚ), (-9/1 : ℚ)), ((-171/20 : ℚ), (-171/20 : ℚ)), ((-81/10 : ℚ), (-81/10 : ℚ)), ((-153/20 : ℚ), (-153/20 : ℚ)), ((-36/5 : ℚ), (-36/5 : ℚ)), ((-27/4 : ℚ), (-27/4 : ℚ)), ((-63/10 : ℚ), (-63/10 : ℚ)), ((-117/20 : ℚ), (-117/20 : ℚ)), ((-27/5 : ℚ), (-27/5 : ℚ)), ((-99/20 : ℚ), (-99/20 : ℚ)), ((-9/2 : ℚ), (-9/2 : ℚ)), ((-81/20 : ℚ), (-81/20 : ℚ)), ((-18/5 : ℚ), (-18/5 : ℚ)), ((-63/20 : ℚ), (-63/20 : ℚ)), ((-27/10 : ℚ), (-27/10 : ℚ)), ((-9/4 : ℚ), (-9/4 : ℚ)), ((-9/5 : ℚ), (-9/5 : ℚ)), ((-27/20 : ℚ), (-27/20 : ℚ)), ((-9/10 : ℚ), (-9/10 : ℚ)), ((-9/20 : ℚ), (-9/20 : ℚ)), ((0/1 : ℚ), (0/1 : ℚ)), ((13207/24000 : ℚ), (13207/24000 : ℚ))]

def cxSt7 : GameState := cxState (11557/18000 : ℚ) (6607/1200 : ℚ) (11557/18000 : ℚ) (653/60 : ℚ) (7/60 : ℚ) (7/10800 : ℚ) (137/60 : ℚ) [(-4643/18000 : ℚ), (-20843/18000 : ℚ), (-37043/18000 : ℚ), (-53243/18000 : ℚ), (-69443/18000 : ℚ), (-85643/18000 : ℚ), (-101843/18000 : ℚ), (-118043/18000 : ℚ)] [((-99/10 : ℚ), (-99/10 : ℚ)), ((-189/20 : ℚ), (-189/20 : ℚ)), ((-9/1 : ℚ), (-9/1 : ℚ)), ((-171/20 : ℚ), (-171/20 : ℚ)), ((-81/10 : ℚ), (-81/10 : ℚ)), ((-153/20 : ℚ), (-153/20 : ℚ)), ((-36/5 : ℚ), (-36/5 : ℚ)), ((-27/4 : ℚ), (-27/4 : ℚ)), ((-63/10 : ℚ), (-63/10 : ℚ)), ((-117/20 : ℚ), (-117/20 : ℚ)), ((-27/5 : ℚ), (-27/5 : ℚ)), ((-99/20 : ℚ), (-99/20 : ℚ)), ((-9/2 : ℚ), (-9/2 : ℚ)), ((-81/20 : ℚ), (-81/20 : ℚ)), ((-18/5 : ℚ), (-18/5 : ℚ)), ((-63/20 : ℚ), (-63/20 : ℚ)), ((-27/10 : ℚ), (-27/10 : ℚ)), ((-9/4 : ℚ), (-9/4 : ℚ)), ((-9/5 : ℚ), (-9/5 : ℚ)), ((-27/20 : ℚ), (-27/20 : ℚ)), ((-9/10 : ℚ), (-9/10 : ℚ)), ((-9/20 : ℚ), (-9/20 : ℚ)), ((0/1 : ℚ), (0/1 : ℚ)), ((13207/24000 : ℚ), (13207/24000 : ℚ))]

def cxSt8 : GameState := cxState (4403/6000 : ℚ) (413/75 : ℚ) (4403/6000 : ℚ) (163/15 : ℚ) (2/15 : ℚ) (1/1350 : ℚ) (34/15 : ℚ) [(-997/6000 : ℚ), (-6397/6000 : ℚ), (-11797/6000 : ℚ), (-17197/6000 : ℚ), (-22597/6000 : ℚ), (-27997/6000 : ℚ), (-33397/6000 : ℚ), (-38797/6000 : ℚ)] [((-99/10 : ℚ), (-99/10 : ℚ)), ((-189/20 : ℚ), (-189/20 : ℚ)), ((-9/1 : ℚ), (-9/1 : ℚ)), ((-171/20 : ℚ), (-171/20 : ℚ)), ((-81/10 : ℚ), (-81/10 : ℚ)), ((-153/20 : ℚ), (-153/20 : ℚ)), ((-36/5 : ℚ), (-36/5 : ℚ)), ((-27/4 : ℚ), (-27/4 : ℚ)), ((-63/10 : ℚ), (-63/10 : ℚ)), ((-117/20 : ℚ), (-117/20 : ℚ)), ((-27/5 : ℚ), (-27/5 : ℚ)), ((-99/20 : ℚ), (-99/20 : ℚ)), ((-9/2 : ℚ), (-9/2 : ℚ)), ((-81/20 : ℚ), (-81/20 : ℚ)), ((-18/5 : ℚ), (-18/5 : ℚ)), ((-63/20 : ℚ), (-63/20 : ℚ)), ((-27/10 : ℚ), (-27/10 : ℚ)), ((-9/4 : ℚ), (-9/4 : ℚ)), ((-9/5 : ℚ), (-9/5 : ℚ)), ((-27/20 : ℚ), (-27/20 : ℚ)), ((-9/10 : ℚ), (-9/10 : ℚ)), ((-9/20 : ℚ), (-9/20 : ℚ)), ((0/1 : ℚ), (0/1 : ℚ)), ((13207/24000 : ℚ), (13207/24000 : ℚ))]

def cxSt9 : GameState := cxState (1321/1600 : ℚ) (2203/400 : ℚ) (1321/1600 : ℚ) (217/20 : ℚ) (3/20 : ℚ) (1/1200 : ℚ) (9/4 : ℚ) [(-119/1600 : ℚ), (-1559/1600 : ℚ), (-2999/1600 : ℚ), (-4439/1600 : ℚ), (-5879/1600 : ℚ), (-7319/1600 : ℚ), (-8759/1600 : ℚ), (-10199/1600 : ℚ)] [((-99/10 : ℚ), (-99/10 : ℚ)), ((-189/20 : ℚ), (-189/20 : ℚ)), ((-9/1 : ℚ), (-9/1 : ℚ)), ((-171/20 : ℚ), (-171/20 : ℚ)), ((-81/10 : ℚ), (-81/10 : ℚ)), ((-153/20 : ℚ), (-153/20 : ℚ)), ((-36/5 : ℚ), (-36/5 : ℚ)), ((-27/4 : ℚ), (-27/4 : ℚ)), ((-63/10 : ℚ), (-63/10 : ℚ)), ((-117/20 : ℚ), (-117/20 : ℚ)), ((-27/5 : ℚ), (-27/5 : ℚ)), ((-99/20 : ℚ), (-99/20 : ℚ)), ((-9/2 : ℚ), (-9/2 : ℚ)), ((-81/20 : ℚ), (-81/20 : ℚ)), ((-18/5 : ℚ), (-18/5 : ℚ)), ((-63/20 : ℚ), (-63/20 : ℚ)), ((-27/10 : ℚ), (-27/10 : ℚ)), ((-9/4 : ℚ), (-9/4 : ℚ)), ((-9/5 : ℚ), (-9/5 : ℚ)), ((-27/20 : ℚ), (-27/20 : ℚ)), ((-9/10 : ℚ), (-9/10 : ℚ)), ((-9/20 : ℚ), (-9/20 : ℚ)), ((0/1 : ℚ), (0/1 : ℚ)), ((13207/24000 : ℚ), (13207/24000 : ℚ))]

def cxSt10 : GameState := cxState (13211/14400 : ℚ) (661/120 : ℚ) (13211/14400 : ℚ) (65/6 : ℚ) (1/6 : ℚ) (1/1080 : ℚ) (67/30 : ℚ) [(251/14400 : ℚ), (-12709/14400 : ℚ), (-25669/14400 : ℚ), (-38629/14400 : ℚ), (-51589/14400 : ℚ), (-64549/14400 : ℚ), (-77509/14400 : ℚ), (-90469/14400 : ℚ)] [((-99/10 : ℚ), (-99/10 : ℚ)), ((-189/20 : ℚ), (-189/20 : ℚ)), ((-9/1 : ℚ), (-9/1 : ℚ)), ((-171/20 : ℚ), (-171/20 : ℚ)), ((-81/10 : ℚ), (-81/10 : ℚ)), ((-153/20 : ℚ), (-153/20 : ℚ)), ((-36/5 : ℚ), (-36/5 : ℚ)), ((-27/4 : ℚ), (-27/4 : ℚ)), ((-63/10 : ℚ), (-63/10 : ℚ)), ((-117/20 : ℚ), (-117/20 : ℚ)), ((-27/5 : ℚ), (-27/5 : ℚ)), ((-99/20 : ℚ), (-99/20 : ℚ)), ((-9/2 : ℚ), (-9/2 : ℚ)), ((-81/20 : ℚ), (-81/20 : ℚ)), ((-18/5 : ℚ), (-18/5 : ℚ)), ((-63/20 : ℚ), (-63/20 : ℚ)), ((-27/10 : ℚ), (-27/10 : ℚ)), ((-9/4 : ℚ), (-9/4 : ℚ)), ((-9/5 : ℚ), (-9/5 : ℚ)), ((-27/20 : ℚ), (-27/20 : ℚ)), ((-9/10 : ℚ), (-9/10 : ℚ)), ((-9/20 : ℚ), (-9/20 : ℚ)), ((0/1 : ℚ), (0/1 : ℚ)), ((13207/24000 : ℚ), (13207/24000 : ℚ))]

def cxSt11 : GameState := cxState (4037/4000 : ℚ) (6611/1200 : ℚ) (4037/4000 : ℚ) (649/60 : ℚ) (11/60 : ℚ) (11/10800 : ℚ) (133/60 : ℚ) [(437/4000 : ℚ), (-3163/4000 : ℚ), (-6763/4000 : ℚ), (-10363/4000 : ℚ), (-13963/4000 : ℚ), (-17563/4000 : ℚ), (-21163/4000 : ℚ), (-24763/4000 : ℚ)] [((-99/10 : ℚ), (-99/10 : ℚ)), ((-189/20 : ℚ), (-189/20 : ℚ)), ((-9/1 : ℚ), (-9/1 : ℚ)), ((-171/20 : ℚ), (-171/20 : ℚ)), ((-81/10 : ℚ), (-81/10 : ℚ)), ((-153/20 : ℚ), (-153/20 : ℚ)), ((-36/5 : ℚ), (-36/5 : ℚ)), ((-27/4 : ℚ), (-27/4 : ℚ)), ((-63/10 : ℚ), (-63/10 : ℚ)), ((-117/20 : ℚ), (-117/20 : ℚ)), ((-27/5 : ℚ), (-27/5 : ℚ)), ((-99/20 : ℚ), (-99/20 : ℚ)), ((-9/2 : ℚ), (-9/2 : ℚ)), ((-81/20 : ℚ), (-81/20 : ℚ)), ((-18/5 : ℚ), (-18/5 : ℚ)), ((-63/20 : ℚ), (-63/20 : ℚ)), ((-27/10 : ℚ), (-27/10 : ℚ)), ((-9/4 : ℚ), (-9/4 : ℚ)), ((-9/5 : ℚ), (-9/5 : ℚ)), ((-27/20 : ℚ), (-27/20 : ℚ)), ((-9/10 : ℚ), (-9/10 : ℚ)), ((-9/20 : ℚ), (-9/20 : ℚ)), ((0/1 : ℚ), (0/1 : ℚ)), ((13207/24000 : ℚ), (13207/24000 : ℚ))]

def cxSt12 : GameState := cxState (13213/12000 : ℚ) (551/100 : ℚ) (13213/12000 : ℚ) (54/5 : ℚ) (1/5 : ℚ) (1/900 : ℚ) (11/5 : ℚ) [(2413/12000 : ℚ), (-8387/12000 : ℚ), (-19187/12000 : ℚ), (-29987/12000 : ℚ), (-40787/12000 : ℚ), (-51587/12000 : ℚ), (-62387/12000 : ℚ), (-73187/12000 : ℚ)] [((-99/10 : ℚ), (-99/10 : ℚ)), ((-189/20 : ℚ), (-189/20 : ℚ)), ((-9/1 : ℚ), (-9/1 : ℚ)), ((-171/20 : ℚ), (-171/20 : ℚ)), ((-81/10 : ℚ), (-81/10 : ℚ)), ((-153/20 : ℚ), (-153/20 : ℚ)), ((-36/5 : ℚ), (-36/5 : ℚ)), ((-27/4 : ℚ), (-27/4 : ℚ)), ((-63/10 : ℚ), (-63/10 : ℚ)), ((-117/20 : ℚ), (-117/20 : ℚ)), ((-27/5 : ℚ), (-27/5 : ℚ)), ((-99/20 : ℚ), (-99/20 : ℚ)), ((-9/2 : ℚ), (-9/2 : ℚ)), ((-81/20 : ℚ), (-81/20 : ℚ)), ((-18/5 : ℚ), (-18/5 : ℚ)), ((-63/20 : ℚ), (-63/20 : ℚ)), ((-27/10 : ℚ), (-27/10 : ℚ)), ((-9/4 : ℚ), (-9/4 : ℚ)), ((-9/5 : ℚ), (-9/5 : ℚ)), ((-27/20 : ℚ), (-27/20 : ℚ)), ((-9/10 : ℚ), (-9/10 : ℚ)), ((-9/20 : ℚ), (-9/20 : ℚ)), ((0/1 : ℚ), (0/1 : ℚ)), ((13207/24000 : ℚ), (13207/24000 : ℚ)), ((13213/12000 : ℚ), (13213/12000 : ℚ))]

def cxSt13 : GameState := cxState (85891/72000 : ℚ) (6613/1200 : ℚ) (85891/72000 : ℚ) (647/60 : ℚ) (13/60 : ℚ) (13/10800 : ℚ) (131/60 : ℚ) [(21091/72000 : ℚ), (-43709/72000 : ℚ), (-108509/72000 : ℚ), (-173309/72000 : ℚ), (-238109/72000 : ℚ), (-302909/72000 : ℚ), (-367709/72000 : ℚ), (-432509/72000 : ℚ)] [((-99/10 : ℚ), (-99/10 : ℚ)), ((-189/20 : ℚ), (-189/20 : ℚ)), ((-9/1 : ℚ), (-9/1 : ℚ)), ((-171/20 : ℚ), (-171/20 : ℚ)), ((-81/10 : ℚ), (-81/10 : ℚ)), ((-153/20 : ℚ), (-153/20 : ℚ)), ((-36/5 : ℚ), (-36/5 : ℚ)), ((-27/4 : ℚ), (-27/4 : ℚ)), ((-63/10 : ℚ), (-63/10 : ℚ)), ((-117/20 : ℚ), (-117/20 : ℚ)), ((-27/5 : ℚ), (-27/5 : ℚ)), ((-99/20 : ℚ), (-99/20 : ℚ)), ((-9/2 : ℚ), (-9/2 : ℚ)), ((-81/20 : ℚ), (-81/20 : ℚ)), ((-18/5 : ℚ), (-18/5 : ℚ)), ((-63/20 : ℚ), (-63/20 : ℚ)), ((-27/10 : ℚ), (-27/10 : ℚ)), ((-9/4 : ℚ), (-9/4 : ℚ)), ((-9/5 : ℚ), (-9/5 : ℚ)), ((-27/20 : ℚ), (-27/20 : ℚ)), ((-9/10 : ℚ), (-9/10 : ℚ)), ((-9/20 : ℚ), (-9/20 : ℚ)), ((0/1 : ℚ), (0/1 : ℚ)), ((13207/24000 : ℚ), (13207/24000 : ℚ)), ((13213/12000 : ℚ), (13213/12000 : ℚ))]

def cxSt14 : GameState := cxState (6167/4800 : ℚ) (3307/600 : ℚ) (6167/4800 : ℚ) (323/30 : ℚ) (7/30 : ℚ) (7/5400 : ℚ) (13/6 : ℚ) [(1847/4800 : ℚ), (-2473/4800 : ℚ), (-6793/4800 : ℚ), (-11113/4800 : ℚ), (-15433/4800 : ℚ), (-19753/4800 : ℚ), (-24073/4800 : ℚ), (-28393/4800 : ℚ)] [((-99/10 : ℚ), (-99/10 : ℚ)), ((-189/20 : ℚ), (-189/20 : ℚ)), ((-9/1 : ℚ), (-9/1 : ℚ)), ((-171/20 : ℚ), (-171/20 : ℚ)), ((-81/10 : ℚ), (-81/10 : ℚ)), ((-153/20 : ℚ), (-153/20 : ℚ)), ((-36/5 : ℚ), (-36/5 : ℚ)), ((-27/4 : ℚ), (-27/4 : ℚ)), ((-63/10 : ℚ), (-63/10 : ℚ)), ((-117/20 : ℚ), (-117/20 : ℚ)), ((-27/5 : ℚ), (-27/5 : ℚ)), ((-99/20 : ℚ), (-99/20 : ℚ)), ((-9/2 : ℚ), (-9/2 : ℚ)), ((-81/20 : ℚ), (-81/20 : ℚ)), ((-18/5 : ℚ), (-18/5 : ℚ)), ((-63/20 : ℚ), (-63/20 : ℚ)), ((-27/10 : ℚ), (-27/10 : ℚ)), ((-9/4 : ℚ), (-9/4 : ℚ)), ((-9/5 : ℚ), (-9/5 : ℚ)), ((-27/20 : ℚ), (-27/20 : ℚ)), ((-9/10 : ℚ), (-9/10 : ℚ)), ((-9/20 : ℚ), (-9/20 : ℚ)), ((0/1 : ℚ), (0/1 : ℚ)), ((13207/24000 : ℚ), (13207/24000 : ℚ)), ((13213/12000 : ℚ), (13213/12000 : ℚ))]

def cxSt15 : GameState := cxState (413/300 : ℚ) (441/80 : ℚ) (413/300 : ℚ) (43/4 : ℚ) (1/4 : ℚ) (1/720 : ℚ) (43/20 : ℚ) [(143/300 : ℚ), (-127/300 : ℚ), (-397/300 : ℚ), (-667/300 : ℚ), (-937/300 : ℚ), (-1207/300 : ℚ), (-1477/300 : ℚ), (-1747/300 : ℚ)] [((-189/20 : ℚ), (-189/20 : ℚ)), ((-9/1 : ℚ), (-9/1 : ℚ)), ((-171/20 : ℚ), (-171/20 : ℚ)), ((-81/10 : ℚ), (-81/10 : ℚ)), ((-153/20 : ℚ), (-153/20 : ℚ)), ((-36/5 : ℚ), (-36/5 : ℚ)), ((-27/4 : ℚ), (-27/4 : ℚ)), ((-63/10 : ℚ), (-63/10 : ℚ)), ((-117/20 : ℚ), (-117/20 : ℚ)), ((-27/5 : ℚ), (-27/5 : ℚ)), ((-99/20 : ℚ), (-99/20 : ℚ)), ((-9/2 : ℚ), (-9/2 : ℚ)), ((-81/20 : ℚ), (-81/20 : ℚ)), ((-18/5 : ℚ), (-18/5 : ℚ)), ((-63/20 : ℚ), (-63/20 : ℚ)), ((-27/10 : ℚ), (-27/10 : ℚ)), ((-9/4 : ℚ), (-9/4 : ℚ)), ((-9/5 : ℚ), (-9/5 : ℚ)), ((-27/20 : ℚ), (-27/20 : ℚ)), ((-9/10 : ℚ), (-9/10 : ℚ)), ((-9/20 : ℚ), (-9/20 : ℚ)), ((0/1 : ℚ), (0/1 : ℚ)), ((13207/24000 : ℚ), (13207/24000 : ℚ)), ((13213/12000 : ℚ), (13213/12000 : ℚ))]

def cxSt16 : GameState := cxState (13217/9000 : ℚ) (827/150 : ℚ) (13217/9000 : ℚ) (161/15 : ℚ) (4/15 : ℚ) (1/675 : ℚ) (32/15 : ℚ) [(5117/9000 : ℚ), (-2983/9000 : ℚ), (-11083/9000 : ℚ), (-19183/9000 : ℚ), (-27283/9000 : ℚ), (-35383/9000 : ℚ), (-43483/9000 : ℚ), (-51583/9000 : ℚ)] [((-189/20 : ℚ), (-189/20 : ℚ)), ((-9/1 : ℚ), (-9/1 : ℚ)), ((-171/20 : ℚ), (-171/20 : ℚ)), ((-81/10 : ℚ), (-81/10 : ℚ)), ((-153/20 : ℚ), (-153/20 : ℚ)), ((-36/5 : ℚ), (-36/5 : ℚ)), ((-27/4 : ℚ), (-27/4 : ℚ)), ((-63/10 : ℚ), (-63/10 : ℚ)), ((-117/20 : ℚ), (-117/20 : ℚ)), ((-27/5 : ℚ), (-27/5 : ℚ)), ((-99/20 : ℚ), (-99/20 : ℚ)), ((-9/2 : ℚ), (-9/2 : ℚ)), ((-81/20 : ℚ), (-81/20 : ℚ)), ((-18/5 : ℚ), (-18/5 : ℚ)), ((-63/20 : ℚ), (-63/20 : ℚ)), ((-27/10 : ℚ), (-27/10 : ℚ)), ((-9/4 : ℚ), (-9/4 : ℚ)), ((-9/5 : ℚ), (-9/5 : ℚ)), ((-27/20 : ℚ), (-27/20 : ℚ)), ((-9/10 : ℚ), (-9/10 : ℚ)), ((-9/20 : ℚ), (-9/20 : ℚ)), ((0/1 : ℚ), (0/1 : ℚ)), ((13207/24000 : ℚ), (13207/24000 : ℚ)), ((13213/12000 : ℚ), (13213/12000 : ℚ))]

def cxSt17 : GameState := cxState (37451/24000 : ℚ) (6617/1200 : ℚ) (37451/24000 : ℚ) (643/60 : ℚ) (17/60 : ℚ) (17/10800 : ℚ) (127/60 : ℚ) [(15851/24000 : ℚ), (-5749/24000 : ℚ), (-27349/24000 : ℚ), (-48949/24000 : ℚ), (-70549/24000 : ℚ), (-92149/24000 : ℚ), (-113749/24000 : ℚ), (-135349/24000 : ℚ)] [((-189/20 : ℚ), (-189/20 : ℚ)), ((-9/1 : ℚ), (-9/1 : ℚ)), ((-171/20 : ℚ), (-171/20 : ℚ)), ((-81/10 : ℚ), (-81/10 : ℚ)), ((-153/20 : ℚ), (-153/20 : ℚ)), ((-36/5 : ℚ), (-36/5 : ℚ)), ((-27/4 : ℚ), (-27/4 : ℚ)), ((-63/10 : ℚ), (-63/10 : ℚ)), ((-117/20 : ℚ), (-117/20 : ℚ)), ((-27/5 : ℚ), (-27/5 : ℚ)), ((-99/20 : ℚ), (-99/20 : ℚ)), ((-9/2 : ℚ), (-9/2 : ℚ)), ((-81/20 : ℚ), (-81/20 : ℚ)), ((-18/5 : ℚ), (-18/5 : ℚ)), ((-63/20 : ℚ), (-63/20 : ℚ)), ((-27/10 : ℚ), (-27/10 : ℚ)), ((-9/4 : ℚ), (-9/4 : ℚ)), ((-9/5 : ℚ), (-9/5 : ℚ)), ((-27/20 : ℚ), (-27/20 : ℚ)), ((-9/10 : ℚ), (-9/10 : ℚ)), ((-9/20 : ℚ), (-9/20 : ℚ)), ((0/1 : ℚ), (0/1 : ℚ)), ((13207/24000 : ℚ), (13207/24000 : ℚ)), ((13213/12000 : ℚ), (13213/12000 : ℚ))]

def cxSt18 : GameState := cxState (13219/8000 : ℚ) (1103/200 : ℚ) (13219/8000 : ℚ) (107/10 : ℚ) (3/10 : ℚ) (1/600 : ℚ) (21/10 : ℚ) [(6019/8000 : ℚ), (-1181/8000 : ℚ), (-8381/8000 : ℚ), (-15581/8000 : ℚ), (-22781/8000 : ℚ), (-29981/8000 : ℚ), (-37181/8000 : ℚ), (-44381/8000 : ℚ)] [((-189/20 : ℚ), (-189/20 : ℚ)), ((-9/1 : ℚ), (-9/1 : ℚ)), ((-171/20 : ℚ), (-171/20 : ℚ)), ((-81/10 : ℚ), (-81/10 : ℚ)), ((-153/20 : ℚ), (-153/20 : ℚ)), ((-36/5 : ℚ), (-36/5 : ℚ)), ((-27/4 : ℚ), (-27/4 : ℚ)), ((-63/10 : ℚ), (-63/10 : ℚ)), ((-117/20 : ℚ), (-117/20 : ℚ)), ((-27/5 : ℚ), (-27/5 : ℚ)), ((-99/20 : ℚ), (-99/20 : ℚ)), ((-9/2 : ℚ), (-9/2 : ℚ)), ((-81/20 : ℚ), (-81/20 : ℚ)), ((-18/5 : ℚ), (-18/5 : ℚ)), ((-63/20 : ℚ), (-63/20 : ℚ)), ((-27/10 : ℚ), (-27/10 : ℚ)), ((-9/4 : ℚ), (-9/4 : ℚ)), ((-9/5 : ℚ), (-9/5 : ℚ)), ((-27/20 : ℚ), (-27/20 : ℚ)), ((-9/10 : ℚ), (-9/10 : ℚ)), ((-9/20 : ℚ), (-9/20 : ℚ)), ((0/1 : ℚ), (0/1 : ℚ)), ((13207/24000 : ℚ), (13207/24000 : ℚ)), ((13213/12000 : ℚ), (13213/12000 : ℚ)), ((13219/8000 : ℚ), (13219/8000 : ℚ))]

def cxSt19 : GameState := cxState (12559/7200 : ℚ) (6619/1200 : ℚ) (12559/7200 : ℚ) (641/60 : ℚ) (19/60 : ℚ) (19/10800 : ℚ) (25/12 : ℚ) [(6079/7200 : ℚ), (-401/7200 : ℚ), (-6881/7200 : ℚ), (-13361/7200 : ℚ), (-19841/7200 : ℚ), (-26321/7200 : ℚ), (-32801/7200 : ℚ), (-39281/7200 : ℚ)] [((-189/20 : ℚ), (-189/20 : ℚ)), ((-9/1 : ℚ), (-9/1 : ℚ)), ((-171/20 : ℚ), (-171/20 : ℚ)), ((-81/10 : ℚ), (-81/10 : ℚ)), ((-153/20 : ℚ), (-153/20 : ℚ)), ((-36/5 : ℚ), (-36/5 : ℚ)), ((-27/4 : ℚ), (-27/4 : ℚ)), ((-63/10 : ℚ), (-63/10 : ℚ)), ((-117/20 : ℚ), (-117/20 : ℚ)), ((-27/5 : ℚ), (-27/5 : ℚ)), ((-99/20 : ℚ), (-99/20 : ℚ)), ((-9/2 : ℚ), (-9/2 : ℚ)), ((-81/20 : ℚ), (-81/20 : ℚ)), ((-18/5 : ℚ), (-18/5 : ℚ)), ((-63/20 : ℚ), (-63/20 : ℚ)), ((-27/10 : ℚ), (-27/10 : ℚ)), ((-9/4 : ℚ), (-9/4 : ℚ)), ((-9/5 : ℚ), (-9/5 : ℚ)), ((-27/20 : ℚ), (-27/20 : ℚ)), ((-9/10 : ℚ), (-9/10 : ℚ)), ((-9/20 : ℚ), (-9/20 : ℚ)), ((0/1 : ℚ), (0/1 : ℚ)), ((13207/24000 : ℚ), (13207/24000 : ℚ)), ((13213/12000 : ℚ), (13213/12000 : ℚ)), ((13219/8000 : ℚ), (13219/8000 : ℚ))]

def cxSt20 : GameState := cxState (1469/800 : ℚ) (331/60 : ℚ) (1469/800 : ℚ) (32/3 : ℚ) (1/3 : ℚ) (1/540 : ℚ) (31/15 : ℚ) [(749/800 : ℚ), (29/800 : ℚ), (-691/800 : ℚ), (-1411/800 : ℚ), (-2131/800 : ℚ), (-2851/800 : ℚ), (-3571/800 : ℚ), (-4291/800 : ℚ)] [((-9/1 : ℚ), (-9/1 : ℚ)), ((-171/20 : ℚ), (-171/20 : ℚ)), ((-81/10 : ℚ), (-81/10 : ℚ)), ((-153/20 : ℚ), (-153/20 : ℚ)), ((-36/5 : ℚ), (-36/5 : ℚ)), ((-27/4 : ℚ), (-27/4 : ℚ)), ((-63/10 : ℚ), (-63/10 : ℚ)), ((-117/20 : ℚ), (-117/20 : ℚ)), ((-27/5 : ℚ), (-27/5 : ℚ)), ((-99/20 : ℚ), (-99/20 : ℚ)), ((-9/2 : ℚ), (-9/2 : ℚ)), ((-81/20 : ℚ), (-81/20 : ℚ)), ((-18/5 : ℚ), (-18/5 : ℚ)), ((-63/20 : ℚ), (-63/20 : ℚ)), ((-27/10 : ℚ), (-27/10 : ℚ)), ((-9/4 : ℚ), (-9/4 : ℚ)), ((-9/5 : ℚ), (-9/5 : ℚ)), ((-27/20 : ℚ), (-27/20 : ℚ)), ((-9/10 : ℚ), (-9/10 : ℚ)), ((-9/20 : ℚ), (-9/20 : ℚ)), ((0/1 : ℚ), (0/1 : ℚ)), ((13207/24000 : ℚ), (13207/24000 : ℚ)), ((13213/12000 : ℚ), (13213/12000 : ℚ)), ((13219/8000 : ℚ), (13219/8000 : ℚ))]

def cxSt21 : GameState := cxState (46277/24000 : ℚ) (2207/400 : ℚ) (46277/24000 : ℚ) (213/20 : ℚ) (7/20 : ℚ) (7/3600 : ℚ) (41/20 : ℚ) [(24677/24000 : ℚ), (3077/24000 : ℚ), (-18523/24000 : ℚ), (-40123/24000 : ℚ), (-61723/24000 : ℚ), (-83323/24000 : ℚ), (-104923/24000 : ℚ), (-126523/24000 : ℚ)] [((-9/1 : ℚ), (-9/1 : ℚ)), ((-171/20 : ℚ), (-171/20 : ℚ)), ((-81/10 : ℚ), (-81/10 : ℚ)), ((-153/20 : ℚ), (-153/20 : ℚ)), ((-36/5 : ℚ), (-36/5 : ℚ)), ((-27/4 : ℚ), (-27/4 : ℚ)), ((-63/10 : ℚ), (-63/10 : ℚ)), ((-117/20 : ℚ), (-117/20 : ℚ)), ((-27/5 : ℚ), (-27/5 : ℚ)), ((-99/20 : ℚ), (-99/20 : ℚ)), ((-9/2 : ℚ), (-9/2 : ℚ)), ((-81/20 : ℚ), (-81/20 : ℚ)), ((-18/5 : ℚ), (-18/5 : ℚ)), ((-63/20 : ℚ), (-63/20 : ℚ)), ((-27/10 : ℚ), (-27/10 : ℚ)), ((-9/4 : ℚ), (-9/4 : ℚ)), ((-9/5 : ℚ), (-9/5 : ℚ)), ((-27/20 : ℚ), (-27/20 : ℚ)), ((-9/10 : ℚ), (-9/10 : ℚ)), ((-9/20 : ℚ), (-9/20 : ℚ)), ((0/1 : ℚ), (0/1 : ℚ)), ((13207/24000 : ℚ), (13207/24000 : ℚ)), ((13213/12000 : ℚ), (13213/12000 : ℚ)), ((13219/8000 : ℚ), (13219/8000 : ℚ))]

def cxSt22 : GameState := cxState (145453/72000 : ℚ) (3311/600 : ℚ) (145453/72000 : ℚ) (319/30 : ℚ) (11/30 : ℚ) (11/5400 : ℚ) (61/30 : ℚ) [(80653/72000 : ℚ), (15853/72000 : ℚ), (-48947/72000 : ℚ), (-113747/72000 : ℚ), (-178547/72000 : ℚ), (-243347/72000 : ℚ), (-308147/72000 : ℚ), (-372947/72000 : ℚ)] [((-9/1 : ℚ), (-9/1 : ℚ)), ((-171/20 : ℚ), (-171/20 : ℚ)), ((-81/10 : ℚ), (-81/10 : ℚ)), ((-153/20 : ℚ), (-153/20 : ℚ)), ((-36/5 : ℚ), (-36/5 : ℚ)), ((-27/4 : ℚ), (-27/4 : ℚ)), ((-63/10 : ℚ), (-63/10 : ℚ)), ((-117/20 : ℚ), (-117/20 : ℚ)), ((-27/5 : ℚ), (-27/5 : ℚ)), ((-99/20 : ℚ), (-99/20 : ℚ)), ((-9/2 : ℚ), (-9/2 : ℚ)), ((-81/20 : ℚ), (-81/20 : ℚ)), ((-18/5 : ℚ), (-18/5 : ℚ)), ((-63/20 : ℚ), (-63/20 : ℚ)), ((-27/10 : ℚ), (-27/10 : ℚ)), ((-9/4 : ℚ), (-9/4 : ℚ)), ((-9/5 : ℚ), (-9/5 : ℚ)), ((-27/20 : ℚ), (-27/20 : ℚ)), ((-9/10 : ℚ), (-9/10 : ℚ)), ((-9/20 : ℚ), (-9/20 : ℚ)), ((0/1 : ℚ), (0/1 : ℚ)), ((13207/24000 : ℚ), (13207/24000 : ℚ)), ((13213/12000 : ℚ), (13213/12000 : ℚ)), ((13219/8000 : ℚ), (13219/8000 : ℚ))]

def cxSt23 : GameState := cxState (12673/6000 : ℚ) (6623/1200 : ℚ) (12673/6000 : ℚ) (637/60 : ℚ) (23/60 : ℚ) (23/10800 : ℚ) (121/60 : ℚ) [(7273/6000 : ℚ), (1873/6000 : ℚ), (-3527/6000 : ℚ), (-8927/6000 : ℚ), (-14327/6000 : ℚ), (-19727/6000 : ℚ), (-25127/6000 : ℚ), (-30527/6000 : ℚ)] [((-9/1 : ℚ), (-9/1 : ℚ)), ((-171/20 : ℚ), (-171/20 : ℚ)), ((-81/10 : ℚ), (-81/10 : ℚ)), ((-153/20 : ℚ), (-153/20 : ℚ)), ((-36/5 : ℚ), (-36/5 : ℚ)), ((-27/4 : ℚ), (-27/4 : ℚ)), ((-63/10 : ℚ), (-63/10 : ℚ)), ((-117/20 : ℚ), (-117/20 : ℚ)), ((-27/5 : ℚ), (-27/5 : ℚ)), ((-99/20 : ℚ), (-99/20 : ℚ)), ((-9/2 : ℚ), (-9/2 : ℚ)), ((-81/20 : ℚ), (-81/20 : ℚ)), ((-18/5 : ℚ), (-18/5 : ℚ)), ((-63/20 : ℚ), (-63/20 : ℚ)), ((-27/10 : ℚ), (-27/10 : ℚ)), ((-9/4 : ℚ), (-9/4 : ℚ)), ((-9/5 : ℚ), (-9/5 : ℚ)), ((-27/20 : ℚ), (-27/20 : ℚ)), ((-9/10 : ℚ), (-9/10 : ℚ)), ((-9/20 : ℚ), (-9/20 : ℚ)), ((0/1 : ℚ), (0/1 : ℚ)), ((13207/24000 : ℚ), (13207/24000 : ℚ)), ((13213/12000 : ℚ), (13213/12000 : ℚ)), ((13219/8000 : ℚ), (13219/8000 : ℚ))]

def cxSt24 : GameState := cxState (529/240 : ℚ) (138/25 : ℚ) (529/240 : ℚ) (53/5 : ℚ) (2/5 : ℚ) (1/450 : ℚ) (2/1 : ℚ) [(313/240 : ℚ), (97/240 : ℚ), (-119/240 : ℚ), (-67/48 : ℚ), (-551/240 : ℚ), (-767/240 : ℚ), (-983/240 : ℚ), (-1199/240 : ℚ)] [((-9/1 : ℚ), (-9/1 : ℚ)), ((-171/20 : ℚ), (-171/20 : ℚ)), ((-81/10 : ℚ), (-81/10 : ℚ)), ((-153/20 : ℚ), (-153/20 : ℚ)), ((-36/5 : ℚ), (-36/5 : ℚ)), ((-27/4 : ℚ), (-27/4 : ℚ)), ((-63/10 : ℚ), (-63/10 : ℚ)), ((-117/20 : ℚ), (-117/20 : ℚ)), ((-27/5 : ℚ), (-27/5 : ℚ)), ((-99/20 : ℚ), (-99/20 : ℚ)), ((-9/2 : ℚ), (-9/2 : ℚ)), ((-81/20 : ℚ), (-81/20 : ℚ)), ((-18/5 : ℚ), (-18/5 : ℚ)), ((-63/20 : ℚ), (-63/20 : ℚ)), ((-27/10 : ℚ), (-27/10 : ℚ)), ((-9/4 : ℚ), (-9/4 : ℚ)), ((-9/5 : ℚ), (-9/5 : ℚ)), ((-27/20 : ℚ), (-27/20 : ℚ)), ((-9/10 : ℚ), (-9/10 : ℚ)), ((-9/20 : ℚ), (-9/20 : ℚ)), ((0/1 : ℚ), (0/1 : ℚ)), ((13207/24000 : ℚ), (13207/24000 : ℚ)), ((13213/12000 : ℚ), (13213/12000 : ℚ)), ((13219/8000 : ℚ), (13219/8000 : ℚ)), ((529/240 : ℚ), (529/240 : ℚ))]

def cxSt25 : GameState := cxState (6613/2880 : ℚ) (265/48 : ℚ) (6613/2880 : ℚ) (127/12 : ℚ) (5/12 : ℚ) (1/432 : ℚ) (119/60 : ℚ) [(4021/2880 : ℚ), (1429/2880 : ℚ), (-1163/2880 : ℚ), (-751/576 : ℚ), (-6347/2880 : ℚ), (-8939/2880 : ℚ), (-11531/2880 : ℚ), (-14123/2880 : ℚ)] [((-171/20 : ℚ), (-171/20 : ℚ)), ((-81/10 : ℚ), (-81/10 : ℚ)), ((-153/20 : ℚ), (-153/20 : ℚ)), ((-36/5 : ℚ), (-36/5 : ℚ)), ((-27/4 : ℚ), (-27/4 : ℚ)), ((-63/10 : ℚ), (-63/10 : ℚ)), ((-117/20 : ℚ), (-117/20 : ℚ)), ((-27/5 : ℚ), (-27/5 : ℚ)), ((-99/20 : ℚ), (-99/20 : ℚ)), ((-9/2 : ℚ), (-9/2 : ℚ)), ((-81/20 : ℚ), (-81/20 : ℚ)), ((-18/5 : ℚ), (-18/5 : ℚ)), ((-63/20 : ℚ), (-63/20 : ℚ)), ((-27/10 : ℚ), (-27/10 : ℚ)), ((-9/4 : ℚ), (-9/4 : ℚ)), ((-9/5 : ℚ), (-9/5 : ℚ)), ((-27/20 : ℚ), (-27/20 : ℚ)), ((-9/10 : ℚ), (-9/10 : ℚ)), ((-9/20 : ℚ), (-9/20 : ℚ)), ((0/1 : ℚ), (0/1 : ℚ)), ((13207/24000 : ℚ), (13207/24000 : ℚ)), ((13213/12000 : ℚ), (13213/12000 : ℚ)), ((13219/8000 : ℚ), (13219/8000 : ℚ)), ((529/240 : ℚ), (529/240 : ℚ))]

def cxSt26 : GameState := cxState (57317/24000 : ℚ) (3313/600 : ℚ) (57317/24000 : ℚ) (317/30 : ℚ) (13/30 : ℚ) (13/5400 : ℚ) (59/30 : ℚ) [(35717/24000 : ℚ), (14117/24000 : ℚ), (-7483/24000 : ℚ), (-29083/24000 : ℚ), (-50683/24000 : ℚ), (-72283/24000 : ℚ), (-93883/24000 : ℚ), (-115483/24000 : ℚ)] [((-171/20 : ℚ), (-171/20 : ℚ)), ((-81/10 : ℚ), (-81/10 : ℚ)), ((-153/20 : ℚ), (-153/20 : ℚ)), ((-36/5 : ℚ), (-36/5 : ℚ)), ((-27/4 : ℚ), (-27/4 : ℚ)), ((-63/10 : ℚ), (-63/10 : ℚ)), ((-117/20 : ℚ), (-117/20 : ℚ)), ((-27/5 : ℚ), (-27/5 : ℚ)), ((-99/20 : ℚ), (-99/20 : ℚ)), ((-9/2 : ℚ), (-9/2 : ℚ)), ((-81/20 : ℚ), (-81/20 : ℚ)), ((-18/5 : ℚ), (-18/5 : ℚ)), ((-63/20 : ℚ), (-63/20 : ℚ)), ((-27/10 : ℚ), (-27/10 : ℚ)), ((-9/4 : ℚ), (-9/4 : ℚ)), ((-9/5 : ℚ), (-9/5 : ℚ)), ((-27/20 : ℚ), (-27/20 : ℚ)), ((-9/10 : ℚ), (-9/10 : ℚ)), ((-9/20 : ℚ), (-9/20 : ℚ)), ((0/1 : ℚ), (0/1 : ℚ)), ((13207/24000 : ℚ), (13207/24000 : ℚ)), ((13213/12000 : ℚ), (13213/12000 : ℚ)), ((13219/8000 : ℚ), (13219/8000 : ℚ)), ((529/240 : ℚ), (529/240 : ℚ))]

def cxSt27 : GameState := cxState (9921/4000 : ℚ) (2209/400 : ℚ) (9921/4000 : ℚ) (211/20 : ℚ) (9/20 : ℚ) (1/400 : ℚ) (39/20 : ℚ) [(6321/4000 : ℚ), (2721/4000 : ℚ), (-879/4000 : ℚ), (-4479/4000 : ℚ), (-8079/4000 : ℚ), (-11679/4000 : ℚ), (-15279/4000 : ℚ), (-18879/4000 : ℚ)] [((-171/20 : ℚ), (-171/20 : ℚ)), ((-81/10 : ℚ), (-81/10 : ℚ)), ((-153/20 : ℚ), (-153/20 : ℚ)), ((-36/5 : ℚ), (-36/5 : ℚ)), ((-27/4 : ℚ), (-27/4 : ℚ)), ((-63/10 : ℚ), (-63/10 : ℚ)), ((-117/20 : ℚ), (-117/20 : ℚ)), ((-27/5 : ℚ), (-27/5 : ℚ)), ((-99/20 : ℚ), (-99/20 : ℚ)), ((-9/2 : ℚ), (-9/2 : ℚ)), ((-81/20 : ℚ), (-81/20 : ℚ)), ((-18/5 : ℚ), (-18/5 : ℚ)), ((-63/20 : ℚ), (-63/20 : ℚ)), ((-27/10 : ℚ), (-27/10 : ℚ)), ((-9/4 : ℚ), (-9/4 : ℚ)), ((-9/5 : ℚ), (-9/5 : ℚ)), ((-27/20 : ℚ), (-27/20 : ℚ)), ((-9/10 : ℚ), (-9/10 : ℚ)), ((-9/20 : ℚ), (-9/20 : ℚ)), ((0/1 : ℚ), (0/1 : ℚ)), ((13207/24000 : ℚ), (13207/24000 : ℚ)), ((13213/12000 : ℚ), (13213/12000 : ℚ)), ((13219/8000 : ℚ), (13219/8000 : ℚ)), ((529/240 : ℚ), (529/240 : ℚ))]

def cxSt28 : GameState := cxState (92603/36000 : ℚ) (1657/300 : ℚ) (92603/36000 : ℚ) (158/15 : ℚ) (7/15 : ℚ) (7/2700 : ℚ) (29/15 : ℚ) [(60203/36000 : ℚ), (27803/36000 : ℚ), (-4597/36000 : ℚ), (-36997/36000 : ℚ), (-69397/36000 : ℚ), (-101797/36000 : ℚ), (-134197/36000 : ℚ), (-166597/36000 : ℚ)] [((-171/20 : ℚ), (-171/20 : ℚ)), ((-81/10 : ℚ), (-81/10 : ℚ)), ((-153/20 : ℚ), (-153/20 : ℚ)), ((-36/5 : ℚ), (-36/5 : ℚ)), ((-27/4 : ℚ), (-27/4 : ℚ)), ((-63/10 : ℚ), (-63/10 : ℚ)), ((-117/20 : ℚ), (-117/20 : ℚ)), ((-27/5 : ℚ), (-27/5 : ℚ)), ((-99/20 : ℚ), (-99/20 : ℚ)), ((-9/2 : ℚ), (-9/2 : ℚ)), ((-81/20 : ℚ), (-81/20 : ℚ)), ((-18/5 : ℚ), (-18/5 : ℚ)), ((-63/20 : ℚ), (-63/20 : ℚ)), ((-27/10 : ℚ), (-27/10 : ℚ)), ((-9/4 : ℚ), (-9/4 : ℚ)), ((-9/5 : ℚ), (-9/5 : ℚ)), ((-27/20 : ℚ), (-27/20 : ℚ)), ((-9/10 : ℚ), (-9/10 : ℚ)), ((-9/20 : ℚ), (-9/20 : ℚ)), ((0/1 : ℚ), (0/1 : ℚ)), ((13207/24000 : ℚ), (13207/24000 : ℚ)), ((13213/12000 : ℚ), (13213/12000 : ℚ)), ((13219/8000 : ℚ), (13219/8000 : ℚ)), ((529/240 : ℚ), (529/240 : ℚ))]

def cxSt29 : GameState := cxState (4263/1600 : ℚ) (6629/1200 : ℚ) (4263/1600 : ℚ) (631/60 : ℚ) (29/60 : ℚ) (29/10800 : ℚ) (23/12 : ℚ) [(2823/1600 : ℚ), (1383/1600 : ℚ), (-57/1600 : ℚ), (-1497/1600 : ℚ), (-2937/1600 : ℚ), (-4377/1600 : ℚ), (-5817/1600 : ℚ), (-7257/1600 : ℚ)] [((-171/20 : ℚ), (-171/20 : ℚ)), ((-81/10 : ℚ), (-81/10 : ℚ)), ((-153/20 : ℚ), (-153/20 : ℚ)), ((-36/5 : ℚ), (-36/5 : ℚ)), ((-27/4 : ℚ), (-27/4 : ℚ)), ((-63/10 : ℚ), (-63/10 : ℚ)), ((-117/20 : ℚ), (-117/20 : ℚ)), ((-27/5 : ℚ), (-27/5 : ℚ)), ((-99/20 : ℚ), (-99/20 : ℚ)), ((-9/2 : ℚ), (-9/2 : ℚ)), ((-81/20 : ℚ), (-81/20 : ℚ)), ((-18/5 : ℚ), (-18/5 : ℚ)), ((-63/20 : ℚ), (-63/20 : ℚ)), ((-27/10 : ℚ), (-27/10 : ℚ)), ((-9/4 : ℚ), (-9/4 : ℚ)), ((-9/5 : ℚ), (-9/5 : ℚ)), ((-27/20 : ℚ), (-27/20 : ℚ)), ((-9/10 : ℚ), (-9/10 : ℚ)), ((-9/20 : ℚ), (-9/20 : ℚ)), ((0/1 : ℚ), (0/1 : ℚ)), ((13207/24000 : ℚ), (13207/24000 : ℚ)), ((13213/12000 : ℚ), (13213/12000 : ℚ)), ((13219/8000 : ℚ), (13219/8000 : ℚ)), ((529/240 : ℚ), (529/240 : ℚ))]

def cxSt30 : GameState := cxState (13231/4800 : ℚ) (221/40 : ℚ) (13231/4800 : ℚ) (21/2 : ℚ) (1/2 : ℚ) (1/360 : ℚ) (19/10 : ℚ) [(8911/4800 : ℚ), (4591/4800 : ℚ), (271/4800 : ℚ), (-4049/4800 : ℚ), (-8369/4800 : ℚ), (-12689/4800 : ℚ), (-17009/4800 : ℚ), (-21329/4800 : ℚ)] [((-81/10 : ℚ), (-81/10 : ℚ)), ((-153/20 : ℚ), (-153/20 : ℚ)), ((-36/5 : ℚ), (-36/5 : ℚ)), ((-27/4 : ℚ), (-27/4 : ℚ)), ((-63/10 : ℚ), (-63/10 : ℚ)), ((-117/20 : ℚ), (-117/20 : ℚ)), ((-27/5 : ℚ), (-27/5 : ℚ)), ((-99/20 : ℚ), (-99/20 : ℚ)), ((-9/2 : ℚ), (-9/2 : ℚ)), ((-81/20 : ℚ), (-81/20 : ℚ)), ((-18/5 : ℚ), (-18/5 : ℚ)), ((-63/20 : ℚ), (-63/20 : ℚ)), ((-27/10 : ℚ), (-27/10 : ℚ)), ((-9/4 : ℚ), (-9/4 : ℚ)), ((-9/5 : ℚ), (-9/5 : ℚ)), ((-27/20 : ℚ), (-27/20 : ℚ)), ((-9/10 : ℚ), (-9/10 : ℚ)), ((-9/20 : ℚ), (-9/20 : ℚ)), ((0/1 : ℚ), (0/1 : ℚ)), ((13207/24000 : ℚ), (13207/24000 : ℚ)), ((13213/12000 : ℚ), (13213/12000 : ℚ)), ((13219/8000 : ℚ), (13219/8000 : ℚ)), ((529/240 : ℚ), (529/240 : ℚ)), ((13231/4800 : ℚ), (13231/4800 : ℚ))]

def cxSt31 : GameState := cxState (25637/9000 : ℚ) (6631/1200 : ℚ) (25637/9000 : ℚ) (629/60 : ℚ) (31/60 : ℚ) (31/10800 : ℚ) (113/60 : ℚ) [(17537/9000 : ℚ), (9437/9000 : ℚ), (1337/9000 : ℚ), (-6763/9000 : ℚ), (-14863/9000 : ℚ), (-22963/9000 : ℚ), (-31063/9000 : ℚ), (-39163/9000 : ℚ)] [((-81/10 : ℚ), (-81/10 : ℚ)), ((-153/20 : ℚ), (-153/20 : ℚ)), ((-36/5 : ℚ), (-36/5 : ℚ)), ((-27/4 : ℚ), (-27/4 : ℚ)), ((-63/10 : ℚ), (-63/10 : ℚ)), ((-117/20 : ℚ), (-117/20 : ℚ)), ((-27/5 : ℚ), (-27/5 : ℚ)), ((-99/20 : ℚ), (-99/20 : ℚ)), ((-9/2 : ℚ), (-9/2 : ℚ)), ((-81/20 : ℚ), (-81/20 : ℚ)), ((-18/5 : ℚ), (-18/5 : ℚ)), ((-63/20 : ℚ), (-63/20 : ℚ)), ((-27/10 : ℚ), (-27/10 : ℚ)), ((-9/4 : ℚ), (-9/4 : ℚ)), ((-9/5 : ℚ), (-9/5 : ℚ)), ((-27/20 : ℚ), (-27/20 : ℚ)), ((-9/10 : ℚ), (-9/10 : ℚ)), ((-9/20 : ℚ), (-9/20 : ℚ)), ((0/1 : ℚ), (0/1 : ℚ)), ((13207/24000 : ℚ), (13207/24000 : ℚ)), ((13213/12000 : ℚ), (13213/12000 : ℚ)), ((13219/8000 : ℚ), (13219/8000 : ℚ)), ((529/240 : ℚ), (529/240 : ℚ)), ((13231/4800 : ℚ), (13231/4800 : ℚ))]

def cxSt32 : GameState := cxState (4411/1500 : ℚ) (829/150 : ℚ) (4411/1500 : ℚ) (157/15 : ℚ) (8/15 : ℚ) (2/675 : ℚ) (28/15 : ℚ) [(3061/1500 : ℚ), (1711/1500 : ℚ), (361/1500 : ℚ), (-989/1500 : ℚ), (-2339/1500 : ℚ), (-3689/1500 : ℚ), (-5039/1500 : ℚ), (-6389/1500 : ℚ)] [((-81/10 : ℚ), (-81/10 : ℚ)), ((-153/20 : ℚ), (-153/20 : ℚ)), ((-36/5 : ℚ), (-36/5 : ℚ)), ((-27/4 : ℚ), (-27/4 : ℚ)), ((-63/10 : ℚ), (-63/10 : ℚ)), ((-117/20 : ℚ), (-117/20 : ℚ)), ((-27/5 : ℚ), (-27/5 : ℚ)), ((-99/20 : ℚ), (-99/20 : ℚ)), ((-9/2 : ℚ), (-9/2 : ℚ)), ((-81/20 : ℚ), (-81/20 : ℚ)), ((-18/5 : ℚ), (-18/5 : ℚ)), ((-63/20 : ℚ), (-63/20 : ℚ)), ((-27/10 : ℚ), (-27/10 : ℚ)), ((-9/4 : ℚ), (-9/4 : ℚ)), ((-9/5 : ℚ), (-9/5 : ℚ)), ((-27/20 : ℚ), (-27/20 : ℚ)), ((-9/10 : ℚ), (-9/10 : ℚ)), ((-9/20 : ℚ), (-9/20 : ℚ)), ((0/1 : ℚ), (0/1 : ℚ)), ((13207/24000 : ℚ), (13207/24000 : ℚ)), ((13213/12000 : ℚ), (13213/12000 : ℚ)), ((13219/8000 : ℚ), (13219/8000 : ℚ)), ((529/240 : ℚ), (529/240 : ℚ)), ((13231/4800 : ℚ), (13231/4800 : ℚ))]

def cxSt33 : GameState := cxState (72787/24000 : ℚ) (2211/400 : ℚ) (72787/24000 : ℚ) (209/20 : ℚ) (11/20 : ℚ) (11/3600 : ℚ) (37/20 : ℚ) [(51187/24000 : ℚ), (29587/24000 : ℚ), (7987/24000 : ℚ), (-13613/24000 : ℚ), (-35213/24000 : ℚ), (-56813/24000 : ℚ), (-78413/24000 : ℚ), (-100013/24000 : ℚ)] [((-81/10 : ℚ), (-81/10 : ℚ)), ((-153/20 : ℚ), (-153/20 : ℚ)), ((-36/5 : ℚ), (-36/5 : ℚ)), ((-27/4 : ℚ), (-27/4 : ℚ)), ((-63/10 : ℚ), (-63/10 : ℚ)), ((-117/20 : ℚ), (-117/20 : ℚ)), ((-27/5 : ℚ), (-27/5 : ℚ)), ((-99/20 : ℚ), (-99/20 : ℚ)), ((-9/2 : ℚ), (-9/2 : ℚ)), ((-81/20 : ℚ), (-81/20 : ℚ)), ((-18/5 : ℚ), (-18/5 : ℚ)), ((-63/20 : ℚ), (-63/20 : ℚ)), ((-27/10 : ℚ), (-27/10 : ℚ)), ((-9/4 : ℚ), (-9/4 : ℚ)), ((-9/5 : ℚ), (-9/5 : ℚ)), ((-27/20 : ℚ), (-27/20 : ℚ)), ((-9/10 : ℚ), (-9/10 : ℚ)), ((-9/20 : ℚ), (-9/20 : ℚ)), ((0/1 : ℚ), (0/1 : ℚ)), ((13207/24000 : ℚ), (13207/24000 : ℚ)), ((13213/12000 : ℚ), (13213/12000 : ℚ)), ((13219/8000 : ℚ), (13219/8000 : ℚ)), ((529/240 : ℚ), (529/240 : ℚ)), ((13231/4800 : ℚ), (13231/4800 : ℚ))]

def cxSt34 : GameState := cxState (44999/14400 : ℚ) (3317/600 : ℚ) (44999/14400 : ℚ) (313/30 : ℚ) (17/30 : ℚ) (17/5400 : ℚ) (11/6 : ℚ) [(32039/14400 : ℚ), (19079/14400 : ℚ), (6119/14400 : ℚ), (-6841/14400 : ℚ), (-19801/14400 : ℚ), (-32761/14400 : ℚ), (-45721/14400 : ℚ), (-58681/14400 : ℚ)] [((-81/10 : ℚ), (-81/10 : ℚ)), ((-153/20 : ℚ), (-153/20 : ℚ)), ((-36/5 : ℚ), (-36/5 : ℚ)), ((-27/4 : ℚ), (-27/4 : ℚ)), ((-63/10 : ℚ), (-63/10 : ℚ)), ((-117/20 : ℚ), (-117/20 : ℚ)), ((-27/5 : ℚ), (-27/5 : ℚ)), ((-99/20 : ℚ), (-99/20 : ℚ)), ((-9/2 : ℚ), (-9/2 : ℚ)), ((-81/20 : ℚ), (-81/20 : ℚ)), ((-18/5 : ℚ), (-18/5 : ℚ)), ((-63/20 : ℚ), (-63/20 : ℚ)), ((-27/10 : ℚ), (-27/10 : ℚ)), ((-9/4 : ℚ), (-9/4 : ℚ)), ((-9/5 : ℚ), (-9/5 : ℚ)), ((-27/20 : ℚ), (-27/20 : ℚ)), ((-9/10 : ℚ), (-9/10 : ℚ)), ((-9/20 : ℚ), (-9/20 : ℚ)), ((0/1 : ℚ), (0/1 : ℚ)), ((13207/24000 : ℚ), (13207/24000 : ℚ)), ((13213/12000 : ℚ), (13213/12000 : ℚ)), ((13219/8000 : ℚ), (13219/8000 : ℚ)), ((529/240 : ℚ), (529/240 : ℚ)), ((13231/4800 : ℚ), (13231/4800 : ℚ))]

def cxSt35 : GameState := cxState (7721/2400 : ℚ) (1327/240 : ℚ) (7721/2400 : ℚ) (125/12 : ℚ) (7/12 : ℚ) (7/2160 : ℚ) (109/60 : ℚ) [(5561/2400 : ℚ), (3401/2400 : ℚ), (1241/2400 : ℚ), (-919/2400 : ℚ), (-3079/2400 : ℚ), (-5239/2400 : ℚ), (-7399/2400 : ℚ), (-9559/2400 : ℚ)] [((-153/20 : ℚ), (-153/20 : ℚ)), ((-36/5 : ℚ), (-36/5 : ℚ)), ((-27/4 : ℚ), (-27/4 : ℚ)), ((-63/10 : ℚ), (-63/10 : ℚ)), ((-117/20 : ℚ), (-117/20 : ℚ)), ((-27/5 : ℚ), (-27/5 : ℚ)), ((-99/20 : ℚ), (-99/20 : ℚ)), ((-9/2 : ℚ), (-9/2 : ℚ)), ((-81/20 : ℚ), (-81/20 : ℚ)), ((-18/5 : ℚ), (-18/5 : ℚ)), ((-63/20 : ℚ), (-63/20 : ℚ)), ((-27/10 : ℚ), (-27/10 : ℚ)), ((-9/4 : ℚ), (-9/4 : ℚ)), ((-9/5 : ℚ), (-9/5 : ℚ)), ((-27/20 : ℚ), (-27/20 : ℚ)), ((-9/10 : ℚ), (-9/10 : ℚ)), ((-9/20 : ℚ), (-9/20 : ℚ)), ((0/1 : ℚ), (0/1 : ℚ)), ((13207/24000 : ℚ), (13207/24000 : ℚ)), ((13213/12000 : ℚ), (13213/12000 : ℚ)), ((13219/8000 : ℚ), (13219/8000 : ℚ)), ((529/240 : ℚ), (529/240 : ℚ)), ((13231/4800 : ℚ), (13231/4800 : ℚ))]

def cxSt36 : GameState := cxState (13237/4000 : ℚ) (553/100 : ℚ) (13237/4000 : ℚ) (52/5 : ℚ) (3/5 : ℚ) (1/300 : ℚ) (9/5 : ℚ) [(9637/4000 : ℚ), (6037/4000 : ℚ), (2437/4000 : ℚ), (-1163/4000 : ℚ), (-4763/4000 : ℚ), (-8363/4000 : ℚ), (-11963/4000 : ℚ), (-15563/4000 : ℚ)] [((-153/20 : ℚ), (-153/20 : ℚ)), ((-36/5 : ℚ), (-36/5 : ℚ)), ((-27/4 : ℚ), (-27/4 : ℚ)), ((-63/10 : ℚ), (-63/10 : ℚ)), ((-117/20 : ℚ), (-117/20 : ℚ)), ((-27/5 : ℚ), (-27/5 : ℚ)), ((-99/20 : ℚ), (-99/20 : ℚ)), ((-9/2 : ℚ), (-9/2 : ℚ)), ((-81/20 : ℚ), (-81/20 : ℚ)), ((-18/5 : ℚ), (-18/5 : ℚ)), ((-63/20 : ℚ), (-63/20 : ℚ)), ((-27/10 : ℚ), (-27/10 : ℚ)), ((-9/4 : ℚ), (-9/4 : ℚ)), ((-9/5 : ℚ), (-9/5 : ℚ)), ((-27/20 : ℚ), (-27/20 : ℚ)), ((-9/10 : ℚ), (-9/10 : ℚ)), ((-9/20 : ℚ), (-9/20 : ℚ)), ((0/1 : ℚ), (0/1 : ℚ)), ((13207/24000 : ℚ), (13207/24000 : ℚ)), ((13213/12000 : ℚ), (13213/12000 : ℚ)), ((13219/8000 : ℚ), (13219/8000 : ℚ)), ((529/240 : ℚ), (529/240 : ℚ)), ((13231/4800 : ℚ), (13231/4800 : ℚ)), ((13237/4000 : ℚ), (13237/4000 : ℚ))]

def cxSt37 : GameState := cxState (244903/72000 : ℚ) (6637/1200 : ℚ) (244903/72000 : ℚ) (623/60 : ℚ) (37/60 : ℚ) (37/10800 : ℚ) (107/60 : ℚ) [(180103/72000 : ℚ), (115303/72000 : ℚ), (50503/72000 : ℚ), (-14297/72000 : ℚ), (-79097/72000 : ℚ), (-143897/72000 : ℚ), (-208697/72000 : ℚ), (-273497/72000 : ℚ)] [((-153/20 : ℚ), (-153/20 : ℚ)), ((-36/5 : ℚ), (-36/5 : ℚ)), ((-27/4 : ℚ), (-27/4 : ℚ)), ((-63/10 : ℚ), (-63/10 : ℚ)), ((-117/20 : ℚ), (-117/20 : ℚ)), ((-27/5 : ℚ), (-27/5 : ℚ)), ((-99/20 : ℚ), (-99/20 : ℚ)), ((-9/2 : ℚ), (-9/2 : ℚ)), ((-81/20 : ℚ), (-81/20 : ℚ)), ((-18/5 : ℚ), (-18/5 : ℚ)), ((-63/20 : ℚ), (-63/20 : ℚ)), ((-27/10 : ℚ), (-27/10 : ℚ)), ((-9/4 : ℚ), (-9/4 : ℚ)), ((-9/5 : ℚ), (-9/5 : ℚ)), ((-27/20 : ℚ), (-27/20 : ℚ)), ((-9/10 : ℚ), (-9/10 : ℚ)), ((-9/20 : ℚ), (-9/20 : ℚ)), ((0/1 : ℚ), (0/1 : ℚ)), ((13207/24000 : ℚ), (13207/24000 : ℚ)), ((13213/12000 : ℚ), (13213/12000 : ℚ)), ((13219/8000 : ℚ), (13219/8000 : ℚ)), ((529/240 : ℚ), (529/240 : ℚ)), ((13231/4800 : ℚ), (13231/4800 : ℚ)), ((13237/4000 : ℚ), (13237/4000 : ℚ))]

def cxSt38 : GameState := cxState (27949/8000 : ℚ) (3319/600 : ℚ) (27949/8000 : ℚ) (311/30 : ℚ) (19/30 : ℚ) (19/5400 : ℚ) (53/30 : ℚ) [(20749/8000 : ℚ), (13549/8000 : ℚ), (6349/8000 : ℚ), (-851/8000 : ℚ), (-8051/8000 : ℚ), (-15251/8000 : ℚ), (-22451/8000 : ℚ), (-29651/8000 : ℚ)] [((-153/20 : ℚ), (-153/20 : ℚ)), ((-36/5 : ℚ), (-36/5 : ℚ)), ((-27/4 : ℚ), (-27/4 : ℚ)), ((-63/10 : ℚ), (-63/10 : ℚ)), ((-117/20 : ℚ), (-117/20 : ℚ)), ((-27/5 : ℚ), (-27/5 : ℚ)), ((-99/20 : ℚ), (-99/20 : ℚ)), ((-9/2 : ℚ), (-9/2 : ℚ)), ((-81/20 : ℚ), (-81/20 : ℚ)), ((-18/5 : ℚ), (-18/5 : ℚ)), ((-63/20 : ℚ), (-63/20 : ℚ)), ((-27/10 : ℚ), (-27/10 : ℚ)), ((-9/4 : ℚ), (-9/4 : ℚ)), ((-9/5 : ℚ), (-9/5 : ℚ)), ((-27/20 : ℚ), (-27/20 : ℚ)), ((-9/10 : ℚ), (-9/10 : ℚ)), ((-9/20 : ℚ), (-9/20 : ℚ)), ((0/1 : ℚ), (0/1 : ℚ)), ((13207/24000 : ℚ), (13207/24000 : ℚ)), ((13213/12000 : ℚ), (13213/12000 : ℚ)), ((13219/8000 : ℚ), (13219/8000 : ℚ)), ((529/240 : ℚ), (529/240 : ℚ)), ((13231/4800 : ℚ), (13231/4800 : ℚ)), ((13237/4000 : ℚ), (13237/4000 : ℚ))]

def cxSt39 : GameState := cxState (4303/1200 : ℚ) (2213/400 : ℚ) (4303/1200 : ℚ) (207/20 : ℚ) (13/20 : ℚ) (13/3600 : ℚ) (7/4 : ℚ) [(3223/1200 : ℚ), (2143/1200 : ℚ), (1063/1200 : ℚ), (-17/1200 : ℚ), (-1097/1200 : ℚ), (-2177/1200 : ℚ), (-3257/1200 : ℚ), (-4337/1200 : ℚ)] [((-153/20 : ℚ), (-153/20 : ℚ)), ((-36/5 : ℚ), (-36/5 : ℚ)), ((-27/4 : ℚ), (-27/4 : ℚ)), ((-63/10 : ℚ), (-63/10 : ℚ)), ((-117/20 : ℚ), (-117/20 : ℚ)), ((-27/5 : ℚ), (-27/5 : ℚ)), ((-99/20 : ℚ), (-99/20 : ℚ)), ((-9/2 : ℚ), (-9/2 : ℚ)), ((-81/20 : ℚ), (-81/20 : ℚ)), ((-18/5 : ℚ), (-18/5 : ℚ)), ((-63/20 : ℚ), (-63/20 : ℚ)), ((-27/10 : ℚ), (-27/10 : ℚ)), ((-9/4 : ℚ), (-9/4 : ℚ)), ((-9/5 : ℚ), (-9/5 : ℚ)), ((-27/20 : ℚ), (-27/20 : ℚ)), ((-9/10 : ℚ), (-9/10 : ℚ)), ((-9/20 : ℚ), (-9/20 : ℚ)), ((0/1 : ℚ), (0/1 : ℚ)), ((13207/24000 : ℚ), (13207/24000 : ℚ)), ((13213/12000 : ℚ), (13213/12000 : ℚ)), ((13219/8000 : ℚ), (13219/8000 : ℚ)), ((529/240 : ℚ), (529/240 : ℚ)), ((13231/4800 : ℚ), (13231/4800 : ℚ)), ((13237/4000 : ℚ), (13237/4000 : ℚ))]

def cxSt40 : GameState := cxState (13241/3600 : ℚ) (83/15 : ℚ) (13241/3600 : ℚ) (31/3 : ℚ) (2/3 : ℚ) (1/270 : ℚ) (26/15 : ℚ) [(10001/3600 : ℚ), (6761/3600 : ℚ), (3521/3600 : ℚ), (281/3600 : ℚ), (-2959/3600 : ℚ), (-6199/3600 : ℚ), (-9439/3600 : ℚ), (-12679/3600 : ℚ)] [((-36/5 : ℚ), (-36/5 : ℚ)), ((-27/4 : ℚ), (-27/4 : ℚ)), ((-63/10 : ℚ), (-63/10 : ℚ)), ((-117/20 : ℚ), (-117/20 : ℚ)), ((-27/5 : ℚ), (-27/5 : ℚ)), ((-99/20 : ℚ), (-99/20 : ℚ)), ((-9/2 : ℚ), (-9/2 : ℚ)), ((-81/20 : ℚ), (-81/20 : ℚ)), ((-18/5 : ℚ), (-18/5 : ℚ)), ((-63/20 : ℚ), (-63/20 : ℚ)), ((-27/10 : ℚ), (-27/10 : ℚ)), ((-9/4 : ℚ), (-9/4 : ℚ)), ((-9/5 : ℚ), (-9/5 : ℚ)), ((-27/20 : ℚ), (-27/20 : ℚ)), ((-9/10 : ℚ), (-9/10 : ℚ)), ((-9/20 : ℚ), (-9/20 : ℚ)), ((0/1 : ℚ), (0/1 : ℚ)), ((13207/24000 : ℚ), (13207/24000 : ℚ)), ((13213/12000 : ℚ), (13213/12000 : ℚ)), ((13219/8000 : ℚ), (13219/8000 : ℚ)), ((529/240 : ℚ), (529/240 : ℚ)), ((13231/4800 : ℚ), (13231/4800 : ℚ)), ((13237/4000 : ℚ), (13237/4000 : ℚ))]

def cxSt41 : GameState := cxState (90487/24000 : ℚ) (6641/1200 : ℚ) (90487/24000 : ℚ) (619/60 : ℚ) (41/60 : ℚ) (41/10800 : ℚ) (103/60 : ℚ) [(68887/24000 : ℚ), (47287/24000 : ℚ), (25687/24000 : ℚ), (4087/24000 : ℚ), (-17513/24000 : ℚ), (-39113/24000 : ℚ), (-60713/24000 : ℚ), (-82313/24000 : ℚ)] [((-36/5 : ℚ), (-36/5 : ℚ)), ((-27/4 : ℚ), (-27/4 : ℚ)), ((-63/10 : ℚ), (-63/10 : ℚ)), ((-117/20 : ℚ), (-117/20 : ℚ)), ((-27/5 : ℚ), (-27/5 : ℚ)), ((-99/20 : ℚ), (-99/20 : ℚ)), ((-9/2 : ℚ), (-9/2 : ℚ)), ((-81/20 : ℚ), (-81/20 : ℚ)), ((-18/5 : ℚ), (-18/5 : ℚ)), ((-63/20 : ℚ), (-63/20 : ℚ)), ((-27/10 : ℚ), (-27/10 : ℚ)), ((-9/4 : ℚ), (-9/4 : ℚ)), ((-9/5 : ℚ), (-9/5 : ℚ)), ((-27/20 : ℚ), (-27/20 : ℚ)), ((-9/10 : ℚ), (-9/10 : ℚ)), ((-9/20 : ℚ), (-9/20 : ℚ)), ((0/1 : ℚ), (0/1 : ℚ)), ((13207/24000 : ℚ), (13207/24000 : ℚ)), ((13213/12000 : ℚ), (13213/12000 : ℚ)), ((13219/8000 : ℚ), (13219/8000 : ℚ)), ((529/240 : ℚ), (529/240 : ℚ)), ((13231/4800 : ℚ), (13231/4800 : ℚ)), ((13237/4000 : ℚ), (13237/4000 : ℚ))]

def cxSt42 : GameState := cxState (92701/24000 : ℚ) (1107/200 : ℚ) (92701/24000 : ℚ) (103/10 : ℚ) (7/10 : ℚ) (7/1800 : ℚ) (17/10 : ℚ) [(71101/24000 : ℚ), (49501/24000 : ℚ), (27901/24000 : ℚ), (6301/24000 : ℚ), (-15299/24000 : ℚ), (-36899/24000 : ℚ), (-58499/24000 : ℚ), (-80099/24000 : ℚ)] [((-36/5 : ℚ), (-36/5 : ℚ)), ((-27/4 : ℚ), (-27/4 : ℚ)), ((-63/10 : ℚ), (-63/10 : ℚ)), ((-117/20 : ℚ), (-117/20 : ℚ)), ((-27/5 : ℚ), (-27/5 : ℚ)), ((-99/20 : ℚ), (-99/20 : ℚ)), ((-9/2 : ℚ), (-9/2 : ℚ)), ((-81/20 : ℚ), (-81/20 : ℚ)), ((-18/5 : ℚ), (-18/5 : ℚ)), ((-63/20 : ℚ), (-63/20 : ℚ)), ((-27/10 : ℚ), (-27/10 : ℚ)), ((-9/4 : ℚ), (-9/4 : ℚ)), ((-9/5 : ℚ), (-9/5 : ℚ)), ((-27/20 : ℚ), (-27/20 : ℚ)), ((-9/10 : ℚ), (-9/10 : ℚ)), ((-9/20 : ℚ), (-9/20 : ℚ)), ((0/1 : ℚ), (0/1 : ℚ)), ((13207/24000 : ℚ), (13207/24000 : ℚ)), ((13213/12000 : ℚ), (13213/12000 : ℚ)), ((13219/8000 : ℚ), (13219/8000 : ℚ)), ((529/240 : ℚ), (529/240 : ℚ)), ((13231/4800 : ℚ), (13231/4800 : ℚ)), ((13237/4000 : ℚ), (13237/4000 : ℚ)), ((92701/24000 : ℚ), (92701/24000 : ℚ))]

def cxSt43 : GameState := cxState (142373/36000 : ℚ) (6643/1200 : ℚ) (142373/36000 : ℚ) (617/60 : ℚ) (43/60 : ℚ) (43/10800 : ℚ) (101/60 : ℚ) [(109973/36000 : ℚ), (77573/36000 : ℚ), (45173/36000 : ℚ), (12773/36000 : ℚ), (-19627/36000 : ℚ), (-52027/36000 : ℚ), (-84427/36000 : ℚ), (-116827/36000 : ℚ)] [((-36/5 : ℚ), (-36/5 : ℚ)), ((-27/4 : ℚ), (-27/4 : ℚ)), ((-63/10 : ℚ), (-63/10 : ℚ)), ((-117/20 : ℚ), (-117/20 : ℚ)), ((-27/5 : ℚ), (-27/5 : ℚ)), ((-99/20 : ℚ), (-99/20 : ℚ)), ((-9/2 : ℚ), (-9/2 : ℚ)), ((-81/20 : ℚ), (-81/20 : ℚ)), ((-18/5 : ℚ), (-18/5 : ℚ)), ((-63/20 : ℚ), (-63/20 : ℚ)), ((-27/10 : ℚ), (-27/10 : ℚ)), ((-9/4 : ℚ), (-9/4 : ℚ)), ((-9/5 : ℚ), (-9/5 : ℚ)), ((-27/20 : ℚ), (-27/20 : ℚ)), ((-9/10 : ℚ), (-9/10 : ℚ)), ((-9/20 : ℚ), (-9/20 : ℚ)), ((0/1 : ℚ), (0/1 : ℚ)), ((13207/24000 : ℚ), (13207/24000 : ℚ)), ((13213/12000 : ℚ), (13213/12000 : ℚ)), ((13219/8000 : ℚ), (13219/8000 : ℚ)), ((529/240 : ℚ), (529/240 : ℚ)), ((13231/4800 : ℚ), (13231/4800 : ℚ)), ((13237/4000 : ℚ), (13237/4000 : ℚ)), ((92701/24000 : ℚ), (92701/24000 : ℚ))]

def cxSt44 : GameState := cxState (9713/2400 : ℚ) (1661/300 : ℚ) (9713/2400 : ℚ) (154/15 : ℚ) (11/15 : ℚ) (11/2700 : ℚ) (5/3 : ℚ) [(7553/2400 : ℚ), (5393/2400 : ℚ), (3233/2400 : ℚ), (1073/2400 : ℚ), (-1087/2400 : ℚ), (-3247/2400 : ℚ), (-5407/2400 : ℚ), (-7567/2400 : ℚ)] [((-36/5 : ℚ), (-36/5 : ℚ)), ((-27/4 : ℚ), (-27/4 : ℚ)), ((-63/10 : ℚ), (-63/10 : ℚ)), ((-117/20 : ℚ), (-117/20 : ℚ)), ((-27/5 : ℚ), (-27/5 : ℚ)), ((-99/20 : ℚ), (-99/20 : ℚ)), ((-9/2 : ℚ), (-9/2 : ℚ)), ((-81/20 : ℚ), (-81/20 : ℚ)), ((-18/5 : ℚ), (-18/5 : ℚ)), ((-63/20 : ℚ), (-63/20 : ℚ)), ((-27/10 : ℚ), (-27/10 : ℚ)), ((-9/4 : ℚ), (-9/4 : ℚ)), ((-9/5 : ℚ), (-9/5 : ℚ)), ((-27/20 : ℚ), (-27/20 : ℚ)), ((-9/10 : ℚ), (-9/10 : ℚ)), ((-9/20 : ℚ), (-9/20 : ℚ)), ((0/1 : ℚ), (0/1 : ℚ)), ((13207/24000 : ℚ), (13207/24000 : ℚ)), ((13213/12000 : ℚ), (13213/12000 : ℚ)), ((13219/8000 : ℚ), (13219/8000 : ℚ)), ((529/240 : ℚ), (529/240 : ℚ)), ((13231/4800 : ℚ), (13231/4800 : ℚ)), ((13237/4000 : ℚ), (13237/4000 : ℚ)), ((92701/24000 : ℚ), (92701/24000 : ℚ))]

def cxSt45 : GameState := cxState (6623/1600 : ℚ) (443/80 : ℚ) (6623/1600 : ℚ) (41/4 : ℚ) (3/4 : ℚ) (1/240 : ℚ) (33/20 : ℚ) [(5183/1600 : ℚ), (3743/1600 : ℚ), (2303/1600 : ℚ), (863/1600 : ℚ), (-577/1600 : ℚ), (-2017/1600 : ℚ), (-3457/1600 : ℚ), (-4897/1600 : ℚ)] [((-27/4 : ℚ), (-27/4 : ℚ)), ((-63/10 : ℚ), (-63/10 : ℚ)), ((-117/20 : ℚ), (-117/20 : ℚ)), ((-27/5 : ℚ), (-27/5 : ℚ)), ((-99/20 : ℚ), (-99/20 : ℚ)), ((-9/2 : ℚ), (-9/2 : ℚ)), ((-81/20 : ℚ), (-81/20 : ℚ)), ((-18/5 : ℚ), (-18/5 : ℚ)), ((-63/20 : ℚ), (-63/20 : ℚ)), ((-27/10 : ℚ), (-27/10 : ℚ)), ((-9/4 : ℚ), (-9/4 : ℚ)), ((-9/5 : ℚ), (-9/5 : ℚ)), ((-27/20 : ℚ), (-27/20 : ℚ)), ((-9/10 : ℚ), (-9/10 : ℚ)), ((-9/20 : ℚ), (-9/20 : ℚ)), ((0/1 : ℚ), (0/1 : ℚ)), ((13207/24000 : ℚ), (13207/24000 : ℚ)), ((13213/12000 : ℚ), (13213/12000 : ℚ)), ((13219/8000 : ℚ), (13219/8000 : ℚ)), ((529/240 : ℚ), (529/240 : ℚ)), ((13231/4800 : ℚ), (13231/4800 : ℚ)), ((13237/4000 : ℚ), (13237/4000 : ℚ)), ((92701/24000 : ℚ), (92701/24000 : ℚ))]

def cxSt46 : GameState := cxState (304681/72000 : ℚ) (3323/600 : ℚ) (304681/72000 : ℚ) (307/30 : ℚ) (23/30 : ℚ) (23/5400 : ℚ) (49/30 : ℚ) [(239881/72000 : ℚ), (175081/72000 : ℚ), (110281/72000 : ℚ), (45481/72000 : ℚ), (-19319/72000 : ℚ), (-84119/72000 : ℚ), (-148919/72000 : ℚ), (-213719/72000 : ℚ)] [((-27/4 : ℚ), (-27/4 : ℚ)), ((-63/10 : ℚ), (-63/10 : ℚ)), ((-117/20 : ℚ), (-117/20 : ℚ)), ((-27/5 : ℚ), (-27/5 : ℚ)), ((-99/20 : ℚ), (-99/20 : ℚ)), ((-9/2 : ℚ), (-9/2 : ℚ)), ((-81/20 : ℚ), (-81/20 : ℚ)), ((-18/5 : ℚ), (-18/5 : ℚ)), ((-63/20 : ℚ), (-63/20 : ℚ)), ((-27/10 : ℚ), (-27/10 : ℚ)), ((-9/4 : ℚ), (-9/4 : ℚ)), ((-9/5 : ℚ), (-9/5 : ℚ)), ((-27/20 : ℚ), (-27/20 : ℚ)), ((-9/10 : ℚ), (-9/10 : ℚ)), ((-9/20 : ℚ), (-9/20 : ℚ)), ((0/1 : ℚ), (0/1 : ℚ)), ((13207/24000 : ℚ), (13207/24000 : ℚ)), ((13213/12000 : ℚ), (13213/12000 : ℚ)), ((13219/8000 : ℚ), (13219/8000 : ℚ)), ((529/240 : ℚ), (529/240 : ℚ)), ((13231/4800 : ℚ), (13231/4800 : ℚ)), ((13237/4000 : ℚ), (13237/4000 : ℚ)), ((92701/24000 : ℚ), (92701/24000 : ℚ))]

def cxSt47 : GameState := cxState (1081/250 : ℚ) (6647/1200 : ℚ) (1081/250 : ℚ) (613/60 : ℚ) (47/60 : ℚ) (47/10800 : ℚ) (97/60 : ℚ) [(428/125 : ℚ), (631/250 : ℚ), (203/125 : ℚ), (181/250 : ℚ), (-22/125 : ℚ), (-269/250 : ℚ), (-247/125 : ℚ), (-719/250 : ℚ)] [((-27/4 : ℚ), (-27/4 : ℚ)), ((-63/10 : ℚ), (-63/10 : ℚ)), ((-117/20 : ℚ), (-117/20 : ℚ)), ((-27/5 : ℚ), (-27/5 : ℚ)), ((-99/20 : ℚ), (-99/20 : ℚ)), ((-9/2 : ℚ), (-9/2 : ℚ)), ((-81/20 : ℚ), (-81/20 : ℚ)), ((-18/5 : ℚ), (-18/5 : ℚ)), ((-63/20 : ℚ), (-63/20 : ℚ)), ((-27/10 : ℚ), (-27/10 : ℚ)), ((-9/4 : ℚ), (-9/4 : ℚ)), ((-9/5 : ℚ), (-9/5 : ℚ)), ((-27/20 : ℚ), (-27/20 : ℚ)), ((-9/10 : ℚ), (-9/10 : ℚ)), ((-9/20 : ℚ), (-9/20 : ℚ)), ((0/1 : ℚ), (0/1 : ℚ)), ((13207/24000 : ℚ), (13207/24000 : ℚ)), ((13213/12000 : ℚ), (13213/12000 : ℚ)), ((13219/8000 : ℚ), (13219/8000 : ℚ)), ((529/240 : ℚ), (529/240 : ℚ)), ((13231/4800 : ℚ), (13231/4800 : ℚ)), ((13237/4000 : ℚ), (13237/4000 : ℚ)), ((92701/24000 : ℚ), (92701/24000 : ℚ))]

def cxSt48 : GameState := cxState (13249/3000 : ℚ) (277/50 : ℚ) (13249/3000 : ℚ) (51/5 : ℚ) (4/5 : ℚ) (1/225 : ℚ) (8/5 : ℚ) [(10549/3000 : ℚ), (7849/3000 : ℚ), (5149/3000 : ℚ), (2449/3000 : ℚ), (-251/3000 : ℚ), (-2951/3000 : ℚ), (-5651/3000 : ℚ), (-8351/3000 : ℚ)] [((-27/4 : ℚ), (-27/4 : ℚ)), ((-63/10 : ℚ), (-63/10 : ℚ)), ((-117/20 : ℚ), (-117/20 : ℚ)), ((-27/5 : ℚ), (-27/5 : ℚ)), ((-99/20 : ℚ), (-99/20 : ℚ)), ((-9/2 : ℚ), (-9/2 : ℚ)), ((-81/20 : ℚ), (-81/20 : ℚ)), ((-18/5 : ℚ), (-18/5 : ℚ)), ((-63/20 : ℚ), (-63/20 : ℚ)), ((-27/10 : ℚ), (-27/10 : ℚ)), ((-9/4 : ℚ), (-9/4 : ℚ)), ((-9/5 : ℚ), (-9/5 : ℚ)), ((-27/20 : ℚ), (-27/20 : ℚ)), ((-9/10 : ℚ), (-9/10 : ℚ)), ((-9/20 : ℚ), (-9/20 : ℚ)), ((0/1 : ℚ), (0/1 : ℚ)), ((13207/24000 : ℚ), (13207/24000 : ℚ)), ((13213/12000 : ℚ), (13213/12000 : ℚ)), ((13219/8000 : ℚ), (13219/8000 : ℚ)), ((529/240 : ℚ), (529/240 : ℚ)), ((13231/4800 : ℚ), (13231/4800 : ℚ)), ((13237/4000 : ℚ), (13237/4000 : ℚ)), ((92701/24000 : ℚ), (92701/24000 : ℚ)), ((13249/3000 : ℚ), (13249/3000 : ℚ))]

def cxSt49 : GameState := cxState (2597/576 : ℚ) (6649/1200 : ℚ) (2597/576 : ℚ) (611/60 : ℚ) (49/60 : ℚ) (49/10800 : ℚ) (19/12 : ℚ) [(10393/2880 : ℚ), (7801/2880 : ℚ), (5209/2880 : ℚ), (2617/2880 : ℚ), (5/576 : ℚ), (-2567/2880 : ℚ), (-5159/2880 : ℚ), (-7751/2880 : ℚ)] [((-63/10 : ℚ), (-63/10 : ℚ)), ((-117/20 : ℚ), (-117/20 : ℚ)), ((-27/5 : ℚ), (-27/5 : ℚ)), ((-99/20 : ℚ), (-99/20 : ℚ)), ((-9/2 : ℚ), (-9/2 : ℚ)), ((-81/20 : ℚ), (-81/20 : ℚ)), ((-18/5 : ℚ), (-18/5 : ℚ)), ((-63/20 : ℚ), (-63/20 : ℚ)), ((-27/10 : ℚ), (-27/10 : ℚ)), ((-9/4 : ℚ), (-9/4 : ℚ)), ((-9/5 : ℚ), (-9/5 : ℚ)), ((-27/20 : ℚ), (-27/20 : ℚ)), ((-9/10 : ℚ), (-9/10 : ℚ)), ((-9/20 : ℚ), (-9/20 : ℚ)), ((0/1 : ℚ), (0/1 : ℚ)), ((13207/24000 : ℚ), (13207/24000 : ℚ)), ((13213/12000 : ℚ), (13213/12000 : ℚ)), ((13219/8000 : ℚ), (13219/8000 : ℚ)), ((529/240 : ℚ), (529/240 : ℚ)), ((13231/4800 : ℚ), (13231/4800 : ℚ)), ((13237/4000 : ℚ), (13237/4000 : ℚ)), ((92701/24000 : ℚ), (92701/24000 : ℚ)), ((13249/3000 : ℚ), (13249/3000 : ℚ))]

def cxSt50 : GameState := cxState (4417/960 : ℚ) (133/24 : ℚ) (4417/960 : ℚ) (61/6 : ℚ) (5/6 : ℚ) (1/216 : ℚ) (47/30 : ℚ) [(3553/960 : ℚ), (2689/960 : ℚ), (365/192 : ℚ), (961/960 : ℚ), (97/960 : ℚ), (-767/960 : ℚ), (-1631/960 : ℚ), (-499/192 : ℚ)] [((-63/10 : ℚ), (-63/10 : ℚ)), ((-117/20 : ℚ), (-117/20 : ℚ)), ((-27/5 : ℚ), (-27/5 : ℚ)), ((-99/20 : ℚ), (-99/20 : ℚ)), ((-9/2 : ℚ), (-9/2 : ℚ)), ((-81/20 : ℚ), (-81/20 : ℚ)), ((-18/5 : ℚ), (-18/5 : ℚ)), ((-63/20 : ℚ), (-63/20 : ℚ)), ((-27/10 : ℚ), (-27/10 : ℚ)), ((-9/4 : ℚ), (-9/4 : ℚ)), ((-9/5 : ℚ), (-9/5 : ℚ)), ((-27/20 : ℚ), (-27/20 : ℚ)), ((-9/10 : ℚ), (-9/10 : ℚ)), ((-9/20 : ℚ), (-9/20 : ℚ)), ((0/1 : ℚ), (0/1 : ℚ)), ((13207/24000 : ℚ), (13207/24000 : ℚ)), ((13213/12000 : ℚ), (13213/12000 : ℚ)), ((13219/8000 : ℚ), (13219/8000 : ℚ)), ((529/240 : ℚ), (529/240 : ℚ)), ((13231/4800 : ℚ), (13231/4800 : ℚ)), ((13237/4000 : ℚ), (13237/4000 : ℚ)), ((92701/24000 : ℚ), (92701/24000 : ℚ)), ((13249/3000 : ℚ), (13249/3000 : ℚ))]

def cxSt51 : GameState := cxState (56321/12000 : ℚ) (2217/400 : ℚ) (56321/12000 : ℚ) (203/20 : ℚ) (17/20 : ℚ) (17/3600 : ℚ) (31/20 : ℚ) [(45521/12000 : ℚ), (34721/12000 : ℚ), (23921/12000 : ℚ), (13121/12000 : ℚ), (2321/12000 : ℚ), (-8479/12000 : ℚ), (-19279/12000 : ℚ), (-30079/12000 : ℚ)] [((-63/10 : ℚ), (-63/10 : ℚ)), ((-117/20 : ℚ), (-117/20 : ℚ)), ((-27/5 : ℚ), (-27/5 : ℚ)), ((-99/20 : ℚ), (-99/20 : ℚ)), ((-9/2 : ℚ), (-9/2 : ℚ)), ((-81/20 : ℚ), (-81/20 : ℚ)), ((-18/5 : ℚ), (-18/5 : ℚ)), ((-63/20 : ℚ), (-63/20 : ℚ)), ((-27/10 : ℚ), (-27/10 : ℚ)), ((-9/4 : ℚ), (-9/4 : ℚ)), ((-9/5 : ℚ), (-9/5 : ℚ)), ((-27/20 : ℚ), (-27/20 : ℚ)), ((-9/10 : ℚ), (-9/10 : ℚ)), ((-9/20 : ℚ), (-9/20 : ℚ)), ((0/1 : ℚ), (0/1 : ℚ)), ((13207/24000 : ℚ), (13207/24000 : ℚ)), ((13213/12000 : ℚ), (13213/12000 : ℚ)), ((13219/8000 : ℚ), (13219/8000 : ℚ)), ((529/240 : ℚ), (529/240 : ℚ)), ((13231/4800 : ℚ), (13231/4800 : ℚ)), ((13237/4000 : ℚ), (13237/4000 : ℚ)), ((92701/24000 : ℚ), (92701/24000 : ℚ)), ((13249/3000 : ℚ), (13249/3000 : ℚ))]

def cxSt52 : GameState := cxState (172289/36000 : ℚ) (1663/300 : ℚ) (172289/36000 : ℚ) (152/15 : ℚ) (13/15 : ℚ) (13/2700 : ℚ) (23/15 : ℚ) [(139889/36000 : ℚ), (107489/36000 : ℚ), (75089/36000 : ℚ), (42689/36000 : ℚ), (10289/36000 : ℚ), (-22111/36000 : ℚ), (-54511/36000 : ℚ), (-86911/36000 : ℚ)] [((-63/10 : ℚ), (-63/10 : ℚ)), ((-117/20 : ℚ), (-117/20 : ℚ)), ((-27/5 : ℚ), (-27/5 : ℚ)), ((-99/20 : ℚ), (-99/20 : ℚ)), ((-9/2 : ℚ), (-9/2 : ℚ)), ((-81/20 : ℚ), (-81/20 : ℚ)), ((-18/5 : ℚ), (-18/5 : ℚ)), ((-63/20 : ℚ), (-63/20 : ℚ)), ((-27/10 : ℚ), (-27/10 : ℚ)), ((-9/4 : ℚ), (-9/4 : ℚ)), ((-9/5 : ℚ), (-9/5 : ℚ)), ((-27/20 : ℚ), (-27/20 : ℚ)), ((-9/10 : ℚ), (-9/10 : ℚ)), ((-9/20 : ℚ), (-9/20 : ℚ)), ((0/1 : ℚ), (0/1 : ℚ)), ((13207/24000 : ℚ), (13207/24000 : ℚ)), ((13213/12000 : ℚ), (13213/12000 : ℚ)), ((13219/8000 : ℚ), (13219/8000 : ℚ)), ((529/240 : ℚ), (529/240 : ℚ)), ((13231/4800 : ℚ), (13231/4800 : ℚ)), ((13237/4000 : ℚ), (13237/4000 : ℚ)), ((92701/24000 : ℚ), (92701/24000 : ℚ)), ((13249/3000 : ℚ), (13249/3000 : ℚ))]

def cxSt53 : GameState := cxState (117077/24000 : ℚ) (6653/1200 : ℚ) (117077/24000 : ℚ) (607/60 : ℚ) (53/60 : ℚ) (53/10800 : ℚ) (91/60 : ℚ) [(95477/24000 : ℚ), (73877/24000 : ℚ), (52277/24000 : ℚ), (30677/24000 : ℚ), (9077/24000 : ℚ), (-12523/24000 : ℚ), (-34123/24000 : ℚ), (-55723/24000 : ℚ)] [((-63/10 : ℚ), (-63/10 : ℚ)), ((-117/20 : ℚ), (-117/20 : ℚ)), ((-27/5 : ℚ), (-27/5 : ℚ)), ((-99/20 : ℚ), (-99/20 : ℚ)), ((-9/2 : ℚ), (-9/2 : ℚ)), ((-81/20 : ℚ), (-81/20 : ℚ)), ((-18/5 : ℚ), (-18/5 : ℚ)), ((-63/20 : ℚ), (-63/20 : ℚ)), ((-27/10 : ℚ), (-27/10 : ℚ)), ((-9/4 : ℚ), (-9/4 : ℚ)), ((-9/5 : ℚ), (-9/5 : ℚ)), ((-27/20 : ℚ), (-27/20 : ℚ)), ((-9/10 : ℚ), (-9/10 : ℚ)), ((-9/20 : ℚ), (-9/20 : ℚ)), ((0/1 : ℚ), (0/1 : ℚ)), ((13207/24000 : ℚ), (13207/24000 : ℚ)), ((13213/12000 : ℚ), (13213/12000 : ℚ)), ((13219/8000 : ℚ), (13219/8000 : ℚ)), ((529/240 : ℚ), (529/240 : ℚ)), ((13231/4800 : ℚ), (13231/4800 : ℚ)), ((13237/4000 : ℚ), (13237/4000 : ℚ)), ((92701/24000 : ℚ), (92701/24000 : ℚ)), ((13249/3000 : ℚ), (13249/3000 : ℚ))]

def cxSt54 : GameState := cxState (7953/1600 : ℚ) (1109/200 : ℚ) (7953/1600 : ℚ) (101/10 : ℚ) (9/10 : ℚ) (1/200 : ℚ) (3/2 : ℚ) [(6513/1600 : ℚ), (5073/1600 : ℚ), (3633/1600 : ℚ), (2193/1600 : ℚ), (753/1600 : ℚ), (-687/1600 : ℚ), (-2127/1600 : ℚ), (-3567/1600 : ℚ)] [((-117/20 : ℚ), (-117/20 : ℚ)), ((-27/5 : ℚ), (-27/5 : ℚ)), ((-99/20 : ℚ), (-99/20 : ℚ)), ((-9/2 : ℚ), (-9/2 : ℚ)), ((-81/20 : ℚ), (-81/20 : ℚ)), ((-18/5 : ℚ), (-18/5 : ℚ)), ((-63/20 : ℚ), (-63/20 : ℚ)), ((-27/10 : ℚ), (-27/10 : ℚ)), ((-9/4 : ℚ), (-9/4 : ℚ)), ((-9/5 : ℚ), (-9/5 : ℚ)), ((-27/20 : ℚ), (-27/20 : ℚ)), ((-9/10 : ℚ), (-9/10 : ℚ)), ((-9/20 : ℚ), (-9/20 : ℚ)), ((0/1 : ℚ), (0/1 : ℚ)), ((13207/24000 : ℚ), (13207/24000 : ℚ)), ((13213/12000 : ℚ), (13213/12000 : ℚ)), ((13219/8000 : ℚ), (13219/8000 : ℚ)), ((529/240 : ℚ), (529/240 : ℚ)), ((13231/4800 : ℚ), (13231/4800 : ℚ)), ((13237/4000 : ℚ), (13237/4000 : ℚ)), ((92701/24000 : ℚ), (92701/24000 : ℚ)), ((13249/3000 : ℚ), (13249/3000 : ℚ)), ((7953/1600 : ℚ), (7953/1600 : ℚ))]

def cxSt55 : GameState := cxState (18227/3600 : ℚ) (1331/240 : ℚ) (18227/3600 : ℚ) (121/12 : ℚ) (11/12 : ℚ) (11/2160 : ℚ) (89/60 : ℚ) [(14987/3600 : ℚ), (11747/3600 : ℚ), (8507/3600 : ℚ), (5267/3600 : ℚ), (2027/3600 : ℚ), (-1213/3600 : ℚ), (-4453/3600 : ℚ), (-7693/3600 : ℚ)] [((-117/20 : ℚ), (-117/20 : ℚ)), ((-27/5 : ℚ), (-27/5 : ℚ)), ((-99/20 : ℚ), (-99/20 : ℚ)), ((-9/2 : ℚ), (-9/2 : ℚ)), ((-81/20 : ℚ), (-81/20 : ℚ)), ((-18/5 : ℚ), (-18/5 : ℚ)), ((-63/20 : ℚ), (-63/20 : ℚ)), ((-27/10 : ℚ), (-27/10 : ℚ)), ((-9/4 : ℚ), (-9/4 : ℚ)), ((-9/5 : ℚ), (-9/5 : ℚ)), ((-27/20 : ℚ), (-27/20 : ℚ)), ((-9/10 : ℚ), (-9/10 : ℚ)), ((-9/20 : ℚ), (-9/20 : ℚ)), ((0/1 : ℚ), (0/1 : ℚ)), ((13207/24000 : ℚ), (13207/24000 : ℚ)), ((13213/12000 : ℚ), (13213/12000 : ℚ)), ((13219/8000 : ℚ), (13219/8000 : ℚ)), ((529/240 : ℚ), (529/240 : ℚ)), ((13231/4800 : ℚ), (13231/4800 : ℚ)), ((13237/4000 : ℚ), (13237/4000 : ℚ)), ((92701/24000 : ℚ), (92701/24000 : ℚ)), ((13249/3000 : ℚ), (13249/3000 : ℚ)), ((7953/1600 : ℚ), (7953/1600 : ℚ))]

def cxSt56 : GameState := cxState (10311/2000 : ℚ) (416/75 : ℚ) (10311/2000 : ℚ) (151/15 : ℚ) (14/15 : ℚ) (7/1350 : ℚ) (22/15 : ℚ) [(8511/2000 : ℚ), (6711/2000 : ℚ), (4911/2000 : ℚ), (3111/2000 : ℚ), (1311/2000 : ℚ), (-489/2000 : ℚ), (-2289/2000 : ℚ), (-4089/2000 : ℚ)] [((-117/20 : ℚ), (-117/20 : ℚ)), ((-27/5 : ℚ), (-27/5 : ℚ)), ((-99/20 : ℚ), (-99/20 : ℚ)), ((-9/2 : ℚ), (-9/2 : ℚ)), ((-81/20 : ℚ), (-81/20 : ℚ)), ((-18/5 : ℚ), (-18/5 : ℚ)), ((-63/20 : ℚ), (-63/20 : ℚ)), ((-27/10 : ℚ), (-27/10 : ℚ)), ((-9/4 : ℚ), (-9/4 : ℚ)), ((-9/5 : ℚ), (-9/5 : ℚ)), ((-27/20 : ℚ), (-27/20 : ℚ)), ((-9/10 : ℚ), (-9/10 : ℚ)), ((-9/20 : ℚ), (-9/20 : ℚ)), ((0/1 : ℚ), (0/1 : ℚ)), ((13207/24000 : ℚ), (13207/24000 : ℚ)), ((13213/12000 : ℚ), (13213/12000 : ℚ)), ((13219/8000 : ℚ), (13219/8000 : ℚ)), ((529/240 : ℚ), (529/240 : ℚ)), ((13231/4800 : ℚ), (13231/4800 : ℚ)), ((13237/4000 : ℚ), (13237/4000 : ℚ)), ((92701/24000 : ℚ), (92701/24000 : ℚ)), ((13249/3000 : ℚ), (13249/3000 : ℚ)), ((7953/1600 : ℚ), (7953/1600 : ℚ))]

def cxSt57 : GameState := cxState (125951/24000 : ℚ) (2219/400 : ℚ) (125951/24000 : ℚ) (201/20 : ℚ) (19/20 : ℚ) (19/3600 : ℚ) (29/20 : ℚ) [(104351/24000 : ℚ), (82751/24000 : ℚ), (61151/24000 : ℚ), (39551/24000 : ℚ), (17951/24000 : ℚ), (-3649/24000 : ℚ), (-25249/24000 : ℚ), (-46849/24000 : ℚ)] [((-117/20 : ℚ), (-117/20 : ℚ)), ((-27/5 : ℚ), (-27/5 : ℚ)), ((-99/20 : ℚ), (-99/20 : ℚ)), ((-9/2 : ℚ), (-9/2 : ℚ)), ((-81/20 : ℚ), (-81/20 : ℚ)), ((-18/5 : ℚ), (-18/5 : ℚ)), ((-63/20 : ℚ), (-63/20 : ℚ)), ((-27/10 : ℚ), (-27/10 : ℚ)), ((-9/4 : ℚ), (-9/4 : ℚ)), ((-9/5 : ℚ), (-9/5 : ℚ)), ((-27/20 : ℚ), (-27/20 : ℚ)), ((-9/10 : ℚ), (-9/10 : ℚ)), ((-9/20 : ℚ), (-9/20 : ℚ)), ((0/1 : ℚ), (0/1 : ℚ)), ((13207/24000 : ℚ), (13207/24000 : ℚ)), ((13213/12000 : ℚ), (13213/12000 : ℚ)), ((13219/8000 : ℚ), (13219/8000 : ℚ)), ((529/240 : ℚ), (529/240 : ℚ)), ((13231/4800 : ℚ), (13231/4800 : ℚ)), ((13237/4000 : ℚ), (13237/4000 : ℚ)), ((92701/24000 : ℚ), (92701/24000 : ℚ)), ((13249/3000 : ℚ), (13249/3000 : ℚ)), ((7953/1600 : ℚ), (7953/1600 : ℚ))]

def cxSt58 : GameState := cxState (384511/72000 : ℚ) (3329/600 : ℚ) (384511/72000 : ℚ) (301/30 : ℚ) (29/30 : ℚ) (29/5400 : ℚ) (43/30 : ℚ) [(319711/72000 : ℚ), (254911/72000 : ℚ), (190111/72000 : ℚ), (125311/72000 : ℚ), (60511/72000 : ℚ), (-4289/72000 : ℚ), (-69089/72000 : ℚ), (-133889/72000 : ℚ)] [((-117/20 : ℚ), (-117/20 : ℚ)), ((-27/5 : ℚ), (-27/5 : ℚ)), ((-99/20 : ℚ), (-99/20 : ℚ)), ((-9/2 : ℚ), (-9/2 : ℚ)), ((-81/20 : ℚ), (-81/20 : ℚ)), ((-18/5 : ℚ), (-18/5 : ℚ)), ((-63/20 : ℚ), (-63/20 : ℚ)), ((-27/10 : ℚ), (-27/10 : ℚ)), ((-9/4 : ℚ), (-9/4 : ℚ)), ((-9/5 : ℚ), (-9/5 : ℚ)), ((-27/20 : ℚ), (-27/20 : ℚ)), ((-9/10 : ℚ), (-9/10 : ℚ)), ((-9/20 : ℚ), (-9/20 : ℚ)), ((0/1 : ℚ), (0/1 : ℚ)), ((13207/24000 : ℚ), (13207/24000 : ℚ)), ((13213/12000 : ℚ), (13213/12000 : ℚ)), ((13219/8000 : ℚ), (13219/8000 : ℚ)), ((529/240 : ℚ), (529/240 : ℚ)), ((13231/4800 : ℚ), (13231/4800 : ℚ)), ((13237/4000 : ℚ), (13237/4000 : ℚ)), ((92701/24000 : ℚ), (92701/24000 : ℚ)), ((13249/3000 : ℚ), (13249/3000 : ℚ)), ((7953/1600 : ℚ), (7953/1600 : ℚ))]

def cxSt59 : GameState := cxState (13039/2400 : ℚ) (6659/1200 : ℚ) (13039/2400 : ℚ) (601/60 : ℚ) (59/60 : ℚ) (59/10800 : ℚ) (17/12 : ℚ) [(10879/2400 : ℚ), (8719/2400 : ℚ), (6559/2400 : ℚ), (4399/2400 : ℚ), (2239/2400 : ℚ), (79/2400 : ℚ), (-2081/2400 : ℚ), (-4241/2400 : ℚ)] [((-27/5 : ℚ), (-27/5 : ℚ)), ((-99/20 : ℚ), (-99/20 : ℚ)), ((-9/2 : ℚ), (-9/2 : ℚ)), ((-81/20 : ℚ), (-81/20 : ℚ)), ((-18/5 : ℚ), (-18/5 : ℚ)), ((-63/20 : ℚ), (-63/20 : ℚ)), ((-27/10 : ℚ), (-27/10 : ℚ)), ((-9/4 : ℚ), (-9/4 : ℚ)), ((-9/5 : ℚ), (-9/5 : ℚ)), ((-27/20 : ℚ), (-27/20 : ℚ)), ((-9/10 : ℚ), (-9/10 : ℚ)), ((-9/20 : ℚ), (-9/20 : ℚ)), ((0/1 : ℚ), (0/1 : ℚ)), ((13207/24000 : ℚ), (13207/24000 : ℚ)), ((13213/12000 : ℚ), (13213/12000 : ℚ)), ((13219/8000 : ℚ), (13219/8000 : ℚ)), ((529/240 : ℚ), (529/240 : ℚ)), ((13231/4800 : ℚ), (13231/4800 : ℚ)), ((13237/4000 : ℚ), (13237/4000 : ℚ)), ((92701/24000 : ℚ), (92701/24000 : ℚ)), ((13249/3000 : ℚ), (13249/3000 : ℚ)), ((7953/1600 : ℚ), (7953/1600 : ℚ))]

def cxSt60 : GameState := cxState (13261/2400 : ℚ) (111/20 : ℚ) (13261/2400 : ℚ) (10/1 : ℚ) (1/1 : ℚ) (1/180 : ℚ) (7/5 : ℚ) [(11101/2400 : ℚ), (8941/2400 : ℚ), (6781/2400 : ℚ), (4621/2400 : ℚ), (2461/2400 : ℚ), (301/2400 : ℚ), (-1859/2400 : ℚ), (-4019/2400 : ℚ)] [((-27/5 : ℚ), (-27/5 : ℚ)), ((-99/20 : ℚ), (-99/20 : ℚ)), ((-9/2 : ℚ), (-9/2 : ℚ)), ((-81/20 : ℚ), (-81/20 : ℚ)), ((-18/5 : ℚ), (-18/5 : ℚ)), ((-63/20 : ℚ), (-63/20 : ℚ)), ((-27/10 : ℚ), (-27/10 : ℚ)), ((-9/4 : ℚ), (-9/4 : ℚ)), ((-9/5 : ℚ), (-9/5 : ℚ)), ((-27/20 : ℚ), (-27/20 : ℚ)), ((-9/10 : ℚ), (-9/10 : ℚ)), ((-9/20 : ℚ), (-9/20 : ℚ)), ((0/1 : ℚ), (0/1 : ℚ)), ((13207/24000 : ℚ), (13207/24000 : ℚ)), ((13213/12000 : ℚ), (13213/12000 : ℚ)), ((13219/8000 : ℚ), (13219/8000 : ℚ)), ((529/240 : ℚ), (529/240 : ℚ)), ((13231/4800 : ℚ), (13231/4800 : ℚ)), ((13237/4000 : ℚ), (13237/4000 : ℚ)), ((92701/24000 : ℚ), (92701/24000 : ℚ)), ((13249/3000 : ℚ), (13249/3000 : ℚ)), ((7953/1600 : ℚ), (7953/1600 : ℚ)), ((13261/2400 : ℚ), (13261/2400 : ℚ))]

def cxSt61 : GameState := cxState (404491/72000 : ℚ) (6661/1200 : ℚ) (404491/72000 : ℚ) (599/60 : ℚ) (61/60 : ℚ) (61/10800 : ℚ) (83/60 : ℚ) [(339691/72000 : ℚ), (274891/72000 : ℚ), (210091/72000 : ℚ), (145291/72000 : ℚ), (80491/72000 : ℚ), (15691/72000 : ℚ), (-49109/72000 : ℚ), (-113909/72000 : ℚ)] [((-27/5 : ℚ), (-27/5 : ℚ)), ((-99/20 : ℚ), (-99/20 : ℚ)), ((-9/2 : ℚ), (-9/2 : ℚ)), ((-81/20 : ℚ), (-81/20 : ℚ)), ((-18/5 : ℚ), (-18/5 : ℚ)), ((-63/20 : ℚ), (-63/20 : ℚ)), ((-27/10 : ℚ), (-27/10 : ℚ)), ((-9/4 : ℚ), (-9/4 : ℚ)), ((-9/5 : ℚ), (-9/5 : ℚ)), ((-27/20 : ℚ), (-27/20 : ℚ)), ((-9/10 : ℚ), (-9/10 : ℚ)), ((-9/20 : ℚ), (-9/20 : ℚ)), ((0/1 : ℚ), (0/1 : ℚ)), ((13207/24000 : ℚ), (13207/24000 : ℚ)), ((13213/12000 : ℚ), (13213/12000 : ℚ)), ((13219/8000 : ℚ), (13219/8000 : ℚ)), ((529/240 : ℚ), (529/240 : ℚ)), ((13231/4800 : ℚ), (13231/4800 : ℚ)), ((13237/4000 : ℚ), (13237/4000 : ℚ)), ((92701/24000 : ℚ), (92701/24000 : ℚ)), ((13249/3000 : ℚ), (13249/3000 : ℚ)), ((7953/1600 : ℚ), (7953/1600 : ℚ)), ((13261/2400 : ℚ), (13261/2400 : ℚ))]

def cxSt62 : GameState := cxState (137051/24000 : ℚ) (3331/600 : ℚ) (137051/24000 : ℚ) (299/30 : ℚ) (31/30 : ℚ) (31/5400 : ℚ) (41/30 : ℚ) [(115451/24000 : ℚ), (93851/24000 : ℚ), (72251/24000 : ℚ), (50651/24000 : ℚ), (29051/24000 : ℚ), (7451/24000 : ℚ), (-14149/24000 : ℚ), (-35749/24000 : ℚ)] [((-27/5 : ℚ), (-27/5 : ℚ)), ((-99/20 : ℚ), (-99/20 : ℚ)), ((-9/2 : ℚ), (-9/2 : ℚ)), ((-81/20 : ℚ), (-81/20 : ℚ)), ((-18/5 : ℚ), (-18/5 : ℚ)), ((-63/20 : ℚ), (-63/20 : ℚ)), ((-27/10 : ℚ), (-27/10 : ℚ)), ((-9/4 : ℚ), (-9/4 : ℚ)), ((-9/5 : ℚ), (-9/5 : ℚ)), ((-27/20 : ℚ), (-27/20 : ℚ)), ((-9/10 : ℚ), (-9/10 : ℚ)), ((-9/20 : ℚ), (-9/20 : ℚ)), ((0/1 : ℚ), (0/1 : ℚ)), ((13207/24000 : ℚ), (13207/24000 : ℚ)), ((13213/12000 : ℚ), (13213/12000 : ℚ)), ((13219/8000 : ℚ), (13219/8000 : ℚ)), ((529/240 : ℚ), (529/240 : ℚ)), ((13231/4800 : ℚ), (13231/4800 : ℚ)), ((13237/4000 : ℚ), (13237/4000 : ℚ)), ((92701/24000 : ℚ), (92701/24000 : ℚ)), ((13249/3000 : ℚ), (13249/3000 : ℚ)), ((7953/1600 : ℚ), (7953/1600 : ℚ)), ((13261/2400 : ℚ), (13261/2400 : ℚ))]

def cxSt63 : GameState := cxState (5803/1000 : ℚ) (2221/400 : ℚ) (5803/1000 : ℚ) (199/20 : ℚ) (21/20 : ℚ) (7/1200 : ℚ) (27/20 : ℚ) [(4903/1000 : ℚ), (4003/1000 : ℚ), (3103/1000 : ℚ), (2203/1000 : ℚ), (1303/1000 : ℚ), (403/1000 : ℚ), (-497/1000 : ℚ), (-1397/1000 : ℚ)] [((-27/5 : ℚ), (-27/5 : ℚ)), ((-99/20 : ℚ), (-99/20 : ℚ)), ((-9/2 : ℚ), (-9/2 : ℚ)), ((-81/20 : ℚ), (-81/20 : ℚ)), ((-18/5 : ℚ), (-18/5 : ℚ)), ((-63/20 : ℚ), (-63/20 : ℚ)), ((-27/10 : ℚ), (-27/10 : ℚ)), ((-9/4 : ℚ), (-9/4 : ℚ)), ((-9/5 : ℚ), (-9/5 : ℚ)), ((-27/20 : ℚ), (-27/20 : ℚ)), ((-9/10 : ℚ), (-9/10 : ℚ)), ((-9/20 : ℚ), (-9/20 : ℚ)), ((0/1 : ℚ), (0/1 : ℚ)), ((13207/24000 : ℚ), (13207/24000 : ℚ)), ((13213/12000 : ℚ), (13213/12000 : ℚ)), ((13219/8000 : ℚ), (13219/8000 : ℚ)), ((529/240 : ℚ), (529/240 : ℚ)), ((13231/4800 : ℚ), (13231/4800 : ℚ)), ((13237/4000 : ℚ), (13237/4000 : ℚ)), ((92701/24000 : ℚ), (92701/24000 : ℚ)), ((13249/3000 : ℚ), (13249/3000 : ℚ)), ((7953/1600 : ℚ), (7953/1600 : ℚ)), ((13261/2400 : ℚ), (13261/2400 : ℚ))]

def cxSt64 : GameState := cxState (2653/450 : ℚ) (833/150 : ℚ) (2653/450 : ℚ) (149/15 : ℚ) (16/15 : ℚ) (4/675 : ℚ) (4/3 : ℚ) [(1124/225 : ℚ), (1843/450 : ℚ), (719/225 : ℚ), (1033/450 : ℚ), (314/225 : ℚ), (223/450 : ℚ), (-91/225 : ℚ), (-587/450 : ℚ)] [((-99/20 : ℚ), (-99/20 : ℚ)), ((-9/2 : ℚ), (-9/2 : ℚ)), ((-81/20 : ℚ), (-81/20 : ℚ)), ((-18/5 : ℚ), (-18/5 : ℚ)), ((-63/20 : ℚ), (-63/20 : ℚ)), ((-27/10 : ℚ), (-27/10 : ℚ)), ((-9/4 : ℚ), (-9/4 : ℚ)), ((-9/5 : ℚ), (-9/5 : ℚ)), ((-27/20 : ℚ), (-27/20 : ℚ)), ((-9/10 : ℚ), (-9/10 : ℚ)), ((-9/20 : ℚ), (-9/20 : ℚ)), ((0/1 : ℚ), (0/1 : ℚ)), ((13207/24000 : ℚ), (13207/24000 : ℚ)), ((13213/12000 : ℚ), (13213/12000 : ℚ)), ((13219/8000 : ℚ), (13219/8000 : ℚ)), ((529/240 : ℚ), (529/240 : ℚ)), ((13231/4800 : ℚ), (13231/4800 : ℚ)), ((13237/4000 : ℚ), (13237/4000 : ℚ)), ((92701/24000 : ℚ), (92701/24000 : ℚ)), ((13249/3000 : ℚ), (13249/3000 : ℚ)), ((7953/1600 : ℚ), (7953/1600 : ℚ)), ((13261/2400 : ℚ), (13261/2400 : ℚ))]

def cxSt65 : GameState := cxState (9581/1600 : ℚ) (1333/240 : ℚ) (9581/1600 : ℚ) (119/12 : ℚ) (13/12 : ℚ) (13/2160 : ℚ) (79/60 : ℚ) [(8141/1600 : ℚ), (6701/1600 : ℚ), (5261/1600 : ℚ), (3821/1600 : ℚ), (2381/1600 : ℚ), (941/1600 : ℚ), (-499/1600 : ℚ), (-1939/1600 : ℚ)] [((-99/20 : ℚ), (-99/20 : ℚ)), ((-9/2 : ℚ), (-9/2 : ℚ)), ((-81/20 : ℚ), (-81/20 : ℚ)), ((-18/5 : ℚ), (-18/5 : ℚ)), ((-63/20 : ℚ), (-63/20 : ℚ)), ((-27/10 : ℚ), (-27/10 : ℚ)), ((-9/4 : ℚ), (-9/4 : ℚ)), ((-9/5 : ℚ), (-9/5 : ℚ)), ((-27/20 : ℚ), (-27/20 : ℚ)), ((-9/10 : ℚ), (-9/10 : ℚ)), ((-9/20 : ℚ), (-9/20 : ℚ)), ((0/1 : ℚ), (0/1 : ℚ)), ((13207/24000 : ℚ), (13207/24000 : ℚ)), ((13213/12000 : ℚ), (13213/12000 : ℚ)), ((13219/8000 : ℚ), (13219/8000 : ℚ)), ((529/240 : ℚ), (529/240 : ℚ)), ((13231/4800 : ℚ), (13231/4800 : ℚ)), ((13237/4000 : ℚ), (13237/4000 : ℚ)), ((92701/24000 : ℚ), (92701/24000 : ℚ)), ((13249/3000 : ℚ), (13249/3000 : ℚ)), ((7953/1600 : ℚ), (7953/1600 : ℚ)), ((13261/2400 : ℚ), (13261/2400 : ℚ))]

def cxSt66 : GameState := cxState (145937/24000 : ℚ) (1111/200 : ℚ) (145937/24000 : ℚ) (99/10 : ℚ) (11/10 : ℚ) (11/1800 : ℚ) (13/10 : ℚ) [(124337/24000 : ℚ), (102737/24000 : ℚ), (81137/24000 : ℚ), (59537/24000 : ℚ), (37937/24000 : ℚ), (16337/24000 : ℚ), (-5263/24000 : ℚ), (-26863/24000 : ℚ)] [((-99/20 : ℚ), (-99/20 : ℚ)), ((-9/2 : ℚ), (-9/2 : ℚ)), ((-81/20 : ℚ), (-81/20 : ℚ)), ((-18/5 : ℚ), (-18/5 : ℚ)), ((-63/20 : ℚ), (-63/20 : ℚ)), ((-27/10 : ℚ), (-27/10 : ℚ)), ((-9/4 : ℚ), (-9/4 : ℚ)), ((-9/5 : ℚ), (-9/5 : ℚ)), ((-27/20 : ℚ), (-27/20 : ℚ)), ((-9/10 : ℚ), (-9/10 : ℚ)), ((-9/20 : ℚ), (-9/20 : ℚ)), ((0/1 : ℚ), (0/1 : ℚ)), ((13207/24000 : ℚ), (13207/24000 : ℚ)), ((13213/12000 : ℚ), (13213/12000 : ℚ)), ((13219/8000 : ℚ), (13219/8000 : ℚ)), ((529/240 : ℚ), (529/240 : ℚ)), ((13231/4800 : ℚ), (13231/4800 : ℚ)), ((13237/4000 : ℚ), (13237/4000 : ℚ)), ((92701/24000 : ℚ), (92701/24000 : ℚ)), ((13249/3000 : ℚ), (13249/3000 : ℚ)), ((7953/1600 : ℚ), (7953/1600 : ℚ)), ((13261/2400 : ℚ), (13261/2400 : ℚ)), ((145937/24000 : ℚ), (145937/24000 : ℚ))]

def cxSt67 : GameState := cxState (222239/36000 : ℚ) (6667/1200 : ℚ) (222239/36000 : ℚ) (593/60 : ℚ) (67/60 : ℚ) (67/10800 : ℚ) (77/60 : ℚ) [(189839/36000 : ℚ), (157439/36000 : ℚ), (125039/36000 : ℚ), (92639/36000 : ℚ), (60239/36000 : ℚ), (27839/36000 : ℚ), (-4561/36000 : ℚ), (-36961/36000 : ℚ)] [((-99/20 : ℚ), (-99/20 : ℚ)), ((-9/2 : ℚ), (-9/2 : ℚ)), ((-81/20 : ℚ), (-81/20 : ℚ)), ((-18/5 : ℚ), (-18/5 : ℚ)), ((-63/20 : ℚ), (-63/20 : ℚ)), ((-27/10 : ℚ), (-27/10 : ℚ)), ((-9/4 : ℚ), (-9/4 : ℚ)), ((-9/5 : ℚ), (-9/5 : ℚ)), ((-27/20 : ℚ), (-27/20 : ℚ)), ((-9/10 : ℚ), (-9/10 : ℚ)), ((-9/20 : ℚ), (-9/20 : ℚ)), ((0/1 : ℚ), (0/1 : ℚ)), ((13207/24000 : ℚ), (13207/24000 : ℚ)), ((13213/12000 : ℚ), (13213/12000 : ℚ)), ((13219/8000 : ℚ), (13219/8000 : ℚ)), ((529/240 : ℚ), (529/240 : ℚ)), ((13231/4800 : ℚ), (13231/4800 : ℚ)), ((13237/4000 : ℚ), (13237/4000 : ℚ)), ((92701/24000 : ℚ), (92701/24000 : ℚ)), ((13249/3000 : ℚ), (13249/3000 : ℚ)), ((7953/1600 : ℚ), (7953/1600 : ℚ)), ((13261/2400 : ℚ), (13261/2400 : ℚ)), ((145937/24000 : ℚ), (145937/24000 : ℚ))]

def cxSt68 : GameState := cxState (75191/12000 : ℚ) (1667/300 : ℚ) (75191/12000 : ℚ) (148/15 : ℚ) (17/15 : ℚ) (17/2700 : ℚ) (19/15 : ℚ) [(64391/12000 : ℚ), (53591/12000 : ℚ), (42791/12000 : ℚ), (31991/12000 : ℚ), (21191/12000 : ℚ), (10391/12000 : ℚ), (-409/12000 : ℚ), (-11209/12000 : ℚ)] [((-99/20 : ℚ), (-99/20 : ℚ)), ((-9/2 : ℚ), (-9/2 : ℚ)), ((-81/20 : ℚ), (-81/20 : ℚ)), ((-18/5 : ℚ), (-18/5 : ℚ)), ((-63/20 : ℚ), (-63/20 : ℚ)), ((-27/10 : ℚ), (-27/10 : ℚ)), ((-9/4 : ℚ), (-9/4 : ℚ)), ((-9/5 : ℚ), (-9/5 : ℚ)), ((-27/20 : ℚ), (-27/20 : ℚ)), ((-9/10 : ℚ), (-9/10 : ℚ)), ((-9/20 : ℚ), (-9/20 : ℚ)), ((0/1 : ℚ), (0/1 : ℚ)), ((13207/24000 : ℚ), (13207/24000 : ℚ)), ((13213/12000 : ℚ), (13213/12000 : ℚ)), ((13219/8000 : ℚ), (13219/8000 : ℚ)), ((529/240 : ℚ), (529/240 : ℚ)), ((13231/4800 : ℚ), (13231/4800 : ℚ)), ((13237/4000 : ℚ), (13237/4000 : ℚ)), ((92701/24000 : ℚ), (92701/24000 : ℚ)), ((13249/3000 : ℚ), (13249/3000 : ℚ)), ((7953/1600 : ℚ), (7953/1600 : ℚ)), ((13261/2400 : ℚ), (13261/2400 : ℚ)), ((145937/24000 : ℚ), (145937/24000 : ℚ))]

def cxSt69 : GameState := cxState (30521/4800 : ℚ) (2223/400 : ℚ) (30521/4800 : ℚ) (197/20 : ℚ) (23/20 : ℚ) (23/3600 : ℚ) (5/4 : ℚ) [(26201/4800 : ℚ), (21881/4800 : ℚ), (17561/4800 : ℚ), (13241/4800 : ℚ), (8921/4800 : ℚ), (4601/4800 : ℚ), (281/4800 : ℚ), (-4039/4800 : ℚ)] [((-9/2 : ℚ), (-9/2 : ℚ)), ((-81/20 : ℚ), (-81/20 : ℚ)), ((-18/5 : ℚ), (-18/5 : ℚ)), ((-63/20 : ℚ), (-63/20 : ℚ)), ((-27/10 : ℚ), (-27/10 : ℚ)), ((-9/4 : ℚ), (-9/4 : ℚ)), ((-9/5 : ℚ), (-9/5 : ℚ)), ((-27/20 : ℚ), (-27/20 : ℚ)), ((-9/10 : ℚ), (-9/10 : ℚ)), ((-9/20 : ℚ), (-9/20 : ℚ)), ((0/1 : ℚ), (0/1 : ℚ)), ((13207/24000 : ℚ), (13207/24000 : ℚ)), ((13213/12000 : ℚ), (13213/12000 : ℚ)), ((13219/8000 : ℚ), (13219/8000 : ℚ)), ((529/240 : ℚ), (529/240 : ℚ)), ((13231/4800 : ℚ), (13231/4800 : ℚ)), ((13237/4000 : ℚ), (13237/4000 : ℚ)), ((92701/24000 : ℚ), (92701/24000 : ℚ)), ((13249/3000 : ℚ), (13249/3000 : ℚ)), ((7953/1600 : ℚ), (7953/1600 : ℚ)), ((13261/2400 : ℚ), (13261/2400 : ℚ)), ((145937/24000 : ℚ), (145937/24000 : ℚ))]

def cxSt70 : GameState := cxState (92897/14400 : ℚ) (667/120 : ℚ) (92897/14400 : ℚ) (59/6 : ℚ) (7/6 : ℚ) (7/1080 : ℚ) (37/30 : ℚ) [(79937/14400 : ℚ), (66977/14400 : ℚ), (54017/14400 : ℚ), (41057/14400 : ℚ), (28097/14400 : ℚ), (15137/14400 : ℚ), (2177/14400 : ℚ), (-10783/14400 : ℚ)] [((-9/2 : ℚ), (-9/2 : ℚ)), ((-81/20 : ℚ), (-81/20 : ℚ)), ((-18/5 : ℚ), (-18/5 : ℚ)), ((-63/20 : ℚ), (-63/20 : ℚ)), ((-27/10 : ℚ), (-27/10 : ℚ)), ((-9/4 : ℚ), (-9/4 : ℚ)), ((-9/5 : ℚ), (-9/5 : ℚ)), ((-27/20 : ℚ), (-27/20 : ℚ)), ((-9/10 : ℚ), (-9/10 : ℚ)), ((-9/20 : ℚ), (-9/20 : ℚ)), ((0/1 : ℚ), (0/1 : ℚ)), ((13207/24000 : ℚ), (13207/24000 : ℚ)), ((13213/12000 : ℚ), (13213/12000 : ℚ)), ((13219/8000 : ℚ), (13219/8000 : ℚ)), ((529/240 : ℚ), (529/240 : ℚ)), ((13231/4800 : ℚ), (13231/4800 : ℚ)), ((13237/4000 : ℚ), (13237/4000 : ℚ)), ((92701/24000 : ℚ), (92701/24000 : ℚ)), ((13249/3000 : ℚ), (13249/3000 : ℚ)), ((7953/1600 : ℚ), (7953/1600 : ℚ)), ((13261/2400 : ℚ), (13261/2400 : ℚ)), ((145937/24000 : ℚ), (145937/24000 : ℚ))]

def cxSt71 : GameState := cxState (39263/6000 : ℚ) (6671/1200 : ℚ) (39263/6000 : ℚ) (589/60 : ℚ) (71/60 : ℚ) (71/10800 : ℚ) (73/60 : ℚ) [(33863/6000 : ℚ), (28463/6000 : ℚ), (23063/6000 : ℚ), (17663/6000 : ℚ), (12263/6000 : ℚ), (6863/6000 : ℚ), (1463/6000 : ℚ), (-3937/6000 : ℚ)] [((-9/2 : ℚ), (-9/2 : ℚ)), ((-81/20 : ℚ), (-81/20 : ℚ)), ((-18/5 : ℚ), (-18/5 : ℚ)), ((-63/20 : ℚ), (-63/20 : ℚ)), ((-27/10 : ℚ), (-27/10 : ℚ)), ((-9/4 : ℚ), (-9/4 : ℚ)), ((-9/5 : ℚ), (-9/5 : ℚ)), ((-27/20 : ℚ), (-27/20 : ℚ)), ((-9/10 : ℚ), (-9/10 : ℚ)), ((-9/20 : ℚ), (-9/20 : ℚ)), ((0/1 : ℚ), (0/1 : ℚ)), ((13207/24000 : ℚ), (13207/24000 : ℚ)), ((13213/12000 : ℚ), (13213/12000 : ℚ)), ((13219/8000 : ℚ), (13219/8000 : ℚ)), ((529/240 : ℚ), (529/240 : ℚ)), ((13231/4800 : ℚ), (13231/4800 : ℚ)), ((13237/4000 : ℚ), (13237/4000 : ℚ)), ((92701/24000 : ℚ), (92701/24000 : ℚ)), ((13249/3000 : ℚ), (13249/3000 : ℚ)), ((7953/1600 : ℚ), (7953/1600 : ℚ)), ((13261/2400 : ℚ), (13261/2400 : ℚ)), ((145937/24000 : ℚ), (145937/24000 : ℚ))]

def cxSt72 : GameState := cxState (13273/2000 : ℚ) (139/25 : ℚ) (13273/2000 : ℚ) (49/5 : ℚ) (6/5 : ℚ) (1/150 : ℚ) (6/5 : ℚ) [(11473/2000 : ℚ), (9673/2000 : ℚ), (7873/2000 : ℚ), (6073/2000 : ℚ), (4273/2000 : ℚ), (2473/2000 : ℚ), (673/2000 : ℚ), (-1127/2000 : ℚ)] [((-9/2 : ℚ), (-9/2 : ℚ)), ((-81/20 : ℚ), (-81/20 : ℚ)), ((-18/5 : ℚ), (-18/5 : ℚ)), ((-63/20 : ℚ), (-63/20 : ℚ)), ((-27/10 : ℚ), (-27/10 : ℚ)), ((-9/4 : ℚ), (-9/4 : ℚ)), ((-9/5 : ℚ), (-9/5 : ℚ)), ((-27/20 : ℚ), (-27/20 : ℚ)), ((-9/10 : ℚ), (-9/10 : ℚ)), ((-9/20 : ℚ), (-9/20 : ℚ)), ((0/1 : ℚ), (0/1 : ℚ)), ((13207/24000 : ℚ), (13207/24000 : ℚ)), ((13213/12000 : ℚ), (13213/12000 : ℚ)), ((13219/8000 : ℚ), (13219/8000 : ℚ)), ((529/240 : ℚ), (529/240 : ℚ)), ((13231/4800 : ℚ), (13231/4800 : ℚ)), ((13237/4000 : ℚ), (13237/4000 : ℚ)), ((92701/24000 : ℚ), (92701/24000 : ℚ)), ((13249/3000 : ℚ), (13249/3000 : ℚ)), ((7953/1600 : ℚ), (7953/1600 : ℚ)), ((13261/2400 : ℚ), (13261/2400 : ℚ)), ((145937/24000 : ℚ), (145937/24000 : ℚ)), ((13273/2000 : ℚ), (13273/2000 : ℚ))]

def cxSt73 : GameState := cxState (484501/72000 : ℚ) (6673/1200 : ℚ) (484501/72000 : ℚ) (587/60 : ℚ) (73/60 : ℚ) (73/10800 : ℚ) (71/60 : ℚ) [(419701/72000 : ℚ), (354901/72000 : ℚ), (290101/72000 : ℚ), (225301/72000 : ℚ), (160501/72000 : ℚ), (95701/72000 : ℚ), (30901/72000 : ℚ), (-33899/72000 : ℚ)] [((-9/2 : ℚ), (-9/2 : ℚ)), ((-81/20 : ℚ), (-81/20 : ℚ)), ((-18/5 : ℚ), (-18/5 : ℚ)), ((-63/20 : ℚ), (-63/20 : ℚ)), ((-27/10 : ℚ), (-27/10 : ℚ)), ((-9/4 : ℚ), (-9/4 : ℚ)), ((-9/5 : ℚ), (-9/5 : ℚ)), ((-27/20 : ℚ), (-27/20 : ℚ)), ((-9/10 : ℚ), (-9/10 : ℚ)), ((-9/20 : ℚ), (-9/20 : ℚ)), ((0/1 : ℚ), (0/1 : ℚ)), ((13207/24000 : ℚ), (13207/24000 : ℚ)), ((13213/12000 : ℚ), (13213/12000 : ℚ)), ((13219/8000 : ℚ), (13219/8000 : ℚ)), ((529/240 : ℚ), (529/240 : ℚ)), ((13231/4800 : ℚ), (13231/4800 : ℚ)), ((13237/4000 : ℚ), (13237/4000 : ℚ)), ((92701/24000 : ℚ), (92701/24000 : ℚ)), ((13249/3000 : ℚ), (13249/3000 : ℚ)), ((7953/1600 : ℚ), (7953/1600 : ℚ)), ((13261/2400 : ℚ), (13261/2400 : ℚ)), ((145937/24000 : ℚ), (145937/24000 : ℚ)), ((13273/2000 : ℚ), (13273/2000 : ℚ))]

def cxSt74 : GameState := cxState (2183/320 : ℚ) (3337/600 : ℚ) (2183/320 : ℚ) (293/30 : ℚ) (37/30 : ℚ) (37/5400 : ℚ) (7/6 : ℚ) [(379/64 : ℚ), (1607/320 : ℚ), (1319/320 : ℚ), (1031/320 : ℚ), (743/320 : ℚ), (91/64 : ℚ), (167/320 : ℚ), (-121/320 : ℚ)] [((-81/20 : ℚ), (-81/20 : ℚ)), ((-18/5 : ℚ), (-18/5 : ℚ)), ((-63/20 : ℚ), (-63/20 : ℚ)), ((-27/10 : ℚ), (-27/10 : ℚ)), ((-9/4 : ℚ), (-9/4 : ℚ)), ((-9/5 : ℚ), (-9/5 : ℚ)), ((-27/20 : ℚ), (-27/20 : ℚ)), ((-9/10 : ℚ), (-9/10 : ℚ)), ((-9/20 : ℚ), (-9/20 : ℚ)), ((0/1 : ℚ), (0/1 : ℚ)), ((13207/24000 : ℚ), (13207/24000 : ℚ)), ((13213/12000 : ℚ), (13213/12000 : ℚ)), ((13219/8000 : ℚ), (13219/8000 : ℚ)), ((529/240 : ℚ), (529/240 : ℚ)), ((13231/4800 : ℚ), (13231/4800 : ℚ)), ((13237/4000 : ℚ), (13237/4000 : ℚ)), ((92701/24000 : ℚ), (92701/24000 : ℚ)), ((13249/3000 : ℚ), (13249/3000 : ℚ)), ((7953/1600 : ℚ), (7953/1600 : ℚ)), ((13261/2400 : ℚ), (13261/2400 : ℚ)), ((145937/24000 : ℚ), (145937/24000 : ℚ)), ((13273/2000 : ℚ), (13273/2000 : ℚ))]

def cxSt75 : GameState := cxState (3319/480 : ℚ) (89/16 : ℚ) (3319/480 : ℚ) (39/4 : ℚ) (5/4 : ℚ) (1/144 : ℚ) (23/20 : ℚ) [(2887/480 : ℚ), (491/96 : ℚ), (2023/480 : ℚ), (1591/480 : ℚ), (1159/480 : ℚ), (727/480 : ℚ), (59/96 : ℚ), (-137/480 : ℚ)] [((-81/20 : ℚ), (-81/20 : ℚ)), ((-18/5 : ℚ), (-18/5 : ℚ)), ((-63/20 : ℚ), (-63/20 : ℚ)), ((-27/10 : ℚ), (-27/10 : ℚ)), ((-9/4 : ℚ), (-9/4 : ℚ)), ((-9/5 : ℚ), (-9/5 : ℚ)), ((-27/20 : ℚ), (-27/20 : ℚ)), ((-9/10 : ℚ), (-9/10 : ℚ)), ((-9/20 : ℚ), (-9/20 : ℚ)), ((0/1 : ℚ), (0/1 : ℚ)), ((13207/24000 : ℚ), (13207/24000 : ℚ)), ((13213/12000 : ℚ), (13213/12000 : ℚ)), ((13219/8000 : ℚ), (13219/8000 : ℚ)), ((529/240 : ℚ), (529/240 : ℚ)), ((13231/4800 : ℚ), (13231/4800 : ℚ)), ((13237/4000 : ℚ), (13237/4000 : ℚ)), ((92701/24000 : ℚ), (92701/24000 : ℚ)), ((13249/3000 : ℚ), (13249/3000 : ℚ)), ((7953/1600 : ℚ), (7953/1600 : ℚ)), ((13261/2400 : ℚ), (13261/2400 : ℚ)), ((145937/24000 : ℚ), (145937/24000 : ℚ)), ((13273/2000 : ℚ), (13273/2000 : ℚ))]

def cxSt76 : GameState := cxState (252263/36000 : ℚ) (1669/300 : ℚ) (252263/36000 : ℚ) (146/15 : ℚ) (19/15 : ℚ) (19/2700 : ℚ) (17/15 : ℚ) [(219863/36000 : ℚ), (187463/36000 : ℚ), (155063/36000 : ℚ), (122663/36000 : ℚ), (90263/36000 : ℚ), (57863/36000 : ℚ), (25463/36000 : ℚ), (-6937/36000 : ℚ)] [((-81/20 : ℚ), (-81/20 : ℚ)), ((-18/5 : ℚ), (-18/5 : ℚ)), ((-63/20 : ℚ), (-63/20 : ℚ)), ((-27/10 : ℚ), (-27/10 : ℚ)), ((-9/4 : ℚ), (-9/4 : ℚ)), ((-9/5 : ℚ), (-9/5 : ℚ)), ((-27/20 : ℚ), (-27/20 : ℚ)), ((-9/10 : ℚ), (-9/10 : ℚ)), ((-9/20 : ℚ), (-9/20 : ℚ)), ((0/1 : ℚ), (0/1 : ℚ)), ((13207/24000 : ℚ), (13207/24000 : ℚ)), ((13213/12000 : ℚ), (13213/12000 : ℚ)), ((13219/8000 : ℚ), (13219/8000 : ℚ)), ((529/240 : ℚ), (529/240 : ℚ)), ((13231/4800 : ℚ), (13231/4800 : ℚ)), ((13237/4000 : ℚ), (13237/4000 : ℚ)), ((92701/24000 : ℚ), (92701/24000 : ℚ)), ((13249/3000 : ℚ), (13249/3000 : ℚ)), ((7953/1600 : ℚ), (7953/1600 : ℚ)), ((13261/2400 : ℚ), (13261/2400 : ℚ)), ((145937/24000 : ℚ), (145937/24000 : ℚ)), ((13273/2000 : ℚ), (13273/2000 : ℚ))]

def cxSt77 : GameState := cxState (170401/24000 : ℚ) (6677/1200 : ℚ) (170401/24000 : ℚ) (583/60 : ℚ) (77/60 : ℚ) (77/10800 : ℚ) (67/60 : ℚ) [(148801/24000 : ℚ), (127201/24000 : ℚ), (105601/24000 : ℚ), (84001/24000 : ℚ), (62401/24000 : ℚ), (40801/24000 : ℚ), (19201/24000 : ℚ), (-2399/24000 : ℚ)] [((-81/20 : ℚ), (-81/20 : ℚ)), ((-18/5 : ℚ), (-18/5 : ℚ)), ((-63/20 : ℚ), (-63/20 : ℚ)), ((-27/10 : ℚ), (-27/10 : ℚ)), ((-9/4 : ℚ), (-9/4 : ℚ)), ((-9/5 : ℚ), (-9/5 : ℚ)), ((-27/20 : ℚ), (-27/20 : ℚ)), ((-9/10 : ℚ), (-9/10 : ℚ)), ((-9/20 : ℚ), (-9/20 : ℚ)), ((0/1 : ℚ), (0/1 : ℚ)), ((13207/24000 : ℚ), (13207/24000 : ℚ)), ((13213/12000 : ℚ), (13213/12000 : ℚ)), ((13219/8000 : ℚ), (13219/8000 : ℚ)), ((529/240 : ℚ), (529/240 : ℚ)), ((13231/4800 : ℚ), (13231/4800 : ℚ)), ((13237/4000 : ℚ), (13237/4000 : ℚ)), ((92701/24000 : ℚ), (92701/24000 : ℚ)), ((13249/3000 : ℚ), (13249/3000 : ℚ)), ((7953/1600 : ℚ), (7953/1600 : ℚ)), ((13261/2400 : ℚ), (13261/2400 : ℚ)), ((145937/24000 : ℚ), (145937/24000 : ℚ)), ((13273/2000 : ℚ), (13273/2000 : ℚ))]

def cxSt78 : GameState := cxState (172627/24000 : ℚ) (1113/200 : ℚ) (172627/24000 : ℚ) (97/10 : ℚ) (13/10 : ℚ) (13/1800 : ℚ) (11/10 : ℚ) [(151027/24000 : ℚ), (129427/24000 : ℚ), (107827/24000 : ℚ), (86227/24000 : ℚ), (64627/24000 : ℚ), (43027/24000 : ℚ), (21427/24000 : ℚ), (-173/24000 : ℚ)] [((-81/20 : ℚ), (-81/20 : ℚ)), ((-18/5 : ℚ), (-18/5 : ℚ)), ((-63/20 : ℚ), (-63/20 : ℚ)), ((-27/10 : ℚ), (-27/10 : ℚ)), ((-9/4 : ℚ), (-9/4 : ℚ)), ((-9/5 : ℚ), (-9/5 : ℚ)), ((-27/20 : ℚ), (-27/20 : ℚ)), ((-9/10 : ℚ), (-9/10 : ℚ)), ((-9/20 : ℚ), (-9/20 : ℚ)), ((0/1 : ℚ), (0/1 : ℚ)), ((13207/24000 : ℚ), (13207/24000 : ℚ)), ((13213/12000 : ℚ), (13213/12000 : ℚ)), ((13219/8000 : ℚ), (13219/8000 : ℚ)), ((529/240 : ℚ), (529/240 : ℚ)), ((13231/4800 : ℚ), (13231/4800 : ℚ)), ((13237/4000 : ℚ), (13237/4000 : ℚ)), ((92701/24000 : ℚ), (92701/24000 : ℚ)), ((13249/3000 : ℚ), (13249/3000 : ℚ)), ((7953/1600 : ℚ), (7953/1600 : ℚ)), ((13261/2400 : ℚ), (13261/2400 : ℚ)), ((145937/24000 : ℚ), (145937/24000 : ℚ)), ((13273/2000 : ℚ), (13273/2000 : ℚ)), ((172627/24000 : ℚ), (172627/24000 : ℚ))]

def cxSt79 : GameState := cxState (6557/900 : ℚ) (6679/1200 : ℚ) (6557/900 : ℚ) (581/60 : ℚ) (79/60 : ℚ) (79/10800 : ℚ) (13/12 : ℚ) [(5747/900 : ℚ), (4937/900 : ℚ), (4127/900 : ℚ), (3317/900 : ℚ), (2507/900 : ℚ), (1697/900 : ℚ), (887/900 : ℚ), (77/900 : ℚ)] [((-18/5 : ℚ), (-18/5 : ℚ)), ((-63/20 : ℚ), (-63/20 : ℚ)), ((-27/10 : ℚ), (-27/10 : ℚ)), ((-9/4 : ℚ), (-9/4 : ℚ)), ((-9/5 : ℚ), (-9/5 : ℚ)), ((-27/20 : ℚ), (-27/20 : ℚ)), ((-9/10 : ℚ), (-9/10 : ℚ)), ((-9/20 : ℚ), (-9/20 : ℚ)), ((0/1 : ℚ), (0/1 : ℚ)), ((13207/24000 : ℚ), (13207/24000 : ℚ)), ((13213/12000 : ℚ), (13213/12000 : ℚ)), ((13219/8000 : ℚ), (13219/8000 : ℚ)), ((529/240 : ℚ), (529/240 : ℚ)), ((13231/4800 : ℚ), (13231/4800 : ℚ)), ((13237/4000 : ℚ), (13237/4000 : ℚ)), ((92701/24000 : ℚ), (92701/24000 : ℚ)), ((13249/3000 : ℚ), (13249/3000 : ℚ)), ((7953/1600 : ℚ), (7953/1600 : ℚ)), ((13261/2400 : ℚ), (13261/2400 : ℚ)), ((145937/24000 : ℚ), (145937/24000 : ℚ)), ((13273/2000 : ℚ), (13273/2000 : ℚ)), ((172627/24000 : ℚ), (172627/24000 : ℚ))]

def cxSt80 : GameState := cxState (4427/600 : ℚ) (167/30 : ℚ) (4427/600 : ℚ) (29/3 : ℚ) (4/3 : ℚ) (1/135 : ℚ) (16/15 : ℚ) [(3887/600 : ℚ), (3347/600 : ℚ), (2807/600 : ℚ), (2267/600 : ℚ), (1727/600 : ℚ), (1187/600 : ℚ), (647/600 : ℚ), (107/600 : ℚ)] [((-18/5 : ℚ), (-18/5 : ℚ)), ((-63/20 : ℚ), (-63/20 : ℚ)), ((-27/10 : ℚ), (-27/10 : ℚ)), ((-9/4 : ℚ), (-9/4 : ℚ)), ((-9/5 : ℚ), (-9/5 : ℚ)), ((-27/20 : ℚ), (-27/20 : ℚ)), ((-9/10 : ℚ), (-9/10 : ℚ)), ((-9/20 : ℚ), (-9/20 : ℚ)), ((0/1 : ℚ), (0/1 : ℚ)), ((13207/24000 : ℚ), (13207/24000 : ℚ)), ((13213/12000 : ℚ), (13213/12000 : ℚ)), ((13219/8000 : ℚ), (13219/8000 : ℚ)), ((529/240 : ℚ), (529/240 : ℚ)), ((13231/4800 : ℚ), (13231/4800 : ℚ)), ((13237/4000 : ℚ), (13237/4000 : ℚ)), ((92701/24000 : ℚ), (92701/24000 : ℚ)), ((13249/3000 : ℚ), (13249/3000 : ℚ)), ((7953/1600 : ℚ), (7953/1600 : ℚ)), ((13261/2400 : ℚ), (13261/2400 : ℚ)), ((145937/24000 : ℚ), (145937/24000 : ℚ)), ((13273/2000 : ℚ), (13273/2000 : ℚ)), ((172627/24000 : ℚ), (172627/24000 : ℚ))]

def cxSt81 : GameState := cxState (59769/8000 : ℚ) (2227/400 : ℚ) (59769/8000 : ℚ) (193/20 : ℚ) (27/20 : ℚ) (3/400 : ℚ) (21/20 : ℚ) [(52569/8000 : ℚ), (45369/8000 : ℚ), (38169/8000 : ℚ), (30969/8000 : ℚ), (23769/8000 : ℚ), (16569/8000 : ℚ), (9369/8000 : ℚ), (2169/8000 : ℚ)] [((-18/5 : ℚ), (-18/5 : ℚ)), ((-63/20 : ℚ), (-63/20 : ℚ)), ((-27/10 : ℚ), (-27/10 : ℚ)), ((-9/4 : ℚ), (-9/4 : ℚ)), ((-9/5 : ℚ), (-9/5 : ℚ)), ((-27/20 : ℚ), (-27/20 : ℚ)), ((-9/10 : ℚ), (-9/10 : ℚ)), ((-9/20 : ℚ), (-9/20 : ℚ)), ((0/1 : ℚ), (0/1 : ℚ)), ((13207/24000 : ℚ), (13207/24000 : ℚ)), ((13213/12000 : ℚ), (13213/12000 : ℚ)), ((13219/8000 : ℚ), (13219/8000 : ℚ)), ((529/240 : ℚ), (529/240 : ℚ)), ((13231/4800 : ℚ), (13231/4800 : ℚ)), ((13237/4000 : ℚ), (13237/4000 : ℚ)), ((92701/24000 : ℚ), (92701/24000 : ℚ)), ((13249/3000 : ℚ), (13249/3000 : ℚ)), ((7953/1600 : ℚ), (7953/1600 : ℚ)), ((13261/2400 : ℚ), (13261/2400 : ℚ)), ((145937/24000 : ℚ), (145937/24000 : ℚ)), ((13273/2000 : ℚ), (13273/2000 : ℚ)), ((172627/24000 : ℚ), (172627/24000 : ℚ))]

def cxSt82 : GameState := cxState (544603/72000 : ℚ) (3341/600 : ℚ) (544603/72000 : ℚ) (289/30 : ℚ) (41/30 : ℚ) (41/5400 : ℚ) (31/30 : ℚ) [(479803/72000 : ℚ), (415003/72000 : ℚ), (350203/72000 : ℚ), (285403/72000 : ℚ), (220603/72000 : ℚ), (155803/72000 : ℚ), (91003/72000 : ℚ), (26203/72000 : ℚ)] [((-18/5 : ℚ), (-18/5 : ℚ)), ((-63/20 : ℚ), (-63/20 : ℚ)), ((-27/10 : ℚ), (-27/10 : ℚ)), ((-9/4 : ℚ), (-9/4 : ℚ)), ((-9/5 : ℚ), (-9/5 : ℚ)), ((-27/20 : ℚ), (-27/20 : ℚ)), ((-9/10 : ℚ), (-9/10 : ℚ)), ((-9/20 : ℚ), (-9/20 : ℚ)), ((0/1 : ℚ), (0/1 : ℚ)), ((13207/24000 : ℚ), (13207/24000 : ℚ)), ((13213/12000 : ℚ), (13213/12000 : ℚ)), ((13219/8000 : ℚ), (13219/8000 : ℚ)), ((529/240 : ℚ), (529/240 : ℚ)), ((13231/4800 : ℚ), (13231/4800 : ℚ)), ((13237/4000 : ℚ), (13237/4000 : ℚ)), ((92701/24000 : ℚ), (92701/24000 : ℚ)), ((13249/3000 : ℚ), (13249/3000 : ℚ)), ((7953/1600 : ℚ), (7953/1600 : ℚ)), ((13261/2400 : ℚ), (13261/2400 : ℚ)), ((145937/24000 : ℚ), (145937/24000 : ℚ)), ((13273/2000 : ℚ), (13273/2000 : ℚ)), ((172627/24000 : ℚ), (172627/24000 : ℚ))]

def cxSt83 : GameState := cxState (30627/4000 : ℚ) (6683/1200 : ℚ) (30627/4000 : ℚ) (577/60 : ℚ) (83/60 : ℚ) (83/10800 : ℚ) (61/60 : ℚ) [(27027/4000 : ℚ), (23427/4000 : ℚ), (19827/4000 : ℚ), (16227/4000 : ℚ), (12627/4000 : ℚ), (9027/4000 : ℚ), (5427/4000 : ℚ), (1827/4000 : ℚ)] [((-63/20 : ℚ), (-63/20 : ℚ)), ((-27/10 : ℚ), (-27/10 : ℚ)), ((-9/4 : ℚ), (-9/4 : ℚ)), ((-9/5 : ℚ), (-9/5 : ℚ)), ((-27/20 : ℚ), (-27/20 : ℚ)), ((-9/10 : ℚ), (-9/10 : ℚ)), ((-9/20 : ℚ), (-9/20 : ℚ)), ((0/1 : ℚ), (0/1 : ℚ)), ((13207/24000 : ℚ), (13207/24000 : ℚ)), ((13213/12000 : ℚ), (13213/12000 : ℚ)), ((13219/8000 : ℚ), (13219/8000 : ℚ)), ((529/240 : ℚ), (529/240 : ℚ)), ((13231/4800 : ℚ), (13231/4800 : ℚ)), ((13237/4000 : ℚ), (13237/4000 : ℚ)), ((92701/24000 : ℚ), (92701/24000 : ℚ)), ((13249/3000 : ℚ), (13249/3000 : ℚ)), ((7953/1600 : ℚ), (7953/1600 : ℚ)), ((13261/2400 : ℚ), (13261/2400 : ℚ)), ((145937/24000 : ℚ), (145937/24000 : ℚ)), ((13273/2000 : ℚ), (13273/2000 : ℚ)), ((172627/24000 : ℚ), (172627/24000 : ℚ))]

def cxSt84 : GameState := cxState (18599/2400 : ℚ) (557/100 : ℚ) (18599/2400 : ℚ) (48/5 : ℚ) (7/5 : ℚ) (7/900 : ℚ) (1/1 : ℚ) [(16439/2400 : ℚ), (14279/2400 : ℚ), (12119/2400 : ℚ), (9959/2400 : ℚ), (7799/2400 : ℚ), (5639/2400 : ℚ), (3479/2400 : ℚ), (1319/2400 : ℚ)] [((-63/20 : ℚ), (-63/20 : ℚ)), ((-27/10 : ℚ), (-27/10 : ℚ)), ((-9/4 : ℚ), (-9/4 : ℚ)), ((-9/5 : ℚ), (-9/5 : ℚ)), ((-27/20 : ℚ), (-27/20 : ℚ)), ((-9/10 : ℚ), (-9/10 : ℚ)), ((-9/20 : ℚ), (-9/20 : ℚ)), ((0/1 : ℚ), (0/1 : ℚ)), ((13207/24000 : ℚ), (13207/24000 : ℚ)), ((13213/12000 : ℚ), (13213/12000 : ℚ)), ((13219/8000 : ℚ), (13219/8000 : ℚ)), ((529/240 : ℚ), (529/240 : ℚ)), ((13231/4800 : ℚ), (13231/4800 : ℚ)), ((13237/4000 : ℚ), (13237/4000 : ℚ)), ((92701/24000 : ℚ), (92701/24000 : ℚ)), ((13249/3000 : ℚ), (13249/3000 : ℚ)), ((7953/1600 : ℚ), (7953/1600 : ℚ)), ((13261/2400 : ℚ), (13261/2400 : ℚ)), ((145937/24000 : ℚ), (145937/24000 : ℚ)), ((13273/2000 : ℚ), (13273/2000 : ℚ)), ((172627/24000 : ℚ), (172627/24000 : ℚ)), ((18599/2400 : ℚ), (18599/2400 : ℚ))]

def cxSt85 : GameState := cxState (112931/14400 : ℚ) (1337/240 : ℚ) (112931/14400 : ℚ) (115/12 : ℚ) (17/12 : ℚ) (17/2160 : ℚ) (59/60 : ℚ) [(99971/14400 : ℚ), (87011/14400 : ℚ), (74051/14400 : ℚ), (61091/14400 : ℚ), (48131/14400 : ℚ), (35171/14400 : ℚ), (22211/14400 : ℚ), (9251/14400 : ℚ)] [((-63/20 : ℚ), (-63/20 : ℚ)), ((-27/10 : ℚ), (-27/10 : ℚ)), ((-9/4 : ℚ), (-9/4 : ℚ)), ((-9/5 : ℚ), (-9/5 : ℚ)), ((-27/20 : ℚ), (-27/20 : ℚ)), ((-9/10 : ℚ), (-9/10 : ℚ)), ((-9/20 : ℚ), (-9/20 : ℚ)), ((0/1 : ℚ), (0/1 : ℚ)), ((13207/24000 : ℚ), (13207/24000 : ℚ)), ((13213/12000 : ℚ), (13213/12000 : ℚ)), ((13219/8000 : ℚ), (13219/8000 : ℚ)), ((529/240 : ℚ), (529/240 : ℚ)), ((13231/4800 : ℚ), (13231/4800 : ℚ)), ((13237/4000 : ℚ), (13237/4000 : ℚ)), ((92701/24000 : ℚ), (92701/24000 : ℚ)), ((13249/3000 : ℚ), (13249/3000 : ℚ)), ((7953/1600 : ℚ), (7953/1600 : ℚ)), ((13261/2400 : ℚ), (13261/2400 : ℚ)), ((145937/24000 : ℚ), (145937/24000 : ℚ)), ((13273/2000 : ℚ), (13273/2000 : ℚ)), ((172627/24000 : ℚ), (172627/24000 : ℚ)), ((18599/2400 : ℚ), (18599/2400 : ℚ))]

def cxSt86 : GameState := cxState (190447/24000 : ℚ) (3343/600 : ℚ) (190447/24000 : ℚ) (287/30 : ℚ) (43/30 : ℚ) (43/5400 : ℚ) (29/30 : ℚ) [(168847/24000 : ℚ), (147247/24000 : ℚ), (125647/24000 : ℚ), (104047/24000 : ℚ), (82447/24000 : ℚ), (60847/24000 : ℚ), (39247/24000 : ℚ), (17647/24000 : ℚ)] [((-63/20 : ℚ), (-63/20 : ℚ)), ((-27/10 : ℚ), (-27/10 : ℚ)), ((-9/4 : ℚ), (-9/4 : ℚ)), ((-9/5 : ℚ), (-9/5 : ℚ)), ((-27/20 : ℚ), (-27/20 : ℚ)), ((-9/10 : ℚ), (-9/10 : ℚ)), ((-9/20 : ℚ), (-9/20 : ℚ)), ((0/1 : ℚ), (0/1 : ℚ)), ((13207/24000 : ℚ), (13207/24000 : ℚ)), ((13213/12000 : ℚ), (13213/12000 : ℚ)), ((13219/8000 : ℚ), (13219/8000 : ℚ)), ((529/240 : ℚ), (529/240 : ℚ)), ((13231/4800 : ℚ), (13231/4800 : ℚ)), ((13237/4000 : ℚ), (13237/4000 : ℚ)), ((92701/24000 : ℚ), (92701/24000 : ℚ)), ((13249/3000 : ℚ), (13249/3000 : ℚ)), ((7953/1600 : ℚ), (7953/1600 : ℚ)), ((13261/2400 : ℚ), (13261/2400 : ℚ)), ((145937/24000 : ℚ), (145937/24000 : ℚ)), ((13273/2000 : ℚ), (13273/2000 : ℚ)), ((172627/24000 : ℚ), (172627/24000 : ℚ)), ((18599/2400 : ℚ), (18599/2400 : ℚ))]

def cxSt87 : GameState := cxState (48169/6000 : ℚ) (2229/400 : ℚ) (48169/6000 : ℚ) (191/20 : ℚ) (29/20 : ℚ) (29/3600 : ℚ) (19/20 : ℚ) [(42769/6000 : ℚ), (37369/6000 : ℚ), (31969/6000 : ℚ), (26569/6000 : ℚ), (21169/6000 : ℚ), (15769/6000 : ℚ), (10369/6000 : ℚ), (4969/6000 : ℚ)] [((-63/20 : ℚ), (-63/20 : ℚ)), ((-27/10 : ℚ), (-27/10 : ℚ)), ((-9/4 : ℚ), (-9/4 : ℚ)), ((-9/5 : ℚ), (-9/5 : ℚ)), ((-27/20 : ℚ), (-27/20 : ℚ)), ((-9/10 : ℚ), (-9/10 : ℚ)), ((-9/20 : ℚ), (-9/20 : ℚ)), ((0/1 : ℚ), (0/1 : ℚ)), ((13207/24000 : ℚ), (13207/24000 : ℚ)), ((13213/12000 : ℚ), (13213/12000 : ℚ)), ((13219/8000 : ℚ), (13219/8000 : ℚ)), ((529/240 : ℚ), (529/240 : ℚ)), ((13231/4800 : ℚ), (13231/4800 : ℚ)), ((13237/4000 : ℚ), (13237/4000 : ℚ)), ((92701/24000 : ℚ), (92701/24000 : ℚ)), ((13249/3000 : ℚ), (13249/3000 : ℚ)), ((7953/1600 : ℚ), (7953/1600 : ℚ)), ((13261/2400 : ℚ), (13261/2400 : ℚ)), ((145937/24000 : ℚ), (145937/24000 : ℚ)), ((13273/2000 : ℚ), (13273/2000 : ℚ)), ((172627/24000 : ℚ), (172627/24000 : ℚ)), ((18599/2400 : ℚ), (18599/2400 : ℚ))]

def cxSt88 : GameState := cxState (146179/18000 : ℚ) (418/75 : ℚ) (146179/18000 : ℚ) (143/15 : ℚ) (22/15 : ℚ) (11/1350 : ℚ) (14/15 : ℚ) [(129979/18000 : ℚ), (113779/18000 : ℚ), (97579/18000 : ℚ), (81379/18000 : ℚ), (65179/18000 : ℚ), (48979/18000 : ℚ), (32779/18000 : ℚ), (16579/18000 : ℚ)] [((-27/10 : ℚ), (-27/10 : ℚ)), ((-9/4 : ℚ), (-9/4 : ℚ)), ((-9/5 : ℚ), (-9/5 : ℚ)), ((-27/20 : ℚ), (-27/20 : ℚ)), ((-9/10 : ℚ), (-9/10 : ℚ)), ((-9/20 : ℚ), (-9/20 : ℚ)), ((0/1 : ℚ), (0/1 : ℚ)), ((13207/24000 : ℚ), (13207/24000 : ℚ)), ((13213/12000 : ℚ), (13213/12000 : ℚ)), ((13219/8000 : ℚ), (13219/8000 : ℚ)), ((529/240 : ℚ), (529/240 : ℚ)), ((13231/4800 : ℚ), (13231/4800 : ℚ)), ((13237/4000 : ℚ), (13237/4000 : ℚ)), ((92701/24000 : ℚ), (92701/24000 : ℚ)), ((13249/3000 : ℚ), (13249/3000 : ℚ)), ((7953/1600 : ℚ), (7953/1600 : ℚ)), ((13261/2400 : ℚ), (13261/2400 : ℚ)), ((145937/24000 : ℚ), (145937/24000 : ℚ)), ((13273/2000 : ℚ), (13273/2000 : ℚ)), ((172627/24000 : ℚ), (172627/24000 : ℚ)), ((18599/2400 : ℚ), (18599/2400 : ℚ))]

def cxSt89 : GameState := cxState (39427/4800 : ℚ) (6689/1200 : ℚ) (39427/4800 : ℚ) (571/60 : ℚ) (89/60 : ℚ) (89/10800 : ℚ) (11/12 : ℚ) [(35107/4800 : ℚ), (30787/4800 : ℚ), (26467/4800 : ℚ), (22147/4800 : ℚ), (17827/4800 : ℚ), (13507/4800 : ℚ), (9187/4800 : ℚ), (4867/4800 : ℚ)] [((-27/10 : ℚ), (-27/10 : ℚ)), ((-9/4 : ℚ), (-9/4 : ℚ)), ((-9/5 : ℚ), (-9/5 : ℚ)), ((-27/20 : ℚ), (-27/20 : ℚ)), ((-9/10 : ℚ), (-9/10 : ℚ)), ((-9/20 : ℚ), (-9/20 : ℚ)), ((0/1 : ℚ), (0/1 : ℚ)), ((13207/24000 : ℚ), (13207/24000 : ℚ)), ((13213/12000 : ℚ), (13213/12000 : ℚ)), ((13219/8000 : ℚ), (13219/8000 : ℚ)), ((529/240 : ℚ), (529/240 : ℚ)), ((13231/4800 : ℚ), (13231/4800 : ℚ)), ((13237/4000 : ℚ), (13237/4000 : ℚ)), ((92701/24000 : ℚ), (92701/24000 : ℚ)), ((13249/3000 : ℚ), (13249/3000 : ℚ)), ((7953/1600 : ℚ), (7953/1600 : ℚ)), ((13261/2400 : ℚ), (13261/2400 : ℚ)), ((145937/24000 : ℚ), (145937/24000 : ℚ)), ((13273/2000 : ℚ), (13273/2000 : ℚ)), ((172627/24000 : ℚ), (172627/24000 : ℚ)), ((18599/2400 : ℚ), (18599/2400 : ℚ))]

def cxSt90 : GameState := cxState (13291/1600 : ℚ) (223/40 : ℚ) (13291/1600 : ℚ) (19/2 : ℚ) (3/2 : ℚ) (1/120 : ℚ) (9/10 : ℚ) [(11851/1600 : ℚ), (10411/1600 : ℚ), (8971/1600 : ℚ), (7531/1600 : ℚ), (6091/1600 : ℚ), (4651/1600 : ℚ), (3211/1600 : ℚ), (1771/1600 : ℚ)] [((-27/10 : ℚ), (-27/10 : ℚ)), ((-9/4 : ℚ), (-9/4 : ℚ)), ((-9/5 : ℚ), (-9/5 : ℚ)), ((-27/20 : ℚ), (-27/20 : ℚ)), ((-9/10 : ℚ), (-9/10 : ℚ)), ((-9/20 : ℚ), (-9/20 : ℚ)), ((0/1 : ℚ), (0/1 : ℚ)), ((13207/24000 : ℚ), (13207/24000 : ℚ)), ((13213/12000 : ℚ), (13213/12000 : ℚ)), ((13219/8000 : ℚ), (13219/8000 : ℚ)), ((529/240 : ℚ), (529/240 : ℚ)), ((13231/4800 : ℚ), (13231/4800 : ℚ)), ((13237/4000 : ℚ), (13237/4000 : ℚ)), ((92701/24000 : ℚ), (92701/24000 : ℚ)), ((13249/3000 : ℚ), (13249/3000 : ℚ)), ((7953/1600 : ℚ), (7953/1600 : ℚ)), ((13261/2400 : ℚ), (13261/2400 : ℚ)), ((145937/24000 : ℚ), (145937/24000 : ℚ)), ((13273/2000 : ℚ), (13273/2000 : ℚ)), ((172627/24000 : ℚ), (172627/24000 : ℚ)), ((18599/2400 : ℚ), (18599/2400 : ℚ)), ((13291/1600 : ℚ), (13291/1600 : ℚ))]

def cxSt91 : GameState := cxState (302393/36000 : ℚ) (6691/1200 : ℚ) (302393/36000 : ℚ) (569/60 : ℚ) (91/60 : ℚ) (91/10800 : ℚ) (53/60 : ℚ) [(269993/36000 : ℚ), (237593/36000 : ℚ), (205193/36000 : ℚ), (172793/36000 : ℚ), (140393/36000 : ℚ), (107993/36000 : ℚ), (75593/36000 : ℚ), (43193/36000 : ℚ)] [((-27/10 : ℚ), (-27/10 : ℚ)), ((-9/4 : ℚ), (-9/4 : ℚ)), ((-9/5 : ℚ), (-9/5 : ℚ)), ((-27/20 : ℚ), (-27/20 : ℚ)), ((-9/10 : ℚ), (-9/10 : ℚ)), ((-9/20 : ℚ), (-9/20 : ℚ)), ((0/1 : ℚ), (0/1 : ℚ)), ((13207/24000 : ℚ), (13207/24000 : ℚ)), ((13213/12000 : ℚ), (13213/12000 : ℚ)), ((13219/8000 : ℚ), (13219/8000 : ℚ)), ((529/240 : ℚ), (529/240 : ℚ)), ((13231/4800 : ℚ), (13231/4800 : ℚ)), ((13237/4000 : ℚ), (13237/4000 : ℚ)), ((92701/24000 : ℚ), (92701/24000 : ℚ)), ((13249/3000 : ℚ), (13249/3000 : ℚ)), ((7953/1600 : ℚ), (7953/1600 : ℚ)), ((13261/2400 : ℚ), (13261/2400 : ℚ)), ((145937/24000 : ℚ), (145937/24000 : ℚ)), ((13273/2000 : ℚ), (13273/2000 : ℚ)), ((172627/24000 : ℚ), (172627/24000 : ℚ)), ((18599/2400 : ℚ), (18599/2400 : ℚ)), ((13291/1600 : ℚ), (13291/1600 : ℚ))]

def cxSt92 : GameState := cxState (33971/4000 : ℚ) (1673/300 : ℚ) (33971/4000 : ℚ) (142/15 : ℚ) (23/15 : ℚ) (23/2700 : ℚ) (13/15 : ℚ) [(30371/4000 : ℚ), (26771/4000 : ℚ), (23171/4000 : ℚ), (19571/4000 : ℚ), (15971/4000 : ℚ), (12371/4000 : ℚ), (8771/4000 : ℚ), (5171/4000 : ℚ)] [((-27/10 : ℚ), (-27/10 : ℚ)), ((-9/4 : ℚ), (-9/4 : ℚ)), ((-9/5 : ℚ), (-9/5 : ℚ)), ((-27/20 : ℚ), (-27/20 : ℚ)), ((-9/10 : ℚ), (-9/10 : ℚ)), ((-9/20 : ℚ), (-9/20 : ℚ)), ((0/1 : ℚ), (0/1 : ℚ)), ((13207/24000 : ℚ), (13207/24000 : ℚ)), ((13213/12000 : ℚ), (13213/12000 : ℚ)), ((13219/8000 : ℚ), (13219/8000 : ℚ)), ((529/240 : ℚ), (529/240 : ℚ)), ((13231/4800 : ℚ), (13231/4800 : ℚ)), ((13237/4000 : ℚ), (13237/4000 : ℚ)), ((92701/24000 : ℚ), (92701/24000 : ℚ)), ((13249/3000 : ℚ), (13249/3000 : ℚ)), ((7953/1600 : ℚ), (7953/1600 : ℚ)), ((13261/2400 : ℚ), (13261/2400 : ℚ)), ((145937/24000 : ℚ), (145937/24000 : ℚ)), ((13273/2000 : ℚ), (13273/2000 : ℚ)), ((172627/24000 : ℚ), (172627/24000 : ℚ)), ((18599/2400 : ℚ), (18599/2400 : ℚ)), ((13291/1600 : ℚ), (13291/1600 : ℚ))]

def cxSt93 : GameState := cxState (206057/24000 : ℚ) (2231/400 : ℚ) (206057/24000 : ℚ) (189/20 : ℚ) (31/20 : ℚ) (31/3600 : ℚ) (17/20 : ℚ) [(184457/24000 : ℚ), (162857/24000 : ℚ), (141257/24000 : ℚ), (119657/24000 : ℚ), (98057/24000 : ℚ), (76457/24000 : ℚ), (54857/24000 : ℚ), (33257/24000 : ℚ)] [((-9/4 : ℚ), (-9/4 : ℚ)), ((-9/5 : ℚ), (-9/5 : ℚ)), ((-27/20 : ℚ), (-27/20 : ℚ)), ((-9/10 : ℚ), (-9/10 : ℚ)), ((-9/20 : ℚ), (-9/20 : ℚ)), ((0/1 : ℚ), (0/1 : ℚ)), ((13207/24000 : ℚ), (13207/24000 : ℚ)), ((13213/12000 : ℚ), (13213/12000 : ℚ)), ((13219/8000 : ℚ), (13219/8000 : ℚ)), ((529/240 : ℚ), (529/240 : ℚ)), ((13231/4800 : ℚ), (13231/4800 : ℚ)), ((13237/4000 : ℚ), (13237/4000 : ℚ)), ((92701/24000 : ℚ), (92701/24000 : ℚ)), ((13249/3000 : ℚ), (13249/3000 : ℚ)), ((7953/1600 : ℚ), (7953/1600 : ℚ)), ((13261/2400 : ℚ), (13261/2400 : ℚ)), ((145937/24000 : ℚ), (145937/24000 : ℚ)), ((13273/2000 : ℚ), (13273/2000 : ℚ)), ((172627/24000 : ℚ), (172627/24000 : ℚ)), ((18599/2400 : ℚ), (18599/2400 : ℚ)), ((13291/1600 : ℚ), (13291/1600 : ℚ))]

def cxSt94 : GameState := cxState (124973/14400 : ℚ) (3347/600 : ℚ) (124973/14400 : ℚ) (283/30 : ℚ) (47/30 : ℚ) (47/5400 : ℚ) (5/6 : ℚ) [(112013/14400 : ℚ), (99053/14400 : ℚ), (86093/14400 : ℚ), (73133/14400 : ℚ), (60173/14400 : ℚ), (47213/14400 : ℚ), (34253/14400 : ℚ), (21293/14400 : ℚ)] [((-9/4 : ℚ), (-9/4 : ℚ)), ((-9/5 : ℚ), (-9/5 : ℚ)), ((-27/20 : ℚ), (-27/20 : ℚ)), ((-9/10 : ℚ), (-9/10 : ℚ)), ((-9/20 : ℚ), (-9/20 : ℚ)), ((0/1 : ℚ), (0/1 : ℚ)), ((13207/24000 : ℚ), (13207/24000 : ℚ)), ((13213/12000 : ℚ), (13213/12000 : ℚ)), ((13219/8000 : ℚ), (13219/8000 : ℚ)), ((529/240 : ℚ), (529/240 : ℚ)), ((13231/4800 : ℚ), (13231/4800 : ℚ)), ((13237/4000 : ℚ), (13237/4000 : ℚ)), ((92701/24000 : ℚ), (92701/24000 : ℚ)), ((13249/3000 : ℚ), (13249/3000 : ℚ)), ((7953/1600 : ℚ), (7953/1600 : ℚ)), ((13261/2400 : ℚ), (13261/2400 : ℚ)), ((145937/24000 : ℚ), (145937/24000 : ℚ)), ((13273/2000 : ℚ), (13273/2000 : ℚ)), ((172627/24000 : ℚ), (172627/24000 : ℚ)), ((18599/2400 : ℚ), (18599/2400 : ℚ)), ((13291/1600 : ℚ), (13291/1600 : ℚ))]

def cxSt95 : GameState := cxState (5263/600 : ℚ) (1339/240 : ℚ) (5263/600 : ℚ) (113/12 : ℚ) (19/12 : ℚ) (19/2160 : ℚ) (49/60 : ℚ) [(4723/600 : ℚ), (4183/600 : ℚ), (3643/600 : ℚ), (3103/600 : ℚ), (2563/600 : ℚ), (2023/600 : ℚ), (1483/600 : ℚ), (943/600 : ℚ)] [((-9/4 : ℚ), (-9/4 : ℚ)), ((-9/5 : ℚ), (-9/5 : ℚ)), ((-27/20 : ℚ), (-27/20 : ℚ)), ((-9/10 : ℚ), (-9/10 : ℚ)), ((-9/20 : ℚ), (-9/20 : ℚ)), ((0/1 : ℚ), (0/1 : ℚ)), ((13207/24000 : ℚ), (13207/24000 : ℚ)), ((13213/12000 : ℚ), (13213/12000 : ℚ)), ((13219/8000 : ℚ), (13219/8000 : ℚ)), ((529/240 : ℚ), (529/240 : ℚ)), ((13231/4800 : ℚ), (13231/4800 : ℚ)), ((13237/4000 : ℚ), (13237/4000 : ℚ)), ((92701/24000 : ℚ), (92701/24000 : ℚ)), ((13249/3000 : ℚ), (13249/3000 : ℚ)), ((7953/1600 : ℚ), (7953/1600 : ℚ)), ((13261/2400 : ℚ), (13261/2400 : ℚ)), ((145937/24000 : ℚ), (145937/24000 : ℚ)), ((13273/2000 : ℚ), (13273/2000 : ℚ)), ((172627/24000 : ℚ), (172627/24000 : ℚ)), ((18599/2400 : ℚ), (18599/2400 : ℚ)), ((13291/1600 : ℚ), (13291/1600 : ℚ))]

def cxSt96 : GameState := cxState (13297/1500 : ℚ) (279/50 : ℚ) (13297/1500 : ℚ) (47/5 : ℚ) (8/5 : ℚ) (2/225 : ℚ) (4/5 : ℚ) [(11947/1500 : ℚ), (10597/1500 : ℚ), (9247/1500 : ℚ), (7897/1500 : ℚ), (6547/1500 : ℚ), (5197/1500 : ℚ), (3847/1500 : ℚ), (2497/1500 : ℚ)] [((-9/4 : ℚ), (-9/4 : ℚ)), ((-9/5 : ℚ), (-9/5 : ℚ)), ((-27/20 : ℚ), (-27/20 : ℚ)), ((-9/10 : ℚ), (-9/10 : ℚ)), ((-9/20 : ℚ), (-9/20 : ℚ)), ((0/1 : ℚ), (0/1 : ℚ)), ((13207/24000 : ℚ), (13207/24000 : ℚ)), ((13213/12000 : ℚ), (13213/12000 : ℚ)), ((13219/8000 : ℚ), (13219/8000 : ℚ)), ((529/240 : ℚ), (529/240 : ℚ)), ((13231/4800 : ℚ), (13231/4800 : ℚ)), ((13237/4000 : ℚ), (13237/4000 : ℚ)), ((92701/24000 : ℚ), (92701/24000 : ℚ)), ((13249/3000 : ℚ), (13249/3000 : ℚ)), ((7953/1600 : ℚ), (7953/1600 : ℚ)), ((13261/2400 : ℚ), (13261/2400 : ℚ)), ((145937/24000 : ℚ), (145937/24000 : ℚ)), ((13273/2000 : ℚ), (13273/2000 : ℚ)), ((172627/24000 : ℚ), (172627/24000 : ℚ)), ((18599/2400 : ℚ), (18599/2400 : ℚ)), ((13291/1600 : ℚ), (13291/1600 : ℚ)), ((13297/1500 : ℚ), (13297/1500 : ℚ))]

def cxSt97 : GameState := cxState (644953/72000 : ℚ) (6697/1200 : ℚ) (644953/72000 : ℚ) (563/60 : ℚ) (97/60 : ℚ) (97/10800 : ℚ) (47/60 : ℚ) [(580153/72000 : ℚ), (515353/72000 : ℚ), (450553/72000 : ℚ), (385753/72000 : ℚ), (320953/72000 : ℚ), (256153/72000 : ℚ), (191353/72000 : ℚ), (126553/72000 : ℚ)] [((-9/4 : ℚ), (-9/4 : ℚ)), ((-9/5 : ℚ), (-9/5 : ℚ)), ((-27/20 : ℚ), (-27/20 : ℚ)), ((-9/10 : ℚ), (-9/10 : ℚ)), ((-9/20 : ℚ), (-9/20 : ℚ)), ((0/1 : ℚ), (0/1 : ℚ)), ((13207/24000 : ℚ), (13207/24000 : ℚ)), ((13213/12000 : ℚ), (13213/12000 : ℚ)), ((13219/8000 : ℚ), (13219/8000 : ℚ)), ((529/240 : ℚ), (529/240 : ℚ)), ((13231/4800 : ℚ), (13231/4800 : ℚ)), ((13237/4000 : ℚ), (13237/4000 : ℚ)), ((92701/24000 : ℚ), (92701/24000 : ℚ)), ((13249/3000 : ℚ), (13249/3000 : ℚ)), ((7953/1600 : ℚ), (7953/1600 : ℚ)), ((13261/2400 : ℚ), (13261/2400 : ℚ)), ((145937/24000 : ℚ), (145937/24000 : ℚ)), ((13273/2000 : ℚ), (13273/2000 : ℚ)), ((172627/24000 : ℚ), (172627/24000 : ℚ)), ((18599/2400 : ℚ), (18599/2400 : ℚ)), ((13291/1600 : ℚ), (13291/1600 : ℚ)), ((13297/1500 : ℚ), (13297/1500 : ℚ))]

def cxSt98 : GameState := cxState (217217/24000 : ℚ) (3349/600 : ℚ) (217217/24000 : ℚ) (281/30 : ℚ) (49/30 : ℚ) (49/5400 : ℚ) (23/30 : ℚ) [(195617/24000 : ℚ), (174017/24000 : ℚ), (152417/24000 : ℚ), (130817/24000 : ℚ), (109217/24000 : ℚ), (87617/24000 : ℚ), (66017/24000 : ℚ), (44417/24000 : ℚ)] [((-9/5 : ℚ), (-9/5 : ℚ)), ((-27/20 : ℚ), (-27/20 : ℚ)), ((-9/10 : ℚ), (-9/10 : ℚ)), ((-9/20 : ℚ), (-9/20 : ℚ)), ((0/1 : ℚ), (0/1 : ℚ)), ((13207/24000 : ℚ), (13207/24000 : ℚ)), ((13213/12000 : ℚ), (13213/12000 : ℚ)), ((13219/8000 : ℚ), (13219/8000 : ℚ)), ((529/240 : ℚ), (529/240 : ℚ)), ((13231/4800 : ℚ), (13231/4800 : ℚ)), ((13237/4000 : ℚ), (13237/4000 : ℚ)), ((92701/24000 : ℚ), (92701/24000 : ℚ)), ((13249/3000 : ℚ), (13249/3000 : ℚ)), ((7953/1600 : ℚ), (7953/1600 : ℚ)), ((13261/2400 : ℚ), (13261/2400 : ℚ)), ((145937/24000 : ℚ), (145937/24000 : ℚ)), ((13273/2000 : ℚ), (13273/2000 : ℚ)), ((172627/24000 : ℚ), (172627/24000 : ℚ)), ((18599/2400 : ℚ), (18599/2400 : ℚ)), ((13291/1600 : ℚ), (13291/1600 : ℚ)), ((13297/1500 : ℚ), (13297/1500 : ℚ))]

def cxSt99 : GameState := cxState (1463/160 : ℚ) (2233/400 : ℚ) (1463/160 : ℚ) (187/20 : ℚ) (33/20 : ℚ) (11/1200 : ℚ) (3/4 : ℚ) [(1319/160 : ℚ), (235/32 : ℚ), (1031/160 : ℚ), (887/160 : ℚ), (743/160 : ℚ), (599/160 : ℚ), (91/32 : ℚ), (311/160 : ℚ)] [((-9/5 : ℚ), (-9/5 : ℚ)), ((-27/20 : ℚ), (-27/20 : ℚ)), ((-9/10 : ℚ), (-9/10 : ℚ)), ((-9/20 : ℚ), (-9/20 : ℚ)), ((0/1 : ℚ), (0/1 : ℚ)), ((13207/24000 : ℚ), (13207/24000 : ℚ)), ((13213/12000 : ℚ), (13213/12000 : ℚ)), ((13219/8000 : ℚ), (13219/8000 : ℚ)), ((529/240 : ℚ), (529/240 : ℚ)), ((13231/4800 : ℚ), (13231/4800 : ℚ)), ((13237/4000 : ℚ), (13237/4000 : ℚ)), ((92701/24000 : ℚ), (92701/24000 : ℚ)), ((13249/3000 : ℚ), (13249/3000 : ℚ)), ((7953/1600 : ℚ), (7953/1600 : ℚ)), ((13261/2400 : ℚ), (13261/2400 : ℚ)), ((145937/24000 : ℚ), (145937/24000 : ℚ)), ((13273/2000 : ℚ), (13273/2000 : ℚ)), ((172627/24000 : ℚ), (172627/24000 : ℚ)), ((18599/2400 : ℚ), (18599/2400 : ℚ)), ((13291/1600 : ℚ), (13291/1600 : ℚ)), ((13297/1500 : ℚ), (13297/1500 : ℚ))]

def cxSt100 : GameState := cxState (13301/1440 : ℚ) (67/12 : ℚ) (13301/1440 : ℚ) (28/3 : ℚ) (5/3 : ℚ) (1/108 : ℚ) (11/15 : ℚ) [(2401/288 : ℚ), (10709/1440 : ℚ), (9413/1440 : ℚ), (8117/1440 : ℚ), (6821/1440 : ℚ), (1105/288 : ℚ), (4229/1440 : ℚ), (2933/1440 : ℚ)] [((-9/5 : ℚ), (-9/5 : ℚ)), ((-27/20 : ℚ), (-27/20 : ℚ)), ((-9/10 : ℚ), (-9/10 : ℚ)), ((-9/20 : ℚ), (-9/20 : ℚ)), ((0/1 : ℚ), (0/1 : ℚ)), ((13207/24000 : ℚ), (13207/24000 : ℚ)), ((13213/12000 : ℚ), (13213/12000 : ℚ)), ((13219/8000 : ℚ), (13219/8000 : ℚ)), ((529/240 : ℚ), (529/240 : ℚ)), ((13231/4800 : ℚ), (13231/4800 : ℚ)), ((13237/4000 : ℚ), (13237/4000 : ℚ)), ((92701/24000 : ℚ), (92701/24000 : ℚ)), ((13249/3000 : ℚ), (13249/3000 : ℚ)), ((7953/1600 : ℚ), (7953/1600 : ℚ)), ((13261/2400 : ℚ), (13261/2400 : ℚ)), ((145937/24000 : ℚ), (145937/24000 : ℚ)), ((13273/2000 : ℚ), (13273/2000 : ℚ)), ((172627/24000 : ℚ), (172627/24000 : ℚ)), ((18599/2400 : ℚ), (18599/2400 : ℚ)), ((13291/1600 : ℚ), (13291/1600 : ℚ)), ((13297/1500 : ℚ), (13297/1500 : ℚ))]

def cxSt101 : GameState := cxState (74639/8000 : ℚ) (6701/1200 : ℚ) (74639/8000 : ℚ) (559/60 : ℚ) (101/60 : ℚ) (101/10800 : ℚ) (43/60 : ℚ) [(67439/8000 : ℚ), (60239/8000 : ℚ), (53039/8000 : ℚ), (45839/8000 : ℚ), (38639/8000 : ℚ), (31439/8000 : ℚ), (24239/8000 : ℚ), (17039/8000 : ℚ)] [((-9/5 : ℚ), (-9/5 : ℚ)), ((-27/20 : ℚ), (-27/20 : ℚ)), ((-9/10 : ℚ), (-9/10 : ℚ)), ((-9/20 : ℚ), (-9/20 : ℚ)), ((0/1 : ℚ), (0/1 : ℚ)), ((13207/24000 : ℚ), (13207/24000 : ℚ)), ((13213/12000 : ℚ), (13213/12000 : ℚ)), ((13219/8000 : ℚ), (13219/8000 : ℚ)), ((529/240 : ℚ), (529/240 : ℚ)), ((13231/4800 : ℚ), (13231/4800 : ℚ)), ((13237/4000 : ℚ), (13237/4000 : ℚ)), ((92701/24000 : ℚ), (92701/24000 : ℚ)), ((13249/3000 : ℚ), (13249/3000 : ℚ)), ((7953/1600 : ℚ), (7953/1600 : ℚ)), ((13261/2400 : ℚ), (13261/2400 : ℚ)), ((145937/24000 : ℚ), (145937/24000 : ℚ)), ((13273/2000 : ℚ), (13273/2000 : ℚ)), ((172627/24000 : ℚ), (172627/24000 : ℚ)), ((18599/2400 : ℚ), (18599/2400 : ℚ)), ((13291/1600 : ℚ), (13291/1600 : ℚ)), ((13297/1500 : ℚ), (13297/1500 : ℚ))]

def cxSt102 : GameState := cxState (226151/24000 : ℚ) (1117/200 : ℚ) (226151/24000 : ℚ) (93/10 : ℚ) (17/10 : ℚ) (17/1800 : ℚ) (7/10 : ℚ) [(204551/24000 : ℚ), (182951/24000 : ℚ), (161351/24000 : ℚ), (139751/24000 : ℚ), (118151/24000 : ℚ), (96551/24000 : ℚ), (74951/24000 : ℚ), (53351/24000 : ℚ)] [((-9/5 : ℚ), (-9/5 : ℚ)), ((-27/20 : ℚ), (-27/20 : ℚ)), ((-9/10 : ℚ), (-9/10 : ℚ)), ((-9/20 : ℚ), (-9/20 : ℚ)), ((0/1 : ℚ), (0/1 : ℚ)), ((13207/24000 : ℚ), (13207/24000 : ℚ)), ((13213/12000 : ℚ), (13213/12000 : ℚ)), ((13219/8000 : ℚ), (13219/8000 : ℚ)), ((529/240 : ℚ), (529/240 : ℚ)), ((13231/4800 : ℚ), (13231/4800 : ℚ)), ((13237/4000 : ℚ), (13237/4000 : ℚ)), ((92701/24000 : ℚ), (92701/24000 : ℚ)), ((13249/3000 : ℚ), (13249/3000 : ℚ)), ((7953/1600 : ℚ), (7953/1600 : ℚ)), ((13261/2400 : ℚ), (13261/2400 : ℚ)), ((145937/24000 : ℚ), (145937/24000 : ℚ)), ((13273/2000 : ℚ), (13273/2000 : ℚ)), ((172627/24000 : ℚ), (172627/24000 : ℚ)), ((18599/2400 : ℚ), (18599/2400 : ℚ)), ((13291/1600 : ℚ), (13291/1600 : ℚ)), ((13297/1500 : ℚ), (13297/1500 : ℚ)), ((226151/24000 : ℚ), (226151/24000 : ℚ))]

def cxSt103 : GameState := cxState (171289/18000 : ℚ) (6703/1200 : ℚ) (171289/18000 : ℚ) (557/60 : ℚ) (103/60 : ℚ) (103/10800 : ℚ) (41/60 : ℚ) [(155089/18000 : ℚ), (138889/18000 : ℚ), (122689/18000 : ℚ), (106489/18000 : ℚ), (90289/18000 : ℚ), (74089/18000 : ℚ), (57889/18000 : ℚ), (41689/18000 : ℚ)] [((-27/20 : ℚ), (-27/20 : ℚ)), ((-9/10 : ℚ), (-9/10 : ℚ)), ((-9/20 : ℚ), (-9/20 : ℚ)), ((0/1 : ℚ), (0/1 : ℚ)), ((13207/24000 : ℚ), (13207/24000 : ℚ)), ((13213/12000 : ℚ), (13213/12000 : ℚ)), ((13219/8000 : ℚ), (13219/8000 : ℚ)), ((529/240 : ℚ), (529/240 : ℚ)), ((13231/4800 : ℚ), (13231/4800 : ℚ)), ((13237/4000 : ℚ), (13237/4000 : ℚ)), ((92701/24000 : ℚ), (92701/24000 : ℚ)), ((13249/3000 : ℚ), (13249/3000 : ℚ)), ((7953/1600 : ℚ), (7953/1600 : ℚ)), ((13261/2400 : ℚ), (13261/2400 : ℚ)), ((145937/24000 : ℚ), (145937/24000 : ℚ)), ((13273/2000 : ℚ), (13273/2000 : ℚ)), ((172627/24000 : ℚ), (172627/24000 : ℚ)), ((18599/2400 : ℚ), (18599/2400 : ℚ)), ((13291/1600 : ℚ), (13291/1600 : ℚ)), ((13297/1500 : ℚ), (13297/1500 : ℚ)), ((226151/24000 : ℚ), (226151/24000 : ℚ))]

def cxSt104 : GameState := cxState (11531/1200 : ℚ) (419/75 : ℚ) (11531/1200 : ℚ) (139/15 : ℚ) (26/15 : ℚ) (13/1350 : ℚ) (2/3 : ℚ) [(10451/1200 : ℚ), (9371/1200 : ℚ), (8291/1200 : ℚ), (7211/1200 : ℚ), (6131/1200 : ℚ), (5051/1200 : ℚ), (3971/1200 : ℚ), (2891/1200 : ℚ)] [((-27/20 : ℚ), (-27/20 : ℚ)), ((-9/10 : ℚ), (-9/10 : ℚ)), ((-9/20 : ℚ), (-9/20 : ℚ)), ((0/1 : ℚ), (0/1 : ℚ)), ((13207/24000 : ℚ), (13207/24000 : ℚ)), ((13213/12000 : ℚ), (13213/12000 : ℚ)), ((13219/8000 : ℚ), (13219/8000 : ℚ)), ((529/240 : ℚ), (529/240 : ℚ)), ((13231/4800 : ℚ), (13231/4800 : ℚ)), ((13237/4000 : ℚ), (13237/4000 : ℚ)), ((92701/24000 : ℚ), (92701/24000 : ℚ)), ((13249/3000 : ℚ), (13249/3000 : ℚ)), ((7953/1600 : ℚ), (7953/1600 : ℚ)), ((13261/2400 : ℚ), (13261/2400 : ℚ)), ((145937/24000 : ℚ), (145937/24000 : ℚ)), ((13273/2000 : ℚ), (13273/2000 : ℚ)), ((172627/24000 : ℚ), (172627/24000 : ℚ)), ((18599/2400 : ℚ), (18599/2400 : ℚ)), ((13291/1600 : ℚ), (13291/1600 : ℚ)), ((13297/1500 : ℚ), (13297/1500 : ℚ)), ((226151/24000 : ℚ), (226151/24000 : ℚ))]

def cxSt105 : GameState := cxState (46571/4800 : ℚ) (447/80 : ℚ) (46571/4800 : ℚ) (37/4 : ℚ) (7/4 : ℚ) (7/720 : ℚ) (13/20 : ℚ) [(42251/4800 : ℚ), (37931/4800 : ℚ), (33611/4800 : ℚ), (29291/4800 : ℚ), (24971/4800 : ℚ), (20651/4800 : ℚ), (16331/4800 : ℚ), (12011/4800 : ℚ)] [((-27/20 : ℚ), (-27/20 : ℚ)), ((-9/10 : ℚ), (-9/10 : ℚ)), ((-9/20 : ℚ), (-9/20 : ℚ)), ((0/1 : ℚ), (0/1 : ℚ)), ((13207/24000 : ℚ), (13207/24000 : ℚ)), ((13213/12000 : ℚ), (13213/12000 : ℚ)), ((13219/8000 : ℚ), (13219/8000 : ℚ)), ((529/240 : ℚ), (529/240 : ℚ)), ((13231/4800 : ℚ), (13231/4800 : ℚ)), ((13237/4000 : ℚ), (13237/4000 : ℚ)), ((92701/24000 : ℚ), (92701/24000 : ℚ)), ((13249/3000 : ℚ), (13249/3000 : ℚ)), ((7953/1600 : ℚ), (7953/1600 : ℚ)), ((13261/2400 : ℚ), (13261/2400 : ℚ)), ((145937/24000 : ℚ), (145937/24000 : ℚ)), ((13273/2000 : ℚ), (13273/2000 : ℚ)), ((172627/24000 : ℚ), (172627/24000 : ℚ)), ((18599/2400 : ℚ), (18599/2400 : ℚ)), ((13291/1600 : ℚ), (13291/1600 : ℚ)), ((13297/1500 : ℚ), (13297/1500 : ℚ)), ((226151/24000 : ℚ), (226151/24000 : ℚ))]

def cxSt106 : GameState := cxState (705271/72000 : ℚ) (3353/600 : ℚ) (705271/72000 : ℚ) (277/30 : ℚ) (53/30 : ℚ) (53/5400 : ℚ) (19/30 : ℚ) [(640471/72000 : ℚ), (575671/72000 : ℚ), (510871/72000 : ℚ), (446071/72000 : ℚ), (381271/72000 : ℚ), (316471/72000 : ℚ), (251671/72000 : ℚ), (186871/72000 : ℚ)] [((-27/20 : ℚ), (-27/20 : ℚ)), ((-9/10 : ℚ), (-9/10 : ℚ)), ((-9/20 : ℚ), (-9/20 : ℚ)), ((0/1 : ℚ), (0/1 : ℚ)), ((13207/24000 : ℚ), (13207/24000 : ℚ)), ((13213/12000 : ℚ), (13213/12000 : ℚ)), ((13219/8000 : ℚ), (13219/8000 : ℚ)), ((529/240 : ℚ), (529/240 : ℚ)), ((13231/4800 : ℚ), (13231/4800 : ℚ)), ((13237/4000 : ℚ), (13237/4000 : ℚ)), ((92701/24000 : ℚ), (92701/24000 : ℚ)), ((13249/3000 : ℚ), (13249/3000 : ℚ)), ((7953/1600 : ℚ), (7953/1600 : ℚ)), ((13261/2400 : ℚ), (13261/2400 : ℚ)), ((145937/24000 : ℚ), (145937/24000 : ℚ)), ((13273/2000 : ℚ), (13273/2000 : ℚ)), ((172627/24000 : ℚ), (172627/24000 : ℚ)), ((18599/2400 : ℚ), (18599/2400 : ℚ)), ((13291/1600 : ℚ), (13291/1600 : ℚ)), ((13297/1500 : ℚ), (13297/1500 : ℚ)), ((226151/24000 : ℚ), (226151/24000 : ℚ))]

def cxSt107 : GameState := cxState (118663/12000 : ℚ) (6707/1200 : ℚ) (118663/12000 : ℚ) (553/60 : ℚ) (107/60 : ℚ) (107/10800 : ℚ) (37/60 : ℚ) [(107863/12000 : ℚ), (97063/12000 : ℚ), (86263/12000 : ℚ), (75463/12000 : ℚ), (64663/12000 : ℚ), (53863/12000 : ℚ), (43063/12000 : ℚ), (32263/12000 : ℚ)] [((-27/20 : ℚ), (-27/20 : ℚ)), ((-9/10 : ℚ), (-9/10 : ℚ)), ((-9/20 : ℚ), (-9/20 : ℚ)), ((0/1 : ℚ), (0/1 : ℚ)), ((13207/24000 : ℚ), (13207/24000 : ℚ)), ((13213/12000 : ℚ), (13213/12000 : ℚ)), ((13219/8000 : ℚ), (13219/8000 : ℚ)), ((529/240 : ℚ), (529/240 : ℚ)), ((13231/4800 : ℚ), (13231/4800 : ℚ)), ((13237/4000 : ℚ), (13237/4000 : ℚ)), ((92701/24000 : ℚ), (92701/24000 : ℚ)), ((13249/3000 : ℚ), (13249/3000 : ℚ)), ((7953/1600 : ℚ), (7953/1600 : ℚ)), ((13261/2400 : ℚ), (13261/2400 : ℚ)), ((145937/24000 : ℚ), (145937/24000 : ℚ)), ((13273/2000 : ℚ), (13273/2000 : ℚ)), ((172627/24000 : ℚ), (172627/24000 : ℚ)), ((18599/2400 : ℚ), (18599/2400 : ℚ)), ((13291/1600 : ℚ), (13291/1600 : ℚ)), ((13297/1500 : ℚ), (13297/1500 : ℚ)), ((226151/24000 : ℚ), (226151/24000 : ℚ))]

def cxSt108 : GameState := cxState (39927/4000 : ℚ) (559/100 : ℚ) (39927/4000 : ℚ) (46/5 : ℚ) (9/5 : ℚ) (1/100 : ℚ) (3/5 : ℚ) [(36327/4000 : ℚ), (32727/4000 : ℚ), (29127/4000 : ℚ), (25527/4000 : ℚ), (21927/4000 : ℚ), (18327/4000 : ℚ), (14727/4000 : ℚ), (11127/4000 : ℚ)] [((-9/10 : ℚ), (-9/10 : ℚ)), ((-9/20 : ℚ), (-9/20 : ℚ)), ((0/1 : ℚ), (0/1 : ℚ)), ((13207/24000 : ℚ), (13207/24000 : ℚ)), ((13213/12000 : ℚ), (13213/12000 : ℚ)), ((13219/8000 : ℚ), (13219/8000 : ℚ)), ((529/240 : ℚ), (529/240 : ℚ)), ((13231/4800 : ℚ), (13231/4800 : ℚ)), ((13237/4000 : ℚ), (13237/4000 : ℚ)), ((92701/24000 : ℚ), (92701/24000 : ℚ)), ((13249/3000 : ℚ), (13249/3000 : ℚ)), ((7953/1600 : ℚ), (7953/1600 : ℚ)), ((13261/2400 : ℚ), (13261/2400 : ℚ)), ((145937/24000 : ℚ), (145937/24000 : ℚ)), ((13273/2000 : ℚ), (13273/2000 : ℚ)), ((172627/24000 : ℚ), (172627/24000 : ℚ)), ((18599/2400 : ℚ), (18599/2400 : ℚ)), ((13291/1600 : ℚ), (13291/1600 : ℚ)), ((13297/1500 : ℚ), (13297/1500 : ℚ)), ((226151/24000 : ℚ), (226151/24000 : ℚ)), ((39927/4000 : ℚ), (39927/4000 : ℚ))]

def cxSt109 : GameState := cxState (145079/14400 : ℚ) (6709/1200 : ℚ) (145079/14400 : ℚ) (551/60 : ℚ) (109/60 : ℚ) (109/10800 : ℚ) (7/12 : ℚ) [(132119/14400 : ℚ), (119159/14400 : ℚ), (106199/14400 : ℚ), (93239/14400 : ℚ), (80279/14400 : ℚ), (67319/14400 : ℚ), (54359/14400 : ℚ), (41399/14400 : ℚ)] [((-9/10 : ℚ), (-9/10 : ℚ)), ((-9/20 : ℚ), (-9/20 : ℚ)), ((0/1 : ℚ), (0/1 : ℚ)), ((13207/24000 : ℚ), (13207/24000 : ℚ)), ((13213/12000 : ℚ), (13213/12000 : ℚ)), ((13219/8000 : ℚ), (13219/8000 : ℚ)), ((529/240 : ℚ), (529/240 : ℚ)), ((13231/4800 : ℚ), (13231/4800 : ℚ)), ((13237/4000 : ℚ), (13237/4000 : ℚ)), ((92701/24000 : ℚ), (92701/24000 : ℚ)), ((13249/3000 : ℚ), (13249/3000 : ℚ)), ((7953/1600 : ℚ), (7953/1600 : ℚ)), ((13261/2400 : ℚ), (13261/2400 : ℚ)), ((145937/24000 : ℚ), (145937/24000 : ℚ)), ((13273/2000 : ℚ), (13273/2000 : ℚ)), ((172627/24000 : ℚ), (172627/24000 : ℚ)), ((18599/2400 : ℚ), (18599/2400 : ℚ)), ((13291/1600 : ℚ), (13291/1600 : ℚ)), ((13297/1500 : ℚ), (13297/1500 : ℚ)), ((226151/24000 : ℚ), (226151/24000 : ℚ)), ((39927/4000 : ℚ), (39927/4000 : ℚ))]

def cxSt110 : GameState := cxState (16269/1600 : ℚ) (671/120 : ℚ) (16269/1600 : ℚ) (55/6 : ℚ) (11/6 : ℚ) (11/1080 : ℚ) (17/30 : ℚ) [(14829/1600 : ℚ), (13389/1600 : ℚ), (11949/1600 : ℚ), (10509/1600 : ℚ), (9069/1600 : ℚ), (7629/1600 : ℚ), (6189/1600 : ℚ), (4749/1600 : ℚ)] [((-9/10 : ℚ), (-9/10 : ℚ)), ((-9/20 : ℚ), (-9/20 : ℚ)), ((0/1 : ℚ), (0/1 : ℚ)), ((13207/24000 : ℚ), (13207/24000 : ℚ)), ((13213/12000 : ℚ), (13213/12000 : ℚ)), ((13219/8000 : ℚ), (13219/8000 : ℚ)), ((529/240 : ℚ), (529/240 : ℚ)), ((13231/4800 : ℚ), (13231/4800 : ℚ)), ((13237/4000 : ℚ), (13237/4000 : ℚ)), ((92701/24000 : ℚ), (92701/24000 : ℚ)), ((13249/3000 : ℚ), (13249/3000 : ℚ)), ((7953/1600 : ℚ), (7953/1600 : ℚ)), ((13261/2400 : ℚ), (13261/2400 : ℚ)), ((145937/24000 : ℚ), (145937/24000 : ℚ)), ((13273/2000 : ℚ), (13273/2000 : ℚ)), ((172627/24000 : ℚ), (172627/24000 : ℚ)), ((18599/2400 : ℚ), (18599/2400 : ℚ)), ((13291/1600 : ℚ), (13291/1600 : ℚ)), ((13297/1500 : ℚ), (13297/1500 : ℚ)), ((226151/24000 : ℚ), (226151/24000 : ℚ)), ((39927/4000 : ℚ), (39927/4000 : ℚ))]

def cxSt111 : GameState := cxState (3848/375 : ℚ) (2237/400 : ℚ) (3848/375 : ℚ) (183/20 : ℚ) (37/20 : ℚ) (37/3600 : ℚ) (11/20 : ℚ) [(7021/750 : ℚ), (3173/375 : ℚ), (5671/750 : ℚ), (2498/375 : ℚ), (4321/750 : ℚ), (1823/375 : ℚ), (2971/750 : ℚ), (1148/375 : ℚ)] [((-9/10 : ℚ), (-9/10 : ℚ)), ((-9/20 : ℚ), (-9/20 : ℚ)), ((0/1 : ℚ), (0/1 : ℚ)), ((13207/24000 : ℚ), (13207/24000 : ℚ)), ((13213/12000 : ℚ), (13213/12000 : ℚ)), ((13219/8000 : ℚ), (13219/8000 : ℚ)), ((529/240 : ℚ), (529/240 : ℚ)), ((13231/4800 : ℚ), (13231/4800 : ℚ)), ((13237/4000 : ℚ), (13237/4000 : ℚ)), ((92701/24000 : ℚ), (92701/24000 : ℚ)), ((13249/3000 : ℚ), (13249/3000 : ℚ)), ((7953/1600 : ℚ), (7953/1600 : ℚ)), ((13261/2400 : ℚ), (13261/2400 : ℚ)), ((145937/24000 : ℚ), (145937/24000 : ℚ)), ((13273/2000 : ℚ), (13273/2000 : ℚ)), ((172627/24000 : ℚ), (172627/24000 : ℚ)), ((18599/2400 : ℚ), (18599/2400 : ℚ)), ((13291/1600 : ℚ), (13291/1600 : ℚ)), ((13297/1500 : ℚ), (13297/1500 : ℚ)), ((226151/24000 : ℚ), (226151/24000 : ℚ)), ((39927/4000 : ℚ), (39927/4000 : ℚ))]

def cxSt112 : GameState := cxState (93191/9000 : ℚ) (839/150 : ℚ) (93191/9000 : ℚ) (137/15 : ℚ) (28/15 : ℚ) (7/675 : ℚ) (8/15 : ℚ) [(85091/9000 : ℚ), (76991/9000 : ℚ), (68891/9000 : ℚ), (60791/9000 : ℚ), (52691/9000 : ℚ), (44591/9000 : ℚ), (36491/9000 : ℚ), (28391/9000 : ℚ)] [((-9/20 : ℚ), (-9/20 : ℚ)), ((0/1 : ℚ), (0/1 : ℚ)), ((13207/24000 : ℚ), (13207/24000 : ℚ)), ((13213/12000 : ℚ), (13213/12000 : ℚ)), ((13219/8000 : ℚ), (13219/8000 : ℚ)), ((529/240 : ℚ), (529/240 : ℚ)), ((13231/4800 : ℚ), (13231/4800 : ℚ)), ((13237/4000 : ℚ), (13237/4000 : ℚ)), ((92701/24000 : ℚ), (92701/24000 : ℚ)), ((13249/3000 : ℚ), (13249/3000 : ℚ)), ((7953/1600 : ℚ), (7953/1600 : ℚ)), ((13261/2400 : ℚ), (13261/2400 : ℚ)), ((145937/24000 : ℚ), (145937/24000 : ℚ)), ((13273/2000 : ℚ), (13273/2000 : ℚ)), ((172627/24000 : ℚ), (172627/24000 : ℚ)), ((18599/2400 : ℚ), (18599/2400 : ℚ)), ((13291/1600 : ℚ), (13291/1600 : ℚ)), ((13297/1500 : ℚ), (13297/1500 : ℚ)), ((226151/24000 : ℚ), (226151/24000 : ℚ)), ((39927/4000 : ℚ), (39927/4000 : ℚ))]

def cxSt113 : GameState := cxState (250747/24000 : ℚ) (6713/1200 : ℚ) (250747/24000 : ℚ) (547/60 : ℚ) (113/60 : ℚ) (113/10800 : ℚ) (31/60 : ℚ) [(229147/24000 : ℚ), (207547/24000 : ℚ), (185947/24000 : ℚ), (164347/24000 : ℚ), (142747/24000 : ℚ), (121147/24000 : ℚ), (99547/24000 : ℚ), (77947/24000 : ℚ)] [((-9/20 : ℚ), (-9/20 : ℚ)), ((0/1 : ℚ), (0/1 : ℚ)), ((13207/24000 : ℚ), (13207/24000 : ℚ)), ((13213/12000 : ℚ), (13213/12000 : ℚ)), ((13219/8000 : ℚ), (13219/8000 : ℚ)), ((529/240 : ℚ), (529/240 : ℚ)), ((13231/4800 : ℚ), (13231/4800 : ℚ)), ((13237/4000 : ℚ), (13237/4000 : ℚ)), ((92701/24000 : ℚ), (92701/24000 : ℚ)), ((13249/3000 : ℚ), (13249/3000 : ℚ)), ((7953/1600 : ℚ), (7953/1600 : ℚ)), ((13261/2400 : ℚ), (13261/2400 : ℚ)), ((145937/24000 : ℚ), (145937/24000 : ℚ)), ((13273/2000 : ℚ), (13273/2000 : ℚ)), ((172627/24000 : ℚ), (172627/24000 : ℚ)), ((18599/2400 : ℚ), (18599/2400 : ℚ)), ((13291/1600 : ℚ), (13291/1600 : ℚ)), ((13297/1500 : ℚ), (13297/1500 : ℚ)), ((226151/24000 : ℚ), (226151/24000 : ℚ)), ((39927/4000 : ℚ), (39927/4000 : ℚ))]

def cxSt114 : GameState := cxState (50597/4800 : ℚ) (1119/200 : ℚ) (50597/4800 : ℚ) (91/10 : ℚ) (19/10 : ℚ) (19/1800 : ℚ) (1/2 : ℚ) [(46277/4800 : ℚ), (41957/4800 : ℚ), (37637/4800 : ℚ), (33317/4800 : ℚ), (28997/4800 : ℚ), (24677/4800 : ℚ), (20357/4800 : ℚ), (16037/4800 : ℚ)] [((-9/20 : ℚ), (-9/20 : ℚ)), ((0/1 : ℚ), (0/1 : ℚ)), ((13207/24000 : ℚ), (13207/24000 : ℚ)), ((13213/12000 : ℚ), (13213/12000 : ℚ)), ((13219/8000 : ℚ), (13219/8000 : ℚ)), ((529/240 : ℚ), (529/240 : ℚ)), ((13231/4800 : ℚ), (13231/4800 : ℚ)), ((13237/4000 : ℚ), (13237/4000 : ℚ)), ((92701/24000 : ℚ), (92701/24000 : ℚ)), ((13249/3000 : ℚ), (13249/3000 : ℚ)), ((7953/1600 : ℚ), (7953/1600 : ℚ)), ((13261/2400 : ℚ), (13261/2400 : ℚ)), ((145937/24000 : ℚ), (145937/24000 : ℚ)), ((13273/2000 : ℚ), (13273/2000 : ℚ)), ((172627/24000 : ℚ), (172627/24000 : ℚ)), ((18599/2400 : ℚ), (18599/2400 : ℚ)), ((13291/1600 : ℚ), (13291/1600 : ℚ)), ((13297/1500 : ℚ), (13297/1500 : ℚ)), ((226151/24000 : ℚ), (226151/24000 : ℚ)), ((39927/4000 : ℚ), (39927/4000 : ℚ)), ((50597/4800 : ℚ), (50597/4800 : ℚ))]

def cxSt115 : GameState := cxState (76567/7200 : ℚ) (1343/240 : ℚ) (76567/7200 : ℚ) (109/12 : ℚ) (23/12 : ℚ) (23/2160 : ℚ) (29/60 : ℚ) [(70087/7200 : ℚ), (63607/7200 : ℚ), (57127/7200 : ℚ), (50647/7200 : ℚ), (44167/7200 : ℚ), (37687/7200 : ℚ), (31207/7200 : ℚ), (24727/7200 : ℚ)] [((-9/20 : ℚ), (-9/20 : ℚ)), ((0/1 : ℚ), (0/1 : ℚ)), ((13207/24000 : ℚ), (13207/24000 : ℚ)), ((13213/12000 : ℚ), (13213/12000 : ℚ)), ((13219/8000 : ℚ), (13219/8000 : ℚ)), ((529/240 : ℚ), (529/240 : ℚ)), ((13231/4800 : ℚ), (13231/4800 : ℚ)), ((13237/4000 : ℚ), (13237/4000 : ℚ)), ((92701/24000 : ℚ), (92701/24000 : ℚ)), ((13249/3000 : ℚ), (13249/3000 : ℚ)), ((7953/1600 : ℚ), (7953/1600 : ℚ)), ((13261/2400 : ℚ), (13261/2400 : ℚ)), ((145937/24000 : ℚ), (145937/24000 : ℚ)), ((13273/2000 : ℚ), (13273/2000 : ℚ)), ((172627/24000 : ℚ), (172627/24000 : ℚ)), ((18599/2400 : ℚ), (18599/2400 : ℚ)), ((13291/1600 : ℚ), (13291/1600 : ℚ)), ((13297/1500 : ℚ), (13297/1500 : ℚ)), ((226151/24000 : ℚ), (226151/24000 : ℚ)), ((39927/4000 : ℚ), (39927/4000 : ℚ)), ((50597/4800 : ℚ), (50597/4800 : ℚ))]

def cxSt116 : GameState := cxState (128731/12000 : ℚ) (1679/300 : ℚ) (128731/12000 : ℚ) (136/15 : ℚ) (29/15 : ℚ) (29/2700 : ℚ) (7/15 : ℚ) [(117931/12000 : ℚ), (107131/12000 : ℚ), (96331/12000 : ℚ), (85531/12000 : ℚ), (74731/12000 : ℚ), (63931/12000 : ℚ), (53131/12000 : ℚ), (42331/12000 : ℚ)] [((-9/20 : ℚ), (-9/20 : ℚ)), ((0/1 : ℚ), (0/1 : ℚ)), ((13207/24000 : ℚ), (13207/24000 : ℚ)), ((13213/12000 : ℚ), (13213/12000 : ℚ)), ((13219/8000 : ℚ), (13219/8000 : ℚ)), ((529/240 : ℚ), (529/240 : ℚ)), ((13231/4800 : ℚ), (13231/4800 : ℚ)), ((13237/4000 : ℚ), (13237/4000 : ℚ)), ((92701/24000 : ℚ), (92701/24000 : ℚ)), ((13249/3000 : ℚ), (13249/3000 : ℚ)), ((7953/1600 : ℚ), (7953/1600 : ℚ)), ((13261/2400 : ℚ), (13261/2400 : ℚ)), ((145937/24000 : ℚ), (145937/24000 : ℚ)), ((13273/2000 : ℚ), (13273/2000 : ℚ)), ((172627/24000 : ℚ), (172627/24000 : ℚ)), ((18599/2400 : ℚ), (18599/2400 : ℚ)), ((13291/1600 : ℚ), (13291/1600 : ℚ)), ((13297/1500 : ℚ), (13297/1500 : ℚ)), ((226151/24000 : ℚ), (226151/24000 : ℚ)), ((39927/4000 : ℚ), (39927/4000 : ℚ)), ((50597/4800 : ℚ), (50597/4800 : ℚ))]

def cxSt117 : GameState := cxState (86567/8000 : ℚ) (2239/400 : ℚ) (86567/8000 : ℚ) (181/20 : ℚ) (39/20 : ℚ) (13/1200 : ℚ) (9/20 : ℚ) [(79367/8000 : ℚ), (72167/8000 : ℚ), (64967/8000 : ℚ), (57767/8000 : ℚ), (50567/8000 : ℚ), (43367/8000 : ℚ), (36167/8000 : ℚ), (28967/8000 : ℚ)] [((0/1 : ℚ), (0/1 : ℚ)), ((13207/24000 : ℚ), (13207/24000 : ℚ)), ((13213/12000 : ℚ), (13213/12000 : ℚ)), ((13219/8000 : ℚ), (13219/8000 : ℚ)), ((529/240 : ℚ), (529/240 : ℚ)), ((13231/4800 : ℚ), (13231/4800 : ℚ)), ((13237/4000 : ℚ), (13237/4000 : ℚ)), ((92701/24000 : ℚ), (92701/24000 : ℚ)), ((13249/3000 : ℚ), (13249/3000 : ℚ)), ((7953/1600 : ℚ), (7953/1600 : ℚ)), ((13261/2400 : ℚ), (13261/2400 : ℚ)), ((145937/24000 : ℚ), (145937/24000 : ℚ)), ((13273/2000 : ℚ), (13273/2000 : ℚ)), ((172627/24000 : ℚ), (172627/24000 : ℚ)), ((18599/2400 : ℚ), (18599/2400 : ℚ)), ((13291/1600 : ℚ), (13291/1600 : ℚ)), ((13297/1500 : ℚ), (13297/1500 : ℚ)), ((226151/24000 : ℚ), (226151/24000 : ℚ)), ((39927/4000 : ℚ), (39927/4000 : ℚ)), ((50597/4800 : ℚ), (50597/4800 : ℚ))]

def cxSt118 : GameState := cxState (785821/72000 : ℚ) (3359/600 : ℚ) (785821/72000 : ℚ) (271/30 : ℚ) (59/30 : ℚ) (59/5400 : ℚ) (13/30 : ℚ) [(721021/72000 : ℚ), (656221/72000 : ℚ), (591421/72000 : ℚ), (526621/72000 : ℚ), (461821/72000 : ℚ), (397021/72000 : ℚ), (332221/72000 : ℚ), (267421/72000 : ℚ)] [((0/1 : ℚ), (0/1 : ℚ)), ((13207/24000 : ℚ), (13207/24000 : ℚ)), ((13213/12000 : ℚ), (13213/12000 : ℚ)), ((13219/8000 : ℚ), (13219/8000 : ℚ)), ((529/240 : ℚ), (529/240 : ℚ)), ((13231/4800 : ℚ), (13231/4800 : ℚ)), ((13237/4000 : ℚ), (13237/4000 : ℚ)), ((92701/24000 : ℚ), (92701/24000 : ℚ)), ((13249/3000 : ℚ), (13249/3000 : ℚ)), ((7953/1600 : ℚ), (7953/1600 : ℚ)), ((13261/2400 : ℚ), (13261/2400 : ℚ)), ((145937/24000 : ℚ), (145937/24000 : ℚ)), ((13273/2000 : ℚ), (13273/2000 : ℚ)), ((172627/24000 : ℚ), (172627/24000 : ℚ)), ((18599/2400 : ℚ), (18599/2400 : ℚ)), ((13291/1600 : ℚ), (13291/1600 : ℚ)), ((13297/1500 : ℚ), (13297/1500 : ℚ)), ((226151/24000 : ℚ), (226151/24000 : ℚ)), ((39927/4000 : ℚ), (39927/4000 : ℚ)), ((50597/4800 : ℚ), (50597/4800 : ℚ))]

def cxSt119 : GameState := cxState (4403/400 : ℚ) (6719/1200 : ℚ) (4403/400 : ℚ) (541/60 : ℚ) (119/60 : ℚ) (119/10800 : ℚ) (5/12 : ℚ) [(4043/400 : ℚ), (3683/400 : ℚ), (3323/400 : ℚ), (2963/400 : ℚ), (2603/400 : ℚ), (2243/400 : ℚ), (1883/400 : ℚ), (1523/400 : ℚ)] [((0/1 : ℚ), (0/1 : ℚ)), ((13207/24000 : ℚ), (13207/24000 : ℚ)), ((13213/12000 : ℚ), (13213/12000 : ℚ)), ((13219/8000 : ℚ), (13219/8000 : ℚ)), ((529/240 : ℚ), (529/240 : ℚ)), ((13231/4800 : ℚ), (13231/4800 : ℚ)), ((13237/4000 : ℚ), (13237/4000 : ℚ)), ((92701/24000 : ℚ), (92701/24000 : ℚ)), ((13249/3000 : ℚ), (13249/3000 : ℚ)), ((7953/1600 : ℚ), (7953/1600 : ℚ)), ((13261/2400 : ℚ), (13261/2400 : ℚ)), ((145937/24000 : ℚ), (145937/24000 : ℚ)), ((13273/2000 : ℚ), (13273/2000 : ℚ)), ((172627/24000 : ℚ), (172627/24000 : ℚ)), ((18599/2400 : ℚ), (18599/2400 : ℚ)), ((13291/1600 : ℚ), (13291/1600 : ℚ)), ((13297/1500 : ℚ), (13297/1500 : ℚ)), ((226151/24000 : ℚ), (226151/24000 : ℚ)), ((39927/4000 : ℚ), (39927/4000 : ℚ)), ((50597/4800 : ℚ), (50597/4800 : ℚ))]

def cxSt120 : GameState := cxState (13321/1200 : ℚ) (28/5 : ℚ) (13321/1200 : ℚ) (9/1 : ℚ) (2/1 : ℚ) (1/90 : ℚ) (2/5 : ℚ) [(12241/1200 : ℚ), (11161/1200 : ℚ), (10081/1200 : ℚ), (9001/1200 : ℚ), (7921/1200 : ℚ), (6841/1200 : ℚ), (5761/1200 : ℚ), (4681/1200 : ℚ)] [((0/1 : ℚ), (0/1 : ℚ)), ((13207/24000 : ℚ), (13207/24000 : ℚ)), ((13213/12000 : ℚ), (13213/12000 : ℚ)), ((13219/8000 : ℚ), (13219/8000 : ℚ)), ((529/240 : ℚ), (529/240 : ℚ)), ((13231/4800 : ℚ), (13231/4800 : ℚ)), ((13237/4000 : ℚ), (13237/4000 : ℚ)), ((92701/24000 : ℚ), (92701/24000 : ℚ)), ((13249/3000 : ℚ), (13249/3000 : ℚ)), ((7953/1600 : ℚ), (7953/1600 : ℚ)), ((13261/2400 : ℚ), (13261/2400 : ℚ)), ((145937/24000 : ℚ), (145937/24000 : ℚ)), ((13273/2000 : ℚ), (13273/2000 : ℚ)), ((172627/24000 : ℚ), (172627/24000 : ℚ)), ((18599/2400 : ℚ), (18599/2400 : ℚ)), ((13291/1600 : ℚ), (13291/1600 : ℚ)), ((13297/1500 : ℚ), (13297/1500 : ℚ)), ((226151/24000 : ℚ), (226151/24000 : ℚ)), ((39927/4000 : ℚ), (39927/4000 : ℚ)), ((50597/4800 : ℚ), (50597/4800 : ℚ)), ((13321/1200 : ℚ), (13321/1200 : ℚ))]

def cxSt121 : GameState := cxState (805981/72000 : ℚ) (6721/1200 : ℚ) (805981/72000 : ℚ) (539/60 : ℚ) (121/60 : ℚ) (121/10800 : ℚ) (23/60 : ℚ) [(741181/72000 : ℚ), (676381/72000 : ℚ), (611581/72000 : ℚ), (546781/72000 : ℚ), (481981/72000 : ℚ), (417181/72000 : ℚ), (352381/72000 : ℚ), (287581/72000 : ℚ)] [((0/1 : ℚ), (0/1 : ℚ)), ((13207/24000 : ℚ), (13207/24000 : ℚ)), ((13213/12000 : ℚ), (13213/12000 : ℚ)), ((13219/8000 : ℚ), (13219/8000 : ℚ)), ((529/240 : ℚ), (529/240 : ℚ)), ((13231/4800 : ℚ), (13231/4800 : ℚ)), ((13237/4000 : ℚ), (13237/4000 : ℚ)), ((92701/24000 : ℚ), (92701/24000 : ℚ)), ((13249/3000 : ℚ), (13249/3000 : ℚ)), ((7953/1600 : ℚ), (7953/1600 : ℚ)), ((13261/2400 : ℚ), (13261/2400 : ℚ)), ((145937/24000 : ℚ), (145937/24000 : ℚ)), ((13273/2000 : ℚ), (13273/2000 : ℚ)), ((172627/24000 : ℚ), (172627/24000 : ℚ)), ((18599/2400 : ℚ), (18599/2400 : ℚ)), ((13291/1600 : ℚ), (13291/1600 : ℚ)), ((13297/1500 : ℚ), (13297/1500 : ℚ)), ((226151/24000 : ℚ), (226151/24000 : ℚ)), ((39927/4000 : ℚ), (39927/4000 : ℚ)), ((50597/4800 : ℚ), (50597/4800 : ℚ)), ((13321/1200 : ℚ), (13321/1200 : ℚ))]

def cxSt122 : GameState := cxState (270901/24000 : ℚ) (3361/600 : ℚ) (270901/24000 : ℚ) (269/30 : ℚ) (61/30 : ℚ) (61/5400 : ℚ) (11/30 : ℚ) [(249301/24000 : ℚ), (227701/24000 : ℚ), (206101/24000 : ℚ), (184501/24000 : ℚ), (162901/24000 : ℚ), (141301/24000 : ℚ), (119701/24000 : ℚ), (98101/24000 : ℚ)] [((0/1 : ℚ), (0/1 : ℚ)), ((13207/24000 : ℚ), (13207/24000 : ℚ)), ((13213/12000 : ℚ), (13213/12000 : ℚ)), ((13219/8000 : ℚ), (13219/8000 : ℚ)), ((529/240 : ℚ), (529/240 : ℚ)), ((13231/4800 : ℚ), (13231/4800 : ℚ)), ((13237/4000 : ℚ), (13237/4000 : ℚ)), ((92701/24000 : ℚ), (92701/24000 : ℚ)), ((13249/3000 : ℚ), (13249/3000 : ℚ)), ((7953/1600 : ℚ), (7953/1600 : ℚ)), ((13261/2400 : ℚ), (13261/2400 : ℚ)), ((145937/24000 : ℚ), (145937/24000 : ℚ)), ((13273/2000 : ℚ), (13273/2000 : ℚ)), ((172627/24000 : ℚ), (172627/24000 : ℚ)), ((18599/2400 : ℚ), (18599/2400 : ℚ)), ((13291/1600 : ℚ), (13291/1600 : ℚ)), ((13297/1500 : ℚ), (13297/1500 : ℚ)), ((226151/24000 : ℚ), (226151/24000 : ℚ)), ((39927/4000 : ℚ), (39927/4000 : ℚ)), ((50597/4800 : ℚ), (50597/4800 : ℚ)), ((13321/1200 : ℚ), (13321/1200 : ℚ))]

def cxSt123 : GameState := cxState (136571/12000 : ℚ) (2241/400 : ℚ) (136571/12000 : ℚ) (179/20 : ℚ) (41/20 : ℚ) (41/3600 : ℚ) (7/20 : ℚ) [(125771/12000 : ℚ), (114971/12000 : ℚ), (104171/12000 : ℚ), (93371/12000 : ℚ), (82571/12000 : ℚ), (71771/12000 : ℚ), (60971/12000 : ℚ), (50171/12000 : ℚ)] [((13207/24000 : ℚ), (13207/24000 : ℚ)), ((13213/12000 : ℚ), (13213/12000 : ℚ)), ((13219/8000 : ℚ), (13219/8000 : ℚ)), ((529/240 : ℚ), (529/240 : ℚ)), ((13231/4800 : ℚ), (13231/4800 : ℚ)), ((13237/4000 : ℚ), (13237/4000 : ℚ)), ((92701/24000 : ℚ), (92701/24000 : ℚ)), ((13249/3000 : ℚ), (13249/3000 : ℚ)), ((7953/1600 : ℚ), (7953/1600 : ℚ)), ((13261/2400 : ℚ), (13261/2400 : ℚ)), ((145937/24000 : ℚ), (145937/24000 : ℚ)), ((13273/2000 : ℚ), (13273/2000 : ℚ)), ((172627/24000 : ℚ), (172627/24000 : ℚ)), ((18599/2400 : ℚ), (18599/2400 : ℚ)), ((13291/1600 : ℚ), (13291/1600 : ℚ)), ((13297/1500 : ℚ), (13297/1500 : ℚ)), ((226151/24000 : ℚ), (226151/24000 : ℚ)), ((39927/4000 : ℚ), (39927/4000 : ℚ)), ((50597/4800 : ℚ), (50597/4800 : ℚ)), ((13321/1200 : ℚ), (13321/1200 : ℚ))]

def cxSt124 : GameState := cxState (16523/1440 : ℚ) (1681/300 : ℚ) (16523/1440 : ℚ) (134/15 : ℚ) (31/15 : ℚ) (31/2700 : ℚ) (1/3 : ℚ) [(15227/1440 : ℚ), (13931/1440 : ℚ), (2527/288 : ℚ), (11339/1440 : ℚ), (10043/1440 : ℚ), (8747/1440 : ℚ), (7451/1440 : ℚ), (1231/288 : ℚ)] [((13207/24000 : ℚ), (13207/24000 : ℚ)), ((13213/12000 : ℚ), (13213/12000 : ℚ)), ((13219/8000 : ℚ), (13219/8000 : ℚ)), ((529/240 : ℚ), (529/240 : ℚ)), ((13231/4800 : ℚ), (13231/4800 : ℚ)), ((13237/4000 : ℚ), (13237/4000 : ℚ)), ((92701/24000 : ℚ), (92701/24000 : ℚ)), ((13249/3000 : ℚ), (13249/3000 : ℚ)), ((7953/1600 : ℚ), (7953/1600 : ℚ)), ((13261/2400 : ℚ), (13261/2400 : ℚ)), ((145937/24000 : ℚ), (145937/24000 : ℚ)), ((13273/2000 : ℚ), (13273/2000 : ℚ)), ((172627/24000 : ℚ), (172627/24000 : ℚ)), ((18599/2400 : ℚ), (18599/2400 : ℚ)), ((13291/1600 : ℚ), (13291/1600 : ℚ)), ((13297/1500 : ℚ), (13297/1500 : ℚ)), ((226151/24000 : ℚ), (226151/24000 : ℚ)), ((39927/4000 : ℚ), (39927/4000 : ℚ)), ((50597/4800 : ℚ), (50597/4800 : ℚ)), ((13321/1200 : ℚ), (13321/1200 : ℚ))]

def cxSt125 : GameState := cxState (2221/192 : ℚ) (269/48 : ℚ) (2221/192 : ℚ) (107/12 : ℚ) (25/12 : ℚ) (5/432 : ℚ) (19/60 : ℚ) [(10241/960 : ℚ), (9377/960 : ℚ), (8513/960 : ℚ), (7649/960 : ℚ), (1357/192 : ℚ), (5921/960 : ℚ), (5057/960 : ℚ), (4193/960 : ℚ)] [((13207/24000 : ℚ), (13207/24000 : ℚ)), ((13213/12000 : ℚ), (13213/12000 : ℚ)), ((13219/8000 : ℚ), (13219/8000 : ℚ)), ((529/240 : ℚ), (529/240 : ℚ)), ((13231/4800 : ℚ), (13231/4800 : ℚ)), ((13237/4000 : ℚ), (13237/4000 : ℚ)), ((92701/24000 : ℚ), (92701/24000 : ℚ)), ((13249/3000 : ℚ), (13249/3000 : ℚ)), ((7953/1600 : ℚ), (7953/1600 : ℚ)), ((13261/2400 : ℚ), (13261/2400 : ℚ)), ((145937/24000 : ℚ), (145937/24000 : ℚ)), ((13273/2000 : ℚ), (13273/2000 : ℚ)), ((172627/24000 : ℚ), (172627/24000 : ℚ)), ((18599/2400 : ℚ), (18599/2400 : ℚ)), ((13291/1600 : ℚ), (13291/1600 : ℚ)), ((13297/1500 : ℚ), (13297/1500 : ℚ)), ((226151/24000 : ℚ), (226151/24000 : ℚ)), ((39927/4000 : ℚ), (39927/4000 : ℚ)), ((50597/4800 : ℚ), (50597/4800 : ℚ)), ((13321/1200 : ℚ), (13321/1200 : ℚ))]

def cxSt126 : GameState := cxState (93289/8000 : ℚ) (1121/200 : ℚ) (93289/8000 : ℚ) (89/10 : ℚ) (21/10 : ℚ) (7/600 : ℚ) (3/10 : ℚ) [(86089/8000 : ℚ), (78889/8000 : ℚ), (71689/8000 : ℚ), (64489/8000 : ℚ), (57289/8000 : ℚ), (50089/8000 : ℚ), (42889/8000 : ℚ), (35689/8000 : ℚ)] [((13207/24000 : ℚ), (13207/24000 : ℚ)), ((13213/12000 : ℚ), (13213/12000 : ℚ)), ((13219/8000 : ℚ), (13219/8000 : ℚ)), ((529/240 : ℚ), (529/240 : ℚ)), ((13231/4800 : ℚ), (13231/4800 : ℚ)), ((13237/4000 : ℚ), (13237/4000 : ℚ)), ((92701/24000 : ℚ), (92701/24000 : ℚ)), ((13249/3000 : ℚ), (13249/3000 : ℚ)), ((7953/1600 : ℚ), (7953/1600 : ℚ)), ((13261/2400 : ℚ), (13261/2400 : ℚ)), ((145937/24000 : ℚ), (145937/24000 : ℚ)), ((13273/2000 : ℚ), (13273/2000 : ℚ)), ((172627/24000 : ℚ), (172627/24000 : ℚ)), ((18599/2400 : ℚ), (18599/2400 : ℚ)), ((13291/1600 : ℚ), (13291/1600 : ℚ)), ((13297/1500 : ℚ), (13297/1500 : ℚ)), ((226151/24000 : ℚ), (226151/24000 : ℚ)), ((39927/4000 : ℚ), (39927/4000 : ℚ)), ((50597/4800 : ℚ), (50597/4800 : ℚ)), ((13321/1200 : ℚ), (13321/1200 : ℚ)), ((93289/8000 : ℚ), (93289/8000 : ℚ))]

def cxSt127 : GameState := cxState (105791/9000 : ℚ) (6727/1200 : ℚ) (105791/9000 : ℚ) (533/60 : ℚ) (127/60 : ℚ) (127/10800 : ℚ) (17/60 : ℚ) [(97691/9000 : ℚ), (89591/9000 : ℚ), (81491/9000 : ℚ), (73391/9000 : ℚ), (65291/9000 : ℚ), (57191/9000 : ℚ), (49091/9000 : ℚ), (40991/9000 : ℚ)] [((13207/24000 : ℚ), (13207/24000 : ℚ)), ((13213/12000 : ℚ), (13213/12000 : ℚ)), ((13219/8000 : ℚ), (13219/8000 : ℚ)), ((529/240 : ℚ), (529/240 : ℚ)), ((13231/4800 : ℚ), (13231/4800 : ℚ)), ((13237/4000 : ℚ), (13237/4000 : ℚ)), ((92701/24000 : ℚ), (92701/24000 : ℚ)), ((13249/3000 : ℚ), (13249/3000 : ℚ)), ((7953/1600 : ℚ), (7953/1600 : ℚ)), ((13261/2400 : ℚ), (13261/2400 : ℚ)), ((145937/24000 : ℚ), (145937/24000 : ℚ)), ((13273/2000 : ℚ), (13273/2000 : ℚ)), ((172627/24000 : ℚ), (172627/24000 : ℚ)), ((18599/2400 : ℚ), (18599/2400 : ℚ)), ((13291/1600 : ℚ), (13291/1600 : ℚ)), ((13297/1500 : ℚ), (13297/1500 : ℚ)), ((226151/24000 : ℚ), (226151/24000 : ℚ)), ((39927/4000 : ℚ), (39927/4000 : ℚ)), ((50597/4800 : ℚ), (50597/4800 : ℚ)), ((13321/1200 : ℚ), (13321/1200 : ℚ)), ((93289/8000 : ℚ), (93289/8000 : ℚ))]

def cxSt128 : GameState := cxState (1481/125 : ℚ) (841/150 : ℚ) (1481/125 : ℚ) (133/15 : ℚ) (32/15 : ℚ) (8/675 : ℚ) (4/15 : ℚ) [(2737/250 : ℚ), (1256/125 : ℚ), (2287/250 : ℚ), (1031/125 : ℚ), (1837/250 : ℚ), (806/125 : ℚ), (1387/250 : ℚ), (581/125 : ℚ)] [((13207/24000 : ℚ), (13207/24000 : ℚ)), ((13213/12000 : ℚ), (13213/12000 : ℚ)), ((13219/8000 : ℚ), (13219/8000 : ℚ)), ((529/240 : ℚ), (529/240 : ℚ)), ((13231/4800 : ℚ), (13231/4800 : ℚ)), ((13237/4000 : ℚ), (13237/4000 : ℚ)), ((92701/24000 : ℚ), (92701/24000 : ℚ)), ((13249/3000 : ℚ), (13249/3000 : ℚ)), ((7953/1600 : ℚ), (7953/1600 : ℚ)), ((13261/2400 : ℚ), (13261/2400 : ℚ)), ((145937/24000 : ℚ), (145937/24000 : ℚ)), ((13273/2000 : ℚ), (13273/2000 : ℚ)), ((172627/24000 : ℚ), (172627/24000 : ℚ)), ((18599/2400 : ℚ), (18599/2400 : ℚ)), ((13291/1600 : ℚ), (13291/1600 : ℚ)), ((13297/1500 : ℚ), (13297/1500 : ℚ)), ((226151/24000 : ℚ), (226151/24000 : ℚ)), ((39927/4000 : ℚ), (39927/4000 : ℚ)), ((50597/4800 : ℚ), (50597/4800 : ℚ)), ((13321/1200 : ℚ), (13321/1200 : ℚ)), ((93289/8000 : ℚ), (93289/8000 : ℚ))]

def cxSt129 : GameState := cxState (57319/4800 : ℚ) (2243/400 : ℚ) (57319/4800 : ℚ) (177/20 : ℚ) (43/20 : ℚ) (43/3600 : ℚ) (1/4 : ℚ) [(52999/4800 : ℚ), (48679/4800 : ℚ), (44359/4800 : ℚ), (40039/4800 : ℚ), (35719/4800 : ℚ), (31399/4800 : ℚ), (27079/4800 : ℚ), (22759/4800 : ℚ)] [((13213/12000 : ℚ), (13213/12000 : ℚ)), ((13219/8000 : ℚ), (13219/8000 : ℚ)), ((529/240 : ℚ), (529/240 : ℚ)), ((13231/4800 : ℚ), (13231/4800 : ℚ)), ((13237/4000 : ℚ), (13237/4000 : ℚ)), ((92701/24000 : ℚ), (92701/24000 : ℚ)), ((13249/3000 : ℚ), (13249/3000 : ℚ)), ((7953/1600 : ℚ), (7953/1600 : ℚ)), ((13261/2400 : ℚ), (13261/2400 : ℚ)), ((145937/24000 : ℚ), (145937/24000 : ℚ)), ((13273/2000 : ℚ), (13273/2000 : ℚ)), ((172627/24000 : ℚ), (172627/24000 : ℚ)), ((18599/2400 : ℚ), (18599/2400 : ℚ)), ((13291/1600 : ℚ), (13291/1600 : ℚ)), ((13297/1500 : ℚ), (13297/1500 : ℚ)), ((226151/24000 : ℚ), (226151/24000 : ℚ)), ((39927/4000 : ℚ), (39927/4000 : ℚ)), ((50597/4800 : ℚ), (50597/4800 : ℚ)), ((13321/1200 : ℚ), (13321/1200 : ℚ)), ((93289/8000 : ℚ), (93289/8000 : ℚ))]

def cxSt130 : GameState := cxState (173303/14400 : ℚ) (673/120 : ℚ) (173303/14400 : ℚ) (53/6 : ℚ) (13/6 : ℚ) (13/1080 : ℚ) (7/30 : ℚ) [(160343/14400 : ℚ), (147383/14400 : ℚ), (134423/14400 : ℚ), (121463/14400 : ℚ), (108503/14400 : ℚ), (95543/14400 : ℚ), (82583/14400 : ℚ), (69623/14400 : ℚ)] [((13213/12000 : ℚ), (13213/12000 : ℚ)), ((13219/8000 : ℚ), (13219/8000 : ℚ)), ((529/240 : ℚ), (529/240 : ℚ)), ((13231/4800 : ℚ), (13231/4800 : ℚ)), ((13237/4000 : ℚ), (13237/4000 : ℚ)), ((92701/24000 : ℚ), (92701/24000 : ℚ)), ((13249/3000 : ℚ), (13249/3000 : ℚ)), ((7953/1600 : ℚ), (7953/1600 : ℚ)), ((13261/2400 : ℚ), (13261/2400 : ℚ)), ((145937/24000 : ℚ), (145937/24000 : ℚ)), ((13273/2000 : ℚ), (13273/2000 : ℚ)), ((172627/24000 : ℚ), (172627/24000 : ℚ)), ((18599/2400 : ℚ), (18599/2400 : ℚ)), ((13291/1600 : ℚ), (13291/1600 : ℚ)), ((13297/1500 : ℚ), (13297/1500 : ℚ)), ((226151/24000 : ℚ), (226151/24000 : ℚ)), ((39927/4000 : ℚ), (39927/4000 : ℚ)), ((50597/4800 : ℚ), (50597/4800 : ℚ)), ((13321/1200 : ℚ), (13321/1200 : ℚ)), ((93289/8000 : ℚ), (93289/8000 : ℚ))]

def cxSt131 : GameState := cxState (145541/12000 : ℚ) (6731/1200 : ℚ) (145541/12000 : ℚ) (529/60 : ℚ) (131/60 : ℚ) (131/10800 : ℚ) (13/60 : ℚ) [(134741/12000 : ℚ), (123941/12000 : ℚ), (113141/12000 : ℚ), (102341/12000 : ℚ), (91541/12000 : ℚ), (80741/12000 : ℚ), (69941/12000 : ℚ), (59141/12000 : ℚ)] [((13213/12000 : ℚ), (13213/12000 : ℚ)), ((13219/8000 : ℚ), (13219/8000 : ℚ)), ((529/240 : ℚ), (529/240 : ℚ)), ((13231/4800 : ℚ), (13231/4800 : ℚ)), ((13237/4000 : ℚ), (13237/4000 : ℚ)), ((92701/24000 : ℚ), (92701/24000 : ℚ)), ((13249/3000 : ℚ), (13249/3000 : ℚ)), ((7953/1600 : ℚ), (7953/1600 : ℚ)), ((13261/2400 : ℚ), (13261/2400 : ℚ)), ((145937/24000 : ℚ), (145937/24000 : ℚ)), ((13273/2000 : ℚ), (13273/2000 : ℚ)), ((172627/24000 : ℚ), (172627/24000 : ℚ)), ((18599/2400 : ℚ), (18599/2400 : ℚ)), ((13291/1600 : ℚ), (13291/1600 : ℚ)), ((13297/1500 : ℚ), (13297/1500 : ℚ)), ((226151/24000 : ℚ), (226151/24000 : ℚ)), ((39927/4000 : ℚ), (39927/4000 : ℚ)), ((50597/4800 : ℚ), (50597/4800 : ℚ)), ((13321/1200 : ℚ), (13321/1200 : ℚ)), ((93289/8000 : ℚ), (93289/8000 : ℚ))]

def cxSt132 : GameState := cxState (146663/12000 : ℚ) (561/100 : ℚ) (146663/12000 : ℚ) (44/5 : ℚ) (11/5 : ℚ) (11/900 : ℚ) (1/5 : ℚ) [(135863/12000 : ℚ), (125063/12000 : ℚ), (114263/12000 : ℚ), (103463/12000 : ℚ), (92663/12000 : ℚ), (81863/12000 : ℚ), (71063/12000 : ℚ), (60263/12000 : ℚ)] [((13213/12000 : ℚ), (13213/12000 : ℚ)), ((13219/8000 : ℚ), (13219/8000 : ℚ)), ((529/240 : ℚ), (529/240 : ℚ)), ((13231/4800 : ℚ), (13231/4800 : ℚ)), ((13237/4000 : ℚ), (13237/4000 : ℚ)), ((92701/24000 : ℚ), (92701/24000 : ℚ)), ((13249/3000 : ℚ), (13249/3000 : ℚ)), ((7953/1600 : ℚ), (7953/1600 : ℚ)), ((13261/2400 : ℚ), (13261/2400 : ℚ)), ((145937/24000 : ℚ), (145937/24000 : ℚ)), ((13273/2000 : ℚ), (13273/2000 : ℚ)), ((172627/24000 : ℚ), (172627/24000 : ℚ)), ((18599/2400 : ℚ), (18599/2400 : ℚ)), ((13291/1600 : ℚ), (13291/1600 : ℚ)), ((13297/1500 : ℚ), (13297/1500 : ℚ)), ((226151/24000 : ℚ), (226151/24000 : ℚ)), ((39927/4000 : ℚ), (39927/4000 : ℚ)), ((50597/4800 : ℚ), (50597/4800 : ℚ)), ((13321/1200 : ℚ), (13321/1200 : ℚ)), ((93289/8000 : ℚ), (93289/8000 : ℚ)), ((146663/12000 : ℚ), (146663/12000 : ℚ))]

def cxSt133 : GameState := cxState (886711/72000 : ℚ) (6733/1200 : ℚ) (886711/72000 : ℚ) (527/60 : ℚ) (133/60 : ℚ) (133/10800 : ℚ) (11/60 : ℚ) [(821911/72000 : ℚ), (757111/72000 : ℚ), (692311/72000 : ℚ), (627511/72000 : ℚ), (562711/72000 : ℚ), (497911/72000 : ℚ), (433111/72000 : ℚ), (368311/72000 : ℚ)] [((13213/12000 : ℚ), (13213/12000 : ℚ)), ((13219/8000 : ℚ), (13219/8000 : ℚ)), ((529/240 : ℚ), (529/240 : ℚ)), ((13231/4800 : ℚ), (13231/4800 : ℚ)), ((13237/4000 : ℚ), (13237/4000 : ℚ)), ((92701/24000 : ℚ), (92701/24000 : ℚ)), ((13249/3000 : ℚ), (13249/3000 : ℚ)), ((7953/1600 : ℚ), (7953/1600 : ℚ)), ((13261/2400 : ℚ), (13261/2400 : ℚ)), ((145937/24000 : ℚ), (145937/24000 : ℚ)), ((13273/2000 : ℚ), (13273/2000 : ℚ)), ((172627/24000 : ℚ), (172627/24000 : ℚ)), ((18599/2400 : ℚ), (18599/2400 : ℚ)), ((13291/1600 : ℚ), (13291/1600 : ℚ)), ((13297/1500 : ℚ), (13297/1500 : ℚ)), ((226151/24000 : ℚ), (226151/24000 : ℚ)), ((39927/4000 : ℚ), (39927/4000 : ℚ)), ((50597/4800 : ℚ), (50597/4800 : ℚ)), ((13321/1200 : ℚ), (13321/1200 : ℚ)), ((93289/8000 : ℚ), (93289/8000 : ℚ)), ((146663/12000 : ℚ), (146663/12000 : ℚ))]

def cxSt134 : GameState := cxState (59563/4800 : ℚ) (3367/600 : ℚ) (59563/4800 : ℚ) (263/30 : ℚ) (67/30 : ℚ) (67/5400 : ℚ) (1/6 : ℚ) [(55243/4800 : ℚ), (50923/4800 : ℚ), (46603/4800 : ℚ), (42283/4800 : ℚ), (37963/4800 : ℚ), (33643/4800 : ℚ), (29323/4800 : ℚ), (25003/4800 : ℚ)] [((13213/12000 : ℚ), (13213/12000 : ℚ)), ((13219/8000 : ℚ), (13219/8000 : ℚ)), ((529/240 : ℚ), (529/240 : ℚ)), ((13231/4800 : ℚ), (13231/4800 : ℚ)), ((13237/4000 : ℚ), (13237/4000 : ℚ)), ((92701/24000 : ℚ), (92701/24000 : ℚ)), ((13249/3000 : ℚ), (13249/3000 : ℚ)), ((7953/1600 : ℚ), (7953/1600 : ℚ)), ((13261/2400 : ℚ), (13261/2400 : ℚ)), ((145937/24000 : ℚ), (145937/24000 : ℚ)), ((13273/2000 : ℚ), (13273/2000 : ℚ)), ((172627/24000 : ℚ), (172627/24000 : ℚ)), ((18599/2400 : ℚ), (18599/2400 : ℚ)), ((13291/1600 : ℚ), (13291/1600 : ℚ)), ((13297/1500 : ℚ), (13297/1500 : ℚ)), ((226151/24000 : ℚ), (226151/24000 : ℚ)), ((39927/4000 : ℚ), (39927/4000 : ℚ)), ((50597/4800 : ℚ), (50597/4800 : ℚ)), ((13321/1200 : ℚ), (13321/1200 : ℚ)), ((93289/8000 : ℚ), (93289/8000 : ℚ)), ((146663/12000 : ℚ), (146663/12000 : ℚ))]

def cxSt135 : GameState := cxState (5001/400 : ℚ) (449/80 : ℚ) (5001/400 : ℚ) (35/4 : ℚ) (9/4 : ℚ) (1/80 : ℚ) (3/20 : ℚ) [(4641/400 : ℚ), (4281/400 : ℚ), (3921/400 : ℚ), (3561/400 : ℚ), (3201/400 : ℚ), (2841/400 : ℚ), (2481/400 : ℚ), (2121/400 : ℚ)] [((13219/8000 : ℚ), (13219/8000 : ℚ)), ((529/240 : ℚ), (529/240 : ℚ)), ((13231/4800 : ℚ), (13231/4800 : ℚ)), ((13237/4000 : ℚ), (13237/4000 : ℚ)), ((92701/24000 : ℚ), (92701/24000 : ℚ)), ((13249/3000 : ℚ), (13249/3000 : ℚ)), ((7953/1600 : ℚ), (7953/1600 : ℚ)), ((13261/2400 : ℚ), (13261/2400 : ℚ)), ((145937/24000 : ℚ), (145937/24000 : ℚ)), ((13273/2000 : ℚ), (13273/2000 : ℚ)), ((172627/24000 : ℚ), (172627/24000 : ℚ)), ((18599/2400 : ℚ), (18599/2400 : ℚ)), ((13291/1600 : ℚ), (13291/1600 : ℚ)), ((13297/1500 : ℚ), (13297/1500 : ℚ)), ((226151/24000 : ℚ), (226151/24000 : ℚ)), ((39927/4000 : ℚ), (39927/4000 : ℚ)), ((50597/4800 : ℚ), (50597/4800 : ℚ)), ((13321/1200 : ℚ), (13321/1200 : ℚ)), ((93289/8000 : ℚ), (93289/8000 : ℚ)), ((146663/12000 : ℚ), (146663/12000 : ℚ))]

def cxSt136 : GameState := cxState (226729/18000 : ℚ) (421/75 : ℚ) (226729/18000 : ℚ) (131/15 : ℚ) (34/15 : ℚ) (17/1350 : ℚ) (2/15 : ℚ) [(210529/18000 : ℚ), (194329/18000 : ℚ), (178129/18000 : ℚ), (161929/18000 : ℚ), (145729/18000 : ℚ), (129529/18000 : ℚ), (113329/18000 : ℚ), (97129/18000 : ℚ)] [((13219/8000 : ℚ), (13219/8000 : ℚ)), ((529/240 : ℚ), (529/240 : ℚ)), ((13231/4800 : ℚ), (13231/4800 : ℚ)), ((13237/4000 : ℚ), (13237/4000 : ℚ)), ((92701/24000 : ℚ), (92701/24000 : ℚ)), ((13249/3000 : ℚ), (13249/3000 : ℚ)), ((7953/1600 : ℚ), (7953/1600 : ℚ)), ((13261/2400 : ℚ), (13261/2400 : ℚ)), ((145937/24000 : ℚ), (145937/24000 : ℚ)), ((13273/2000 : ℚ), (13273/2000 : ℚ)), ((172627/24000 : ℚ), (172627/24000 : ℚ)), ((18599/2400 : ℚ), (18599/2400 : ℚ)), ((13291/1600 : ℚ), (13291/1600 : ℚ)), ((13297/1500 : ℚ), (13297/1500 : ℚ)), ((226151/24000 : ℚ), (226151/24000 : ℚ)), ((39927/4000 : ℚ), (39927/4000 : ℚ)), ((50597/4800 : ℚ), (50597/4800 : ℚ)), ((13321/1200 : ℚ), (13321/1200 : ℚ)), ((93289/8000 : ℚ), (93289/8000 : ℚ)), ((146663/12000 : ℚ), (146663/12000 : ℚ))]

def cxSt137 : GameState := cxState (101517/8000 : ℚ) (6737/1200 : ℚ) (101517/8000 : ℚ) (523/60 : ℚ) (137/60 : ℚ) (137/10800 : ℚ) (7/60 : ℚ) [(94317/8000 : ℚ), (87117/8000 : ℚ), (79917/8000 : ℚ), (72717/8000 : ℚ), (65517/8000 : ℚ), (58317/8000 : ℚ), (51117/8000 : ℚ), (43917/8000 : ℚ)] [((13219/8000 : ℚ), (13219/8000 : ℚ)), ((529/240 : ℚ), (529/240 : ℚ)), ((13231/4800 : ℚ), (13231/4800 : ℚ)), ((13237/4000 : ℚ), (13237/4000 : ℚ)), ((92701/24000 : ℚ), (92701/24000 : ℚ)), ((13249/3000 : ℚ), (13249/3000 : ℚ)), ((7953/1600 : ℚ), (7953/1600 : ℚ)), ((13261/2400 : ℚ), (13261/2400 : ℚ)), ((145937/24000 : ℚ), (145937/24000 : ℚ)), ((13273/2000 : ℚ), (13273/2000 : ℚ)), ((172627/24000 : ℚ), (172627/24000 : ℚ)), ((18599/2400 : ℚ), (18599/2400 : ℚ)), ((13291/1600 : ℚ), (13291/1600 : ℚ)), ((13297/1500 : ℚ), (13297/1500 : ℚ)), ((226151/24000 : ℚ), (226151/24000 : ℚ)), ((39927/4000 : ℚ), (39927/4000 : ℚ)), ((50597/4800 : ℚ), (50597/4800 : ℚ)), ((13321/1200 : ℚ), (13321/1200 : ℚ)), ((93289/8000 : ℚ), (93289/8000 : ℚ)), ((146663/12000 : ℚ), (146663/12000 : ℚ))]

def cxSt138 : GameState := cxState (306797/24000 : ℚ) (1123/200 : ℚ) (306797/24000 : ℚ) (87/10 : ℚ) (23/10 : ℚ) (23/1800 : ℚ) (1/10 : ℚ) [(285197/24000 : ℚ), (263597/24000 : ℚ), (241997/24000 : ℚ), (220397/24000 : ℚ), (198797/24000 : ℚ), (177197/24000 : ℚ), (155597/24000 : ℚ), (133997/24000 : ℚ)] [((13219/8000 : ℚ), (13219/8000 : ℚ)), ((529/240 : ℚ), (529/240 : ℚ)), ((13231/4800 : ℚ), (13231/4800 : ℚ)), ((13237/4000 : ℚ), (13237/4000 : ℚ)), ((92701/24000 : ℚ), (92701/24000 : ℚ)), ((13249/3000 : ℚ), (13249/3000 : ℚ)), ((7953/1600 : ℚ), (7953/1600 : ℚ)), ((13261/2400 : ℚ), (13261/2400 : ℚ)), ((145937/24000 : ℚ), (145937/24000 : ℚ)), ((13273/2000 : ℚ), (13273/2000 : ℚ)), ((172627/24000 : ℚ), (172627/24000 : ℚ)), ((18599/2400 : ℚ), (18599/2400 : ℚ)), ((13291/1600 : ℚ), (13291/1600 : ℚ)), ((13297/1500 : ℚ), (13297/1500 : ℚ)), ((226151/24000 : ℚ), (226151/24000 : ℚ)), ((39927/4000 : ℚ), (39927/4000 : ℚ)), ((50597/4800 : ℚ), (50597/4800 : ℚ)), ((13321/1200 : ℚ), (13321/1200 : ℚ)), ((93289/8000 : ℚ), (93289/8000 : ℚ)), ((146663/12000 : ℚ), (146663/12000 : ℚ)), ((306797/24000 : ℚ), (306797/24000 : ℚ))]

def cxSt139 : GameState := cxState (92713/7200 : ℚ) (6739/1200 : ℚ) (92713/7200 : ℚ) (521/60 : ℚ) (139/60 : ℚ) (139/10800 : ℚ) (1/12 : ℚ) [(86233/7200 : ℚ), (79753/7200 : ℚ), (73273/7200 : ℚ), (66793/7200 : ℚ), (60313/7200 : ℚ), (53833/7200 : ℚ), (47353/7200 : ℚ), (40873/7200 : ℚ)] [((13219/8000 : ℚ), (13219/8000 : ℚ)), ((529/240 : ℚ), (529/240 : ℚ)), ((13231/4800 : ℚ), (13231/4800 : ℚ)), ((13237/4000 : ℚ), (13237/4000 : ℚ)), ((92701/24000 : ℚ), (92701/24000 : ℚ)), ((13249/3000 : ℚ), (13249/3000 : ℚ)), ((7953/1600 : ℚ), (7953/1600 : ℚ)), ((13261/2400 : ℚ), (13261/2400 : ℚ)), ((145937/24000 : ℚ), (145937/24000 : ℚ)), ((13273/2000 : ℚ), (13273/2000 : ℚ)), ((172627/24000 : ℚ), (172627/24000 : ℚ)), ((18599/2400 : ℚ), (18599/2400 : ℚ)), ((13291/1600 : ℚ), (13291/1600 : ℚ)), ((13297/1500 : ℚ), (13297/1500 : ℚ)), ((226151/24000 : ℚ), (226151/24000 : ℚ)), ((39927/4000 : ℚ), (39927/4000 : ℚ)), ((50597/4800 : ℚ), (50597/4800 : ℚ)), ((13321/1200 : ℚ), (13321/1200 : ℚ)), ((93289/8000 : ℚ), (93289/8000 : ℚ)), ((146663/12000 : ℚ), (146663/12000 : ℚ)), ((306797/24000 : ℚ), (306797/24000 : ℚ))]

def cxSt140 : GameState := cxState (31129/2400 : ℚ) (337/60 : ℚ) (31129/2400 : ℚ) (26/3 : ℚ) (7/3 : ℚ) (7/540 : ℚ) (1/15 : ℚ) [(28969/2400 : ℚ), (26809/2400 : ℚ), (24649/2400 : ℚ), (22489/2400 : ℚ), (20329/2400 : ℚ), (18169/2400 : ℚ), (16009/2400 : ℚ), (13849/2400 : ℚ)] [((13219/8000 : ℚ), (13219/8000 : ℚ)), ((529/240 : ℚ), (529/240 : ℚ)), ((13231/4800 : ℚ), (13231/4800 : ℚ)), ((13237/4000 : ℚ), (13237/4000 : ℚ)), ((92701/24000 : ℚ), (92701/24000 : ℚ)), ((13249/3000 : ℚ), (13249/3000 : ℚ)), ((7953/1600 : ℚ), (7953/1600 : ℚ)), ((13261/2400 : ℚ), (13261/2400 : ℚ)), ((145937/24000 : ℚ), (145937/24000 : ℚ)), ((13273/2000 : ℚ), (13273/2000 : ℚ)), ((172627/24000 : ℚ), (172627/24000 : ℚ)), ((18599/2400 : ℚ), (18599/2400 : ℚ)), ((13291/1600 : ℚ), (13291/1600 : ℚ)), ((13297/1500 : ℚ), (13297/1500 : ℚ)), ((226151/24000 : ℚ), (226151/24000 : ℚ)), ((39927/4000 : ℚ), (39927/4000 : ℚ)), ((50597/4800 : ℚ), (50597/4800 : ℚ)), ((13321/1200 : ℚ), (13321/1200 : ℚ)), ((93289/8000 : ℚ), (93289/8000 : ℚ)), ((146663/12000 : ℚ), (146663/12000 : ℚ)), ((306797/24000 : ℚ), (306797/24000 : ℚ))]

def cxSt141 : GameState := cxState (313537/24000 : ℚ) (2247/400 : ℚ) (313537/24000 : ℚ) (173/20 : ℚ) (47/20 : ℚ) (47/3600 : ℚ) (1/20 : ℚ) [(291937/24000 : ℚ), (270337/24000 : ℚ), (248737/24000 : ℚ), (227137/24000 : ℚ), (205537/24000 : ℚ), (183937/24000 : ℚ), (162337/24000 : ℚ), (140737/24000 : ℚ)] [((529/240 : ℚ), (529/240 : ℚ)), ((13231/4800 : ℚ), (13231/4800 : ℚ)), ((13237/4000 : ℚ), (13237/4000 : ℚ)), ((92701/24000 : ℚ), (92701/24000 : ℚ)), ((13249/3000 : ℚ), (13249/3000 : ℚ)), ((7953/1600 : ℚ), (7953/1600 : ℚ)), ((13261/2400 : ℚ), (13261/2400 : ℚ)), ((145937/24000 : ℚ), (145937/24000 : ℚ)), ((13273/2000 : ℚ), (13273/2000 : ℚ)), ((172627/24000 : ℚ), (172627/24000 : ℚ)), ((18599/2400 : ℚ), (18599/2400 : ℚ)), ((13291/1600 : ℚ), (13291/1600 : ℚ)), ((13297/1500 : ℚ), (13297/1500 : ℚ)), ((226151/24000 : ℚ), (226151/24000 : ℚ)), ((39927/4000 : ℚ), (39927/4000 : ℚ)), ((50597/4800 : ℚ), (50597/4800 : ℚ)), ((13321/1200 : ℚ), (13321/1200 : ℚ)), ((93289/8000 : ℚ), (93289/8000 : ℚ)), ((146663/12000 : ℚ), (146663/12000 : ℚ)), ((306797/24000 : ℚ), (306797/24000 : ℚ))]

def cxSt142 : GameState := cxState (947353/72000 : ℚ) (3371/600 : ℚ) (947353/72000 : ℚ) (259/30 : ℚ) (71/30 : ℚ) (71/5400 : ℚ) (1/30 : ℚ) [(882553/72000 : ℚ), (817753/72000 : ℚ), (752953/72000 : ℚ), (688153/72000 : ℚ), (623353/72000 : ℚ), (558553/72000 : ℚ), (493753/72000 : ℚ), (428953/72000 : ℚ)] [((529/240 : ℚ), (529/240 : ℚ)), ((13231/4800 : ℚ), (13231/4800 : ℚ)), ((13237/4000 : ℚ), (13237/4000 : ℚ)), ((92701/24000 : ℚ), (92701/24000 : ℚ)), ((13249/3000 : ℚ), (13249/3000 : ℚ)), ((7953/1600 : ℚ), (7953/1600 : ℚ)), ((13261/2400 : ℚ), (13261/2400 : ℚ)), ((145937/24000 : ℚ), (145937/24000 : ℚ)), ((13273/2000 : ℚ), (13273/2000 : ℚ)), ((172627/24000 : ℚ), (172627/24000 : ℚ)), ((18599/2400 : ℚ), (18599/2400 : ℚ)), ((13291/1600 : ℚ), (13291/1600 : ℚ)), ((13297/1500 : ℚ), (13297/1500 : ℚ)), ((226151/24000 : ℚ), (226151/24000 : ℚ)), ((39927/4000 : ℚ), (39927/4000 : ℚ)), ((50597/4800 : ℚ), (50597/4800 : ℚ)), ((13321/1200 : ℚ), (13321/1200 : ℚ)), ((93289/8000 : ℚ), (93289/8000 : ℚ)), ((146663/12000 : ℚ), (146663/12000 : ℚ)), ((306797/24000 : ℚ), (306797/24000 : ℚ))]

def cxSt143 : GameState := cxState (19877/1500 : ℚ) (6743/1200 : ℚ) (19877/1500 : ℚ) (517/60 : ℚ) (143/60 : ℚ) (143/10800 : ℚ) (1/60 : ℚ) [(18527/1500 : ℚ), (17177/1500 : ℚ), (15827/1500 : ℚ), (14477/1500 : ℚ), (13127/1500 : ℚ), (11777/1500 : ℚ), (10427/1500 : ℚ), (9077/1500 : ℚ)] [((529/240 : ℚ), (529/240 : ℚ)), ((13231/4800 : ℚ), (13231/4800 : ℚ)), ((13237/4000 : ℚ), (13237/4000 : ℚ)), ((92701/24000 : ℚ), (92701/24000 : ℚ)), ((13249/3000 : ℚ), (13249/3000 : ℚ)), ((7953/1600 : ℚ), (7953/1600 : ℚ)), ((13261/2400 : ℚ), (13261/2400 : ℚ)), ((145937/24000 : ℚ), (145937/24000 : ℚ)), ((13273/2000 : ℚ), (13273/2000 : ℚ)), ((172627/24000 : ℚ), (172627/24000 : ℚ)), ((18599/2400 : ℚ), (18599/2400 : ℚ)), ((13291/1600 : ℚ), (13291/1600 : ℚ)), ((13297/1500 : ℚ), (13297/1500 : ℚ)), ((226151/24000 : ℚ), (226151/24000 : ℚ)), ((39927/4000 : ℚ), (39927/4000 : ℚ)), ((50597/4800 : ℚ), (50597/4800 : ℚ)), ((13321/1200 : ℚ), (13321/1200 : ℚ)), ((93289/8000 : ℚ), (93289/8000 : ℚ)), ((146663/12000 : ℚ), (146663/12000 : ℚ)), ((306797/24000 : ℚ), (306797/24000 : ℚ))]

theorem cxBase : simStates fnsAxis advRng cxStart (some 0) 0 = cxSt0 := by
  with_unfolding_all rfl

theorem cxStep0 : (GameSession.update fnsAxis (1/60) { turn := 0, assist := 0 } cxSt0).2 = cxSt1 := by
  with_unfolding_all rfl

theorem cxStep1 : (GameSession.update fnsAxis (1/60) { turn := 0, assist := 0 } cxSt1).2 = cxSt2 := by
  with_unfolding_all rfl

theorem cxStep2 : (GameSession.update fnsAxis (1/60) { turn := 0, assist := 0 } cxSt2).2 = cxSt3 := by
  with_unfolding_all rfl

theorem cxStep3 : (GameSession.update fnsAxis (1/60) { turn := 0, assist := 0 } cxSt3).2 = cxSt4 := by
  with_unfolding_all rfl

theorem cxStep4 : (GameSession.update fnsAxis (1/60) { turn := 0, assist := 0 } cxSt4).2 = cxSt5 := by
  with_unfolding_all rfl

theorem cxStep5 : (GameSession.update fnsAxis (1/60) { turn := 0, assist := 0 } cxSt5).2 = cxSt6 := by
  with_unfolding_all rfl

theorem cxStep6 : (GameSession.update fnsAxis (1/60) { turn := 0, assist := 0 } cxSt6).2 = cxSt7 := by
  with_unfolding_all rfl

theorem cxStep7 : (GameSession.update fnsAxis (1/60) { turn := 0, assist := 0 } cxSt7).2 = cxSt8 := by
  with_unfolding_all rfl

theorem cxStep8 : (GameSession.update fnsAxis (1/60) { turn := 0, assist := 0 } cxSt8).2 = cxSt9 := by
  with_unfolding_all rfl

theorem cxStep9 : (GameSession.update fnsAxis (1/60) { turn := 0, assist := 0 } cxSt9).2 = cxSt10 := by
  with_unfolding_all rfl

theorem cxStep10 : (GameSession.update fnsAxis (1/60) { turn := 0, assist := 0 } cxSt10).2 = cxSt11 := by
  with_unfolding_all rfl

theorem cxStep11 : (GameSession.update fnsAxis (1/60) { turn := 0, assist := 0 } cxSt11).2 = cxSt12 := by
  with_unfolding_all rfl

theorem cxStep12 : (GameSession.update fnsAxis (1/60) { turn := 0, assist := 0 } cxSt12).2 = cxSt13 := by
  with_unfolding_all rfl

theorem cxStep13 : (GameSession.update fnsAxis (1/60) { turn := 0, assist := 0 } cxSt13).2 = cxSt14 := by
  with_unfolding_all rfl

theorem cxStep14 : (GameSession.update fnsAxis (1/60) { turn := 0, assist := 0 } cxSt14).2 = cxSt15 := by
  with_unfolding_all rfl

theorem cxStep15 : (GameSession.update fnsAxis (1/60) { turn := 0, assist := 0 } cxSt15).2 = cxSt16 := by
  with_unfolding_all rfl

theorem cxStep16 : (GameSession.update fnsAxis (1/60) { turn := 0, assist := 0 } cxSt16).2 = cxSt17 := by
  with_unfolding_all rfl

theorem cxStep17 : (GameSession.update fnsAxis (1/60) { turn := 0, assist := 0 } cxSt17).2 = cxSt18 := by
  with_unfolding_all rfl

theorem cxStep18 : (GameSession.update fnsAxis (1/60) { turn := 0, assist := 0 } cxSt18).2 = cxSt19 := by
  with_unfolding_all rfl

theorem cxStep19 : (GameSession.update fnsAxis (1/60) { turn := 0, assist := 0 } cxSt19).2 = cxSt20 := by
  with_unfolding_all rfl

theorem cxStep20 : (GameSession.update fnsAxis (1/60) { turn := 0, assist := 0 } cxSt20).2 = cxSt21 := by
  with_unfolding_all rfl

theorem cxStep21 : (GameSession.update fnsAxis (1/60) { turn := 0, assist := 0 } cxSt21).2 = cxSt22 := by
  with_unfolding_all rfl

theorem cxStep22 : (GameSession.update fnsAxis (1/60) { turn := 0, assist := 0 } cxSt22).2 = cxSt23 := by
  with_unfolding_all rfl

theorem cxStep23 : (GameSession.update fnsAxis (1/60) { turn := 0, assist := 0 } cxSt23).2 = cxSt24 := by
  with_unfolding_all rfl

theorem cxStep24 : (GameSession.update fnsAxis (1/60) { turn := 0, assist := 0 } cxSt24).2 = cxSt25 := by
  with_unfolding_all rfl

theorem cxStep25 : (GameSession.update fnsAxis (1/60) { turn := 0, assist := 0 } cxSt25).2 = cxSt26 := by
  with_unfolding_all rfl

theorem cxStep26 : (GameSession.update fnsAxis (1/60) { turn := 0, assist := 0 } cxSt26).2 = cxSt27 := by
  with_unfolding_all rfl

theorem cxStep27 : (GameSession.update fnsAxis (1/60) { turn := 0, assist := 0 } cxSt27).2 = cxSt28 := by
  with_unfolding_all rfl

theorem cxStep28 : (GameSession.update fnsAxis (1/60) { turn := 0, assist := 0 } cxSt28).2 = cxSt29 := by
  with_unfolding_all rfl

theorem cxStep29 : (GameSession.update fnsAxis (1/60) { turn := 0, assist := 0 } cxSt29).2 = cxSt30 := by
  with_unfolding_all rfl

theorem cxStep30 : (GameSession.update fnsAxis (1/60) { turn := 0, assist := 0 } cxSt30).2 = cxSt31 := by
  with_unfolding_all rfl

theorem cxStep31 : (GameSession.update fnsAxis (1/60) { turn := 0, assist := 0 } cxSt31).2 = cxSt32 := by
  with_unfolding_all rfl

theorem cxStep32 : (GameSession.update fnsAxis (1/60) { turn := 0, assist := 0 } cxSt32).2 = cxSt33 := by
  with_unfolding_all rfl

theorem cxStep33 : (GameSession.update fnsAxis (1/60) { turn := 0, assist := 0 } cxSt33).2 = cxSt34 := by
  with_unfolding_all rfl

theorem cxStep34 : (GameSession.update fnsAxis (1/60) { turn := 0, assist := 0 } cxSt34).2 = cxSt35 := by
  with_unfolding_all rfl

theorem cxStep35 : (GameSession.update fnsAxis (1/60) { turn := 0, assist := 0 } cxSt35).2 = cxSt36 := by
  with_unfolding_all rfl

theorem cxStep36 : (GameSession.update fnsAxis (1/60) { turn := 0, assist := 0 } cxSt36).2 = cxSt37 := by
  with_unfolding_all rfl

theorem cxStep37 : (GameSession.update fnsAxis (1/60) { turn := 0, assist := 0 } cxSt37).2 = cxSt38 := by
  with_unfolding_all rfl

theorem cxStep38 : (GameSession.update fnsAxis (1/60) { turn := 0, assist := 0 } cxSt38).2 = cxSt39 := by
  with_unfolding_all rfl

theorem cxStep39 : (GameSession.update fnsAxis (1/60) { turn := 0, assist := 0 } cxSt39).2 = cxSt40 := by
  with_unfolding_all rfl

theorem cxStep40 : (GameSession.update fnsAxis (1/60) { turn := 0, assist := 0 } cxSt40).2 = cxSt41 := by
  with_unfolding_all rfl

theorem cxStep41 : (GameSession.update fnsAxis (1/60) { turn := 0, assist := 0 } cxSt41).2 = cxSt42 := by
  with_unfolding_all rfl

theorem cxStep42 : (GameSession.update fnsAxis (1/60) { turn := 0, assist := 0 } cxSt42).2 = cxSt43 := by
  with_unfolding_all rfl

theorem cxStep43 : (GameSession.update fnsAxis (1/60) { turn := 0, assist := 0 } cxSt43).2 = cxSt44 := by
  with_unfolding_all rfl

theorem cxStep44 : (GameSession.update fnsAxis (1/60) { turn := 0, assist := 0 } cxSt44).2 = cxSt45 := by
  with_unfolding_all rfl

theorem cxStep45 : (GameSession.update fnsAxis (1/60) { turn := 0, assist := 0 } cxSt45).2 = cxSt46 := by
  with_unfolding_all rfl

theorem cxStep46 : (GameSession.update fnsAxis (1/60) { turn := 0, assist := 0 } cxSt46).2 = cxSt47 := by
  with_unfolding_all rfl

theorem cxStep47 : (GameSession.update fnsAxis (1/60) { turn := 0, assist := 0 } cxSt47).2 = cxSt48 := by
  with_unfolding_all rfl

theorem cxStep48 : (GameSession.update fnsAxis (1/60) { turn := 0, assist := 0 } cxSt48).2 = cxSt49 := by
  with_unfolding_all rfl

theorem cxStep49 : (GameSession.update fnsAxis (1/60) { turn := 0, assist := 0 } cxSt49).2 = cxSt50 := by
  with_unfolding_all rfl

theorem cxStep50 : (GameSession.update fnsAxis (1/60) { turn := 0, assist := 0 } cxSt50).2 = cxSt51 := by
  with_unfolding_all rfl

theorem cxStep51 : (GameSession.update fnsAxis (1/60) { turn := 0, assist := 0 } cxSt51).2 = cxSt52 := by
  with_unfolding_all rfl

theorem cxStep52 : (GameSession.update fnsAxis (1/60) { turn := 0, assist := 0 } cxSt52).2 = cxSt53 := by
  with_unfolding_all rfl

theorem cxStep53 : (GameSession.update fnsAxis (1/60) { turn := 0, assist := 0 } cxSt53).2 = cxSt54 := by
  with_unfolding_all rfl

theorem cxStep54 : (GameSession.update fnsAxis (1/60) { turn := 0, assist := 0 } cxSt54).2 = cxSt55 := by
  with_unfolding_all rfl

theorem cxStep55 : (GameSession.update fnsAxis (1/60) { turn := 0, assist := 0 } cxSt55).2 = cxSt56 := by
  with_unfolding_all rfl

theorem cxStep56 : (GameSession.update fnsAxis (1/60) { turn := 0, assist := 0 } cxSt56).2 = cxSt57 := by
  with_unfolding_all rfl

theorem cxStep57 : (GameSession.update fnsAxis (1/60) { turn := 0, assist := 0 } cxSt57).2 = cxSt58 := by
  with_unfolding_all rfl

theorem cxStep58 : (GameSession.update fnsAxis (1/60) { turn := 0, assist := 0 } cxSt58).2 = cxSt59 := by
  with_unfolding_all rfl

theorem cxStep59 : (GameSession.update fnsAxis (1/60) { turn := 0, assist := 0 } cxSt59).2 = cxSt60 := by
  with_unfolding_all rfl

theorem cxStep60 : (GameSession.update fnsAxis (1/60) { turn := 0, assist := 0 } cxSt60).2 = cxSt61 := by
  with_unfolding_all rfl

theorem cxStep61 : (GameSession.update fnsAxis (1/60) { turn := 0, assist := 0 } cxSt61).2 = cxSt62 := by
  with_unfolding_all rfl

theorem cxStep62 : (GameSession.update fnsAxis (1/60) { turn := 0, assist := 0 } cxSt62).2 = cxSt63 := by
  with_unfolding_all rfl

theorem cxStep63 : (GameSession.update fnsAxis (1/60) { turn := 0, assist := 0 } cxSt63).2 = cxSt64 := by
  with_unfolding_all rfl

theorem cxStep64 : (GameSession.update fnsAxis (1/60) { turn := 0, assist := 0 } cxSt64).2 = cxSt65 := by
  with_unfolding_all rfl

theorem cxStep65 : (GameSession.update fnsAxis (1/60) { turn := 0, assist := 0 } cxSt65).2 = cxSt66 := by
  with_unfolding_all rfl

theorem cxStep66 : (GameSession.update fnsAxis (1/60) { turn := 0, assist := 0 } cxSt66).2 = cxSt67 := by
  with_unfolding_all rfl

theorem cxStep67 : (GameSession.update fnsAxis (1/60) { turn := 0, assist := 0 } cxSt67).2 = cxSt68 := by
  with_unfolding_all rfl

theorem cxStep68 : (GameSession.update fnsAxis (1/60) { turn := 0, assist := 0 } cxSt68).2 = cxSt69 := by
  with_unfolding_all rfl

theorem cxStep69 : (GameSession.update fnsAxis (1/60) { turn := 0, assist := 0 } cxSt69).2 = cxSt70 := by
  with_unfolding_all rfl

theorem cxStep70 : (GameSession.update fnsAxis (1/60) { turn := 0, assist := 0 } cxSt70).2 = cxSt71 := by
  with_unfolding_all rfl

theorem cxStep71 : (GameSession.update fnsAxis (1/60) { turn := 0, assist := 0 } cxSt71).2 = cxSt72 := by
  with_unfolding_all rfl

theorem cxStep72 : (GameSession.update fnsAxis (1/60) { turn := 0, assist := 0 } cxSt72).2 = cxSt73 := by
  with_unfolding_all rfl

theorem cxStep73 : (GameSession.update fnsAxis (1/60) { turn := 0, assist := 0 } cxSt73).2 = cxSt74 := by
  with_unfolding_all rfl

theorem cxStep74 : (GameSession.update fnsAxis (1/60) { turn := 0, assist := 0 } cxSt74).2 = cxSt75 := by
  with_unfolding_all rfl

theorem cxStep75 : (GameSession.update fnsAxis (1/60) { turn := 0, assist := 0 } cxSt75).2 = cxSt76 := by
  with_unfolding_all rfl

theorem cxStep76 : (GameSession.update fnsAxis (1/60) { turn := 0, assist := 0 } cxSt76).2 = cxSt77 := by
  with_unfolding_all rfl

theorem cxStep77 : (GameSession.update fnsAxis (1/60) { turn := 0, assist := 0 } cxSt77).2 = cxSt78 := by
  with_unfolding_all rfl

theorem cxStep78 : (GameSession.update fnsAxis (1/60) { turn := 0, assist := 0 } cxSt78).2 = cxSt79 := by
  with_unfolding_all rfl

theorem cxStep79 : (GameSession.update fnsAxis (1/60) { turn := 0, assist := 0 } cxSt79).2 = cxSt80 := by
  with_unfolding_all rfl

theorem cxStep80 : (GameSession.update fnsAxis (1/60) { turn := 0, assist := 0 } cxSt80).2 = cxSt81 := by
  with_unfolding_all rfl

theorem cxStep81 : (GameSession.update fnsAxis (1/60) { turn := 0, assist := 0 } cxSt81).2 = cxSt82 := by
  with_unfolding_all rfl

theorem cxStep82 : (GameSession.update fnsAxis (1/60) { turn := 0, assist := 0 } cxSt82).2 = cxSt83 := by
  with_unfolding_all rfl

theorem cxStep83 : (GameSession.update fnsAxis (1/60) { turn := 0, assist := 0 } cxSt83).2 = cxSt84 := by
  with_unfolding_all rfl

theorem cxStep84 : (GameSession.update fnsAxis (1/60) { turn := 0, assist := 0 } cxSt84).2 = cxSt85 := by
  with_unfolding_all rfl

theorem cxStep85 : (GameSession.update fnsAxis (1/60) { turn := 0, assist := 0 } cxSt85).2 = cxSt86 := by
  with_unfolding_all rfl

theorem cxStep86 : (GameSession.update fnsAxis (1/60) { turn := 0, assist := 0 } cxSt86).2 = cxSt87 := by
  with_unfolding_all rfl

theorem cxStep87 : (GameSession.update fnsAxis (1/60) { turn := 0, assist := 0 } cxSt87).2 = cxSt88 := by
  with_unfolding_all rfl

theorem cxStep88 : (GameSession.update fnsAxis (1/60) { turn := 0, assist := 0 } cxSt88).2 = cxSt89 := by
  with_unfolding_all rfl

theorem cxStep89 : (GameSession.update fnsAxis (1/60) { turn := 0, assist := 0 } cxSt89).2 = cxSt90 := by
  with_unfolding_all rfl

theorem cxStep90 : (GameSession.update fnsAxis (1/60) { turn := 0, assist := 0 } cxSt90).2 = cxSt91 := by
  with_unfolding_all rfl

theorem cxStep91 : (GameSession.update fnsAxis (1/60) { turn := 0, assist := 0 } cxSt91).2 = cxSt92 := by
  with_unfolding_all rfl

theorem cxStep92 : (GameSession.update fnsAxis (1/60) { turn := 0, assist := 0 } cxSt92).2 = cxSt93 := by
  with_unfolding_all rfl

theorem cxStep93 : (GameSession.update fnsAxis (1/60) { turn := 0, assist := 0 } cxSt93).2 = cxSt94 := by
  with_unfolding_all rfl

theorem cxStep94 : (GameSession.update fnsAxis (1/60) { turn := 0, assist := 0 } cxSt94).2 = cxSt95 := by
  with_unfolding_all rfl

theorem cxStep95 : (GameSession.update fnsAxis (1/60) { turn := 0, assist := 0 } cxSt95).2 = cxSt96 := by
  with_unfolding_all rfl

theorem cxStep96 : (GameSession.update fnsAxis (1/60) { turn := 0, assist := 0 } cxSt96).2 = cxSt97 := by
  with_unfolding_all rfl

theorem cxStep97 : (GameSession.update fnsAxis (1/60) { turn := 0, assist := 0 } cxSt97).2 = cxSt98 := by
  with_unfolding_all rfl

theorem cxStep98 : (GameSession.update fnsAxis (1/60) { turn := 0, assist := 0 } cxSt98).2 = cxSt99 := by
  with_unfolding_all rfl

theorem cxStep99 : (GameSession.update fnsAxis (1/60) { turn := 0, assist := 0 } cxSt99).2 = cxSt100 := by
  with_unfolding_all rfl

theorem cxStep100 : (GameSession.update fnsAxis (1/60) { turn := 0, assist := 0 } cxSt100).2 = cxSt101 := by
  with_unfolding_all rfl

theorem cxStep101 : (GameSession.update fnsAxis (1/60) { turn := 0, assist := 0 } cxSt101).2 = cxSt102 := by
  with_unfolding_all rfl

theorem cxStep102 : (GameSession.update fnsAxis (1/60) { turn := 0, assist := 0 } cxSt102).2 = cxSt103 := by
  with_unfolding_all rfl

theorem cxStep103 : (GameSession.update fnsAxis (1/60) { turn := 0, assist := 0 } cxSt103).2 = cxSt104 := by
  with_unfolding_all rfl

theorem cxStep104 : (GameSession.update fnsAxis (1/60) { turn := 0, assist := 0 } cxSt104).2 = cxSt105 := by
  with_unfolding_all rfl

theorem cxStep105 : (GameSession.update fnsAxis (1/60) { turn := 0, assist := 0 } cxSt105).2 = cxSt106 := by
  with_unfolding_all rfl

theorem cxStep106 : (GameSession.update fnsAxis (1/60) { turn := 0, assist := 0 } cxSt106).2 = cxSt107 := by
  with_unfolding_all rfl

theorem cxStep107 : (GameSession.update fnsAxis (1/60) { turn := 0, assist := 0 } cxSt107).2 = cxSt108 := by
  with_unfolding_all rfl

theorem cxStep108 : (GameSession.update fnsAxis (1/60) { turn := 0, assist := 0 } cxSt108).2 = cxSt109 := by
  with_unfolding_all rfl

theorem cxStep109 : (GameSession.update fnsAxis (1/60) { turn := 0, assist := 0 } cxSt109).2 = cxSt110 := by
  with_unfolding_all rfl

theorem cxStep110 : (GameSession.update fnsAxis (1/60) { turn := 0, assist := 0 } cxSt110).2 = cxSt111 := by
  with_unfolding_all rfl

theorem cxStep111 : (GameSession.update fnsAxis (1/60) { turn := 0, assist := 0 } cxSt111).2 = cxSt112 := by
  with_unfolding_all rfl

theorem cxStep112 : (GameSession.update fnsAxis (1/60) { turn := 0, assist := 0 } cxSt112).2 = cxSt113 := by
  with_unfolding_all rfl

theorem cxStep113 : (GameSession.update fnsAxis (1/60) { turn := 0, assist := 0 } cxSt113).2 = cxSt114 := by
  with_unfolding_all rfl

theorem cxStep114 : (GameSession.update fnsAxis (1/60) { turn := 0, assist := 0 } cxSt114).2 = cxSt115 := by
  with_unfolding_all rfl

theorem cxStep115 : (GameSession.update fnsAxis (1/60) { turn := 0, assist := 0 } cxSt115).2 = cxSt116 := by
  with_unfolding_all rfl

theorem cxStep116 : (GameSession.update fnsAxis (1/60) { turn := 0, assist := 0 } cxSt116).2 = cxSt117 := by
  with_unfolding_all rfl

theorem cxStep117 : (GameSession.update fnsAxis (1/60) { turn := 0, assist := 0 } cxSt117).2 = cxSt118 := by
  with_unfolding_all rfl

theorem cxStep118 : (GameSession.update fnsAxis (1/60) { turn := 0, assist := 0 } cxSt118).2 = cxSt119 := by
  with_unfolding_all rfl

theorem cxStep119 : (GameSession.update fnsAxis (1/60) { turn := 0, assist := 0 } cxSt119).2 = cxSt120 := by
  with_unfolding_all rfl

theorem cxStep120 : (GameSession.update fnsAxis (1/60) { turn := 0, assist := 0 } cxSt120).2 = cxSt121 := by
  with_unfolding_all rfl

theorem cxStep121 : (GameSession.update fnsAxis (1/60) { turn := 0, assist := 0 } cxSt121).2 = cxSt122 := by
  with_unfolding_all rfl

theorem cxStep122 : (GameSession.update fnsAxis (1/60) { turn := 0, assist := 0 } cxSt122).2 = cxSt123 := by
  with_unfolding_all rfl

theorem cxStep123 : (GameSession.update fnsAxis (1/60) { turn := 0, assist := 0 } cxSt123).2 = cxSt124 := by
  with_unfolding_all rfl

theorem cxStep124 : (GameSession.update fnsAxis (1/60) { turn := 0, assist := 0 } cxSt124).2 = cxSt125 := by
  with_unfolding_all rfl

theorem cxStep125 : (GameSession.update fnsAxis (1/60) { turn := 0, assist := 0 } cxSt125).2 = cxSt126 := by
  with_unfolding_all rfl

theorem cxStep126 : (GameSession.update fnsAxis (1/60) { turn := 0, assist := 0 } cxSt126).2 = cxSt127 := by
  with_unfolding_all rfl

theorem cxStep127 : (GameSession.update fnsAxis (1/60) { turn := 0, assist := 0 } cxSt127).2 = cxSt128 := by
  with_unfolding_all rfl

theorem cxStep128 : (GameSession.update fnsAxis (1/60) { turn := 0, assist := 0 } cxSt128).2 = cxSt129 := by
  with_unfolding_all rfl

theorem cxStep129 : (GameSession.update fnsAxis (1/60) { turn := 0, assist := 0 } cxSt129).2 = cxSt130 := by
  with_unfolding_all rfl

theorem cxStep130 : (GameSession.update fnsAxis (1/60) { turn := 0, assist := 0 } cxSt130).2 = cxSt131 := by
  with_unfolding_all rfl

theorem cxStep131 : (GameSession.update fnsAxis (1/60) { turn := 0, assist := 0 } cxSt131).2 = cxSt132 := by
  with_unfolding_all rfl

theorem cxStep132 : (GameSession.update fnsAxis (1/60) { turn := 0, assist := 0 } cxSt132).2 = cxSt133 := by
  with_unfolding_all rfl

theorem cxStep133 : (GameSession.update fnsAxis (1/60) { turn := 0, assist := 0 } cxSt133).2 = cxSt134 := by
  with_unfolding_all rfl

theorem cxStep134 : (GameSession.update fnsAxis (1/60) { turn := 0, assist := 0 } cxSt134).2 = cxSt135 := by
  with_unfolding_all rfl

theorem cxStep135 : (GameSession.update fnsAxis (1/60) { turn := 0, assist := 0 } cxSt135).2 = cxSt136 := by
  with_unfolding_all rfl

theorem cxStep136 : (GameSession.update fnsAxis (1/60) { turn := 0, assist := 0 } cxSt136).2 = cxSt137 := by
  with_unfolding_all rfl

theorem cxStep137 : (GameSession.update fnsAxis (1/60) { turn := 0, assist := 0 } cxSt137).2 = cxSt138 := by
  with_unfolding_all rfl

theorem cxStep138 : (GameSession.update fnsAxis (1/60) { turn := 0, assist := 0 } cxSt138).2 = cxSt139 := by
  with_unfolding_all rfl

theorem cxStep139 : (GameSession.update fnsAxis (1/60) { turn := 0, assist := 0 } cxSt139).2 = cxSt140 := by
  with_unfolding_all rfl

theorem cxStep140 : (GameSession.update fnsAxis (1/60) { turn := 0, assist := 0 } cxSt140).2 = cxSt141 := by
  with_unfolding_all rfl

theorem cxStep141 : (GameSession.update fnsAxis (1/60) { turn := 0, assist := 0 } cxSt141).2 = cxSt142 := by
  with_unfolding_all rfl

theorem cxStep142 : (GameSession.update fnsAxis (1/60) { turn := 0, assist := 0 } cxSt142).2 = cxSt143 := by
  with_unfolding_all rfl

theorem cxFinal : (GameSession.update fnsAxis (1/60) { turn := 0, assist := 0 } cxSt143).1 = true := by
  with_unfolding_all rfl

/-! The theorems simEq1 .. simEq143 splice the per-tick computations into
equalities about the simulated run: the state after k ticks is the literal
state cxSt-k.  Each proof is a congruence plus one definitional unfolding of
the simulation at a successor tick count; no evaluation happens here. -/

theorem simEq1 : simStates fnsAxis advRng cxStart (some 0) 1 = cxSt1 := by
  rw [show (1 : ℕ) = 0 + 1 from rfl, simStates, cxBase]
  exact cxStep0

theorem simEq2 : simStates fnsAxis advRng cxStart (some 0) 2 = cxSt2 := by
  rw [show (2 : ℕ) = 1 + 1 from rfl, simStates, simEq1]
  exact cxStep1

theorem simEq3 : simStates fnsAxis advRng cxStart (some 0) 3 = cxSt3 := by
  rw [show (3 : ℕ) = 2 + 1 from rfl, simStates, simEq2]
  exact cxStep2

theorem simEq4 : simStates fnsAxis advRng cxStart (some 0) 4 = cxSt4 := by
  rw [show (4 : ℕ) = 3 + 1 from rfl, simStates, simEq3]
  exact cxStep3

theorem simEq5 : simStates fnsAxis advRng cxStart (some 0) 5 = cxSt5 := by
  rw [show (5 : ℕ) = 4 + 1 from rfl, simStates, simEq4]
  exact cxStep4

theorem simEq6 : simStates fnsAxis advRng cxStart (some 0) 6 = cxSt6 := by
  rw [show (6 : ℕ) = 5 + 1 from rfl, simStates, simEq5]
  exact cxStep5

theorem simEq7 : simStates fnsAxis advRng cxStart (some 0) 7 = cxSt7 := by
  rw [show (7 : ℕ) = 6 + 1 from rfl, simStates, simEq6]
  exact cxStep6

theorem simEq8 : simStates fnsAxis advRng cxStart (some 0) 8 = cxSt8 := by
  rw [show (8 : ℕ) = 7 + 1 from rfl, simStates, simEq7]
  exact cxStep7

theorem simEq9 : simStates fnsAxis advRng cxStart (some 0) 9 = cxSt9 := by
  rw [show (9 : ℕ) = 8 + 1 from rfl, simStates, simEq8]
  exact cxStep8

theorem simEq10 : simStates fnsAxis advRng cxStart (some 0) 10 = cxSt10 := by
  rw [show (10 : ℕ) = 9 + 1 from rfl, simStates, simEq9]
  exact cxStep9

theorem simEq11 : simStates fnsAxis advRng cxStart (some 0) 11 = cxSt11 := by
  rw [show (11 : ℕ) = 10 + 1 from rfl, simStates, simEq10]
  exact cxStep10

theorem simEq12 : simStates fnsAxis advRng cxStart (some 0) 12 = cxSt12 := by
  rw [show (12 : ℕ) = 11 + 1 from rfl, simStates, simEq11]
  exact cxStep11

theorem simEq13 : simStates fnsAxis advRng cxStart (some 0) 13 = cxSt13 := by
  rw [show (13 : ℕ) = 12 + 1 from rfl, simStates, simEq12]
  exact cxStep12

theorem simEq14 : simStates fnsAxis advRng cxStart (some 0) 14 = cxSt14 := by
  rw [show (14 : ℕ) = 13 + 1 from rfl, simStates, simEq13]
  exact cxStep13

theorem simEq15 : simStates fnsAxis advRng cxStart (some 0) 15 = cxSt15 := by
  rw [show (15 : ℕ) = 14 + 1 from rfl, simStates, simEq14]
  exact cxStep14

theorem simEq16 : simStates fnsAxis advRng cxStart (some 0) 16 = cxSt16 := by
  rw [show (16 : ℕ) = 15 + 1 from rfl, simStates, simEq15]
  exact cxStep15

theorem simEq17 : simStates fnsAxis advRng cxStart (some 0) 17 = cxSt17 := by
  rw [show (17 : ℕ) = 16 + 1 from rfl, simStates, simEq16]
  exact cxStep16

theorem simEq18 : simStates fnsAxis advRng cxStart (some 0) 18 = cxSt18 := by
  rw [show (18 : ℕ) = 17 + 1 from rfl, simStates, simEq17]
  exact cxStep17

theorem simEq19 : simStates fnsAxis advRng cxStart (some 0) 19 = cxSt19 := by
  rw [show (19 : ℕ) = 18 + 1 from rfl, simStates, simEq18]
  exact cxStep18

theorem simEq20 : simStates fnsAxis advRng cxStart (some 0) 20 = cxSt20 := by
  rw [show (20 : ℕ) = 19 + 1 from rfl, simStates, simEq19]
  exact cxStep19

theorem simEq21 : simStates fnsAxis advRng cxStart (some 0) 21 = cxSt21 := by
  rw [show (21 : ℕ) = 20 + 1 from rfl, simStates, simEq20]
  exact cxStep20

theorem simEq22 : simStates fnsAxis advRng cxStart (some 0) 22 = cxSt22 := by
  rw [show (22 : ℕ) = 21 + 1 from rfl, simStates, simEq21]
  exact cxStep21

theorem simEq23 : simStates fnsAxis advRng cxStart (some 0) 23 = cxSt23 := by
  rw [show (23 : ℕ) = 22 + 1 from rfl, simStates, simEq22]
  exact cxStep22

theorem simEq24 : simStates fnsAxis advRng cxStart (some 0) 24 = cxSt24 := by
  rw [show (24 : ℕ) = 23 + 1 from rfl, simStates, simEq23]
  exact cxStep23

theorem simEq25 : simStates fnsAxis advRng cxStart (some 0) 25 = cxSt25 := by
  rw [show (25 : ℕ) = 24 + 1 from rfl, simStates, simEq24]
  exact cxStep24

theorem simEq26 : simStates fnsAxis advRng cxStart (some 0) 26 = cxSt26 := by
  rw [show (26 : ℕ) = 25 + 1 from rfl, simStates, simEq25]
  exact cxStep25

theorem simEq27 : simStates fnsAxis advRng cxStart (some 0) 27 = cxSt27 := by
  rw [show (27 : ℕ) = 26 + 1 from rfl, simStates, simEq26]
  exact cxStep26

theorem simEq28 : simStates fnsAxis advRng cxStart (some 0) 28 = cxSt28 := by
  rw [show (28 : ℕ) = 27 + 1 from rfl, simStates, simEq27]
  exact cxStep27

theorem simEq29 : simStates fnsAxis advRng cxStart (some 0) 29 = cxSt29 := by
  rw [show (29 : ℕ) = 28 + 1 from rfl, simStates, simEq28]
  exact cxStep28

theorem simEq30 : simStates fnsAxis advRng cxStart (some 0) 30 = cxSt30 := by
  rw [show (30 : ℕ) = 29 + 1 from rfl, simStates, simEq29]
  exact cxStep29

theorem simEq31 : simStates fnsAxis advRng cxStart (some 0) 31 = cxSt31 := by
  rw [show (31 : ℕ) = 30 + 1 from rfl, simStates, simEq30]
  exact cxStep30

theorem simEq32 : simStates fnsAxis advRng cxStart (some 0) 32 = cxSt32 := by
  rw [show (32 : ℕ) = 31 + 1 from rfl, simStates, simEq31]
  exact cxStep31

theorem simEq33 : simStates fnsAxis advRng cxStart (some 0) 33 = cxSt33 := by
  rw [show (33 : ℕ) = 32 + 1 from rfl, simStates, simEq32]
  exact cxStep32

theorem simEq34 : simStates fnsAxis advRng cxStart (some 0) 34 = cxSt34 := by
  rw [show (34 : ℕ) = 33 + 1 from rfl, simStates, simEq33]
  exact cxStep33

theorem simEq35 : simStates fnsAxis advRng cxStart (some 0) 35 = cxSt35 := by
  rw [show (35 : ℕ) = 34 + 1 from rfl, simStates, simEq34]
  exact cxStep34

theorem simEq36 : simStates fnsAxis advRng cxStart (some 0) 36 = cxSt36 := by
  rw [show (36 : ℕ) = 35 + 1 from rfl, simStates, simEq35]
  exact cxStep35

theorem simEq37 : simStates fnsAxis advRng cxStart (some 0) 37 = cxSt37 := by
  rw [show (37 : ℕ) = 36 + 1 from rfl, simStates, simEq36]
  exact cxStep36

theorem simEq38 : simStates fnsAxis advRng cxStart (some 0) 38 = cxSt38 := by
  rw [show (38 : ℕ) = 37 + 1 from rfl, simStates, simEq37]
  exact cxStep37

theorem simEq39 : simStates fnsAxis advRng cxStart (some 0) 39 = cxSt39 := by
  rw [show (39 : ℕ) = 38 + 1 from rfl, simStates, simEq38]
  exact cxStep38

theorem simEq40 : simStates fnsAxis advRng cxStart (some 0) 40 = cxSt40 := by
  rw [show (40 : ℕ) = 39 + 1 from rfl, simStates, simEq39]
  exact cxStep39

theorem simEq41 : simStates fnsAxis advRng cxStart (some 0) 41 = cxSt41 := by
  rw [show (41 : ℕ) = 40 + 1 from rfl, simStates, simEq40]
  exact cxStep40

theorem simEq42 : simStates fnsAxis advRng cxStart (some 0) 42 = cxSt42 := by
  rw [show (42 : ℕ) = 41 + 1 from rfl, simStates, simEq41]
  exact cxStep41

theorem simEq43 : simStates fnsAxis advRng cxStart (some 0) 43 = cxSt43 := by
  rw [show (43 : ℕ) = 42 + 1 from rfl, simStates, simEq42]
  exact cxStep42

theorem simEq44 : simStates fnsAxis advRng cxStart (some 0) 44 = cxSt44 := by
  rw [show (44 : ℕ) = 43 + 1 from rfl, simStates, simEq43]
  exact cxStep43

theorem simEq45 : simStates fnsAxis advRng cxStart (some 0) 45 = cxSt45 := by
  rw [show (45 : ℕ) = 44 + 1 from rfl, simStates, simEq44]
  exact cxStep44

theorem simEq46 : simStates fnsAxis advRng cxStart (some 0) 46 = cxSt46 := by
  rw [show (46 : ℕ) = 45 + 1 from rfl, simStates, simEq45]
  exact cxStep45

theorem simEq47 : simStates fnsAxis advRng cxStart (some 0) 47 = cxSt47 := by
  rw [show (47 : ℕ) = 46 + 1 from rfl, simStates, simEq46]
  exact cxStep46

theorem simEq48 : simStates fnsAxis advRng cxStart (some 0) 48 = cxSt48 := by
  rw [show (48 : ℕ) = 47 + 1 from rfl, simStates, simEq47]
  exact cxStep47

theorem simEq49 : simStates fnsAxis advRng cxStart (some 0) 49 = cxSt49 := by
  rw [show (49 : ℕ) = 48 + 1 from rfl, simStates, simEq48]
  exact cxStep48

theorem simEq50 : simStates fnsAxis advRng cxStart (some 0) 50 = cxSt50 := by
  rw [show (50 : ℕ) = 49 + 1 from rfl, simStates, simEq49]
  exact cxStep49

theorem simEq51 : simStates fnsAxis advRng cxStart (some 0) 51 = cxSt51 := by
  rw [show (51 : ℕ) = 50 + 1 from rfl, simStates, simEq50]
  exact cxStep50

theorem simEq52 : simStates fnsAxis advRng cxStart (some 0) 52 = cxSt52 := by
  rw [show (52 : ℕ) = 51 + 1 from rfl, simStates, simEq51]
  exact cxStep51

theorem simEq53 : simStates fnsAxis advRng cxStart (some 0) 53 = cxSt53 := by
  rw [show (53 : ℕ) = 52 + 1 from rfl, simStates, simEq52]
  exact cxStep52

theorem simEq54 : simStates fnsAxis advRng cxStart (some 0) 54 = cxSt54 := by
  rw [show (54 : ℕ) = 53 + 1 from rfl, simStates, simEq53]
  exact cxStep53

theorem simEq55 : simStates fnsAxis advRng cxStart (some 0) 55 = cxSt55 := by
  rw [show (55 : ℕ) = 54 + 1 from rfl, simStates, simEq54]
  exact cxStep54

theorem simEq56 : simStates fnsAxis advRng cxStart (some 0) 56 = cxSt56 := by
  rw [show (56 : ℕ) = 55 + 1 from rfl, simStates, simEq55]
  exact cxStep55

theorem simEq57 : simStates fnsAxis advRng cxStart (some 0) 57 = cxSt57 := by
  rw [show (57 : ℕ) = 56 + 1 from rfl, simStates, simEq56]
  exact cxStep56

theorem simEq58 : simStates fnsAxis advRng cxStart (some 0) 58 = cxSt58 := by
  rw [show (58 : ℕ) = 57 + 1 from rfl, simStates, simEq57]
  exact cxStep57

theorem simEq59 : simStates fnsAxis advRng cxStart (some 0) 59 = cxSt59 := by
  rw [show (59 : ℕ) = 58 + 1 from rfl, simStates, simEq58]
  exact cxStep58

theorem simEq60 : simStates fnsAxis advRng cxStart (some 0) 60 = cxSt60 := by
  rw [show (60 : ℕ) = 59 + 1 from rfl, simStates, simEq59]
  exact cxStep59

theorem simEq61 : simStates fnsAxis advRng cxStart (some 0) 61 = cxSt61 := by
  rw [show (61 : ℕ) = 60 + 1 from rfl, simStates, simEq60]
  exact cxStep60

theorem simEq62 : simStates fnsAxis advRng cxStart (some 0) 62 = cxSt62 := by
  rw [show (62 : ℕ) = 61 + 1 from rfl, simStates, simEq61]
  exact cxStep61

theorem simEq63 : simStates fnsAxis advRng cxStart (some 0) 63 = cxSt63 := by
  rw [show (63 : ℕ) = 62 + 1 from rfl, simStates, simEq62]
  exact cxStep62

theorem simEq64 : simStates fnsAxis advRng cxStart (some 0) 64 = cxSt64 := by
  rw [show (64 : ℕ) = 63 + 1 from rfl, simStates, simEq63]
  exact cxStep63

theorem simEq65 : simStates fnsAxis advRng cxStart (some 0) 65 = cxSt65 := by
  rw [show (65 : ℕ) = 64 + 1 from rfl, simStates, simEq64]
  exact cxStep64

theorem simEq66 : simStates fnsAxis advRng cxStart (some 0) 66 = cxSt66 := by
  rw [show (66 : ℕ) = 65 + 1 from rfl, simStates, simEq65]
  exact cxStep65

theorem simEq67 : simStates fnsAxis advRng cxStart (some 0) 67 = cxSt67 := by
  rw [show (67 : ℕ) = 66 + 1 from rfl, simStates, simEq66]
  exact cxStep66

theorem simEq68 : simStates fnsAxis advRng cxStart (some 0) 68 = cxSt68 := by
  rw [show (68 : ℕ) = 67 + 1 from rfl, simStates, simEq67]
  exact cxStep67

theorem simEq69 : simStates fnsAxis advRng cxStart (some 0) 69 = cxSt69 := by
  rw [show (69 : ℕ) = 68 + 1 from rfl, simStates, simEq68]
  exact cxStep68

theorem simEq70 : simStates fnsAxis advRng cxStart (some 0) 70 = cxSt70 := by
  rw [show (70 : ℕ) = 69 + 1 from rfl, simStates, simEq69]
  exact cxStep69

theorem simEq71 : simStates fnsAxis advRng cxStart (some 0) 71 = cxSt71 := by
  rw [show (71 : ℕ) = 70 + 1 from rfl, simStates, simEq70]
  exact cxStep70

theorem simEq72 : simStates fnsAxis advRng cxStart (some 0) 72 = cxSt72 := by
  rw [show (72 : ℕ) = 71 + 1 from rfl, simStates, simEq71]
  exact cxStep71

theorem simEq73 : simStates fnsAxis advRng cxStart (some 0) 73 = cxSt73 := by
  rw [show (73 : ℕ) = 72 + 1 from rfl, simStates, simEq72]
  exact cxStep72

theorem simEq74 : simStates fnsAxis advRng cxStart (some 0) 74 = cxSt74 := by
  rw [show (74 : ℕ) = 73 + 1 from rfl, simStates, simEq73]
  exact cxStep73

theorem simEq75 : simStates fnsAxis advRng cxStart (some 0) 75 = cxSt75 := by
  rw [show (75 : ℕ) = 74 + 1 from rfl, simStates, simEq74]
  exact cxStep74

theorem simEq76 : simStates fnsAxis advRng cxStart (some 0) 76 = cxSt76 := by
  rw [show (76 : ℕ) = 75 + 1 from rfl, simStates, simEq75]
  exact cxStep75

theorem simEq77 : simStates fnsAxis advRng cxStart (some 0) 77 = cxSt77 := by
  rw [show (77 : ℕ) = 76 + 1 from rfl, simStates, simEq76]
  exact cxStep76

theorem simEq78 : simStates fnsAxis advRng cxStart (some 0) 78 = cxSt78 := by
  rw [show (78 : ℕ) = 77 + 1 from rfl, simStates, simEq77]
  exact cxStep77

theorem simEq79 : simStates fnsAxis advRng cxStart (some 0) 79 = cxSt79 := by
  rw [show (79 : ℕ) = 78 + 1 from rfl, simStates, simEq78]
  exact cxStep78

theorem simEq80 : simStates fnsAxis advRng cxStart (some 0) 80 = cxSt80 := by
  rw [show (80 : ℕ) = 79 + 1 from rfl, simStates, simEq79]
  exact cxStep79

theorem simEq81 : simStates fnsAxis advRng cxStart (some 0) 81 = cxSt81 := by
  rw [show (81 : ℕ) = 80 + 1 from rfl, simStates, simEq80]
  exact cxStep80

theorem simEq82 : simStates fnsAxis advRng cxStart (some 0) 82 = cxSt82 := by
  rw [show (82 : ℕ) = 81 + 1 from rfl, simStates, simEq81]
  exact cxStep81

theorem simEq83 : simStates fnsAxis advRng cxStart (some 0) 83 = cxSt83 := by
  rw [show (83 : ℕ) = 82 + 1 from rfl, simStates, simEq82]
  exact cxStep82

theorem simEq84 : simStates fnsAxis advRng cxStart (some 0) 84 = cxSt84 := by
  rw [show (84 : ℕ) = 83 + 1 from rfl, simStates, simEq83]
  exact cxStep83

theorem simEq85 : simStates fnsAxis advRng cxStart (some 0) 85 = cxSt85 := by
  rw [show (85 : ℕ) = 84 + 1 from rfl, simStates, simEq84]
  exact cxStep84

theorem simEq86 : simStates fnsAxis advRng cxStart (some 0) 86 = cxSt86 := by
  rw [show (86 : ℕ) = 85 + 1 from rfl, simStates, simEq85]
  exact cxStep85

theorem simEq87 : simStates fnsAxis advRng cxStart (some 0) 87 = cxSt87 := by
  rw [show (87 : ℕ) = 86 + 1 from rfl, simStates, simEq86]
  exact cxStep86

theorem simEq88 : simStates fnsAxis advRng cxStart (some 0) 88 = cxSt88 := by
  rw [show (88 : ℕ) = 87 + 1 from rfl, simStates, simEq87]
  exact cxStep87

theorem simEq89 : simStates fnsAxis advRng cxStart (some 0) 89 = cxSt89 := by
  rw [show (89 : ℕ) = 88 + 1 from rfl, simStates, simEq88]
  exact cxStep88

theorem simEq90 : simStates fnsAxis advRng cxStart (some 0) 90 = cxSt90 := by
  rw [show (90 : ℕ) = 89 + 1 from rfl, simStates, simEq89]
  exact cxStep89

theorem simEq91 : simStates fnsAxis advRng cxStart (some 0) 91 = cxSt91 := by
  rw [show (91 : ℕ) = 90 + 1 from rfl, simStates, simEq90]
  exact cxStep90

theorem simEq92 : simStates fnsAxis advRng cxStart (some 0) 92 = cxSt92 := by
  rw [show (92 : ℕ) = 91 + 1 from rfl, simStates, simEq91]
  exact cxStep91

theorem simEq93 : simStates fnsAxis advRng cxStart (some 0) 93 = cxSt93 := by
  rw [show (93 : ℕ) = 92 + 1 from rfl, simStates, simEq92]
  exact cxStep92

theorem simEq94 : simStates fnsAxis advRng cxStart (some 0) 94 = cxSt94 := by
  rw [show (94 : ℕ) = 93 + 1 from rfl, simStates, simEq93]
  exact cxStep93

theorem simEq95 : simStates fnsAxis advRng cxStart (some 0) 95 = cxSt95 := by
  rw [show (95 : ℕ) = 94 + 1 from rfl, simStates, simEq94]
  exact cxStep94

theorem simEq96 : simStates fnsAxis advRng cxStart (some 0) 96 = cxSt96 := by
  rw [show (96 : ℕ) = 95 + 1 from rfl, simStates, simEq95]
  exact cxStep95

theorem simEq97 : simStates fnsAxis advRng cxStart (some 0) 97 = cxSt97 := by
  rw [show (97 : ℕ) = 96 + 1 from rfl, simStates, simEq96]
  exact cxStep96

theorem simEq98 : simStates fnsAxis advRng cxStart (some 0) 98 = cxSt98 := by
  rw [show (98 : ℕ) = 97 + 1 from rfl, simStates, simEq97]
  exact cxStep97

theorem simEq99 : simStates fnsAxis advRng cxStart (some 0) 99 = cxSt99 := by
  rw [show (99 : ℕ) = 98 + 1 from rfl, simStates, simEq98]
  exact cxStep98

theorem simEq100 : simStates fnsAxis advRng cxStart (some 0) 100 = cxSt100 := by
  rw [show (100 : ℕ) = 99 + 1 from rfl, simStates, simEq99]
  exact cxStep99

theorem simEq101 : simStates fnsAxis advRng cxStart (some 0) 101 = cxSt101 := by
  rw [show (101 : ℕ) = 100 + 1 from rfl, simStates, simEq100]
  exact cxStep100

theorem simEq102 : simStates fnsAxis advRng cxStart (some 0) 102 = cxSt102 := by
  rw [show (102 : ℕ) = 101 + 1 from rfl, simStates, simEq101]
  exact cxStep101

theorem simEq103 : simStates fnsAxis advRng cxStart (some 0) 103 = cxSt103 := by
  rw [show (103 : ℕ) = 102 + 1 from rfl, simStates, simEq102]
  exact cxStep102

theorem simEq104 : simStates fnsAxis advRng cxStart (some 0) 104 = cxSt104 := by
  rw [show (104 : ℕ) = 103 + 1 from rfl, simStates, simEq103]
  exact cxStep103

theorem simEq105 : simStates fnsAxis advRng cxStart (some 0) 105 = cxSt105 := by
  rw [show (105 : ℕ) = 104 + 1 from rfl, simStates, simEq104]
  exact cxStep104

theorem simEq106 : simStates fnsAxis advRng cxStart (some 0) 106 = cxSt106 := by
  rw [show (106 : ℕ) = 105 + 1 from rfl, simStates, simEq105]
  exact cxStep105

theorem simEq107 : simStates fnsAxis advRng cxStart (some 0) 107 = cxSt107 := by
  rw [show (107 : ℕ) = 106 + 1 from rfl, simStates, simEq106]
  exact cxStep106

theorem simEq108 : simStates fnsAxis advRng cxStart (some 0) 108 = cxSt108 := by
  rw [show (108 : ℕ) = 107 + 1 from rfl, simStates, simEq107]
  exact cxStep107

theorem simEq109 : simStates fnsAxis advRng cxStart (some 0) 109 = cxSt109 := by
  rw [show (109 : ℕ) = 108 + 1 from rfl, simStates, simEq108]
  exact cxStep108

theorem simEq110 : simStates fnsAxis advRng cxStart (some 0) 110 = cxSt110 := by
  rw [show (110 : ℕ) = 109 + 1 from rfl, simStates, simEq109]
  exact cxStep109

theorem simEq111 : simStates fnsAxis advRng cxStart (some 0) 111 = cxSt111 := by
  rw [show (111 : ℕ) = 110 + 1 from rfl, simStates, simEq110]
  exact cxStep110

theorem simEq112 : simStates fnsAxis advRng cxStart (some 0) 112 = cxSt112 := by
  rw [show (112 : ℕ) = 111 + 1 from rfl, simStates, simEq111]
  exact cxStep111

theorem simEq113 : simStates fnsAxis advRng cxStart (some 0) 113 = cxSt113 := by
  rw [show (113 : ℕ) = 112 + 1 from rfl, simStates, simEq112]
  exact cxStep112

theorem simEq114 : simStates fnsAxis advRng cxStart (some 0) 114 = cxSt114 := by
  rw [show (114 : ℕ) = 113 + 1 from rfl, simStates, simEq113]
  exact cxStep113

theorem simEq115 : simStates fnsAxis advRng cxStart (some 0) 115 = cxSt115 := by
  rw [show (115 : ℕ) = 114 + 1 from rfl, simStates, simEq114]
  exact cxStep114

theorem simEq116 : simStates fnsAxis advRng cxStart (some 0) 116 = cxSt116 := by
  rw [show (116 : ℕ) = 115 + 1 from rfl, simStates, simEq115]
  exact cxStep115

theorem simEq117 : simStates fnsAxis advRng cxStart (some 0) 117 = cxSt117 := by
  rw [show (117 : ℕ) = 116 + 1 from rfl, simStates, simEq116]
  exact cxStep116

theorem simEq118 : simStates fnsAxis advRng cxStart (some 0) 118 = cxSt118 := by
  rw [show (118 : ℕ) = 117 + 1 from rfl, simStates, simEq117]
  exact cxStep117

theorem simEq119 : simStates fnsAxis advRng cxStart (some 0) 119 = cxSt119 := by
  rw [show (119 : ℕ) = 118 + 1 from rfl, simStates, simEq118]
  exact cxStep118

theorem simEq120 : simStates fnsAxis advRng cxStart (some 0) 120 = cxSt120 := by
  rw [show (120 : ℕ) = 119 + 1 from rfl, simStates, simEq119]
  exact cxStep119

theorem simEq121 : simStates fnsAxis advRng cxStart (some 0) 121 = cxSt121 := by
  rw [show (121 : ℕ) = 120 + 1 from rfl, simStates, simEq120]
  exact cxStep120

theorem simEq122 : simStates fnsAxis advRng cxStart (some 0) 122 = cxSt122 := by
  rw [show (122 : ℕ) = 121 + 1 from rfl, simStates, simEq121]
  exact cxStep121

theorem simEq123 : simStates fnsAxis advRng cxStart (some 0) 123 = cxSt123 := by
  rw [show (123 : ℕ) = 122 + 1 from rfl, simStates, simEq122]
  exact cxStep122

theorem simEq124 : simStates fnsAxis advRng cxStart (some 0) 124 = cxSt124 := by
  rw [show (124 : ℕ) = 123 + 1 from rfl, simStates, simEq123]
  exact cxStep123

theorem simEq125 : simStates fnsAxis advRng cxStart (some 0) 125 = cxSt125 := by
  rw [show (125 : ℕ) = 124 + 1 from rfl, simStates, simEq124]
  exact cxStep124

theorem simEq126 : simStates fnsAxis advRng cxStart (some 0) 126 = cxSt126 := by
  rw [show (126 : ℕ) = 125 + 1 from rfl, simStates, simEq125]
  exact cxStep125

theorem simEq127 : simStates fnsAxis advRng cxStart (some 0) 127 = cxSt127 := by
  rw [show (127 : ℕ) = 126 + 1 from rfl, simStates, simEq126]
  exact cxStep126

theorem simEq128 : simStates fnsAxis advRng cxStart (some 0) 128 = cxSt128 := by
  rw [show (128 : ℕ) = 127 + 1 from rfl, simStates, simEq127]
  exact cxStep127

theorem simEq129 : simStates fnsAxis advRng cxStart (some 0) 129 = cxSt129 := by
  rw [show (129 : ℕ) = 128 + 1 from rfl, simStates, simEq128]
  exact cxStep128

theorem simEq130 : simStates fnsAxis advRng cxStart (some 0) 130 = cxSt130 := by
  rw [show (130 : ℕ) = 129 + 1 from rfl, simStates, simEq129]
  exact cxStep129

theorem simEq131 : simStates fnsAxis advRng cxStart (some 0) 131 = cxSt131 := by
  rw [show (131 : ℕ) = 130 + 1 from rfl, simStates, simEq130]
  exact cxStep130

theorem simEq132 : simStates fnsAxis advRng cxStart (some 0) 132 = cxSt132 := by
  rw [show (132 : ℕ) = 131 + 1 from rfl, simStates, simEq131]
  exact cxStep131

theorem simEq133 : simStates fnsAxis advRng cxStart (some 0) 133 = cxSt133 := by
  rw [show (133 : ℕ) = 132 + 1 from rfl, simStates, simEq132]
  exact cxStep132

theorem simEq134 : simStates fnsAxis advRng cxStart (some 0) 134 = cxSt134 := by
  rw [show (134 : ℕ) = 133 + 1 from rfl, simStates, simEq133]
  exact cxStep133

theorem simEq135 : simStates fnsAxis advRng cxStart (some 0) 135 = cxSt135 := by
  rw [show (135 : ℕ) = 134 + 1 from rfl, simStates, simEq134]
  exact cxStep134

theorem simEq136 : simStates fnsAxis advRng cxStart (some 0) 136 = cxSt136 := by
  rw [show (136 : ℕ) = 135 + 1 from rfl, simStates, simEq135]
  exact cxStep135

theorem simEq137 : simStates fnsAxis advRng cxStart (some 0) 137 = cxSt137 := by
  rw [show (137 : ℕ) = 136 + 1 from rfl, simStates, simEq136]
  exact cxStep136

theorem simEq138 : simStates fnsAxis advRng cxStart (some 0) 138 = cxSt138 := by
  rw [show (138 : ℕ) = 137 + 1 from rfl, simStates, simEq137]
  exact cxStep137

theorem simEq139 : simStates fnsAxis advRng cxStart (some 0) 139 = cxSt139 := by
  rw [show (139 : ℕ) = 138 + 1 from rfl, simStates, simEq138]
  exact cxStep138

theorem simEq140 : simStates fnsAxis advRng cxStart (some 0) 140 = cxSt140 := by
  rw [show (140 : ℕ) = 139 + 1 from rfl, simStates, simEq139]
  exact cxStep139

theorem simEq141 : simStates fnsAxis advRng cxStart (some 0) 141 = cxSt141 := by
  rw [show (141 : ℕ) = 140 + 1 from rfl, simStates, simEq140]
  exact cxStep140

theorem simEq142 : simStates fnsAxis advRng cxStart (some 0) 142 = cxSt142 := by
  rw [show (142 : ℕ) = 141 + 1 from rfl, simStates, simEq141]
  exact cxStep141

theorem simEq143 : simStates fnsAxis advRng cxStart (some 0) 143 = cxSt143 := by
  rw [show (143 : ℕ) = 142 + 1 from rfl, simStates, simEq142]
  exact cxStep142

/-- C1, counterexample part: with the adversarial stream `advRng` (all values in `[0,1)`, hence a possible `Math.random` trace) and the bundle `fnsAxis` (which agrees with the real `Math.cos`, `Math.sin`, `Math.hypot` at every argument this straight-line run evaluates), resetting at `(0, 0.7, 0)` with heading 0 and feeding `{turn: 0, assist: 0}` for 144 ticks at `dt = 1/60` returns `gameOver = true` on the 144th tick: the grace timer reaches exactly 0 there, and the stream has legally placed a radius-2.4 obstacle at `x = 16.1` (outside the start safe corridor and at distance 16.1 >= 14.5 from the spawn), which the head (at `x = 13.345` after 2.4 s) now overlaps.  The tick-by-tick state literals `cxSt0..cxSt143` above make each step a single kernel computation. -/
theorem c1_counterexample : tickGameOver fnsAxis advRng cxStart (some 0) 143 = true := by
  rw [tickGameOver, simEq143]
  exact cxFinal

namespace SnapModel

/-- Heap model for the aliasing claim about `GameSession.getSnapshot`
(part_006).  JavaScript records are heap objects; only the object-valued
fields reachable from a snapshot can alias session state: the `Vec3`
positions (head, segments, foods, pickups, obstacles), the `scoreState`
record behind the `ScoringSystem.state` getter, and the `activePowerup`
record.  Scalar fields (numbers, strings, ids, kinds) are copied by value
by the object spreads and are carried inline.  The store keeps one list of
cells per object type; a reference is an index into the matching list. -/
structure Store where
  vecs : List Vec3
  scores : List ScoreState
  pows : List PowerupState
deriving DecidableEq, Repr

/-- Default cell contents for out-of-range reads (never hit under `WF`). -/
def vdef : Vec3 := { x := 0, y := 0, z := 0 }

def sdef : ScoreState := { score := 0, combo := 0, multiplier := 1 }

def pdef : PowerupState := { kind := PowerupKind.overdrive, ttlSec := 0 }

def readVec (st : Store) (r : ℕ) : Vec3 := st.vecs.getD r vdef

def readScore (st : Store) (r : ℕ) : ScoreState := st.scores.getD r sdef

def readPow (st : Store) (r : ℕ) : PowerupState := st.pows.getD r pdef

/-- Mutating one field of a heap object is modelled as overwriting the
whole cell (field granularity is not needed for the claim). -/
def writeVec (st : Store) (r : ℕ) (v : Vec3) : Store :=
  { st with vecs := st.vecs.set r v }

def writeScore (st : Store) (r : ℕ) (v : ScoreState) : Store :=
  { st with scores := st.scores.set r v }

def writePow (st : Store) (r : ℕ) (v : PowerupState) : Store :=
  { st with pows := st.pows.set r v }

/-- The scalar fields of an obstacle (everything but its position). -/
structure ObstacleMeta where
  id : ℕ
  radius : ℚ
  kind : ObstacleKind
  pulseAmplitude : ℚ
  pulseFrequency : ℚ
  pulsePhase : ℚ
deriving DecidableEq, Repr

/-- The session state as the heap sees it: object-valued fields are
references into a `Store`, scalar fields are inline.  A snapshot returned
by `getSnapshot` has the same shape, so a second `getSnapshot` call can be
analysed on the same type. -/
structure SessionRefs where
  headPosRef : ℕ
  headingRad : ℚ
  speed : ℚ
  angularVelocity : ℚ
  segs : List (ℕ × ℕ)
  foods : List (ℕ × ℕ)
  pickups : List ((ℕ × PowerupKind) × ℕ)
  obstacles : List (ObstacleMeta × ℕ)
  scoreRef : ℕ
  powRef : Option ℕ
  elapsedSec : ℚ
deriving DecidableEq, Repr

/-- Power-up store after `getSnapshot`: `activePowerup ? {...activePowerup}
: null` allocates one copy when a power-up is active. -/
def powsAfter (st : Store) (s : SessionRefs) : List PowerupState :=
  match s.powRef with
  | some r => st.pows ++ [readPow st r]
  | none => st.pows

/-- The snapshot's `activePowerup` reference: the fresh copy if one was
allocated, `null` otherwise. -/
def powRefSnap (st : Store) (s : SessionRefs) : Option ℕ :=
  match s.powRef with
  | some _ => some st.pows.length
  | none => none

/-- `GameSession.getSnapshot` (part_006 lines 152-177) on the heap model.
Every `{ ...x, position: { ...x.position } }` spread (and `cloneVec3` /
`cloneHead` / `cloneSegments`) allocates a fresh position cell holding the
current value; `this.scoring.state` (a getter returning
`{ ...this.scoreState }`) allocates a fresh score cell; an active power-up
is copied into a fresh power-up cell.  Fresh cells are appended to the
store, in source order: head position, segment positions, food positions,
pickup positions, obstacle positions.  The returned snapshot holds only the
fresh references; the session's own references are not touched.  (The
snapshot's scalar `speed01` is computed from `head.speed` by value and
needs no cell.) -/
def getSnapshot (st : Store) (s : SessionRefs) : Store × SessionRefs :=
  { vecs := st.vecs ++ (readVec st s.headPosRef ::
      (s.segs.map (fun p => readVec st p.2) ++
        (s.foods.map (fun p => readVec st p.2) ++
          (s.pickups.map (fun p => readVec st p.2) ++
            s.obstacles.map (fun p => readVec st p.2)))))
    scores := st.scores ++ [readScore st s.scoreRef]
    pows := powsAfter st s }
  |> fun store =>
  (store,
   { headPosRef := st.vecs.length
     headingRad := s.headingRad
     speed := s.speed
     angularVelocity := s.angularVelocity
     segs := mapWithIndex (fun i p => (p.1, st.vecs.length + 1 + i)) 0 s.segs
     foods := mapWithIndex
       (fun i p => (p.1, st.vecs.length + 1 + s.segs.length + i)) 0 s.foods
     pickups := mapWithIndex
       (fun i p => (p.1, st.vecs.length + 1 + s.segs.length + s.foods.length + i))
       0 s.pickups
     obstacles := mapWithIndex
       (fun i p =>
         (p.1, st.vecs.length + 1 + s.segs.length + s.foods.length
           + s.pickups.length + i))
       0 s.obstacles
     scoreRef := st.scores.length
     powRef := powRefSnap st s
     elapsedSec := s.elapsedSec })

/-- The session state a consumer can observe: every reference dereferenced
to its current value. -/
structure SessionView where
  headPos : Vec3
  headingRad : ℚ
  speed : ℚ
  angularVelocity : ℚ
  segs : List (ℕ × Vec3)
  foods : List (ℕ × Vec3)
  pickups : List ((ℕ × PowerupKind) × Vec3)
  obstacles : List (ObstacleMeta × Vec3)
  score : ScoreState
  pow : Option PowerupState
  elapsedSec : ℚ
deriving DecidableEq, Repr

def sessionView (st : Store) (s : SessionRefs) : SessionView :=
  { headPos := readVec st s.headPosRef
    headingRad := s.headingRad
    speed := s.speed
    angularVelocity := s.angularVelocity
    segs := s.segs.map (fun p => (p.1, readVec st p.2))
    foods := s.foods.map (fun p => (p.1, readVec st p.2))
    pickups := s.pickups.map (fun p => (p.1, readVec st p.2))
    obstacles := s.obstacles.map (fun p => (p.1, readVec st p.2))
    score := readScore st s.scoreRef
    pow := s.powRef.map (readPow st)
    elapsedSec := s.elapsedSec }

/-- All position references held by a session (or snapshot). -/
def vecRefs (s : SessionRefs) : List ℕ :=
  s.headPosRef :: (s.segs.map Prod.snd ++
    (s.foods.map Prod.snd ++
      (s.pickups.map Prod.snd ++ s.obstacles.map Prod.snd)))

/-- Well-formed heap: every reference points into its store. -/
def WF (st : Store) (s : SessionRefs) : Prop :=
  s.headPosRef < st.vecs.length
  ∧ (∀ p ∈ s.segs, p.2 < st.vecs.length)
  ∧ (∀ p ∈ s.foods, p.2 < st.vecs.length)
  ∧ (∀ p ∈ s.pickups, p.2 < st.vecs.length)
  ∧ (∀ p ∈ s.obstacles, p.2 < st.vecs.length)
  ∧ s.scoreRef < st.scores.length
  ∧ (∀ r ∈ s.powRef.toList, r < st.pows.length)

theorem getD_append_lt {α : Type _} (l m : List α) (r : ℕ) (d : α)
    (h : r < l.length) : (l ++ m).getD r d = l.getD r d := by
  simp only [List.getD, List.get?_eq_getElem?]
  rw [List.getElem?_append, if_pos h]

theorem getD_append_off {α : Type _} (l m : List α) (k : ℕ) (d : α) :
    (l ++ m).getD (l.length + k) d = m.getD k d := by
  simp only [List.getD, List.get?_eq_getElem?]
  rw [List.getElem?_append, if_neg (by omega)]
  have h : l.length + k - l.length = k := by omega
  rw [h]

theorem getD_set_ne {α : Type _} (l : List α) (i j : ℕ) (v d : α)
    (h : i ≠ j) : (l.set i v).getD j d = l.getD j d := by
  simp only [List.getD, List.get?_eq_getElem?]
  rw [List.getElem?_set_ne h]

theorem readVec_snap (st : Store) (s : SessionRefs) (r : ℕ)
    (h : r < st.vecs.length) : readVec (getSnapshot st s).1 r = readVec st r := by
  simp only [readVec, getSnapshot]
  exact getD_append_lt _ _ _ _ h

theorem readScore_snap (st : Store) (s : SessionRefs) (r : ℕ)
    (h : r < st.scores.length) :
    readScore (getSnapshot st s).1 r = readScore st r := by
  simp only [readScore, getSnapshot]
  exact getD_append_lt _ _ _ _ h

theorem readPow_snap (st : Store) (s : SessionRefs) (r : ℕ)
    (h : r < st.pows.length) : readPow (getSnapshot st s).1 r = readPow st r := by
  simp only [readPow, getSnapshot, powsAfter]
  cases hpr : s.powRef with
  | none => rfl
  | some q => exact getD_append_lt _ _ _ _ h

theorem readVec_write_ne (st : Store) (r r' : ℕ) (v : Vec3) (h : r ≠ r') :
    readVec (writeVec st r v) r' = readVec st r' := by
  simp only [readVec, writeVec]
  exact getD_set_ne _ _ _ _ _ h

theorem readScore_write_ne (st : Store) (r r' : ℕ) (v : ScoreState)
    (h : r ≠ r') : readScore (writeScore st r v) r' = readScore st r' := by
  simp only [readScore, writeScore]
  exact getD_set_ne _ _ _ _ _ h

theorem readPow_write_ne (st : Store) (r r' : ℕ) (v : PowerupState)
    (h : r ≠ r') : readPow (writePow st r v) r' = readPow st r' := by
  simp only [readPow, writePow]
  exact getD_set_ne _ _ _ _ _ h

/-- Two stores that agree at every reference of `s` give the same view. -/
theorem sessionView_congr (st1 st2 : Store) (s : SessionRefs)
    (hv : ∀ r ∈ vecRefs s, readVec st1 r = readVec st2 r)
    (hs : readScore st1 s.scoreRef = readScore st2 s.scoreRef)
    (hp : ∀ r ∈ s.powRef.toList, readPow st1 r = readPow st2 r) :
    sessionView st1 s = sessionView st2 s := by
  simp only [sessionView, SessionView.mk.injEq]
  refine ⟨?_, trivial, trivial, trivial, ?_, ?_, ?_, ?_, hs, ?_, trivial⟩
  · exact hv s.headPosRef (List.mem_cons_self _ _)
  · refine List.map_congr_left ?_
    intro p hp2
    rw [hv p.2 (List.mem_cons_of_mem _ (List.mem_append_left _
      (List.mem_map_of_mem Prod.snd hp2)))]
  · refine List.map_congr_left ?_
    intro p hp2
    rw [hv p.2 (List.mem_cons_of_mem _ (List.mem_append_right _
      (List.mem_append_left _ (List.mem_map_of_mem Prod.snd hp2))))]
  · refine List.map_congr_left ?_
    intro p hp2
    rw [hv p.2 (List.mem_cons_of_mem _ (List.mem_append_right _
      (List.mem_append_right _ (List.mem_append_left _
        (List.mem_map_of_mem Prod.snd hp2)))))]
  · refine List.map_congr_left ?_
    intro p hp2
    rw [hv p.2 (List.mem_cons_of_mem _ (List.mem_append_right _
      (List.mem_append_right _ (List.mem_append_right _
        (List.mem_map_of_mem Prod.snd hp2)))))]
  · cases hpr : s.powRef with
    | none => rfl
    | some r =>
      have hrd := hp r (by rw [hpr]; simp)
      simp [hrd]

theorem sess_vecRefs_lt (st : Store) (s : SessionRefs) (hwf : WF st s) :
    ∀ r ∈ vecRefs s, r < st.vecs.length := by
  obtain ⟨h1, h2, h3, h4, h5, -, -⟩ := hwf
  intro r hr
  simp only [vecRefs, List.mem_cons, List.mem_append, List.mem_map] at hr
  rcases hr with rfl | ⟨p, hp, rfl⟩ | ⟨p, hp, rfl⟩ | ⟨p, hp, rfl⟩ | ⟨p, hp, rfl⟩
  · exact h1
  · exact h2 p hp
  · exact h3 p hp
  · exact h4 p hp
  · exact h5 p hp

/-- Taking a snapshot does not change the session's observable state. -/
theorem sessionView_snap (st : Store) (s : SessionRefs) (hwf : WF st s) :
    sessionView (getSnapshot st s).1 s = sessionView st s := by
  refine sessionView_congr _ _ _ ?_ ?_ ?_
  · intro r hr
    exact readVec_snap st s r (sess_vecRefs_lt st s hwf r hr)
  · exact readScore_snap st s s.scoreRef hwf.2.2.2.2.2.1
  · intro r hr
    exact readPow_snap st s r (hwf.2.2.2.2.2.2 r hr)

/-- Reading a block of freshly appended copies back out, one reference per
element, returns the copied values. -/
theorem block_read {π : Type _} (f : (π × ℕ) → Vec3) :
    ∀ (l : List (π × ℕ)) (j s0 : ℕ) (pre suf W : List Vec3),
      W = pre ++ (l.map f ++ suf) →
      j + s0 = pre.length →
      (mapWithIndex (fun i p => (p.1, j + i)) s0 l).map
          (fun q => (q.1, W.getD q.2 vdef))
        = l.map (fun p => (p.1, f p)) := by
  intro l
  induction l with
  | nil =>
    intro j s0 pre suf W hW hj
    rfl
  | cons p rest ih =>
    intro j s0 pre suf W hW hj
    simp only [mapWithIndex, List.map_cons]
    refine congrArg₂ _ ?_ ?_
    · rw [hj] at *
      rw [hW]
      exact congrArg (Prod.mk p.1) (getD_append_off pre _ 0 vdef)
    · refine ih j (s0 + 1) (pre ++ [f p]) suf W ?_ ?_
      · rw [hW]
        simp [List.append_assoc]
      · simp only [List.length_append, List.length_cons, List.length_nil]
        omega

/-- The snapshot's dereferenced values equal the session's values at the
time of the call (no well-formedness needed: each fresh cell holds whatever
the corresponding read returned). -/
theorem sessionView_of_snap (st : Store) (s : SessionRefs) :
    sessionView (getSnapshot st s).1 (getSnapshot st s).2 = sessionView st s := by
  simp only [sessionView, getSnapshot, readVec, readScore, SessionView.mk.injEq]
  refine ⟨?_, trivial, trivial, trivial, ?_, ?_, ?_, ?_, ?_, ?_, trivial⟩
  · have h := getD_append_off st.vecs
      (st.vecs.getD s.headPosRef vdef ::
        (s.segs.map (fun p => st.vecs.getD p.2 vdef) ++
          (s.foods.map (fun p => st.vecs.getD p.2 vdef) ++
            (s.pickups.map (fun p => st.vecs.getD p.2 vdef) ++
              s.obstacles.map (fun p => st.vecs.getD p.2 vdef)))))
      0 vdef
    simpa using h
  · refine block_read (fun p => st.vecs.getD p.2 vdef) s.segs
      (st.vecs.length + 1) 0
      (st.vecs ++ [st.vecs.getD s.headPosRef vdef])
      (s.foods.map (fun p => st.vecs.getD p.2 vdef) ++
        (s.pickups.map (fun p => st.vecs.getD p.2 vdef) ++
          s.obstacles.map (fun p => st.vecs.getD p.2 vdef)))
      _ ?_ ?_
    · simp [List.append_assoc]
    · simp
  · refine block_read (fun p => st.vecs.getD p.2 vdef) s.foods
      (st.vecs.length + 1 + s.segs.length) 0
      ((st.vecs ++ [st.vecs.getD s.headPosRef vdef]) ++
        s.segs.map (fun p => st.vecs.getD p.2 vdef))
      (s.pickups.map (fun p => st.vecs.getD p.2 vdef) ++
        s.obstacles.map (fun p => st.vecs.getD p.2 vdef))
      _ ?_ ?_
    · simp [List.append_assoc]
    · simp
      omega
  · refine block_read (fun p => st.vecs.getD p.2 vdef) s.pickups
      (st.vecs.length + 1 + s.segs.length + s.foods.length) 0
      (((st.vecs ++ [st.vecs.getD s.headPosRef vdef]) ++
        s.segs.map (fun p => st.vecs.getD p.2 vdef)) ++
        s.foods.map (fun p => st.vecs.getD p.2 vdef))
      (s.obstacles.map (fun p => st.vecs.getD p.2 vdef))
      _ ?_ ?_
    · simp [List.append_assoc]
    · simp
      omega
  · refine block_read (fun p => st.vecs.getD p.2 vdef) s.obstacles
      (st.vecs.length + 1 + s.segs.length + s.foods.length + s.pickups.length) 0
      ((((st.vecs ++ [st.vecs.getD s.headPosRef vdef]) ++
        s.segs.map (fun p => st.vecs.getD p.2 vdef)) ++
        s.foods.map (fun p => st.vecs.getD p.2 vdef)) ++
        s.pickups.map (fun p => st.vecs.getD p.2 vdef))
      []
      _ ?_ ?_
    · simp [List.append_assoc]
    · simp
      omega
  · simp

  · cases hpr : s.powRef with
    | none => simp [powRefSnap, hpr]
    | some r =>
      have hps : powsAfter st s = st.pows ++ [readPow st r] := by
        simp [powsAfter, hpr]
      simp only [powRefSnap, hpr, hps, readPow, Option.map_some']
      refine congrArg some ?_
      show (st.pows ++ [readPow st r]).getD st.pows.length pdef = readPow st r
      exact getD_append_off st.pows [readPow st r] 0 pdef

theorem mapWithIndex_ref_ge {π : Type _} (j : ℕ) :
    ∀ (l : List (π × ℕ)) (s0 : ℕ) (q : π × ℕ),
      q ∈ mapWithIndex (fun i p => (p.1, j + i)) s0 l → j ≤ q.2 := by
  intro l
  induction l with
  | nil =>
    intro s0 q h
    cases h
  | cons p rest ih =>
    intro s0 q h
    simp only [mapWithIndex, List.mem_cons] at h
    rcases h with h | h
    · subst h
      exact Nat.le_add_right j s0
    · exact ih (s0 + 1) q h

/-- Every position reference in a snapshot is fresh: at or beyond the old
store's end. -/
theorem snap_vecRefs_fresh (st : Store) (s : SessionRefs) :
    ∀ r ∈ vecRefs (getSnapshot st s).2, st.vecs.length ≤ r := by
  intro r hr
  simp only [vecRefs, getSnapshot, List.mem_cons, List.mem_append,
    List.mem_map] at hr
  rcases hr with rfl | ⟨q, hq, rfl⟩ | ⟨q, hq, rfl⟩ | ⟨q, hq, rfl⟩ | ⟨q, hq, rfl⟩
  · exact Nat.le_refl _
  · have h := mapWithIndex_ref_ge (st.vecs.length + 1) s.segs 0 q hq
    omega
  · have h := mapWithIndex_ref_ge (st.vecs.length + 1 + s.segs.length)
      s.foods 0 q hq
    omega
  · have h := mapWithIndex_ref_ge
      (st.vecs.length + 1 + s.segs.length + s.foods.length) s.pickups 0 q hq
    omega
  · have h := mapWithIndex_ref_ge
      (st.vecs.length + 1 + s.segs.length + s.foods.length + s.pickups.length)
      s.obstacles 0 q hq
    omega

theorem store_le_snap (st : Store) (s : SessionRefs) :
    st.vecs.length ≤ (getSnapshot st s).1.vecs.length
    ∧ st.scores.length ≤ (getSnapshot st s).1.scores.length
    ∧ st.pows.length ≤ (getSnapshot st s).1.pows.length := by
  refine ⟨?_, ?_, ?_⟩
  · simp only [getSnapshot, List.length_append]
    omega
  · simp only [getSnapshot, List.length_append]
    omega
  · cases hpr : s.powRef with
    | none => simp [getSnapshot, powsAfter, hpr]
    | some r => simp [getSnapshot, powsAfter, hpr]

theorem WF_snap (st : Store) (s : SessionRefs) (hwf : WF st s) :
    WF (getSnapshot st s).1 s := by
  obtain ⟨hle1, hle2, hle3⟩ := store_le_snap st s
  obtain ⟨h1, h2, h3, h4, h5, h6, h7⟩ := hwf
  exact ⟨lt_of_lt_of_le h1 hle1,
    fun p hp => lt_of_lt_of_le (h2 p hp) hle1,
    fun p hp => lt_of_lt_of_le (h3 p hp) hle1,
    fun p hp => lt_of_lt_of_le (h4 p hp) hle1,
    fun p hp => lt_of_lt_of_le (h5 p hp) hle1,
    lt_of_lt_of_le h6 hle2,
    fun r hr => lt_of_lt_of_le (h7 r hr) hle3⟩

theorem WF_writeVec (st : Store) (s : SessionRefs) (r : ℕ) (v : Vec3)
    (hwf : WF st s) : WF (writeVec st r v) s := by
  obtain ⟨h1, h2, h3, h4, h5, h6, h7⟩ := hwf
  exact ⟨by simpa [writeVec] using h1,
    fun p hp => by simpa [writeVec] using h2 p hp,
    fun p hp => by simpa [writeVec] using h3 p hp,
    fun p hp => by simpa [writeVec] using h4 p hp,
    fun p hp => by simpa [writeVec] using h5 p hp,
    by simpa [writeVec] using h6,
    fun q hq => by simpa [writeVec] using h7 q hq⟩

theorem WF_writeScore (st : Store) (s : SessionRefs) (r : ℕ) (v : ScoreState)
    (hwf : WF st s) : WF (writeScore st r v) s := by
  obtain ⟨h1, h2, h3, h4, h5, h6, h7⟩ := hwf
  exact ⟨by simpa [writeScore] using h1,
    fun p hp => by simpa [writeScore] using h2 p hp,
    fun p hp => by simpa [writeScore] using h3 p hp,
    fun p hp => by simpa [writeScore] using h4 p hp,
    fun p hp => by simpa [writeScore] using h5 p hp,
    by simpa [writeScore] using h6,
    fun q hq => by simpa [writeScore] using h7 q hq⟩

theorem WF_writePow (st : Store) (s : SessionRefs) (r : ℕ) (v : PowerupState)
    (hwf : WF st s) : WF (writePow st r v) s := by
  obtain ⟨h1, h2, h3, h4, h5, h6, h7⟩ := hwf
  exact ⟨by simpa [writePow] using h1,
    fun p hp => by simpa [writePow] using h2 p hp,
    fun p hp => by simpa [writePow] using h3 p hp,
    fun p hp => by simpa [writePow] using h4 p hp,
    fun p hp => by simpa [writePow] using h5 p hp,
    by simpa [writePow] using h6,
    fun q hq => by simpa [writePow] using h7 q hq⟩

/-- Writing a position cell no session reference points to leaves the view
unchanged. -/
theorem sessionView_writeVec_notin (st : Store) (s : SessionRefs) (r : ℕ)
    (v : Vec3) (hr : ∀ rr ∈ vecRefs s, rr ≠ r) :
    sessionView (writeVec st r v) s = sessionView st s := by
  refine sessionView_congr _ _ _ ?_ rfl ?_
  · intro rr hrr
    exact readVec_write_ne st r rr v (fun he => hr rr hrr he.symm)
  · intro rr hrr
    rfl

theorem sessionView_writeScore_ne (st : Store) (s : SessionRefs) (r : ℕ)
    (v : ScoreState) (hr : s.scoreRef ≠ r) :
    sessionView (writeScore st r v) s = sessionView st s := by
  refine sessionView_congr _ _ _ ?_ ?_ ?_
  · intro rr hrr
    rfl
  · exact readScore_write_ne st r s.scoreRef v (fun he => hr he.symm)
  · intro rr hrr
    rfl

theorem sessionView_writePow_notin (st : Store) (s : SessionRefs) (r : ℕ)
    (v : PowerupState) (hr : ∀ rr ∈ s.powRef.toList, rr ≠ r) :
    sessionView (writePow st r v) s = sessionView st s := by
  refine sessionView_congr _ _ _ ?_ rfl ?_
  · intro rr hrr
    rfl
  · intro rr hrr
    exact readPow_write_ne st r rr v (fun he => hr rr hrr he.symm)

theorem snap_powRef_fresh (st : Store) (s : SessionRefs) :
    ∀ r ∈ (getSnapshot st s).2.powRef.toList, r = st.pows.length := by
  intro r hr
  have hpsnap : (getSnapshot st s).2.powRef = powRefSnap st s := rfl
  rw [hpsnap] at hr
  cases hpr : s.powRef with
  | none => simp [powRefSnap, hpr] at hr
  | some q =>
    simp [powRefSnap, hpr] at hr
    exact hr

/-- **C4.**  `GameSession.getSnapshot` leaves every field of the session
state unchanged (same view before and after the call), the snapshot's
dereferenced values equal the session's values, every position / score /
active-power-up reference in the snapshot is distinct from every reference
the session holds, and overwriting any snapshot cell neither changes the
session's view nor the values produced by a subsequent `getSnapshot`
call. -/
theorem c4_getSnapshot_deep_copy (st : Store) (s : SessionRefs) (hwf : WF st s) :
    sessionView (getSnapshot st s).1 s = sessionView st s
    ∧ sessionView (getSnapshot st s).1 (getSnapshot st s).2 = sessionView st s
    ∧ (∀ r ∈ vecRefs (getSnapshot st s).2, ∀ r' ∈ vecRefs s, r ≠ r')
    ∧ (getSnapshot st s).2.scoreRef ≠ s.scoreRef
    ∧ (∀ r ∈ (getSnapshot st s).2.powRef.toList, ∀ r' ∈ s.powRef.toList, r ≠ r')
    ∧ (∀ r ∈ vecRefs (getSnapshot st s).2, ∀ v : Vec3,
        sessionView (writeVec (getSnapshot st s).1 r v) s = sessionView st s
        ∧ sessionView (getSnapshot (writeVec (getSnapshot st s).1 r v) s).1
            (getSnapshot (writeVec (getSnapshot st s).1 r v) s).2
          = sessionView st s)
    ∧ (∀ v : ScoreState,
        sessionView
            (writeScore (getSnapshot st s).1 (getSnapshot st s).2.scoreRef v) s
          = sessionView st s
        ∧ sessionView
            (getSnapshot
              (writeScore (getSnapshot st s).1 (getSnapshot st s).2.scoreRef v) s).1
            (getSnapshot
              (writeScore (getSnapshot st s).1 (getSnapshot st s).2.scoreRef v) s).2
          = sessionView st s)
    ∧ (∀ r ∈ (getSnapshot st s).2.powRef.toList, ∀ v : PowerupState,
        sessionView (writePow (getSnapshot st s).1 r v) s = sessionView st s
        ∧ sessionView (getSnapshot (writePow (getSnapshot st s).1 r v) s).1
            (getSnapshot (writePow (getSnapshot st s).1 r v) s).2
          = sessionView st s) := by
  have hfreshV := snap_vecRefs_fresh st s
  have hltV := sess_vecRefs_lt st s hwf
  have hview := sessionView_snap st s hwf
  have hscoreSnap : (getSnapshot st s).2.scoreRef = st.scores.length := rfl
  have h6 := hwf.2.2.2.2.2.1
  have h7 := hwf.2.2.2.2.2.2
  refine ⟨hview, sessionView_of_snap st s, ?_, ?_, ?_, ?_, ?_, ?_⟩
  · intro r hr r' hr'
    have ha := hfreshV r hr
    have hb := hltV r' hr'
    omega
  · rw [hscoreSnap]
    omega
  · intro r hr r' hr'
    have ha := snap_powRef_fresh st s r hr
    have hb := h7 r' hr'
    omega
  · intro r hr v
    have hne : ∀ rr ∈ vecRefs s, rr ≠ r := by
      intro rr hrr
      have ha := hfreshV r hr
      have hb := hltV rr hrr
      omega
    have hw1 : sessionView (writeVec (getSnapshot st s).1 r v) s
        = sessionView st s := by
      rw [sessionView_writeVec_notin _ _ _ _ hne, hview]
    refine ⟨hw1, ?_⟩
    rw [sessionView_of_snap _ s, hw1]
  · intro v
    have hne : s.scoreRef ≠ (getSnapshot st s).2.scoreRef := by
      rw [hscoreSnap]
      omega
    have hw1 : sessionView
        (writeScore (getSnapshot st s).1 (getSnapshot st s).2.scoreRef v) s
        = sessionView st s := by
      rw [sessionView_writeScore_ne _ _ _ _ hne, hview]
    refine ⟨hw1, ?_⟩
    rw [sessionView_of_snap _ s, hw1]
  · intro r hr v
    have hne : ∀ rr ∈ s.powRef.toList, rr ≠ r := by
      intro rr hrr
      have ha := snap_powRef_fresh st s r hr
      have hb := h7 rr hrr
      omega
    have hw1 : sessionView (writePow (getSnapshot st s).1 r v) s
        = sessionView st s := by
      rw [sessionView_writePow_notin _ _ _ _ hne, hview]
    refine ⟨hw1, ?_⟩
    rw [sessionView_of_snap _ s, hw1]

/-- A concrete well-formed session heap: two position cells, one score
cell, one active power-up; the head shares no cell with any entity. -/
def c4Store : Store :=
  { vecs := [vdef, { x := 1, y := 2, z := 3 }]
    scores := [{ score := 5, combo := 1, multiplier := 1 }]
    pows := [{ kind := PowerupKind.phase, ttlSec := 2 }] }

def c4Obs : ObstacleMeta :=
  { id := 3
    radius := 1
    kind := ObstacleKind.static
    pulseAmplitude := 0
    pulseFrequency := 0
    pulsePhase := 0 }

def c4Sess : SessionRefs :=
  { headPosRef := 0
    headingRad := 0
    speed := 5
    angularVelocity := 0
    segs := [(0, 1)]
    foods := [(1, 1)]
    pickups := [((2, PowerupKind.magnet), 0)]
    obstacles := [(c4Obs, 1)]
    scoreRef := 0
    powRef := some 0
    elapsedSec := 0 }

/-- Witness for C4: the concrete heap is well-formed, and taking a snapshot
leaves its session view unchanged. -/
theorem c4_getSnapshot_deep_copy_witness :
    WF c4Store c4Sess
    ∧ sessionView (getSnapshot c4Store c4Sess).1 c4Sess
      = sessionView c4Store c4Sess :=
  ⟨by refine ⟨?_, ?_, ?_, ?_, ?_, ?_, ?_⟩ <;> decide,
   (c4_getSnapshot_deep_copy c4Store c4Sess
     (by refine ⟨?_, ?_, ?_, ?_, ?_, ?_, ?_⟩ <;> decide)).1⟩

end SnapModel
